import Mathlib

set_option autoImplicit false

/-!
# LIO iSCSI target: DataIN generation, out-of-order CmdSN handling, R2T generation, PDU handlers, login and registry

A shallow embedding of parts of `drivers/target/lio-target`:

* `iscsi_target_datain_values.c`: `iscsi_get_datain_req`,
  `iscsi_set_datain_values_yes_and_yes`, `iscsi_get_datain_values`;
* `iscsi_target_erl1.c`: `iscsi_create_recovery_datain_values_datasequenceinorder_yes`,
  `iscsi_attach_ooo_cmdsn`, `iscsi_handle_ooo_cmdsn`, `iscsi_execute_ooo_cmdsns`,
  `iscsi_execute_cmd`, `iscsi_start_dataout_timer`, `iscsi_clear_ooo_cmdsns_for_conn`,
  `iscsi_handle_recovery_datain`, `iscsi_handle_data_ack`,
  `iscsi_recalculate_dataout_values`, `iscsi_send_recovery_r2t`,
  `iscsi_dataout_datapduinorder_no_fbit`, `iscsi_set_dataout_timeout_values`,
  `iscsi_handle_dataout_timeout`;
* `iscsi_target.c`: the header part of `iscsi_send_data_in` and of the other
  `iscsi_send_*` functions, `iscsi_build_r2ts_for_cmd`, `iscsi_add_reject`,
  `iscsi_add_nopin`, the handlers `iscsi_handle_scsi_cmd`, `iscsi_handle_data_out`,
  `iscsi_handle_nop_out` and `iscsi_handle_text_cmd`, the opcode switch of
  `iscsi_target_rx_thread`, the registry functions `core_get_tiqn_for_login` to
  `core_del_tiqn`, and what `iscsi_logout_closesession`,
  `iscsi_logout_closeconnection` and `iscsi_logout_removeconnforrecovery` do to the
  command;
* `iscsi_target_login.c`: `iscsi_login_non_zero_tsih_s2`.

C structures become Lean structures, a C function that mutates its arguments
becomes a function returning the new values, `__u32` fields are natural numbers
below `2^32` and every 32-bit addition and subtraction is reduced modulo `2^32`.
-/

namespace LioTarget

/-! ## 32-bit arithmetic -/

/-- The modulus of `__u32` arithmetic. -/
def U32_MOD : Nat := 4294967296

/-- Addition of two `__u32` values. -/
def add32 (a b : Nat) : Nat := (a + b) % U32_MOD

/-- Subtraction of two `__u32` values. -/
def sub32 (a b : Nat) : Nat := (a + U32_MOD - b % U32_MOD) % U32_MOD

/-! ## Flag bits and enumerations -/

/-- Modelled from the spec: `iscsi_protocol.h` is not among the sources; the
Final bit of a PDU flags byte (RFC 3720, bit 7). -/
def F_BIT : Nat := 0x80

/-- Modelled from the spec: `iscsi_protocol.h` is not among the sources; the
Acknowledge bit of a DataIN flags byte (RFC 3720, bit 6). -/
def A_BIT : Nat := 0x40

/-- Modelled from the spec: `iscsi_protocol.h` is not among the sources; the
residual Overflow bit (RFC 3720, bit 2). -/
def O_BIT : Nat := 0x04

/-- Modelled from the spec: `iscsi_protocol.h` is not among the sources; the
residual Underflow bit (RFC 3720, bit 1). -/
def U_BIT : Nat := 0x02

/-- Modelled from the spec: `iscsi_protocol.h` is not among the sources; the
Status bit of a DataIN flags byte (RFC 3720, bit 0). -/
def S_BIT : Nat := 0x01

/-- The C test `flags & bit`. -/
def has_bit (flags bit : Nat) : Bool := (flags &&& bit) != 0

/-- The C update `flags &= ~bit` on a `__u8`. -/
def clear_bit (flags bit : Nat) : Nat := flags &&& (0xFF ^^^ bit)

/-- Values of `struct iscsi_datain_req.recovery`; `DATAIN_NORMAL` is the zero
value left by `kmem_cache_zalloc`. -/
inductive datain_req_rec_table where
  | DATAIN_NORMAL
  | DATAIN_WITHIN_COMMAND_RECOVERY
  | DATAIN_CONNECTION_RECOVERY
  deriving DecidableEq, Repr

/-- Values of `struct iscsi_datain_req.dr_complete`; `DATAIN_INCOMPLETE` is the
zero value left by `kmem_cache_zalloc`. -/
inductive datain_req_comp_table where
  | DATAIN_INCOMPLETE
  | DATAIN_COMPLETE_NORMAL
  | DATAIN_COMPLETE_WITHIN_COMMAND_RECOVERY
  | DATAIN_COMPLETE_CONNECTION_RECOVERY
  deriving DecidableEq, Repr

/-- The command states `ISTATE_*` that the sources name. Their numbers are
declared in `iscsi_target_core.h`, which is not among the sources, so the model
keeps the names only; `ISTATE_NO_STATE` is the state of a command that has not
been given one. -/
inductive cmd_i_state where
  | ISTATE_NO_STATE
  | ISTATE_NEW_CMD
  | ISTATE_DEFERRED_CMD
  | ISTATE_RECEIVED_LAST_DATAOUT
  | ISTATE_REMOVE
  | ISTATE_SEND_ASYNCMSG
  | ISTATE_SEND_DATAIN
  | ISTATE_SENT_LAST_DATAIN
  | ISTATE_SEND_LOGOUTRSP
  | ISTATE_SEND_NOPIN
  | ISTATE_SEND_NOPIN_NO_RESPONSE
  | ISTATE_SEND_NOPIN_WANT_RESPONSE
  | ISTATE_SENT_NOPIN_WANT_RESPONSE
  | ISTATE_SEND_R2T
  | ISTATE_SEND_REJECT
  | ISTATE_SEND_STATUS
  | ISTATE_SEND_STATUS_RECOVERY
  | ISTATE_SENT_STATUS
  | ISTATE_SEND_TASKMGTRSP
  | ISTATE_SEND_TEXTRSP
  deriving DecidableEq, Repr

/-- The kernel's `enum dma_data_direction`, the type of `cmd->data_direction`. -/
inductive dma_data_direction where
  | DMA_BIDIRECTIONAL
  | DMA_TO_DEVICE
  | DMA_FROM_DEVICE
  | DMA_NONE
  deriving DecidableEq, Repr

/-- The values of `struct iscsi_pdu.status`. The sources name
`ISCSI_PDU_NOT_RECEIVED` and `ISCSI_PDU_RECEIVED_OK` and speak of PDUs that
failed the CRC or timed out; the numbers are declared in `iscsi_target_core.h`,
which is not among the sources. `ISCSI_PDU_NOT_RECEIVED` is the status of a PDU
laid out at command start. -/
inductive iscsi_pdu_status where
  | ISCSI_PDU_NOT_RECEIVED
  | ISCSI_PDU_RECEIVED_OK
  | ISCSI_PDU_CRC_FAILED
  | ISCSI_PDU_TIMED_OUT
  deriving DecidableEq, Repr

/-- The values of `struct iscsi_seq.status` that the modelled functions set;
`SEQUENCE_NO_STATUS` is the status of a sequence laid out at command start. -/
inductive iscsi_seq_status where
  | SEQUENCE_NO_STATUS
  | DATAOUT_SEQUENCE_WITHIN_COMMAND_RECOVERY
  deriving DecidableEq, Repr

/-- The results of `iscsi_handle_immediate_data`, `IMMEDIDATE_DATA_*` of
`iscsi_target_core.h` (the spelling is the one of the sources). -/
inductive immediate_data_ret where
  | IMMEDIDATE_DATA_CANNOT_RECOVER
  | IMMEDIDATE_DATA_ERL1_CRC_FAILURE
  | IMMEDIDATE_DATA_NORMAL_OPERATION
  deriving DecidableEq, Repr

/-- The reasons of a Reject PDU that the sources name, `REASON_*` of
`iscsi_protocol.h`. -/
inductive reject_reason where
  | REASON_DATA_DIGEST_ERR
  | REASON_INVALID_PDU_FIELD
  | REASON_OUT_OF_RESOURCES
  | REASON_PROTOCOL_ERR
  deriving DecidableEq, Repr

open datain_req_rec_table datain_req_comp_table cmd_i_state dma_data_direction
open iscsi_pdu_status iscsi_seq_status immediate_data_ret reject_reason

/-- The outcomes of `iscsi_get_lun_for_cmd` that `iscsi_handle_scsi_cmd` tells
apart: a return value that is not negative, the value
`PYX_TRANSPORT_OUT_OF_MEMORY_RESOURCES`, and any other negative value. -/
inductive get_lun_ret where
  | GET_LUN_OK
  | GET_LUN_OUT_OF_MEMORY
  | GET_LUN_FAILED
  deriving DecidableEq, Repr

open get_lun_ret

/-- The responses of the SCSI transport layer to a task management request,
`se_tmr->response`; `TMR_FUNCTION_REJECTED` also stands for every value that
`iscsi_convert_tcm_tmr_rsp` sends to its `default` label. -/
inductive tcm_tmr_rsp where
  | TMR_FUNCTION_COMPLETE
  | TMR_TASK_DOES_NOT_EXIST
  | TMR_LUN_DOES_NOT_EXIST
  | TMR_TASK_MGMT_FUNCTION_NOT_SUPPORTED
  | TMR_FUNCTION_AUTHORIZATION_FAILED
  | TMR_FUNCTION_REJECTED
  deriving DecidableEq, Repr

open tcm_tmr_rsp

/-- The response codes of a Task Management Response PDU that
`iscsi_convert_tcm_tmr_rsp` returns. -/
inductive iscsi_tmf_rsp where
  | ISCSI_TMF_RSP_COMPLETE
  | ISCSI_TMF_RSP_NO_TASK
  | ISCSI_TMF_RSP_NO_LUN
  | ISCSI_TMF_RSP_NOT_SUPPORTED
  | ISCSI_TMF_RSP_AUTH_FAILED
  | ISCSI_TMF_RSP_REJECTED
  deriving DecidableEq, Repr

open iscsi_tmf_rsp

/-- Modelled from the spec: `iscsi_protocol.h` is not among the sources; the
opcode of a Reject PDU (RFC 3720). -/
def ISCSI_TARG_RJT : Nat := 0x3f

/-- Modelled from the spec: `iscsi_protocol.h` is not among the sources; the
opcode of a NOP-Out PDU (RFC 3720). -/
def ISCSI_INIT_NOP_OUT : Nat := 0x00

/-- Modelled from the spec: `iscsi_protocol.h` is not among the sources; the
opcode of a SCSI Command PDU (RFC 3720). -/
def ISCSI_INIT_SCSI_CMND : Nat := 0x01

/-- Modelled from the spec: `iscsi_protocol.h` is not among the sources; the
opcode of a Task Management Function Request PDU (RFC 3720). -/
def ISCSI_INIT_TASK_MGMT_CMND : Nat := 0x02

/-- Modelled from the spec: `iscsi_protocol.h` is not among the sources; the
opcode of a Text Request PDU (RFC 3720). -/
def ISCSI_INIT_TEXT_CMND : Nat := 0x04

/-- Modelled from the spec: `iscsi_protocol.h` is not among the sources; the
opcode of a Logout Request PDU (RFC 3720). -/
def ISCSI_INIT_LOGOUT_CMND : Nat := 0x06

/-- Modelled from the spec: `iscsi_protocol.h` is not among the sources; the
Logout reason code "close the session" (RFC 3720). -/
def CLOSESESSION : Nat := 0

/-- Modelled from the spec: `iscsi_protocol.h` is not among the sources; the
Logout reason code "close the connection" (RFC 3720). -/
def CLOSECONNECTION : Nat := 1

/-- Modelled from the spec: `iscsi_protocol.h` is not among the sources; the
Logout reason code "remove the connection for recovery" (RFC 3720). -/
def REMOVECONNFORRECOVERY : Nat := 2

/-- Modelled from the spec: `iscsi_protocol.h` is not among the sources; the
Logout response "CID not found" (RFC 3720). -/
def CIDNOTFOUND : Nat := 1

/-- Modelled from the spec: `iscsi_protocol.h` is not among the sources; the
Logout response "connection recovery is not supported" (RFC 3720). -/
def CONNRECOVERYNOTSUPPORTED : Nat := 2

/-- Modelled from the spec: `iscsi_protocol.h` is not among the sources; the
Logout response "cleanup failed" (RFC 3720). -/
def CLEANUPFAILED : Nat := 3

/-! ## Data model -/

/-- The negotiated session and connection parameters the modelled functions
read through `SESS_OPS_C(conn)` and `CONN_OPS(conn)`. -/
structure iscsi_ops where
  DataSequenceInOrder : Bool := true
  DataPDUInOrder : Bool := true
  ErrorRecoveryLevel : Nat := 0
  MaxRecvDataSegmentLength : Nat := 8192
  MaxBurstLength : Nat := 262144
  MaxOutstandingR2T : Nat := 1
  FirstBurstLength : Nat := 65536
  ImmediateData : Bool := true
  InitialR2T : Bool := true
  HeaderDigest : Bool := false
  DataDigest : Bool := false
  deriving DecidableEq, Repr

/-- The output record `struct iscsi_datain`. -/
structure iscsi_datain where
  flags : Nat := 0
  length : Nat := 0
  offset : Nat := 0
  data_sn : Nat := 0
  deriving DecidableEq, Repr

/-- A DataIN request, `struct iscsi_datain_req`. -/
structure iscsi_datain_req where
  dr_complete : datain_req_comp_table := DATAIN_INCOMPLETE
  generate_recovery_values : Bool := false
  recovery : datain_req_rec_table := DATAIN_NORMAL
  begrun : Nat := 0
  data_sn : Nat := 0
  next_burst_len : Nat := 0
  read_data_done : Nat := 0
  runlength : Nat := 0
  seq_send_order : Nat := 0
  deriving DecidableEq, Repr

/-- An R2T queued on a command, `struct iscsi_r2t`. -/
structure iscsi_r2t where
  r2t_sn : Nat := 0
  offset : Nat := 0
  xfer_len : Nat := 0
  recovery_r2t : Bool := false
  seq_complete : Bool := false
  sent_r2t : Bool := false
  targ_xfer_tag : Nat := 0
  deriving DecidableEq, Repr

/-- A DataIN or DataOUT sequence of a command, `struct iscsi_seq`. -/
structure iscsi_seq where
  sent : Bool := false
  status : iscsi_seq_status := SEQUENCE_NO_STATUS
  data_sn : Nat := 0
  first_datasn : Nat := 0
  last_datasn : Nat := 0
  next_burst_len : Nat := 0
  pdu_start : Nat := 0
  pdu_count : Nat := 0
  offset : Nat := 0
  orig_offset : Nat := 0
  pdu_send_order : Nat := 0
  seq_send_order : Nat := 0
  seq_no : Nat := 0
  xfer_len : Nat := 0
  deriving DecidableEq, Repr

/-- A PDU of a command whose PDUs were laid out at command start,
`struct iscsi_pdu`. -/
structure iscsi_pdu where
  status : iscsi_pdu_status := ISCSI_PDU_NOT_RECEIVED
  flags : Nat := 0
  data_sn : Nat := 0
  length : Nat := 0
  offset : Nat := 0
  pdu_send_order : Nat := 0
  seq_no : Nat := 0
  deriving DecidableEq, Repr

/-- The fields of `struct iscsi_cmd` (and of its embedded `struct se_cmd`) that
the modelled functions read or write. The arrays `seq_list` and `pdu_list` are
lists (`none` for a `NULL` pointer) whose lengths are `seq_count` and
`pdu_count`. A Boolean field `icf_*`, `scf_*` or `dataout_tf_*` is the bit of
that name in `cmd_flags`, `se_cmd_flags` or `dataout_timer_flags`; `cid` is the
CID of the connection `CONN(cmd)` and `conn_null` says that `CONN(cmd)` is
`NULL`; `t_transport_complete` says that the atomic of that name in the
transport task of the command is not 0. The fields `scsi_status`,
`scsi_sense_length` and `tmr_response` are those of `SE_CMD(cmd)` and of its
`se_tmr_req`, `sense_buffer` says that `SE_CMD(cmd)->sense_buffer` is not
`NULL`, and `emulated_task_sense` is the bit `SCF_EMULATED_TASK_SENSE`. -/
structure iscsi_cmd where
  init_task_tag : Nat := 0
  targ_xfer_tag : Nat := 0
  cmd_sn : Nat := 0
  stat_sn : Nat := 0
  data_length : Nat := 0
  data_sn : Nat := 0
  next_burst_len : Nat := 0
  read_data_done : Nat := 0
  write_data_done : Nat := 0
  r2t_offset : Nat := 0
  r2t_sn : Nat := 0
  outstanding_r2ts : Nat := 0
  sent_last_r2t : Bool := false
  seq_no : Nat := 0
  pdu_start : Nat := 0
  pdu_send_order : Nat := 0
  seq_send_order : Nat := 0
  seq_list : Option (List iscsi_seq) := none
  pdu_list : Option (List iscsi_pdu) := none
  orig_fe_lun : Nat := 0
  cid : Nat := 0
  iscsi_opcode : Nat := 0
  i_state : cmd_i_state := ISTATE_NO_STATE
  deferred_i_state : cmd_i_state := ISTATE_NO_STATE
  icf_ooo_cmdsn : Bool := false
  icf_got_last_dataout : Bool := false
  icf_non_immediate_unsolicited_data : Bool := false
  scf_scsi_cdb_exception : Bool := false
  scf_scsi_reservation_conflict : Bool := false
  immediate_data : Bool := false
  unsolicited_data : Bool := false
  data_direction : dma_data_direction := DMA_BIDIRECTIONAL
  dataout_tf_running : Bool := false
  dataout_tf_stop : Bool := false
  logout_reason : Nat := 0
  logout_cid : Nat := 0
  logout_response : Nat := 0
  first_burst_len : Nat := 0
  seq_start_offset : Nat := 0
  seq_end_offset : Nat := 0
  conn_null : Bool := false
  icf_reject_fail_conn : Bool := false
  icf_got_datack_snack : Bool := false
  acked_data_sn : Nat := 0
  t_transport_complete : Bool := false
  buf_ptr_size : Nat := 0
  exp_stat_sn : Nat := 0
  immediate_cmd : Bool := false
  iscsi_response : Nat := 0
  scsi_status : Nat := 0
  sense_buffer : Bool := false
  emulated_task_sense : Bool := false
  scsi_sense_length : Nat := 0
  tmr_response : tcm_tmr_rsp := TMR_FUNCTION_COMPLETE
  residual_count : Nat := 0
  transport_task_sense : Bool := false
  overflow_bit : Bool := false
  underflow_bit : Bool := false
  dataout_timeout_retries : Nat := 0
  icf_within_command_recovery : Bool := false
  datain_list : List iscsi_datain_req := []
  r2t_list : List iscsi_r2t := []
  deriving DecidableEq, Repr

/-- An entry of the session's out-of-order CmdSN list, `struct iscsi_ooo_cmdsn`.
The field `cmd` holds the command the entry points to, `none` for `NULL`. -/
structure iscsi_ooo_cmdsn where
  cmd : Option iscsi_cmd := none
  batch_count : Nat := 0
  cid : Nat := 0
  cmdsn : Nat := 0
  exp_cmdsn : Nat := 0
  deriving DecidableEq, Repr

/-- Modelled from the spec: the values of `session_state`, `TARG_SESS_STATE_*`
(declared in a header that is not among the sources). -/
inductive targ_sess_state
  | TARG_SESS_STATE_FREE
  | TARG_SESS_STATE_ACTIVE
  | TARG_SESS_STATE_LOGGED_IN
  | TARG_SESS_STATE_FAILED
  | TARG_SESS_STATE_IN_CONTINUE
  deriving DecidableEq, Repr

open targ_sess_state

/-- Modelled from the spec: the bit `T2R_TF_EXPIRED` of
`time2retain_timer_flags` (declared in a header that is not among the
sources). -/
def T2R_TF_EXPIRED : Nat := 0x04

/-- The fields of `struct iscsi_session` that the modelled functions read or
write. The width of `ooo_cmdsn_count` is declared in a header that is not among
the sources; the model counts in the natural numbers, and so it does for
`session_usage_count`. The atomic flags `session_fall_back_to_erl0`,
`session_logout` and `session_continuation` are `true` for a non-zero value. -/
structure iscsi_session where
  exp_cmd_sn : Nat := 0
  max_cmd_sn : Nat := 0
  targ_xfer_tag : Nat := 0
  cmdsn_outoforder : Bool := false
  ooo_cmdsn_count : Nat := 0
  sess_ooo_cmdsn_list : List iscsi_ooo_cmdsn := []
  isid : List Nat := [0, 0, 0, 0, 0, 0]
  tsih : Nat := 0
  session_state : targ_sess_state := TARG_SESS_STATE_LOGGED_IN
  session_fall_back_to_erl0 : Bool := false
  session_logout : Bool := false
  session_continuation : Bool := false
  time2retain_timer_flags : Nat := 0
  session_usage_count : Nat := 0
  deriving DecidableEq, Repr

/-- The fields of `struct iscsi_conn` that the modelled functions read or write. -/
structure iscsi_conn where
  cid : Nat := 0
  stat_sn : Nat := 0
  deriving DecidableEq, Repr

/-- The header `struct iscsi_targ_scsi_data_in` of a DataIN PDU. The fields hold
the values before `cpu_to_be32`. -/
structure iscsi_targ_scsi_data_in where
  opcode : Nat := 0
  flags : Nat := 0
  length : Nat := 0
  lun : Nat := 0
  init_task_tag : Nat := 0
  targ_xfer_tag : Nat := 0
  stat_sn : Nat := 0
  exp_cmd_sn : Nat := 0
  max_cmd_sn : Nat := 0
  data_sn : Nat := 0
  offset : Nat := 0
  res_count : Nat := 0
  deriving DecidableEq, Repr

/-- Modelled from the spec: `iscsi_protocol.h` is not among the sources; the
opcode of a SCSI Data-In PDU (RFC 3720). -/
def ISCSI_TARG_SCSI_DATA_IN : Nat := 0x25

/-- The results of the CmdSN checks, `CMDSN_*` of `iscsi_target_core.h`. -/
inductive cmdsn_ret where
  | CMDSN_ERROR_CANNOT_RECOVER
  | CMDSN_NORMAL_OPERATION
  | CMDSN_LOWER_THAN_EXP
  | CMDSN_HIGHER_THAN_EXP
  deriving DecidableEq, Repr

open cmdsn_ret

/-! ## DataIN value generation (`iscsi_target_datain_values.c`) -/

/-- The function `iscsi_get_datain_req`: the first entry of `cmd->datain_list`,
`none` for the `NULL` returned on an empty list. -/
def iscsi_get_datain_req (cmd : iscsi_cmd) : Option iscsi_datain_req :=
  cmd.datain_list.head?

/-- One iteration of the `while (begrun > data_sn++)` loop of
`iscsi_create_recovery_datain_values_datasequenceinorder_yes`; the state is
`(dr, data_sn_count, pdu_start, seq_no)`. -/
def recovery_values_step (ops : iscsi_ops)
    (st : iscsi_datain_req × Nat × Nat × Nat) : iscsi_datain_req × Nat × Nat × Nat :=
  let dr := st.1
  let data_sn_count := add32 st.2.1 1
  if add32 dr.next_burst_len ops.MaxRecvDataSegmentLength < ops.MaxBurstLength then
    ({ dr with
        read_data_done := add32 dr.read_data_done ops.MaxRecvDataSegmentLength
        next_burst_len := add32 dr.next_burst_len ops.MaxRecvDataSegmentLength },
      data_sn_count, st.2.2.1, st.2.2.2)
  else
    ({ dr with
        read_data_done :=
          add32 dr.read_data_done (sub32 ops.MaxBurstLength dr.next_burst_len)
        next_burst_len := 0 },
      0, add32 st.2.2.1 data_sn_count, add32 st.2.2.2 1)

/-- The function `iscsi_create_recovery_datain_values_datasequenceinorder_yes`.
The loop body runs once for each `data_sn` in `0 .. begrun - 1`; the function
always returns 0, so only the new `cmd` and `dr` are returned. -/
def iscsi_create_recovery_datain_values_datasequenceinorder_yes
    (ops : iscsi_ops) (cmd : iscsi_cmd) (dr : iscsi_datain_req) :
    iscsi_cmd × iscsi_datain_req :=
  let st := (recovery_values_step ops)^[dr.begrun] (dr, 0, 0, 0)
  let cmd1 :=
    if !ops.DataPDUInOrder then
      { cmd with seq_no := st.2.2.2, pdu_start := st.2.2.1, pdu_send_order := st.2.1 }
    else cmd
  (cmd1, st.1)

/-- The completion mark a recovery request receives, by its kind of recovery. -/
def recovery_complete (r : datain_req_rec_table) : datain_req_comp_table :=
  if r = DATAIN_WITHIN_COMMAND_RECOVERY then DATAIN_COMPLETE_WITHIN_COMMAND_RECOVERY
  else DATAIN_COMPLETE_CONNECTION_RECOVERY

/-- The `A_BIT` added next to `F_BIT` when `ErrorRecoveryLevel > 0`. -/
def with_a_bit (ops : iscsi_ops) (flags : Nat) : Nat :=
  if ops.ErrorRecoveryLevel > 0 then flags ||| A_BIT else flags

/-- The block that ends each of the four `iscsi_set_datain_values_*` functions
for a recovery request: without a run length the request is complete at the
PDU carrying `S_BIT`, with one when `begrun + runlength` equals the request's
`data_sn`. -/
def recovery_mark_complete (dr : iscsi_datain_req) (flags : Nat) : iscsi_datain_req :=
  if dr.runlength = 0 then
    if has_bit flags S_BIT then
      { dr with dr_complete := recovery_complete dr.recovery }
    else dr
  else if add32 dr.begrun dr.runlength = dr.data_sn then
    { dr with dr_complete := recovery_complete dr.recovery }
  else dr

/-- The block `if (dr->recovery && dr->generate_recovery_values)` of
`iscsi_set_datain_values_yes_and_yes` and `iscsi_set_datain_values_yes_and_no`:
the recovery values of the request are generated once, then
`generate_recovery_values` is cleared. -/
def generate_recovery_values_yes (ops : iscsi_ops) (cmd : iscsi_cmd)
    (dr : iscsi_datain_req) : iscsi_cmd × iscsi_datain_req :=
  if (dr.recovery != DATAIN_NORMAL) && dr.generate_recovery_values then
    let cr := iscsi_create_recovery_datain_values_datasequenceinorder_yes ops cmd dr
    (cr.1, { cr.2 with generate_recovery_values := false })
  else (cmd, dr)

/-- The branch of `iscsi_set_datain_values_yes_and_yes` that sets
`datain->length` and `datain->flags` from `read_data_left` and the local
`next_burst_len`; the second component is the local `next_burst_len` after the
branch. -/
def yes_and_yes_branch (ops : iscsi_ops) (read_data_left next_burst_len : Nat)
    (datain : iscsi_datain) : iscsi_datain × Nat :=
  if read_data_left ≤ ops.MaxRecvDataSegmentLength ∧
      read_data_left ≤ sub32 ops.MaxBurstLength next_burst_len then
    ({ datain with
        length := read_data_left
        flags := with_a_bit ops (datain.flags ||| (F_BIT ||| S_BIT)) },
      next_burst_len)
  else if add32 next_burst_len ops.MaxRecvDataSegmentLength < ops.MaxBurstLength then
    ({ datain with length := ops.MaxRecvDataSegmentLength },
      add32 next_burst_len ops.MaxRecvDataSegmentLength)
  else
    ({ datain with
        length := sub32 ops.MaxBurstLength next_burst_len
        flags := with_a_bit ops (datain.flags ||| F_BIT) },
      0)

/-- The function `iscsi_set_datain_values_yes_and_yes`. The result is the
returned request (`none` for `NULL`; otherwise the head of the command's
`datain_list` as the function leaves it), the command and the `datain` record
after the call. -/
def iscsi_set_datain_values_yes_and_yes (ops : iscsi_ops) (cmd : iscsi_cmd)
    (datain : iscsi_datain) : Option iscsi_datain_req × iscsi_cmd × iscsi_datain :=
  match cmd.datain_list with
  | [] => (none, cmd, datain)
  | dr0 :: rest =>
    let g := generate_recovery_values_yes ops cmd dr0
    let cmd : iscsi_cmd := g.1
    let dr : iscsi_datain_req := g.2
    let normal := dr.recovery == DATAIN_NORMAL
    let next_burst_len := if normal then cmd.next_burst_len else dr.next_burst_len
    let read_data_done := if normal then cmd.read_data_done else dr.read_data_done
    let read_data_left := sub32 cmd.data_length read_data_done
    if read_data_left = 0 then
      (none, { cmd with datain_list := dr :: rest }, datain)
    else
      let b := yes_and_yes_branch ops read_data_left next_burst_len datain
      let datain : iscsi_datain :=
        { b.1 with
            data_sn := if normal then cmd.data_sn else dr.data_sn
            offset := read_data_done }
      if normal then
        let dr : iscsi_datain_req :=
          if has_bit datain.flags S_BIT then
            { dr with dr_complete := DATAIN_COMPLETE_NORMAL }
          else dr
        let cmd : iscsi_cmd :=
          { cmd with
              data_sn := add32 cmd.data_sn 1
              next_burst_len := b.2
              read_data_done := add32 cmd.read_data_done datain.length
              datain_list := dr :: rest }
        (some dr, cmd, datain)
      else
        let dr : iscsi_datain_req :=
          { dr with
              data_sn := add32 dr.data_sn 1
              next_burst_len := b.2
              read_data_done := add32 dr.read_data_done datain.length }
        let dr : iscsi_datain_req := recovery_mark_complete dr datain.flags
        (some dr, { cmd with datain_list := dr :: rest }, datain)

/-- The functions that the modelled code calls and that are not among the
sources (helpers of `iscsi_target_util.c` and of the sequence and PDU lists, and
the `transport_*` entry points of the SCSI transport layer); they are parameters
of the model. A returned number is the index of the `struct iscsi_seq` or
`struct iscsi_pdu` in the command's array, `none` stands for `NULL`; a function
that may update the command returns the command as well.
`iscsi_get_conn_from_cid` says whether the session has a connection with the
given CID. The fields `*_alloc_ok` are the outcomes of the memory allocations
(`kzalloc`, `kmem_cache_zalloc`) for the padding buffer of a DataIN, for an R2T,
for an entry of the out-of-order list, for the header copy `cmd->buf_ptr` of
a Reject and for a DataIN request; `iscsi_allocate_cmd_ok` says that `iscsi_allocate_cmd` returns a
command, and `reject_sem_ret` is what `down_interruptible(&cmd->reject_sem)`
returns. `iscsi_get_r2t_from_list` gives the index in `cmd->r2t_list` of the
R2T to send, `iscsi_get_inactive_connection_recovery_entry` says whether the
session holds an inactive connection recovery entry for the CID,
`iscsi_build_sendtargets_response` gives the length of the text it has built in
`cmd->buf_ptr`, and `iscsi_check_received_cmdsn` gives the result of the CmdSN
check of a command (what that check does to the command and the session is not
part of the model). `iscsi_allocate_se_cmd` gives the command allocated for an
expected transfer length and a data direction (`none` for `NULL`),
`iscsi_decide_list_to_build` its return value and the sequence and PDU lists it
has built for the command, `se_cmd_failed` says whether the transport has set
`SCF_SE_CMD_FAILED` once it has been handed the CDB, and
`iscsi_dump_data_payload` gives the return value for a payload length.
`iscsi_copy_param_list`, `iscsi_change_param_value` and
`iscsi_login_disable_FIM_keys` are the return values of these functions at
login. `r2t_list_head` gives what a `list_for_each_entry` loop over
`cmd->cmd_r2t_list` that has run to its end reads through its loop variable (the
entry computed from the list head, not an R2T of the list). -/
structure iscsi_util where
  iscsi_get_seq_holder_for_datain : iscsi_cmd → Nat → Option Nat
  iscsi_get_pdu_holder_for_seq : iscsi_ops → iscsi_cmd → Option Nat → iscsi_cmd × Option Nat
  iscsi_get_seq_holder_for_r2t : iscsi_cmd → iscsi_cmd × Option Nat
  iscsi_pack_lun : Nat → Nat
  iscsi_set_iovec_ptrs : iscsi_cmd → iscsi_datain → Int
  iscsi_increment_maxcmdsn : iscsi_cmd → iscsi_session → iscsi_cmd × iscsi_session
  pad_alloc_ok : iscsi_cmd → Bool
  r2t_alloc_ok : iscsi_cmd → Bool
  ooo_alloc_ok : iscsi_session → Bool
  transport_check_aborted_status : iscsi_cmd → Bool → Int
  transport_send_check_condition_and_sense : iscsi_cmd → Int
  transport_generic_handle_data : iscsi_cmd → Int
  transport_generic_handle_cdb : iscsi_cmd → Int
  transport_generic_handle_tmr : iscsi_cmd → Int
  iscsi_set_dataout_sequence_values : iscsi_ops → iscsi_cmd → iscsi_cmd
  iscsi_get_conn_from_cid : Nat → Bool
  iscsi_get_seq_holder : iscsi_cmd → Nat → Nat → Option Nat
  iscsi_allocate_cmd_ok : Bool
  buf_ptr_alloc_ok : Bool
  reject_sem_ret : Int
  datain_req_alloc_ok : Bool
  iscsi_get_r2t_from_list : iscsi_cmd → Option Nat
  iscsi_get_inactive_connection_recovery_entry : Nat → Bool
  iscsi_build_sendtargets_response : iscsi_cmd → Nat
  iscsi_check_received_cmdsn : iscsi_cmd → Nat → cmdsn_ret
  iscsi_allocate_se_cmd : Nat → dma_data_direction → Option iscsi_cmd
  iscsi_get_lun_for_cmd : iscsi_cmd → get_lun_ret
  transport_generic_allocate_tasks : iscsi_cmd → Int
  iscsi_decide_list_to_build :
    iscsi_cmd → Nat → Int × Option (List iscsi_seq) × Option (List iscsi_pdu)
  se_cmd_failed : iscsi_cmd → Bool
  iscsi_dump_data_payload : Nat → Int
  iscsi_copy_param_list : Int
  iscsi_change_param_value : Int
  iscsi_login_disable_FIM_keys : Int
  r2t_list_head : iscsi_cmd → iscsi_r2t

/-- The number of entries of `cmd->seq_list`. -/
def iscsi_cmd.seq_count (cmd : iscsi_cmd) : Nat := (cmd.seq_list.getD []).length

/-- The sequence `cmd->seq_list[i]`. -/
def iscsi_cmd.seq_at (cmd : iscsi_cmd) (i : Nat) : Option iscsi_seq :=
  (cmd.seq_list.getD []).get? i

/-- The command with `cmd->seq_list[i]` replaced. -/
def iscsi_cmd.set_seq (cmd : iscsi_cmd) (i : Nat) (seq : iscsi_seq) : iscsi_cmd :=
  { cmd with seq_list := cmd.seq_list.map (fun l => l.set i seq) }

/-- The PDU `cmd->pdu_list[i]`. -/
def iscsi_cmd.pdu_at (cmd : iscsi_cmd) (i : Nat) : Option iscsi_pdu :=
  (cmd.pdu_list.getD []).get? i

/-- The command with `cmd->pdu_list[i]` replaced. -/
def iscsi_cmd.set_pdu (cmd : iscsi_cmd) (i : Nat) (pdu : iscsi_pdu) : iscsi_cmd :=
  { cmd with pdu_list := cmd.pdu_list.map (fun l => l.set i pdu) }

/-- The state of the `for` loop of
`iscsi_create_recovery_datain_values_datasequenceinorder_no`. -/
structure recovery_no_state where
  seqs : List iscsi_seq
  first_seq : Option Nat := none
  read_data_done : Nat := 0
  seq_send_order : Nat := 0
  found_seq : Bool := false

/-- The inner loop `while (data_sn < begrun)` for `DataPDUInOrder=Yes`: one
iteration on `(seq, read_data_done)`. -/
def recovery_no_in_order_step (ops : iscsi_ops) (st : iscsi_seq × Nat) : iscsi_seq × Nat :=
  ({ st.1 with
      pdu_send_order := add32 st.1.pdu_send_order 1
      next_burst_len := add32 st.1.next_burst_len ops.MaxRecvDataSegmentLength },
    add32 st.2 ops.MaxRecvDataSegmentLength)

/-- The inner loop `while (data_sn < begrun)` for `DataPDUInOrder=No`: the
iteration for `data_sn` on `(seq, read_data_done)`, which scans the PDUs
`pdu_list[seq->pdu_start + j]`, `j < seq->pdu_count`. -/
def recovery_no_out_of_order_step (pdus : List iscsi_pdu) (st : iscsi_seq × Nat)
    (data_sn : Nat) : iscsi_seq × Nat :=
  (List.range st.1.pdu_count).foldl
    (fun (acc : iscsi_seq × Nat) (j : Nat) =>
      match pdus.get? (acc.1.pdu_start + j) with
      | some pdu =>
        if pdu.data_sn = data_sn then
          ({ acc.1 with next_burst_len := add32 acc.1.next_burst_len pdu.length },
            add32 acc.2 pdu.length)
        else acc
      | none => acc)
    ({ st.1 with pdu_send_order := add32 st.1.pdu_send_order 1 }, st.2)

/-- The body of the `for` loop of
`iscsi_create_recovery_datain_values_datasequenceinorder_no` for index `i`. -/
def recovery_no_step (ops : iscsi_ops) (pdus : List iscsi_pdu) (begrun : Nat)
    (st : recovery_no_state) (i : Nat) : recovery_no_state :=
  match st.seqs.get? i with
  | none => st
  | some seq =>
    let st : recovery_no_state :=
      if seq.seq_send_order = 0 then { st with first_seq := some i } else st
    let reset : iscsi_seq := { seq with next_burst_len := 0, pdu_send_order := 0 }
    if !seq.sent then st
    else if seq.first_datasn < begrun ∧ seq.last_datasn < begrun then
      { st with
          read_data_done := add32 st.read_data_done seq.xfer_len
          seqs := st.seqs.set i reset }
    else if seq.first_datasn ≤ begrun ∧ seq.last_datasn ≥ begrun then
      let r : iscsi_seq × Nat :=
        if ops.DataPDUInOrder then
          (recovery_no_in_order_step ops)^[begrun - seq.first_datasn] (reset, st.read_data_done)
        else
          (List.range (begrun - seq.first_datasn)).foldl
            (fun acc k => recovery_no_out_of_order_step pdus acc (seq.first_datasn + k))
            (reset, st.read_data_done)
      { st with
          seq_send_order := seq.seq_send_order
          found_seq := true
          read_data_done := r.2
          seqs := st.seqs.set i r.1 }
    else if seq.first_datasn > begrun ∨ seq.last_datasn > begrun then
      { st with seqs := st.seqs.set i reset }
    else st

/-- The function `iscsi_create_recovery_datain_values_datasequenceinorder_no`:
the returned number is the C return value (0 or -1). -/
def iscsi_create_recovery_datain_values_datasequenceinorder_no
    (ops : iscsi_ops) (cmd : iscsi_cmd) (dr : iscsi_datain_req) :
    Int × iscsi_cmd × iscsi_datain_req :=
  match cmd.seq_list with
  | none => (-1, cmd, dr)
  | some seqs =>
    let st := (List.range seqs.length).foldl
      (recovery_no_step ops (cmd.pdu_list.getD []) dr.begrun) { seqs := seqs }
    let finish (seqs : List iscsi_seq) (seq_send_order : Nat) :
        Int × iscsi_cmd × iscsi_datain_req :=
      (0, { cmd with seq_list := some seqs },
        { dr with read_data_done := st.read_data_done, seq_send_order := seq_send_order })
    if !st.found_seq then
      if dr.begrun = 0 then
        match st.first_seq.bind (fun f => st.seqs.get? f), st.seqs.getLast? with
        | some first, some last =>
          finish
            (st.seqs.set (st.seqs.length - 1)
              { last with next_burst_len := 0, pdu_send_order := 0 })
            first.seq_send_order
        | _, _ => (-1, { cmd with seq_list := some st.seqs }, dr)
      else (-1, { cmd with seq_list := some st.seqs }, dr)
    else finish st.seqs st.seq_send_order

/-- The function `iscsi_set_datain_values_no_and_yes`. -/
def iscsi_set_datain_values_no_and_yes (U : iscsi_util) (ops : iscsi_ops) (cmd : iscsi_cmd)
    (datain : iscsi_datain) : Option iscsi_datain_req × iscsi_cmd × iscsi_datain :=
  match cmd.datain_list with
  | [] => (none, cmd, datain)
  | dr0 :: rest =>
    let gen := (dr0.recovery != DATAIN_NORMAL) && dr0.generate_recovery_values
    let cr := iscsi_create_recovery_datain_values_datasequenceinorder_no ops cmd dr0
    if gen ∧ cr.1 < 0 then
      (none, { cr.2.1 with datain_list := cr.2.2 :: rest }, datain)
    else
    let cmd : iscsi_cmd := if gen then cr.2.1 else cmd
    let dr : iscsi_datain_req :=
      if gen then { cr.2.2 with generate_recovery_values := false } else dr0
    let normal := dr.recovery == DATAIN_NORMAL
    let read_data_done := if normal then cmd.read_data_done else dr.read_data_done
    let seq_send_order := if normal then cmd.seq_send_order else dr.seq_send_order
    let read_data_left := sub32 cmd.data_length read_data_done
    if read_data_left = 0 then
      (none, { cmd with datain_list := dr :: rest }, datain)
    else
    match (U.iscsi_get_seq_holder_for_datain cmd seq_send_order).bind
        (fun i => (cmd.seq_at i).map (fun seq => (i, seq))) with
    | none => (none, { cmd with datain_list := dr :: rest }, datain)
    | some (i, seq) =>
      let seq : iscsi_seq := { seq with sent := true }
      let seq : iscsi_seq :=
        if normal ∧ seq.next_burst_len = 0 then { seq with first_datasn := cmd.data_sn }
        else seq
      let offset := add32 seq.offset seq.next_burst_len
      let last := add32 offset ops.MaxRecvDataSegmentLength ≥ cmd.data_length
      let grow := add32 seq.next_burst_len ops.MaxRecvDataSegmentLength < ops.MaxBurstLength
      let datain : iscsi_datain :=
        if last then
          { datain with
              length := sub32 cmd.data_length offset
              offset := offset
              flags := with_a_bit ops (datain.flags ||| F_BIT) }
        else if grow then
          { datain with length := ops.MaxRecvDataSegmentLength, offset := offset }
        else
          { datain with
              length := sub32 ops.MaxBurstLength seq.next_burst_len
              offset := offset
              flags := with_a_bit ops (datain.flags ||| F_BIT) }
      let seq_send_order := if last ∨ ¬ grow then add32 seq_send_order 1 else seq_send_order
      let seq : iscsi_seq :=
        if last ∨ ¬ grow then { seq with next_burst_len := 0 }
        else { seq with next_burst_len := add32 seq.next_burst_len datain.length }
      let datain : iscsi_datain :=
        if add32 read_data_done datain.length = cmd.data_length then
          { datain with flags := datain.flags ||| S_BIT }
        else datain
      let datain : iscsi_datain :=
        { datain with data_sn := if normal then cmd.data_sn else dr.data_sn }
      if normal then
        let seq : iscsi_seq :=
          if has_bit datain.flags F_BIT then { seq with last_datasn := datain.data_sn }
          else seq
        let dr : iscsi_datain_req :=
          if has_bit datain.flags S_BIT then
            { dr with dr_complete := DATAIN_COMPLETE_NORMAL }
          else dr
        let cmd : iscsi_cmd :=
          { cmd.set_seq i seq with
              data_sn := add32 cmd.data_sn 1
              seq_send_order := seq_send_order
              read_data_done := add32 cmd.read_data_done datain.length
              datain_list := dr :: rest }
        (some dr, cmd, datain)
      else
        let dr : iscsi_datain_req :=
          { dr with
              data_sn := add32 dr.data_sn 1
              seq_send_order := seq_send_order
              read_data_done := add32 dr.read_data_done datain.length }
        let dr : iscsi_datain_req := recovery_mark_complete dr datain.flags
        (some dr, { cmd.set_seq i seq with datain_list := dr :: rest }, datain)

/-- The function `iscsi_set_datain_values_yes_and_no`. Where `read_data_left`
is zero or no PDU holder is found the function returns `dr`, not `NULL`. -/
def iscsi_set_datain_values_yes_and_no (U : iscsi_util) (ops : iscsi_ops) (cmd : iscsi_cmd)
    (datain : iscsi_datain) : Option iscsi_datain_req × iscsi_cmd × iscsi_datain :=
  match cmd.datain_list with
  | [] => (none, cmd, datain)
  | dr0 :: rest =>
    let g := generate_recovery_values_yes ops cmd dr0
    let cmd : iscsi_cmd := g.1
    let dr : iscsi_datain_req := g.2
    let normal := dr.recovery == DATAIN_NORMAL
    let next_burst_len := if normal then cmd.next_burst_len else dr.next_burst_len
    let read_data_done := if normal then cmd.read_data_done else dr.read_data_done
    let read_data_left := sub32 cmd.data_length read_data_done
    if read_data_left = 0 then
      (some dr, { cmd with datain_list := dr :: rest }, datain)
    else
    let h := U.iscsi_get_pdu_holder_for_seq ops cmd none
    let cmd : iscsi_cmd := h.1
    match h.2.bind (fun i => (cmd.pdu_at i).map (fun pdu => (i, pdu))) with
    | none => (some dr, { cmd with datain_list := dr :: rest }, datain)
    | some (i, pdu) =>
      let last := add32 read_data_done pdu.length = cmd.data_length
      let grow := add32 next_burst_len ops.MaxRecvDataSegmentLength < ops.MaxBurstLength
      let pdu : iscsi_pdu :=
        if last then { pdu with flags := with_a_bit ops (pdu.flags ||| (F_BIT ||| S_BIT)) }
        else if grow then pdu
        else { pdu with flags := with_a_bit ops (pdu.flags ||| F_BIT) }
      let next_burst_len :=
        if last then 0 else if grow then add32 next_burst_len pdu.length else 0
      let pdu : iscsi_pdu := { pdu with data_sn := if normal then cmd.data_sn else dr.data_sn }
      let datain : iscsi_datain :=
        { flags := pdu.flags, length := pdu.length, offset := pdu.offset, data_sn := pdu.data_sn }
      if normal then
        let dr : iscsi_datain_req :=
          if has_bit datain.flags S_BIT then
            { dr with dr_complete := DATAIN_COMPLETE_NORMAL }
          else dr
        let cmd : iscsi_cmd :=
          { cmd.set_pdu i pdu with
              data_sn := add32 cmd.data_sn 1
              next_burst_len := next_burst_len
              read_data_done := add32 cmd.read_data_done pdu.length
              datain_list := dr :: rest }
        (some dr, cmd, datain)
      else
        let dr : iscsi_datain_req :=
          { dr with
              data_sn := add32 dr.data_sn 1
              next_burst_len := next_burst_len
              read_data_done := add32 dr.read_data_done pdu.length }
        let dr : iscsi_datain_req := recovery_mark_complete dr datain.flags
        (some dr, { cmd.set_pdu i pdu with datain_list := dr :: rest }, datain)

/-- The function `iscsi_set_datain_values_no_and_no`. -/
def iscsi_set_datain_values_no_and_no (U : iscsi_util) (ops : iscsi_ops) (cmd : iscsi_cmd)
    (datain : iscsi_datain) : Option iscsi_datain_req × iscsi_cmd × iscsi_datain :=
  match cmd.datain_list with
  | [] => (none, cmd, datain)
  | dr0 :: rest =>
    let gen := (dr0.recovery != DATAIN_NORMAL) && dr0.generate_recovery_values
    let cr := iscsi_create_recovery_datain_values_datasequenceinorder_no ops cmd dr0
    if gen ∧ cr.1 < 0 then
      (none, { cr.2.1 with datain_list := cr.2.2 :: rest }, datain)
    else
    let cmd : iscsi_cmd := if gen then cr.2.1 else cmd
    let dr : iscsi_datain_req :=
      if gen then { cr.2.2 with generate_recovery_values := false } else dr0
    let normal := dr.recovery == DATAIN_NORMAL
    let read_data_done := if normal then cmd.read_data_done else dr.read_data_done
    let seq_send_order := if normal then cmd.seq_send_order else dr.seq_send_order
    let read_data_left := sub32 cmd.data_length read_data_done
    if read_data_left = 0 then
      (none, { cmd with datain_list := dr :: rest }, datain)
    else
    match (U.iscsi_get_seq_holder_for_datain cmd seq_send_order).bind
        (fun i => (cmd.seq_at i).map (fun seq => (i, seq))) with
    | none => (none, { cmd with datain_list := dr :: rest }, datain)
    | some (i, seq) =>
      let seq : iscsi_seq := { seq with sent := true }
      let seq : iscsi_seq :=
        if normal ∧ seq.next_burst_len = 0 then { seq with first_datasn := cmd.data_sn }
        else seq
      let h := U.iscsi_get_pdu_holder_for_seq ops (cmd.set_seq i seq) (some i)
      let cmd : iscsi_cmd := h.1
      match h.2.bind (fun j => (cmd.pdu_at j).map (fun pdu => (j, pdu))), cmd.seq_at i with
      | some (j, pdu), some seq =>
        let full := seq.pdu_send_order = seq.pdu_count
        let pdu : iscsi_pdu :=
          if full then { pdu with flags := with_a_bit ops (pdu.flags ||| F_BIT) } else pdu
        let seq : iscsi_seq :=
          if full then { seq with next_burst_len := 0 }
          else { seq with next_burst_len := add32 seq.next_burst_len pdu.length }
        let seq_send_order := if full then add32 seq_send_order 1 else seq_send_order
        let pdu : iscsi_pdu :=
          if add32 read_data_done pdu.length = cmd.data_length then
            { pdu with flags := pdu.flags ||| S_BIT }
          else pdu
        let pdu : iscsi_pdu :=
          { pdu with data_sn := if normal then cmd.data_sn else dr.data_sn }
        let datain : iscsi_datain :=
          { flags := pdu.flags, length := pdu.length, offset := pdu.offset,
            data_sn := pdu.data_sn }
        if normal then
          let seq : iscsi_seq :=
            if has_bit datain.flags F_BIT then { seq with last_datasn := datain.data_sn }
            else seq
          let dr : iscsi_datain_req :=
            if has_bit datain.flags S_BIT then
              { dr with dr_complete := DATAIN_COMPLETE_NORMAL }
            else dr
          let cmd : iscsi_cmd :=
            { (cmd.set_seq i seq).set_pdu j pdu with
                data_sn := add32 cmd.data_sn 1
                seq_send_order := seq_send_order
                read_data_done := add32 cmd.read_data_done pdu.length
                datain_list := dr :: rest }
          (some dr, cmd, datain)
        else
          let dr : iscsi_datain_req :=
            { dr with
                data_sn := add32 dr.data_sn 1
                seq_send_order := seq_send_order
                read_data_done := add32 dr.read_data_done pdu.length }
          let dr : iscsi_datain_req := recovery_mark_complete dr datain.flags
          (some dr, { (cmd.set_seq i seq).set_pdu j pdu with datain_list := dr :: rest }, datain)
      | _, _ => (none, { cmd with datain_list := dr :: rest }, datain)

/-- The function `iscsi_get_datain_values`: the dispatch on
`(DataSequenceInOrder, DataPDUInOrder)`. -/
def iscsi_get_datain_values (U : iscsi_util) (ops : iscsi_ops) (cmd : iscsi_cmd)
    (datain : iscsi_datain) : Option iscsi_datain_req × iscsi_cmd × iscsi_datain :=
  if ops.DataSequenceInOrder && ops.DataPDUInOrder then
    iscsi_set_datain_values_yes_and_yes ops cmd datain
  else if !ops.DataSequenceInOrder && ops.DataPDUInOrder then
    iscsi_set_datain_values_no_and_yes U ops cmd datain
  else if ops.DataSequenceInOrder && !ops.DataPDUInOrder then
    iscsi_set_datain_values_yes_and_no U ops cmd datain
  else if !ops.DataSequenceInOrder && !ops.DataPDUInOrder then
    iscsi_set_datain_values_no_and_no U ops cmd datain
  else (none, cmd, datain)

/-! ## Building a DataIN header (`iscsi_send_data_in` of `iscsi_target.c`) -/

/-- What `iscsi_send_data_in` leaves behind: its return value, the header it
built in `cmd->pdu` (if it came so far), the command, connection and session,
and `*eodr`. -/
structure send_data_in_result where
  ret : Int
  hdr : Option iscsi_targ_scsi_data_in
  cmd : iscsi_cmd
  conn : iscsi_conn
  sess : iscsi_session
  eodr : Nat

/-- The flags byte of the DataIN header: `hdr->flags = datain.flags`, with
`O_BIT` or `U_BIT` added under `S_BIT` for a residual overflow or underflow. -/
def data_in_hdr_flags (cmd : iscsi_cmd) (flags : Nat) : Nat :=
  if has_bit flags S_BIT then
    if cmd.overflow_bit then flags ||| O_BIT
    else if cmd.underflow_bit then flags ||| U_BIT
    else flags
  else flags

/-- The assignments of `iscsi_send_data_in` to the header in `cmd->pdu`. -/
def build_data_in_hdr (U : iscsi_util) (cmd : iscsi_cmd) (sess : iscsi_session)
    (datain : iscsi_datain) (set_statsn : Bool) : iscsi_targ_scsi_data_in :=
  { opcode := ISCSI_TARG_SCSI_DATA_IN
    flags := data_in_hdr_flags cmd datain.flags
    res_count :=
      if has_bit datain.flags S_BIT ∧ (cmd.overflow_bit ∨ cmd.underflow_bit) then
        cmd.residual_count
      else 0
    length := datain.length
    lun := if has_bit (data_in_hdr_flags cmd datain.flags) A_BIT then
             U.iscsi_pack_lun cmd.orig_fe_lun
           else 0xFFFFFFFFFFFFFFFF
    init_task_tag := cmd.init_task_tag
    targ_xfer_tag := if has_bit (data_in_hdr_flags cmd datain.flags) A_BIT then
                       cmd.targ_xfer_tag
                     else 0xFFFFFFFF
    stat_sn := if set_statsn then cmd.stat_sn else 0xFFFFFFFF
    exp_cmd_sn := sess.exp_cmd_sn
    max_cmd_sn := sess.max_cmd_sn
    data_sn := datain.data_sn
    offset := datain.offset }

/-- The function `iscsi_send_data_in`, as far as the header, the sequence
numbers and the DataIN request list go. The session statistics, the iovec
mapping of the payload, the padding bytes and the digests are not modelled;
`iscsi_set_iovec_ptrs` and the allocation of the padding are kept as the two
places where the function can still fail after the header is built. -/
def iscsi_send_data_in (U : iscsi_util) (ops : iscsi_ops) (cmd : iscsi_cmd)
    (conn : iscsi_conn) (sess : iscsi_session) (eodr : Nat) : send_data_in_result :=
  let r := iscsi_get_datain_values U ops cmd {}
  match r.1 with
  | none => { ret := -1, hdr := none, cmd := r.2.1, conn := conn, sess := sess, eodr := eodr }
  | some dr =>
    let cmd : iscsi_cmd := r.2.1
    let datain : iscsi_datain := r.2.2
    if add32 datain.offset datain.length > cmd.data_length then
      { ret := -1, hdr := none, cmd := cmd, conn := conn, sess := sess, eodr := eodr }
    else
      let sense_case := has_bit datain.flags S_BIT && cmd.transport_task_sense
      let stat_case := !sense_case &&
        (dr.dr_complete == DATAIN_COMPLETE_NORMAL ||
          dr.dr_complete == DATAIN_COMPLETE_CONNECTION_RECOVERY)
      let datain : iscsi_datain :=
        if sense_case then { datain with flags := clear_bit datain.flags S_BIT } else datain
      let inc := U.iscsi_increment_maxcmdsn cmd sess
      let sess : iscsi_session := if stat_case then inc.2 else sess
      let cmd : iscsi_cmd :=
        if stat_case then { inc.1 with stat_sn := conn.stat_sn } else cmd
      let conn : iscsi_conn :=
        if stat_case then { conn with stat_sn := add32 conn.stat_sn 1 } else conn
      let set_statsn := stat_case ||
        (!sense_case && dr.dr_complete == DATAIN_COMPLETE_WITHIN_COMMAND_RECOVERY)
      let hdr := build_data_in_hdr U cmd sess datain set_statsn
      if U.iscsi_set_iovec_ptrs cmd datain < 0 then
        { ret := -1, hdr := some hdr, cmd := cmd, conn := conn, sess := sess, eodr := eodr }
      else if sub32 0 datain.length &&& 3 ≠ 0 ∧ ¬ U.pad_alloc_ok cmd then
        { ret := -1, hdr := some hdr, cmd := cmd, conn := conn, sess := sess, eodr := eodr }
      else if dr.dr_complete ≠ DATAIN_INCOMPLETE then
        { ret := 0, hdr := some hdr
          cmd := { cmd with datain_list := cmd.datain_list.tail }
          conn := conn, sess := sess
          eodr := if cmd.transport_task_sense then 2 else 1 }
      else
        { ret := 0, hdr := some hdr, cmd := cmd, conn := conn, sess := sess, eodr := eodr }

/-! ## Out-of-order CmdSN handling (`iscsi_target_erl1.c`) -/

/-- The loop `while (ooo_tmp->cmdsn < ooo_cmdsn->cmdsn) continue;` of
`iscsi_attach_ooo_cmdsn`. Its body is the `continue` of the `while` itself, so
the tested values never change; `fuel` bounds the number of tests and `none`
means that the loop has not been left after that many. -/
def attach_wait_loop : Nat → Nat → Nat → Option Unit
  | 0, _, _ => none
  | fuel + 1, tmp_cmdsn, new_cmdsn =>
    if tmp_cmdsn < new_cmdsn then attach_wait_loop fuel tmp_cmdsn new_cmdsn else some ()

/-- The function `iscsi_attach_ooo_cmdsn`: the C return value (always 0) and
the session, `none` when the inner `while` loop is not left within `fuel`
tests. `list_add(new, &ooo_tmp->ooo_list)` links the new entry right after
`ooo_tmp`, which is the first entry of the list when the statement is reached. -/
def iscsi_attach_ooo_cmdsn (fuel : Nat) (sess : iscsi_session)
    (ooo_cmdsn : iscsi_ooo_cmdsn) : Option (Int × iscsi_session) :=
  match sess.sess_ooo_cmdsn_list, sess.sess_ooo_cmdsn_list.getLast? with
  | ooo_tmp :: rest, some ooo_tail =>
    if ooo_tail.cmdsn < ooo_cmdsn.cmdsn then
      some (0, { sess with
        sess_ooo_cmdsn_list := sess.sess_ooo_cmdsn_list ++ [ooo_cmdsn]
        ooo_cmdsn_count := sess.ooo_cmdsn_count + 1 })
    else
      (attach_wait_loop fuel ooo_tmp.cmdsn ooo_cmdsn.cmdsn).map (fun _ =>
        (0, { sess with
          sess_ooo_cmdsn_list := ooo_tmp :: ooo_cmdsn :: rest
          ooo_cmdsn_count := sess.ooo_cmdsn_count + 1 }))
  | _, _ =>
    some (0, { sess with
      sess_ooo_cmdsn_list := sess.sess_ooo_cmdsn_list ++ [ooo_cmdsn]
      ooo_cmdsn_count := sess.ooo_cmdsn_count + 1 })

/-- The function `iscsi_handle_ooo_cmdsn`: its result, the session and the
command, `none` when `iscsi_attach_ooo_cmdsn` does not return. The allocation
of the entry succeeds when `U.ooo_alloc_ok` says so. -/
def iscsi_handle_ooo_cmdsn (U : iscsi_util) (fuel : Nat) (sess : iscsi_session)
    (cmd : iscsi_cmd) (cmdsn : Nat) : Option (cmdsn_ret × iscsi_session × iscsi_cmd) :=
  let sess : iscsi_session := { sess with cmdsn_outoforder := true }
  let cmd : iscsi_cmd :=
    { cmd with
        deferred_i_state := cmd.i_state
        i_state := ISTATE_DEFERRED_CMD
        icf_ooo_cmdsn := true }
  let batch : Bool :=
    match sess.sess_ooo_cmdsn_list.getLast? with
    | none => true
    | some ooo_tail => ooo_tail.cmdsn != sub32 cmdsn 1
  if !U.ooo_alloc_ok sess then some (CMDSN_ERROR_CANNOT_RECOVER, sess, cmd)
  else
    let ooo_cmdsn : iscsi_ooo_cmdsn :=
      { cmd := some cmd
        batch_count := if batch then sub32 cmdsn sess.exp_cmd_sn else 1
        cid := cmd.cid
        exp_cmdsn := sess.exp_cmd_sn
        cmdsn := cmdsn }
    (iscsi_attach_ooo_cmdsn fuel sess ooo_cmdsn).map (fun r =>
      if r.1 < 0 then (CMDSN_ERROR_CANNOT_RECOVER, sess, cmd)
      else (CMDSN_HIGHER_THAN_EXP, r.2, cmd))

/-- The function `iscsi_clear_ooo_cmdsns_for_conn`, on the session of the
connection with the given CID. -/
def iscsi_clear_ooo_cmdsns_for_conn (sess : iscsi_session) (cid : Nat) : iscsi_session :=
  { sess with
      sess_ooo_cmdsn_list := sess.sess_ooo_cmdsn_list.map (fun ooo_cmdsn =>
        if ooo_cmdsn.cid ≠ cid then ooo_cmdsn else { ooo_cmdsn with cmd := none }) }

/-! ## R2T generation (`iscsi_build_r2ts_for_cmd` of `iscsi_target.c`) -/

/-- Modelled from the spec: `iscsi_add_r2t_to_list` (`iscsi_target_util.c`) is
not among the sources. It queues on the command's R2T list a new, unsent R2T
`{r2t_sn, offset, xfer_len, recovery_r2t}`, numbered with the given `r2t_sn`
or, when that is 0, with the command's next R2TSN; it fails with -1 when the
R2T cannot be allocated. -/
def iscsi_add_r2t_to_list (U : iscsi_util) (cmd : iscsi_cmd) (offset xfer_len : Nat)
    (recovery : Bool) (r2t_sn : Nat) : Int × iscsi_cmd :=
  if !U.r2t_alloc_ok cmd then (-1, cmd)
  else
    let r2t : iscsi_r2t :=
      { r2t_sn := if r2t_sn = 0 then cmd.r2t_sn else r2t_sn
        offset := offset
        xfer_len := xfer_len
        recovery_r2t := recovery }
    (0, { cmd with
      r2t_sn := if r2t_sn = 0 then add32 cmd.r2t_sn 1 else cmd.r2t_sn
      r2t_list := cmd.r2t_list ++ [r2t] })

/-- The first half of the loop body of `iscsi_build_r2ts_for_cmd`: the offset
and the length of the next R2T and the command with `r2t_offset` (or the
sequence cursor) advanced and `ICF_SENT_LAST_R2T` set when the last R2T is
reached; `none` when `iscsi_get_seq_holder_for_r2t` finds no sequence. -/
def build_r2ts_next (U : iscsi_util) (ops : iscsi_ops) (type : Int) (first_r2t : Bool)
    (cmd : iscsi_cmd) : Option (Nat × Nat × iscsi_cmd) :=
  if ops.DataSequenceInOrder then
    let offset := cmd.r2t_offset
    let burst_left := sub32 ops.MaxBurstLength cmd.next_burst_len
    let xfer_len :=
      if first_r2t ∧ type = 2 then
        if add32 offset burst_left > cmd.data_length then sub32 cmd.data_length offset
        else burst_left
      else
        if add32 offset ops.MaxBurstLength > cmd.data_length then
          sub32 cmd.data_length offset
        else ops.MaxBurstLength
    let cmd : iscsi_cmd := { cmd with r2t_offset := add32 cmd.r2t_offset xfer_len }
    let cmd : iscsi_cmd :=
      if cmd.r2t_offset = cmd.data_length then { cmd with sent_last_r2t := true }
      else cmd
    some (offset, xfer_len, cmd)
  else
    let h := U.iscsi_get_seq_holder_for_r2t cmd
    match h.2.bind (fun i => h.1.seq_at i) with
    | none => none
    | some seq =>
      let cmd : iscsi_cmd :=
        if h.1.seq_send_order = h.1.seq_count then { h.1 with sent_last_r2t := true }
        else h.1
      some (seq.offset, seq.xfer_len, cmd)

/-- The `while (cmd->outstanding_r2ts < MaxOutstandingR2T)` loop of
`iscsi_build_r2ts_for_cmd`; each pass raises `outstanding_r2ts` by one, so
`MaxOutstandingR2T - outstanding_r2ts` passes are all there can be and `fuel`
is started at that number. -/
def build_r2ts_loop (U : iscsi_util) (ops : iscsi_ops) (type : Int) :
    Nat → Bool → iscsi_cmd → Int × iscsi_cmd
  | 0, _, cmd => (0, cmd)
  | fuel + 1, first_r2t, cmd =>
    if cmd.outstanding_r2ts < ops.MaxOutstandingR2T then
      match build_r2ts_next U ops type first_r2t cmd with
      | none => (-1, (U.iscsi_get_seq_holder_for_r2t cmd).1)
      | some (offset, xfer_len, cmd) =>
        let cmd : iscsi_cmd := { cmd with outstanding_r2ts := add32 cmd.outstanding_r2ts 1 }
        let a := iscsi_add_r2t_to_list U cmd offset xfer_len false 0
        if a.1 < 0 then (-1, a.2)
        else if a.2.sent_last_r2t then (0, a.2)
        else build_r2ts_loop U ops type fuel false a.2
    else (0, cmd)

/-- The function `iscsi_build_r2ts_for_cmd`: the C return value and the
command. -/
def iscsi_build_r2ts_for_cmd (U : iscsi_util) (ops : iscsi_ops) (cmd : iscsi_cmd)
    (type : Int) : Int × iscsi_cmd :=
  if cmd.sent_last_r2t then (0, cmd)
  else
    let cmd : iscsi_cmd :=
      if ops.DataSequenceInOrder ∧ type ≠ 2 ∧ cmd.r2t_offset < cmd.write_data_done then
        { cmd with r2t_offset := cmd.write_data_done }
      else cmd
    build_r2ts_loop U ops type (ops.MaxOutstandingR2T - cmd.outstanding_r2ts) true cmd

/-! ## Executing a command (`iscsi_execute_cmd` of `iscsi_target_erl1.c`) -/

/-- What a call of `iscsi_execute_cmd` leaves: the C return value, the command,
and the states with which `iscsi_add_cmd_to_response_queue` has put the command
on the response queue of its connection, in the order of the calls. -/
structure execute_cmd_result where
  ret : Int
  cmd : iscsi_cmd
  response_queue : List cmd_i_state := []
  deriving DecidableEq, Repr

/-- The function `iscsi_start_dataout_timer`, on `cmd->dataout_timer_flags`; the
kernel timer is not part of the model. -/
def iscsi_start_dataout_timer (cmd : iscsi_cmd) : iscsi_cmd :=
  if cmd.dataout_tf_running then cmd
  else { cmd with dataout_tf_stop := false, dataout_tf_running := true }

/-- The function `iscsi_logout_closesession` of `iscsi_target.c`, on the
command: it queues the command with its state and returns 0. The logout marks it
leaves on the session and its connections are not part of the model. -/
def iscsi_logout_closesession (cmd : iscsi_cmd) : execute_cmd_result :=
  { ret := 0, cmd := cmd, response_queue := [cmd.i_state] }

/-- The function `iscsi_logout_closeconnection` of `iscsi_target.c`, on the
command; `cmd.cid` is `conn->cid`. The logout marks it leaves on the connection
are not part of the model. -/
def iscsi_logout_closeconnection (U : iscsi_util) (cmd : iscsi_cmd) : execute_cmd_result :=
  if cmd.cid = cmd.logout_cid then
    { ret := 0, cmd := cmd, response_queue := [cmd.i_state] }
  else if !U.iscsi_get_conn_from_cid cmd.logout_cid then
    { ret := 0, cmd := { cmd with logout_response := CIDNOTFOUND },
      response_queue := [cmd.i_state] }
  else
    { ret := 0, cmd := cmd, response_queue := [cmd.i_state] }

/-- The function `iscsi_logout_removeconnforrecovery` of `iscsi_target.c`, on
the command; `cmd.cid` is `conn->cid`. -/
def iscsi_logout_removeconnforrecovery (ops : iscsi_ops) (cmd : iscsi_cmd) :
    execute_cmd_result :=
  if ops.ErrorRecoveryLevel ≠ 2 then
    { ret := 0, cmd := { cmd with logout_response := CONNRECOVERYNOTSUPPORTED },
      response_queue := [cmd.i_state] }
  else if cmd.cid = cmd.logout_cid then
    { ret := 0, cmd := { cmd with logout_response := CLEANUPFAILED },
      response_queue := [cmd.i_state] }
  else
    { ret := 0, cmd := cmd, response_queue := [cmd.i_state] }

/-- The function `iscsi_execute_cmd`; `ooo` is its second argument (non-zero
when the command comes off the out-of-order list). The locks are not part of
the model. -/
def iscsi_execute_cmd (U : iscsi_util) (ops : iscsi_ops) (cmd : iscsi_cmd) (ooo : Bool) :
    execute_cmd_result :=
  let cmd : iscsi_cmd := if ooo then { cmd with icf_ooo_cmdsn := false } else cmd
  if cmd.iscsi_opcode = ISCSI_INIT_SCSI_CMND then
    if cmd.scf_scsi_cdb_exception then
      if cmd.scf_scsi_reservation_conflict then
        { ret := 0, cmd := { cmd with i_state := ISTATE_SEND_STATUS },
          response_queue := [ISTATE_SEND_STATUS] }
      else if U.transport_check_aborted_status cmd (!cmd.unsolicited_data) ≠ 0 then
        { ret := 0, cmd := cmd }
      else
        { ret := U.transport_send_check_condition_and_sense cmd, cmd := cmd }
    else if cmd.immediate_data then
      if cmd.icf_got_last_dataout then
        { ret := U.transport_generic_handle_data cmd, cmd := cmd }
      else if !cmd.icf_non_immediate_unsolicited_data then
        if U.transport_check_aborted_status cmd true ≠ 0 then
          { ret := 0, cmd := cmd }
        else
          let cmd : iscsi_cmd := U.iscsi_set_dataout_sequence_values ops cmd
          { ret := 0, cmd := (iscsi_build_r2ts_for_cmd U ops cmd 0).2 }
      else
        { ret := 0, cmd := cmd }
    else if cmd.data_direction = DMA_TO_DEVICE ∧ !cmd.icf_non_immediate_unsolicited_data then
      if U.transport_check_aborted_status cmd true ≠ 0 then
        { ret := 0, cmd := cmd }
      else
        let cmd : iscsi_cmd := U.iscsi_set_dataout_sequence_values ops cmd
        let cmd : iscsi_cmd := iscsi_start_dataout_timer cmd
        { ret := U.transport_generic_handle_cdb cmd, cmd := cmd }
    else
      { ret := U.transport_generic_handle_cdb cmd, cmd := cmd }
  else if cmd.iscsi_opcode = ISCSI_INIT_NOP_OUT ∨ cmd.iscsi_opcode = ISCSI_INIT_TEXT_CMND then
    { ret := 0, cmd := cmd, response_queue := [cmd.i_state] }
  else if cmd.iscsi_opcode = ISCSI_INIT_TASK_MGMT_CMND then
    if cmd.scf_scsi_cdb_exception then
      { ret := 0, cmd := cmd, response_queue := [cmd.i_state] }
    else
      { ret := U.transport_generic_handle_tmr cmd, cmd := cmd }
  else if cmd.iscsi_opcode = ISCSI_INIT_LOGOUT_CMND then
    if cmd.logout_reason = CLOSESESSION then iscsi_logout_closesession cmd
    else if cmd.logout_reason = CLOSECONNECTION then iscsi_logout_closeconnection U cmd
    else if cmd.logout_reason = REMOVECONNFORRECOVERY then
      iscsi_logout_removeconnforrecovery ops cmd
    else { ret := -1, cmd := cmd }
  else
    { ret := -1, cmd := cmd }

/-! ## Draining the out-of-order list (`iscsi_execute_ooo_cmdsns` of `iscsi_target_erl1.c`) -/

/-- The state of the loop of `iscsi_execute_ooo_cmdsns`. -/
structure execute_ooo_result where
  ret : Int
  exp_cmd_sn : Nat
  kept : List iscsi_ooo_cmdsn
  executed : List iscsi_cmd
  deriving DecidableEq, Repr

/-- The `list_for_each_entry_safe` loop of `iscsi_execute_ooo_cmdsns` over the
entries not yet visited: `kept` are the entries left on the list, `executed` the
commands that `iscsi_execute_cmd` was called on, as the calls leave them and in
the order of the calls. -/
def execute_ooo_loop (U : iscsi_util) (ops : iscsi_ops) :
    List iscsi_ooo_cmdsn → Nat → Int → execute_ooo_result
  | [], exp_cmd_sn, ooo_count =>
    { ret := ooo_count, exp_cmd_sn := exp_cmd_sn, kept := [], executed := [] }
  | ooo_cmdsn :: rest, exp_cmd_sn, ooo_count =>
    if ooo_cmdsn.cmdsn ≠ exp_cmd_sn then
      let r := execute_ooo_loop U ops rest exp_cmd_sn ooo_count
      { r with kept := ooo_cmdsn :: r.kept }
    else
      match ooo_cmdsn.cmd with
      | none => execute_ooo_loop U ops rest (add32 exp_cmd_sn 1) ooo_count
      | some cmd =>
        let cmd : iscsi_cmd := { cmd with i_state := cmd.deferred_i_state }
        let x := iscsi_execute_cmd U ops cmd true
        if x.ret < 0 then
          { ret := -1, exp_cmd_sn := add32 exp_cmd_sn 1, kept := rest, executed := [x.cmd] }
        else
          let r := execute_ooo_loop U ops rest (add32 exp_cmd_sn 1) (ooo_count + 1)
          { r with executed := x.cmd :: r.executed }

/-- The function `iscsi_execute_ooo_cmdsns`: its return value, the session and
the commands executed, in order. -/
def iscsi_execute_ooo_cmdsns (U : iscsi_util) (ops : iscsi_ops) (sess : iscsi_session) :
    Int × iscsi_session × List iscsi_cmd :=
  let r := execute_ooo_loop U ops sess.sess_ooo_cmdsn_list sess.exp_cmd_sn 0
  (r.ret, { sess with exp_cmd_sn := r.exp_cmd_sn, sess_ooo_cmdsn_list := r.kept }, r.executed)

/-! ## Emitting the DataIN PDUs of a request -/

/-- Repeated calls of `iscsi_get_datain_values`, each on a zeroed `datain` as
`iscsi_send_data_in` makes them: the calls stop when `NULL` is returned or when
the returned request is marked complete (`iscsi_send_data_in` then ends the
request), and at the latest after `fuel` calls. The result lists the generated
`datain` records with the request as returned by the same call. -/
def datain_run (U : iscsi_util) (ops : iscsi_ops) :
    Nat → iscsi_cmd → List (iscsi_datain × iscsi_datain_req)
  | 0, _ => []
  | fuel + 1, cmd =>
    match iscsi_get_datain_values U ops cmd {} with
    | (none, _, _) => []
    | (some dr, cmd1, datain) =>
      if dr.dr_complete ≠ DATAIN_INCOMPLETE then [(datain, dr)]
      else (datain, dr) :: datain_run U ops fuel cmd1

/-! ## Closed forms, shapes and concrete inputs used in the statements -/

/-- The length the (Yes, Yes) cursor formula gives for a cursor
`(next_burst_len, read_data_done)`:
`min(MaxRecvDataSegmentLength, MaxBurstLength - next_burst_len, data_length - read_data_done)`. -/
def burst_length (ops : iscsi_ops) (data_length next_burst_len read_data_done : Nat) : Nat :=
  min ops.MaxRecvDataSegmentLength
    (min (ops.MaxBurstLength - next_burst_len) (data_length - read_data_done))

/-- The flags the branch puts into a zeroed `datain`. -/
def burst_flags (ops : iscsi_ops) (data_length next_burst_len read_data_done : Nat) : Nat :=
  if read_data_done + burst_length ops data_length next_burst_len read_data_done
      = data_length then
    with_a_bit ops (0 ||| (F_BIT ||| S_BIT))
  else if next_burst_len + burst_length ops data_length next_burst_len read_data_done
      = ops.MaxBurstLength then
    with_a_bit ops (0 ||| F_BIT)
  else 0

/-- The `next_burst_len` the branch leaves. -/
def burst_next (ops : iscsi_ops) (data_length next_burst_len read_data_done : Nat) : Nat :=
  if read_data_done + burst_length ops data_length next_burst_len read_data_done
      = data_length then next_burst_len
  else if next_burst_len + burst_length ops data_length next_burst_len read_data_done
      = ops.MaxBurstLength then 0
  else next_burst_len + burst_length ops data_length next_burst_len read_data_done

/-- The length of a normal DataIN, from the cursor of the command. -/
def cursor_length (ops : iscsi_ops) (cmd : iscsi_cmd) : Nat :=
  min ops.MaxRecvDataSegmentLength
    (min (ops.MaxBurstLength - cmd.next_burst_len) (cmd.data_length - cmd.read_data_done))

/-- The flags a normal call puts into a zeroed `datain`. -/
def cursor_flags (ops : iscsi_ops) (cmd : iscsi_cmd) : Nat :=
  if cmd.read_data_done + cursor_length ops cmd = cmd.data_length then
    with_a_bit ops (0 ||| (F_BIT ||| S_BIT))
  else if cmd.next_burst_len + cursor_length ops cmd = ops.MaxBurstLength then
    with_a_bit ops (0 ||| F_BIT)
  else 0

/-- The `next_burst_len` a normal call stores. -/
def cursor_next_burst_len (ops : iscsi_ops) (cmd : iscsi_cmd) : Nat :=
  if cmd.read_data_done + cursor_length ops cmd = cmd.data_length then cmd.next_burst_len
  else if cmd.next_burst_len + cursor_length ops cmd = ops.MaxBurstLength then 0
  else cmd.next_burst_len + cursor_length ops cmd

/-- The request a normal call returns. -/
def cursor_dr (ops : iscsi_ops) (cmd : iscsi_cmd) (dr : iscsi_datain_req) : iscsi_datain_req :=
  if cmd.read_data_done + cursor_length ops cmd = cmd.data_length then
    { dr with dr_complete := DATAIN_COMPLETE_NORMAL }
  else dr

/-- An instance of the functions that are not among the sources: no sequence
or PDU holder is found, every allocation succeeds, no command has been aborted,
the transport layer accepts every command, and every CID is found. -/
def util_ok : iscsi_util where
  iscsi_get_seq_holder_for_datain := fun _ _ => none
  iscsi_get_pdu_holder_for_seq := fun _ cmd _ => (cmd, none)
  iscsi_get_seq_holder_for_r2t := fun cmd => (cmd, none)
  iscsi_pack_lun := fun lun => lun
  iscsi_set_iovec_ptrs := fun _ _ => 1
  iscsi_increment_maxcmdsn := fun cmd sess =>
    (cmd, { sess with max_cmd_sn := add32 sess.max_cmd_sn 1 })
  pad_alloc_ok := fun _ => true
  r2t_alloc_ok := fun _ => true
  ooo_alloc_ok := fun _ => true
  transport_check_aborted_status := fun _ _ => 0
  transport_send_check_condition_and_sense := fun _ => 0
  transport_generic_handle_data := fun _ => 0
  transport_generic_handle_cdb := fun _ => 0
  transport_generic_handle_tmr := fun _ => 0
  iscsi_set_dataout_sequence_values := fun _ cmd => cmd
  iscsi_get_conn_from_cid := fun _ => true
  iscsi_get_seq_holder := fun _ _ _ => none
  iscsi_allocate_cmd_ok := true
  buf_ptr_alloc_ok := true
  reject_sem_ret := 0
  datain_req_alloc_ok := true
  iscsi_get_r2t_from_list := fun cmd => cmd.r2t_list.findIdx? (fun r => !r.sent_r2t)
  iscsi_get_inactive_connection_recovery_entry := fun _ => false
  iscsi_build_sendtargets_response := fun _ => 0
  iscsi_check_received_cmdsn := fun _ _ => CMDSN_NORMAL_OPERATION
  iscsi_allocate_se_cmd := fun data_length data_direction =>
    some { data_length := data_length, data_direction := data_direction }
  iscsi_get_lun_for_cmd := fun _ => GET_LUN_OK
  transport_generic_allocate_tasks := fun _ => 0
  iscsi_decide_list_to_build := fun cmd _ => (0, cmd.seq_list, cmd.pdu_list)
  se_cmd_failed := fun _ => false
  iscsi_dump_data_payload := fun _ => 0
  iscsi_copy_param_list := 0
  iscsi_change_param_value := 0
  iscsi_login_disable_FIM_keys := 0
  r2t_list_head := fun _ => {}

/-- The parameters of scenario S1: `MaxRecvDataSegmentLength = 8192`,
`ErrorRecoveryLevel = 0`, both orders Yes. -/
def ops_s1 : iscsi_ops :=
  { MaxRecvDataSegmentLength := 8192, MaxBurstLength := 262144, ErrorRecoveryLevel := 0 }

/-- The READ command of scenario S1 with its normal DataIN request queued. -/
def cmd_s1 : iscsi_cmd :=
  { init_task_tag := 1, cmd_sn := 10, data_length := 512, datain_list := [{}] }

/-- A read of 20000 bytes in the middle of its second burst: parameters. -/
def ops_mid : iscsi_ops :=
  { MaxRecvDataSegmentLength := 4096, MaxBurstLength := 10000, ErrorRecoveryLevel := 1 }

/-- A read of 20000 bytes with 18192 bytes sent, 8192 of them in the current
burst. -/
def cmd_mid : iscsi_cmd :=
  { data_length := 20000, read_data_done := 18192, next_burst_len := 8192, data_sn := 5,
    datain_list := [{}] }

/-- The shape of a complete normal run that starts at DataSN `sn` and offset
`off`: DataSNs count up, each offset continues the PDU before, only the last
PDU carries `S_BIT` (with `F_BIT`), it ends at `data_length` and its request is
marked `DATAIN_COMPLETE_NORMAL`. -/
def run_shape (data_length : Nat) :
    Nat → Nat → List (iscsi_datain × iscsi_datain_req) → Prop
  | _, _, [] => False
  | sn, off, [p] =>
    p.1.data_sn = sn ∧ p.1.offset = off ∧ off + p.1.length = data_length ∧
    has_bit p.1.flags S_BIT = true ∧ has_bit p.1.flags F_BIT = true ∧
    p.2.dr_complete = DATAIN_COMPLETE_NORMAL
  | sn, off, p :: q :: t =>
    p.1.data_sn = sn ∧ p.1.offset = off ∧ has_bit p.1.flags S_BIT = false ∧
    run_shape data_length (sn + 1) (off + p.1.length) (q :: t)

/-- The cursor `(next_burst_len, read_data_done)` that
`iscsi_set_datain_values_yes_and_yes` works from for the request `dr0` at the
head of the list: the command's cursor for a normal request, the request's own
cursor (after its recovery values were generated) for a recovery request. -/
def request_cursor (ops : iscsi_ops) (cmd : iscsi_cmd) (dr0 : iscsi_datain_req) : Nat × Nat :=
  if (generate_recovery_values_yes ops cmd dr0).2.recovery = DATAIN_NORMAL then
    ((generate_recovery_values_yes ops cmd dr0).1.next_burst_len,
      (generate_recovery_values_yes ops cmd dr0).1.read_data_done)
  else
    ((generate_recovery_values_yes ops cmd dr0).2.next_burst_len,
      (generate_recovery_values_yes ops cmd dr0).2.read_data_done)

/-- A SCSI command without data, received with CmdSN `n` (and ITT `n`) on
connection 0, in the state `ISTATE_NEW_CMD`. -/
def cmd_with_cmdsn (n : Nat) : iscsi_cmd :=
  { init_task_tag := n, cmd_sn := n, iscsi_opcode := ISCSI_INIT_SCSI_CMND,
    data_direction := DMA_NONE, i_state := ISTATE_NEW_CMD }

/-- A buffered command as `iscsi_execute_ooo_cmdsns` leaves it: its state is
restored from `deferred_i_state` and `iscsi_execute_cmd(cmd, 1)` has run. -/
def ooo_release (U : iscsi_util) (ops : iscsi_ops) (cmd : iscsi_cmd) : iscsi_cmd :=
  (iscsi_execute_cmd U ops { cmd with i_state := cmd.deferred_i_state } true).cmd

/-- The call `iscsi_execute_cmd(cmd, 1)` that `iscsi_execute_ooo_cmdsns` makes
for a buffered command does not fail. -/
def ooo_execute_ok (U : iscsi_util) (ops : iscsi_ops) (cmd : iscsi_cmd) : Bool :=
  decide (0 ≤ (iscsi_execute_cmd U ops { cmd with i_state := cmd.deferred_i_state } true).ret)

/-- The parameters of scenario S4: `ErrorRecoveryLevel = 1`. -/
def ops_s4 : iscsi_ops := { ErrorRecoveryLevel := 1 }

/-- The commands with the given CmdSNs, received in this order, all handed to
`iscsi_handle_ooo_cmdsn`; `none` when one of the calls does not return within
`fuel` tests of the waiting loop. -/
def buffer_cmdsns (U : iscsi_util) (fuel : Nat) :
    iscsi_session → List Nat → Option iscsi_session
  | sess, [] => some sess
  | sess, n :: ns =>
    (iscsi_handle_ooo_cmdsn U fuel sess (cmd_with_cmdsn n) n).bind
      (fun r => buffer_cmdsns U fuel r.2.1 ns)

/-- Scenario S4 after its first two PDUs: `ExpCmdSN = 20`, CmdSN 22 received,
then CmdSN 21. -/
def sess_s4_buffered : Option iscsi_session :=
  buffer_cmdsns util_ok 4 { exp_cmd_sn := 20 } [22, 21]

/-- Scenario S4 after CmdSN 20 has been received and executed in order:
`exp_cmd_sn` is 21 and the out-of-order list is the one of `sess_s4_buffered`. -/
def sess_s4_ready : Option iscsi_session :=
  sess_s4_buffered.map (fun sess => { sess with exp_cmd_sn := 21 })

/-- A session with `ExpCmdSN = 20` that has buffered CmdSN 21 and then
CmdSN 23. -/
def sess_21_23 : Option iscsi_session :=
  buffer_cmdsns util_ok 4 { exp_cmd_sn := 20 } [21, 23]

/-- With `ExpCmdSN = 20`, CmdSN 22 buffered. -/
def sess_22 : Option iscsi_session :=
  buffer_cmdsns util_ok 4 { exp_cmd_sn := 20 } [22]

/-- The CmdSNs on the out-of-order list of a session. -/
def ooo_cmdsns (sess : iscsi_session) : List Nat :=
  sess.sess_ooo_cmdsn_list.map (fun e => e.cmdsn)

/-- The session `sess_21_23`, written out. -/
def sess_21_23_value : iscsi_session :=
  { exp_cmd_sn := 20
    cmdsn_outoforder := true
    ooo_cmdsn_count := 2
    sess_ooo_cmdsn_list :=
      [{ cmd := some { cmd_with_cmdsn 21 with
                         deferred_i_state := ISTATE_NEW_CMD, i_state := ISTATE_DEFERRED_CMD,
                         icf_ooo_cmdsn := true }
         batch_count := 1, cid := 0, cmdsn := 21, exp_cmdsn := 20 },
       { cmd := some { cmd_with_cmdsn 23 with
                         deferred_i_state := ISTATE_NEW_CMD, i_state := ISTATE_DEFERRED_CMD,
                         icf_ooo_cmdsn := true }
         batch_count := 3, cid := 0, cmdsn := 23, exp_cmdsn := 20 }] }

/-- The entry's CmdSN lies in the run `x, x+1, ..., x+n-1`. -/
def in_run (x n : Nat) (e : iscsi_ooo_cmdsn) : Bool :=
  decide (x ≤ e.cmdsn ∧ e.cmdsn < x + n)

/-- A session with the sorted list `[21, 22, 24]` and `exp_cmd_sn = 21`; the
command of the entry with CmdSN 22 (received on connection 1) has been cleared
by `iscsi_clear_ooo_cmdsns_for_conn`. -/
def sess_sorted : iscsi_session :=
  iscsi_clear_ooo_cmdsns_for_conn
    { exp_cmd_sn := 21
      cmdsn_outoforder := true
      ooo_cmdsn_count := 3
      sess_ooo_cmdsn_list :=
        [{ cmd := some (cmd_with_cmdsn 21), batch_count := 1, cid := 0, cmdsn := 21,
           exp_cmdsn := 20 },
         { cmd := some { cmd_with_cmdsn 22 with cid := 1 }, batch_count := 1, cid := 1,
           cmdsn := 22, exp_cmdsn := 20 },
         { cmd := some (cmd_with_cmdsn 24), batch_count := 4, cid := 0, cmdsn := 24,
           exp_cmdsn := 20 }] }
    1

/-- R2Ts that continue one another from offset `off`: each starts where the one
before ends and is `min(MaxBurstLength, data_length - offset)` long, and none
follows an R2T that ends at `data_length`. -/
def r2t_chain (ops : iscsi_ops) (dl : Nat) : Nat → List iscsi_r2t → Prop
  | _, [] => True
  | off, r :: t =>
    r.offset = off ∧ r.xfer_len = min ops.MaxBurstLength (dl - off) ∧
    (off + r.xfer_len = dl → t = []) ∧ r2t_chain ops dl (off + r.xfer_len) t

/-- The parameters of scenario S2: `MaxBurstLength = 4096`,
`MaxRecvDataSegmentLength = 4096`, with `MaxOutstandingR2T = 2`. -/
def ops_s2 : iscsi_ops :=
  { MaxRecvDataSegmentLength := 4096, MaxBurstLength := 4096, MaxOutstandingR2T := 2 }

/-- The WRITE command of scenario S2 after its 4096 bytes of immediate data:
9000 bytes to write, no R2T built yet. -/
def cmd_s2 : iscsi_cmd :=
  { init_task_tag := 2, data_length := 9000, write_data_done := 4096 }

/-! ## Recovery R2Ts (`iscsi_send_recovery_r2t` of `iscsi_target_erl1.c`) -/

/-- The function `iscsi_send_recovery_r2t`: its return value and the command. -/
def iscsi_send_recovery_r2t (U : iscsi_util) (cmd : iscsi_cmd) (offset xfer_len : Nat) :
    Int × iscsi_cmd :=
  iscsi_add_r2t_to_list U cmd offset xfer_len true 0

/-- A step that queues R2Ts on a command: a call of `iscsi_build_r2ts_for_cmd`
with the given type, or a call of `iscsi_send_recovery_r2t` for the given span. -/
inductive r2t_op where
  | build (type : Int)
  | recovery (offset xfer_len : Nat)
  deriving DecidableEq, Repr

/-- One step on a command: the C return value and the command. -/
def r2t_op_apply (U : iscsi_util) (ops : iscsi_ops) (cmd : iscsi_cmd) : r2t_op → Int × iscsi_cmd
  | r2t_op.build type => iscsi_build_r2ts_for_cmd U ops cmd type
  | r2t_op.recovery offset xfer_len => iscsi_send_recovery_r2t U cmd offset xfer_len

/-- The steps of the list made on a command one after the other: the return
values, in order, and the command. -/
def r2t_ops_run (U : iscsi_util) (ops : iscsi_ops) : iscsi_cmd → List r2t_op → List Int × iscsi_cmd
  | cmd, [] => ([], cmd)
  | cmd, op :: rest =>
    let r := r2t_op_apply U ops cmd op
    let t := r2t_ops_run U ops r.2 rest
    (r.1 :: t.1, t.2)

/-- The number of R2Ts on the list that are unsent or whose DataOUT sequence is
not complete. -/
def r2ts_open (l : List iscsi_r2t) : Nat :=
  (l.filter (fun r => !r.sent_r2t || !r.seq_complete)).length

/-- The number of R2Ts on the list that are not recovery R2Ts. -/
def r2ts_normal (l : List iscsi_r2t) : Nat :=
  (l.filter (fun r => !r.recovery_r2t)).length

/-- The number of recovery R2Ts on the list. -/
def r2ts_recovery (l : List iscsi_r2t) : Nat :=
  (l.filter (fun r => r.recovery_r2t)).length

/-- Session parameters with `MaxOutstandingR2T = 1` and `MaxBurstLength = 4096`. -/
def ops_one_r2t : iscsi_ops :=
  { MaxRecvDataSegmentLength := 4096, MaxBurstLength := 4096, MaxOutstandingR2T := 1 }

/-- The step is a call of `iscsi_send_recovery_r2t`. -/
def r2t_op.is_recovery : r2t_op → Bool
  | r2t_op.build _ => false
  | r2t_op.recovery _ _ => true

/-- The number of calls of `iscsi_send_recovery_r2t` among the steps. -/
def recovery_ops (l : List r2t_op) : Nat := (l.filter r2t_op.is_recovery).length

/-! ## Rejects (`iscsi_add_reject`, `iscsi_add_reject_from_cmd` of `iscsi_target.c`) -/

/-- A Reject put on the response queue of a connection in the state
`ISTATE_SEND_REJECT`: its reason and whether `ICF_REJECT_FAIL_CONN` is set. -/
structure iscsi_reject where
  reason : reject_reason
  fail_conn : Bool
  deriving DecidableEq, Repr

/-- The function `iscsi_add_reject`: its return value and the Reject it has
queued, if any. -/
def iscsi_add_reject (U : iscsi_util) (reason : reject_reason) (fail_conn : Bool) :
    Int × Option iscsi_reject :=
  if !U.iscsi_allocate_cmd_ok then (-1, none)
  else if !U.buf_ptr_alloc_ok then (-1, none)
  else
    let rej : iscsi_reject := { reason := reason, fail_conn := fail_conn }
    if U.reject_sem_ret ≠ 0 then (-1, some rej)
    else (if !fail_conn then 0 else -1, some rej)

/-- The function `iscsi_add_reject_from_cmd`: its return value, the command and
the Reject it has queued, if any. -/
def iscsi_add_reject_from_cmd (U : iscsi_util) (reason : reject_reason) (fail_conn : Bool)
    (cmd : iscsi_cmd) : Int × iscsi_cmd × Option iscsi_reject :=
  if cmd.conn_null then (-1, cmd, none)
  else
    let cmd : iscsi_cmd := { cmd with iscsi_opcode := ISCSI_TARG_RJT }
    let cmd : iscsi_cmd := if fail_conn then { cmd with icf_reject_fail_conn := true } else cmd
    if !U.buf_ptr_alloc_ok then (-1, cmd, none)
    else
      let cmd : iscsi_cmd := { cmd with i_state := ISTATE_SEND_REJECT }
      let rej : iscsi_reject := { reason := reason, fail_conn := fail_conn }
      if U.reject_sem_ret ≠ 0 then (-1, cmd, some rej)
      else (if !fail_conn then 0 else -1, cmd, some rej)

/-! ## Immediate data (`iscsi_handle_immediate_data` of `iscsi_target.c`) -/

/-- What the receive path delivers to `iscsi_handle_immediate_data`: the results
of its two calls of `iscsi_set_iovec_ptrs`, whether `rx_data` has read all the
bytes asked for, and whether the received DataDigest equals the computed one. -/
structure immediate_rx where
  iov_ret : Int := 1
  iov_ret_digest : Int := 1
  rx_complete : Bool := true
  crc_ok : Bool := true
  deriving DecidableEq, Repr

/-- The function `iscsi_handle_immediate_data`: its result, the command and the
Reject it has queued, if any. -/
def iscsi_handle_immediate_data (U : iscsi_util) (ops : iscsi_ops) (rx : immediate_rx)
    (cmd : iscsi_cmd) (length : Nat) : immediate_data_ret × iscsi_cmd × Option iscsi_reject :=
  if rx.iov_ret < 0 then (IMMEDIDATE_DATA_CANNOT_RECOVER, cmd, none)
  else if !rx.rx_complete then (IMMEDIDATE_DATA_CANNOT_RECOVER, cmd, none)
  else if ops.DataDigest ∧ rx.iov_ret_digest < 0 then (IMMEDIDATE_DATA_CANNOT_RECOVER, cmd, none)
  else if ops.DataDigest ∧ !rx.crc_ok then
    if ops.ErrorRecoveryLevel = 0 then
      let r := iscsi_add_reject_from_cmd U REASON_DATA_DIGEST_ERR true cmd
      (IMMEDIDATE_DATA_CANNOT_RECOVER, r.2.1, r.2.2)
    else
      let r := iscsi_add_reject_from_cmd U REASON_DATA_DIGEST_ERR false cmd
      (IMMEDIDATE_DATA_ERL1_CRC_FAILURE, r.2.1, r.2.2)
  else
    let cmd : iscsi_cmd := { cmd with write_data_done := add32 cmd.write_data_done length }
    let cmd : iscsi_cmd :=
      if cmd.write_data_done = cmd.data_length then
        { cmd with icf_got_last_dataout := true, i_state := ISTATE_RECEIVED_LAST_DATAOUT }
      else cmd
    (IMMEDIDATE_DATA_NORMAL_OPERATION, cmd, none)


/-! ## Recalculation for DataOUT recovery (`iscsi_recalculate_dataout_values` of `iscsi_target_erl1.c`) -/

/-- The body of the `for` loop of `iscsi_recalculate_dataout_values` with
DataSequenceInOrder=Yes and DataPDUInOrder=No, for one PDU of `cmd->pdu_list`:
the command (its counters) and the PDU after the pass. -/
def recalculate_pdu_step (cmd : iscsi_cmd) (pdu : iscsi_pdu) : iscsi_cmd × iscsi_pdu :=
  if pdu.status ≠ ISCSI_PDU_RECEIVED_OK then (cmd, pdu)
  else if pdu.offset ≥ cmd.seq_start_offset ∧
      add32 pdu.offset pdu.length ≤ cmd.seq_end_offset then
    let cmd : iscsi_cmd :=
      if !cmd.unsolicited_data then
        { cmd with next_burst_len := sub32 cmd.next_burst_len pdu.length }
      else
        { cmd with first_burst_len := sub32 cmd.first_burst_len pdu.length }
    ({ cmd with write_data_done := sub32 cmd.write_data_done pdu.length },
     { pdu with status := ISCSI_PDU_NOT_RECEIVED })
  else (cmd, pdu)

/-- The `for` loop of `iscsi_recalculate_dataout_values` with
DataSequenceInOrder=Yes and DataPDUInOrder=No over the PDUs not yet visited:
the command (its counters) and the PDUs after the loop. -/
def recalculate_pdu_loop : iscsi_cmd → List iscsi_pdu → iscsi_cmd × List iscsi_pdu
  | cmd, [] => (cmd, [])
  | cmd, pdu :: rest =>
    let r := recalculate_pdu_step cmd pdu
    let t := recalculate_pdu_loop r.1 rest
    (t.1, r.2 :: t.2)

/-- The `for` loop of `iscsi_recalculate_dataout_values` with
DataSequenceInOrder=No and DataPDUInOrder=No: of the PDUs `pdu_start`,
..., `pdu_start + pdu_count - 1` of the list, those received are marked
`ISCSI_PDU_NOT_RECEIVED`. -/
def recalculate_seq_pdus (pdu_start pdu_count : Nat) (l : List iscsi_pdu) : List iscsi_pdu :=
  (List.range l.length).zipWith
    (fun i pdu =>
      if pdu_start ≤ i ∧ i < pdu_start + pdu_count ∧ pdu.status = ISCSI_PDU_RECEIVED_OK then
        { pdu with status := ISCSI_PDU_NOT_RECEIVED }
      else pdu) l

/-- What `iscsi_recalculate_dataout_values` leaves: the C return value, the
command and the values stored through `r2t_offset` and `r2t_length`. -/
structure recalculate_result where
  ret : Int
  cmd : iscsi_cmd
  r2t_offset : Nat := 0
  r2t_length : Nat := 0
  deriving DecidableEq, Repr

/-- The function `iscsi_recalculate_dataout_values`. -/
def iscsi_recalculate_dataout_values (U : iscsi_util) (ops : iscsi_ops) (cmd : iscsi_cmd)
    (pdu_offset pdu_length : Nat) : recalculate_result :=
  if ops.DataSequenceInOrder then
    let cmd : iscsi_cmd := { cmd with data_sn := 0 }
    if ops.DataPDUInOrder then
      { ret := 0, cmd := cmd, r2t_offset := cmd.write_data_done,
        r2t_length := sub32 cmd.seq_end_offset cmd.write_data_done }
    else
      let r := recalculate_pdu_loop cmd (cmd.pdu_list.getD [])
      { ret := 0, cmd := { r.1 with pdu_list := cmd.pdu_list.map (fun _ => r.2) },
        r2t_offset := cmd.seq_start_offset,
        r2t_length := sub32 cmd.seq_end_offset cmd.seq_start_offset }
  else
    match (U.iscsi_get_seq_holder cmd pdu_offset pdu_length).bind
        (fun i => (cmd.seq_at i).map (fun seq => (i, seq))) with
    | none => { ret := -1, cmd := cmd }
    | some (i, seq) =>
      let cmd : iscsi_cmd :=
        { cmd with write_data_done := sub32 cmd.write_data_done (sub32 seq.offset seq.orig_offset) }
      let cmd : iscsi_cmd :=
        if cmd.immediate_data then { cmd with first_burst_len := cmd.write_data_done } else cmd
      let seq1 : iscsi_seq :=
        { seq with data_sn := 0, offset := seq.orig_offset, next_burst_len := 0,
                   status := DATAOUT_SEQUENCE_WITHIN_COMMAND_RECOVERY }
      let cmd : iscsi_cmd := cmd.set_seq i seq1
      if ops.DataPDUInOrder then
        { ret := 0, cmd := cmd, r2t_offset := seq.orig_offset, r2t_length := seq.xfer_len }
      else
        { ret := 0,
          cmd := { cmd with
            pdu_list := cmd.pdu_list.map (recalculate_seq_pdus seq.pdu_start seq.pdu_count) },
          r2t_offset := seq.orig_offset, r2t_length := seq.xfer_len }

/-- The bytes that the loop of `iscsi_recalculate_dataout_values` takes off
`write_data_done` with DataSequenceInOrder=Yes and DataPDUInOrder=No: the
lengths of the PDUs received inside the current sequence. -/
def received_in_sequence (cmd : iscsi_cmd) : List iscsi_pdu → Nat
  | [] => 0
  | pdu :: rest =>
    (if pdu.status = ISCSI_PDU_RECEIVED_OK ∧ pdu.offset ≥ cmd.seq_start_offset ∧
        add32 pdu.offset pdu.length ≤ cmd.seq_end_offset then pdu.length else 0)
      + received_in_sequence cmd rest

/-- Session parameters with DataSequenceInOrder=Yes, DataPDUInOrder=No and
`ErrorRecoveryLevel = 1`. -/
def ops_pdu_any_order : iscsi_ops :=
  { DataPDUInOrder := false, ErrorRecoveryLevel := 1, MaxRecvDataSegmentLength := 512,
    MaxBurstLength := 4096 }

/-- A write command of 8192 bytes whose first solicited sequence is
`[0, 4096)`; the PDU at offset 0 (512 bytes) has been received, the PDU at
offset 512 has failed its CRC. -/
def cmd_crc_failed : iscsi_cmd :=
  { init_task_tag := 3, data_length := 8192, data_direction := DMA_TO_DEVICE,
    write_data_done := 512, next_burst_len := 512, seq_start_offset := 0,
    seq_end_offset := 4096,
    pdu_list := some [{ status := ISCSI_PDU_RECEIVED_OK, offset := 0, length := 512 },
                      { status := ISCSI_PDU_CRC_FAILED, offset := 512, length := 512 }] }


/-- The bytes that `iscsi_recalculate_dataout_values` takes off
`write_data_done`: nothing with both orders Yes, the bytes received inside the
current sequence with DataSequenceInOrder=Yes and DataPDUInOrder=No, and the
advance `seq->offset - seq->orig_offset` of the sequence found with
DataSequenceInOrder=No. -/
def recalculate_taken (U : iscsi_util) (ops : iscsi_ops) (cmd : iscsi_cmd)
    (pdu_offset pdu_length : Nat) : Nat :=
  if ops.DataSequenceInOrder then
    if ops.DataPDUInOrder then 0 else received_in_sequence cmd (cmd.pdu_list.getD [])
  else
    match (U.iscsi_get_seq_holder cmd pdu_offset pdu_length).bind
        (fun i => (cmd.seq_at i).map (fun seq => (i, seq))) with
    | none => 0
    | some (_, seq) => sub32 seq.offset seq.orig_offset

/-- A receive path on which everything arrives and every digest matches. -/
def rx_ok : immediate_rx := {}

/-- The WRITE command of scenario S2 when its SCSI Command PDU is handled:
9000 bytes to write, nothing received yet. -/
def cmd_s2_start : iscsi_cmd :=
  { init_task_tag := 2, data_length := 9000, data_direction := DMA_TO_DEVICE,
    iscsi_opcode := ISCSI_INIT_SCSI_CMND, i_state := ISTATE_NEW_CMD, immediate_data := true,
    unsolicited_data := true, icf_non_immediate_unsolicited_data := true,
    first_burst_len := 4096 }

/-! ## The checks of the DataOut handler (`iscsi_handle_data_out` of `iscsi_target.c`) -/

/-- How far a PDU handler gets through its checks: it has returned `ret`, having
queued the Reject `rej` if any; it has returned what `iscsi_dump_data_payload`
returns; or the checks have passed and the handler goes on. -/
inductive handler_result where
  | returned (ret : Int) (rej : Option iscsi_reject)
  | dumped
  | proceed
  deriving DecidableEq, Repr

/-- The fields of the header `struct iscsi_init_scsi_data_out` after
`be32_to_cpu`; each is a `__u32`, `lun` a `__u64`. -/
structure iscsi_init_scsi_data_out where
  flags : Nat := 0
  length : Nat := 0
  lun : Nat := 0
  init_task_tag : Nat := 0
  targ_xfer_tag : Nat := 0
  exp_stat_sn : Nat := 0
  data_sn : Nat := 0
  offset : Nat := 0
  deriving DecidableEq, Repr

/-- The function `iscsi_handle_data_out` up to its bounds check
`(hdr->offset + hdr->length) > cmd->data_length`; `found` is the command that
`iscsi_find_cmd_from_itt_or_dump` returns, `none` for `NULL`. The statistics
and the DataOUT timer are not part of the model. -/
def iscsi_handle_data_out (U : iscsi_util) (ops : iscsi_ops) (found : Option iscsi_cmd)
    (hdr : iscsi_init_scsi_data_out) : handler_result :=
  if hdr.length = 0 then
    handler_result.returned (iscsi_add_reject U REASON_PROTOCOL_ERR true).1
      (iscsi_add_reject U REASON_PROTOCOL_ERR true).2
  else if hdr.length > ops.MaxRecvDataSegmentLength then
    handler_result.returned (iscsi_add_reject U REASON_PROTOCOL_ERR true).1
      (iscsi_add_reject U REASON_PROTOCOL_ERR true).2
  else
    match found with
    | none => handler_result.returned 0 none
    | some cmd =>
      if cmd.icf_got_last_dataout then handler_result.dumped
      else if cmd.data_direction ≠ DMA_TO_DEVICE then
        handler_result.returned (iscsi_add_reject_from_cmd U REASON_PROTOCOL_ERR true cmd).1
          (iscsi_add_reject_from_cmd U REASON_PROTOCOL_ERR true cmd).2.2
      else if add32 hdr.offset hdr.length > cmd.data_length then
        handler_result.returned (iscsi_add_reject_from_cmd U REASON_INVALID_PDU_FIELD true cmd).1
          (iscsi_add_reject_from_cmd U REASON_INVALID_PDU_FIELD true cmd).2.2
      else handler_result.proceed

/-- A write command of 8192 bytes that waits for DataOut. -/
def cmd_write_8192 : iscsi_cmd :=
  { init_task_tag := 4, data_length := 8192, data_direction := DMA_TO_DEVICE,
    iscsi_opcode := ISCSI_INIT_SCSI_CMND }

/-- A DataOut header with offset `0xFFFFF000` and length 8192: its end lies
4096 bytes beyond `2^32`. -/
def hdr_data_out_wrap : iscsi_init_scsi_data_out :=
  { init_task_tag := 4, offset := 0xFFFFF000, length := 8192, flags := F_BIT }

/-! ## Data SNACK and Data ACK (`iscsi_handle_recovery_datain`, `iscsi_handle_data_ack` of `iscsi_target_erl1.c`) -/

/-- The function `iscsi_attach_datain_req` of `iscsi_target_datain_values.c`:
the request goes to the tail of the command's list. -/
def iscsi_attach_datain_req (cmd : iscsi_cmd) (dr : iscsi_datain_req) : iscsi_cmd :=
  { cmd with datain_list := cmd.datain_list ++ [dr] }

/-- The function `iscsi_handle_recovery_datain`: its return value, the command
and the Reject it has queued, if any. When it creates a recovery request it
puts the command on the response queue in the state `ISTATE_SEND_DATAIN`. -/
def iscsi_handle_recovery_datain (U : iscsi_util) (cmd : iscsi_cmd) (begrun runlength : Nat) :
    Int × iscsi_cmd × Option iscsi_reject :=
  if !cmd.t_transport_complete then (0, cmd, none)
  else if cmd.icf_got_datack_snack ∧ begrun ≤ cmd.acked_data_sn then
    iscsi_add_reject_from_cmd U REASON_PROTOCOL_ERR true cmd
  else if add32 begrun runlength > sub32 cmd.data_sn 1 then
    iscsi_add_reject_from_cmd U REASON_INVALID_PDU_FIELD true cmd
  else if !U.datain_req_alloc_ok then
    iscsi_add_reject_from_cmd U REASON_OUT_OF_RESOURCES true cmd
  else
    let dr : iscsi_datain_req :=
      { data_sn := begrun, begrun := begrun, runlength := runlength,
        generate_recovery_values := true, recovery := DATAIN_WITHIN_COMMAND_RECOVERY }
    let cmd : iscsi_cmd := iscsi_attach_datain_req cmd dr
    (0, { cmd with i_state := ISTATE_SEND_DATAIN }, none)

/-- The function `iscsi_handle_data_ack`: its return value and the command;
`found` is the command that `iscsi_find_cmd_from_ttt` returns, `none` for
`NULL`. -/
def iscsi_handle_data_ack (found : Option iscsi_cmd) (begrun : Nat) : Int × Option iscsi_cmd :=
  match found with
  | none => (-1, none)
  | some cmd =>
    if begrun ≤ cmd.acked_data_sn then (-1, some cmd)
    else
      (0, some { cmd with icf_got_datack_snack := true, acked_data_sn := sub32 begrun 1 })


/-- Session parameters with `ErrorRecoveryLevel = 1`,
`MaxRecvDataSegmentLength = 512` and `MaxBurstLength = 262144`, both orders Yes. -/
def ops_snack : iscsi_ops :=
  { MaxRecvDataSegmentLength := 512, MaxBurstLength := 262144, ErrorRecoveryLevel := 1 }

/-- A read command of 5120 bytes when its SCSI Command PDU has been handled and
the transport has completed it: nothing sent yet, a normal request queued. -/
def cmd_read_5120 : iscsi_cmd :=
  { init_task_tag := 5, targ_xfer_tag := 9, data_length := 5120,
    data_direction := DMA_FROM_DEVICE, iscsi_opcode := ISCSI_INIT_SCSI_CMND,
    t_transport_complete := true, datain_list := [{}] }

/-- The command `cmd_read_5120` after its ten DataIN PDUs (DataSN 0 to 9, 512
bytes each) have been sent and the request of the run has been freed. -/
def cmd_read_5120_sent : iscsi_cmd :=
  { cmd_read_5120 with
      data_sn := 10, read_data_done := 5120, next_burst_len := 4608, datain_list := [] }

/-- The read command `cmd_read_5120` before the transport has completed it. -/
def cmd_read_pending : iscsi_cmd :=
  { cmd_read_5120 with t_transport_complete := false }

/-- The command `cmd_read_5120_sent` after a Data ACK with BegRun 6 has been
accepted. -/
def cmd_read_5120_acked : iscsi_cmd :=
  { cmd_read_5120_sent with icf_got_datack_snack := true, acked_data_sn := 5 }

/-- The offsets and lengths of the DataIN PDUs that the (Yes, Yes) cursor
formula yields from the cursor `(next_burst_len, read_data_done)`, up to the
PDU that ends the command and at most `fuel` of them. -/
def cursor_pdus (ops : iscsi_ops) (dl : Nat) : Nat → Nat → Nat → List (Nat × Nat)
  | 0, _, _ => []
  | fuel + 1, nbl, rdd =>
    (rdd, burst_length ops dl nbl rdd) ::
      (if rdd + burst_length ops dl nbl rdd = dl then []
       else cursor_pdus ops dl fuel (burst_next ops dl nbl rdd)
              (rdd + burst_length ops dl nbl rdd))

/-- The offsets and lengths of the next `k` DataIN PDUs of the (Yes, Yes)
cursor formula from the cursor `(next_burst_len, read_data_done)`. -/
def cursor_first (ops : iscsi_ops) (dl : Nat) : Nat → Nat → Nat → List (Nat × Nat)
  | 0, _, _ => []
  | k + 1, nbl, rdd =>
    (rdd, burst_length ops dl nbl rdd) ::
      cursor_first ops dl k (burst_next ops dl nbl rdd) (rdd + burst_length ops dl nbl rdd)

/-- The cursor `(next_burst_len, read_data_done)` after `k` DataIN PDUs of the
(Yes, Yes) cursor formula. -/
def cursor_after (ops : iscsi_ops) (dl : Nat) : Nat → Nat → Nat → Nat × Nat
  | 0, nbl, rdd => (nbl, rdd)
  | k + 1, nbl, rdd =>
    cursor_after ops dl k (burst_next ops dl nbl rdd) (rdd + burst_length ops dl nbl rdd)

/-- None of the next `k` DataIN PDUs from the cursor ends the command. -/
def nonfinal_run (ops : iscsi_ops) (dl : Nat) : Nat → Nat → Nat → Prop
  | 0, _, _ => True
  | k + 1, nbl, rdd =>
    rdd + burst_length ops dl nbl rdd ≠ dl ∧
    nonfinal_run ops dl k (burst_next ops dl nbl rdd) (rdd + burst_length ops dl nbl rdd)

/-- The offset and the length of a generated DataIN. -/
def pdu_span (p : iscsi_datain × iscsi_datain_req) : Nat × Nat := (p.1.offset, p.1.length)

/-- Session parameters with the given DataSequenceInOrder and DataPDUInOrder. -/
def ops_orders (seq_in_order pdu_in_order : Bool) : iscsi_ops :=
  { DataSequenceInOrder := seq_in_order, DataPDUInOrder := pdu_in_order,
    MaxRecvDataSegmentLength := 512 }

/-- A read command of 5120 bytes with all its data sent
(`read_data_done = data_length`, ten DataIN PDUs) and a normal request on its
list. -/
def cmd_read_5120_done : iscsi_cmd :=
  { cmd_read_5120_sent with datain_list := [{}] }

/-! ## Building the response PDUs (`iscsi_send_*` of `iscsi_target.c`) -/

/-- Modelled from the spec: `iscsi_protocol.h` is not among the sources; the
opcode of a NOP-In PDU (RFC 3720). -/
def ISCSI_TARG_NOP_IN : Nat := 0x20

/-- Modelled from the spec: `iscsi_protocol.h` is not among the sources; the
opcode of a SCSI Response PDU (RFC 3720). -/
def ISCSI_TARG_SCSI_RSP : Nat := 0x21

/-- Modelled from the spec: `iscsi_protocol.h` is not among the sources; the
opcode of a Task Management Function Response PDU (RFC 3720). -/
def ISCSI_TARG_TASK_MGMT_RSP : Nat := 0x22

/-- Modelled from the spec: `iscsi_protocol.h` is not among the sources; the
opcode of a Text Response PDU (RFC 3720). -/
def ISCSI_TARG_TEXT_RSP : Nat := 0x24

/-- Modelled from the spec: `iscsi_protocol.h` is not among the sources; the
opcode of a Logout Response PDU (RFC 3720). -/
def ISCSI_TARG_LOGOUT_RSP : Nat := 0x26

/-- Modelled from the spec: `iscsi_protocol.h` is not among the sources; the
opcode of an R2T PDU (RFC 3720). -/
def ISCSI_TARG_R2T : Nat := 0x31

/-- Modelled from the spec: `iscsi_protocol.h` is not among the sources; the
length in bytes of the basic header segment of a PDU (RFC 3720). -/
def ISCSI_HDR_LEN : Nat := 48

/-- Modelled from the spec: `iscsi_protocol.h` is not among the sources; the
Logout response "connection or session closed successfully" (RFC 3720). -/
def CONNORSESSCLOSEDSUCCESSFULLY : Nat := 0

/-- What a builder of a PDU header leaves behind: its return value, the header
it built in `cmd->pdu` (`none` when it returned before building one), the
command, the connection and the session. -/
structure send_result (H : Type) where
  ret : Int
  hdr : Option H
  cmd : iscsi_cmd
  conn : iscsi_conn
  sess : iscsi_session

/-- The header `struct iscsi_targ_scsi_rsp` of a SCSI Response PDU, as far as
`iscsi_send_status` fills it; the values are those before `cpu_to_be32`. -/
structure iscsi_targ_scsi_rsp where
  opcode : Nat := 0
  flags : Nat := 0
  response : Nat := 0
  status : Nat := 0
  length : Nat := 0
  init_task_tag : Nat := 0
  stat_sn : Nat := 0
  exp_cmd_sn : Nat := 0
  max_cmd_sn : Nat := 0
  res_count : Nat := 0
  deriving DecidableEq, Repr

/-- The header `struct iscsi_targ_logout_rsp` of a Logout Response PDU. -/
structure iscsi_targ_logout_rsp where
  opcode : Nat := 0
  flags : Nat := 0
  response : Nat := 0
  init_task_tag : Nat := 0
  stat_sn : Nat := 0
  exp_cmd_sn : Nat := 0
  max_cmd_sn : Nat := 0
  deriving DecidableEq, Repr

/-- The header `struct iscsi_targ_nop_in` of a NOP-In PDU. -/
structure iscsi_targ_nop_in where
  opcode : Nat := 0
  flags : Nat := 0
  length : Nat := 0
  lun : Nat := 0
  init_task_tag : Nat := 0
  targ_xfer_tag : Nat := 0
  stat_sn : Nat := 0
  exp_cmd_sn : Nat := 0
  max_cmd_sn : Nat := 0
  deriving DecidableEq, Repr

/-- The header `struct iscsi_targ_task_mgt_rsp` of a Task Management Response
PDU; `response` holds the code that `iscsi_convert_tcm_tmr_rsp` returns. -/
structure iscsi_targ_task_mgt_rsp where
  opcode : Nat := 0
  response : iscsi_tmf_rsp := ISCSI_TMF_RSP_COMPLETE
  init_task_tag : Nat := 0
  stat_sn : Nat := 0
  exp_cmd_sn : Nat := 0
  max_cmd_sn : Nat := 0
  deriving DecidableEq, Repr

/-- The header `struct iscsi_targ_text_rsp` of a Text Response PDU. -/
structure iscsi_targ_text_rsp where
  opcode : Nat := 0
  flags : Nat := 0
  length : Nat := 0
  init_task_tag : Nat := 0
  targ_xfer_tag : Nat := 0
  stat_sn : Nat := 0
  exp_cmd_sn : Nat := 0
  max_cmd_sn : Nat := 0
  deriving DecidableEq, Repr

/-- The header `struct iscsi_targ_rjt` of a Reject PDU; `reason` is written by
`iscsi_add_reject` or `iscsi_add_reject_from_cmd` when the Reject is queued. -/
structure iscsi_targ_rjt where
  opcode : Nat := 0
  reserved1 : Nat := 0
  reason : reject_reason := REASON_PROTOCOL_ERR
  length : Nat := 0
  reserved3 : Nat := 0
  stat_sn : Nat := 0
  exp_cmd_sn : Nat := 0
  max_cmd_sn : Nat := 0
  deriving DecidableEq, Repr

/-- The header `struct iscsi_targ_r2t` of an R2T PDU. -/
structure iscsi_targ_r2t where
  opcode : Nat := 0
  flags : Nat := 0
  lun : Nat := 0
  init_task_tag : Nat := 0
  targ_xfer_tag : Nat := 0
  stat_sn : Nat := 0
  exp_cmd_sn : Nat := 0
  max_cmd_sn : Nat := 0
  r2t_sn : Nat := 0
  offset : Nat := 0
  xfer_len : Nat := 0
  deriving DecidableEq, Repr

/-- The function `iscsi_send_status`, as far as the header, the command, the
connection and the session go: `recovery` is `cmd->i_state != ISTATE_SEND_STATUS`,
and only without it `cmd->stat_sn = conn->stat_sn++` runs. The session
statistics, the iovec of the sense data and the digests are not modelled. -/
def iscsi_send_status (U : iscsi_util) (cmd : iscsi_cmd) (conn : iscsi_conn)
    (sess : iscsi_session) : send_result iscsi_targ_scsi_rsp :=
  let recovery := cmd.i_state != ISTATE_SEND_STATUS
  let cmd1 : iscsi_cmd := if !recovery then { cmd with stat_sn := conn.stat_sn } else cmd
  let conn1 : iscsi_conn :=
    if !recovery then { conn with stat_sn := add32 conn.stat_sn 1 } else conn
  let inc := U.iscsi_increment_maxcmdsn cmd1 sess
  let hdr : iscsi_targ_scsi_rsp :=
    { opcode := ISCSI_TARG_SCSI_RSP
      flags :=
        if cmd1.overflow_bit then F_BIT ||| O_BIT
        else if cmd1.underflow_bit then F_BIT ||| U_BIT
        else F_BIT
      res_count := if cmd1.overflow_bit || cmd1.underflow_bit then cmd1.residual_count else 0
      response := cmd1.iscsi_response
      status := cmd1.scsi_status
      length :=
        if inc.1.sense_buffer && (inc.1.transport_task_sense || inc.1.emulated_task_sense) then
          inc.1.scsi_sense_length
        else 0
      init_task_tag := cmd1.init_task_tag
      stat_sn := cmd1.stat_sn
      exp_cmd_sn := inc.2.exp_cmd_sn
      max_cmd_sn := inc.2.max_cmd_sn }
  { ret := 0, hdr := some hdr, cmd := inc.1, conn := conn1, sess := inc.2 }

/-- The `switch (cmd->logout_reason)` of `iscsi_send_logout_response`: the new
`cmd->logout_response`, `none` at the `default` label. The reinstatement of a
connection that is still active and `iscsi_discard_cr_cmds_by_expstatsn` are not
modelled. -/
def logout_response_code (U : iscsi_util) (cmd : iscsi_cmd) : Option Nat :=
  if cmd.logout_reason = CLOSESESSION then some CONNORSESSCLOSEDSUCCESSFULLY
  else if cmd.logout_reason = CLOSECONNECTION then
    if cmd.logout_response = CIDNOTFOUND then some cmd.logout_response
    else some CONNORSESSCLOSEDSUCCESSFULLY
  else if cmd.logout_reason = REMOVECONNFORRECOVERY then
    if cmd.logout_response = CONNRECOVERYNOTSUPPORTED ∨ cmd.logout_response = CLEANUPFAILED then
      some cmd.logout_response
    else if !U.iscsi_get_inactive_connection_recovery_entry cmd.logout_cid then
      some CIDNOTFOUND
    else some CONNORSESSCLOSEDSUCCESSFULLY
  else none

/-- The function `iscsi_send_logout_response`, as far as the header, the
command, the connection and the session go. -/
def iscsi_send_logout_response (U : iscsi_util) (cmd : iscsi_cmd) (conn : iscsi_conn)
    (sess : iscsi_session) : send_result iscsi_targ_logout_rsp :=
  match logout_response_code U cmd with
  | none => { ret := -1, hdr := none, cmd := cmd, conn := conn, sess := sess }
  | some response =>
    let cmd1 : iscsi_cmd := { cmd with logout_response := response, stat_sn := conn.stat_sn }
    let inc := U.iscsi_increment_maxcmdsn cmd1 sess
    let hdr : iscsi_targ_logout_rsp :=
      { opcode := ISCSI_TARG_LOGOUT_RSP
        flags := F_BIT
        response := response
        init_task_tag := cmd1.init_task_tag
        stat_sn := cmd1.stat_sn
        exp_cmd_sn := inc.2.exp_cmd_sn
        max_cmd_sn := inc.2.max_cmd_sn }
    { ret := 0, hdr := some hdr, cmd := inc.1
      conn := { conn with stat_sn := add32 conn.stat_sn 1 }, sess := inc.2 }

/-- The function `iscsi_send_unsolicited_nopin`, as far as the header, the
command, the connection and the session go; its body does not read its third
argument `want_response`. It reads `conn->stat_sn` without advancing it. -/
def iscsi_send_unsolicited_nopin (U : iscsi_util) (cmd : iscsi_cmd) (conn : iscsi_conn)
    (sess : iscsi_session) : send_result iscsi_targ_nop_in :=
  let cmd1 : iscsi_cmd := { cmd with stat_sn := conn.stat_sn }
  let hdr : iscsi_targ_nop_in :=
    { opcode := ISCSI_TARG_NOP_IN
      flags := F_BIT
      length := 0
      lun := U.iscsi_pack_lun 0
      init_task_tag := cmd.init_task_tag
      targ_xfer_tag := cmd.targ_xfer_tag
      stat_sn := cmd1.stat_sn
      exp_cmd_sn := sess.exp_cmd_sn
      max_cmd_sn := sess.max_cmd_sn }
  { ret := 0, hdr := some hdr, cmd := cmd1, conn := conn, sess := sess }

/-- The function `iscsi_send_nopin_response`, as far as the header, the
command, the connection and the session go: `cmd->stat_sn = conn->stat_sn++`.
The iovec of the ping data, the padding and the digests are not modelled. -/
def iscsi_send_nopin_response (U : iscsi_util) (cmd : iscsi_cmd) (conn : iscsi_conn)
    (sess : iscsi_session) : send_result iscsi_targ_nop_in :=
  let cmd1 : iscsi_cmd := { cmd with stat_sn := conn.stat_sn }
  let inc := U.iscsi_increment_maxcmdsn cmd1 sess
  let hdr : iscsi_targ_nop_in :=
    { opcode := ISCSI_TARG_NOP_IN
      flags := F_BIT
      length := cmd.buf_ptr_size
      lun := 0xFFFFFFFFFFFFFFFF
      init_task_tag := cmd.init_task_tag
      targ_xfer_tag := cmd.targ_xfer_tag
      stat_sn := cmd1.stat_sn
      exp_cmd_sn := inc.2.exp_cmd_sn
      max_cmd_sn := inc.2.max_cmd_sn }
  { ret := 0, hdr := some hdr, cmd := inc.1
    conn := { conn with stat_sn := add32 conn.stat_sn 1 }, sess := inc.2 }

/-- The function `iscsi_send_r2t`, as far as the header, the command, the
connection and the session go: the R2T that `iscsi_get_r2t_from_list` finds
takes the session's next target transfer tag (skipping `0xFFFFFFFF`) and is
marked sent; `hdr->stat_sn` is `conn->stat_sn`, which is not advanced. -/
def iscsi_send_r2t (U : iscsi_util) (cmd : iscsi_cmd) (conn : iscsi_conn)
    (sess : iscsi_session) : send_result iscsi_targ_r2t :=
  match (U.iscsi_get_r2t_from_list cmd).bind
      (fun i => (cmd.r2t_list.get? i).map (fun r2t => (i, r2t))) with
  | none => { ret := -1, hdr := none, cmd := cmd, conn := conn, sess := sess }
  | some (i, r2t) =>
    let skip := sess.targ_xfer_tag = 0xFFFFFFFF
    let ttt := if skip then add32 sess.targ_xfer_tag 1 else sess.targ_xfer_tag
    let sess1 : iscsi_session :=
      { sess with
          targ_xfer_tag :=
            if skip then add32 (add32 sess.targ_xfer_tag 1) 1 else add32 sess.targ_xfer_tag 1 }
    let r2t1 : iscsi_r2t := { r2t with targ_xfer_tag := ttt, sent_r2t := true }
    let hdr : iscsi_targ_r2t :=
      { opcode := ISCSI_TARG_R2T
        flags := F_BIT
        lun := U.iscsi_pack_lun cmd.orig_fe_lun
        init_task_tag := cmd.init_task_tag
        targ_xfer_tag := ttt
        stat_sn := conn.stat_sn
        exp_cmd_sn := sess1.exp_cmd_sn
        max_cmd_sn := sess1.max_cmd_sn
        r2t_sn := r2t.r2t_sn
        offset := r2t.offset
        xfer_len := r2t.xfer_len }
    { ret := 0, hdr := some hdr, cmd := { cmd with r2t_list := cmd.r2t_list.set i r2t1 }
      conn := conn, sess := sess1 }

/-- The function `iscsi_convert_tcm_tmr_rsp`. -/
def iscsi_convert_tcm_tmr_rsp : tcm_tmr_rsp → iscsi_tmf_rsp
  | TMR_FUNCTION_COMPLETE => ISCSI_TMF_RSP_COMPLETE
  | TMR_TASK_DOES_NOT_EXIST => ISCSI_TMF_RSP_NO_TASK
  | TMR_LUN_DOES_NOT_EXIST => ISCSI_TMF_RSP_NO_LUN
  | TMR_TASK_MGMT_FUNCTION_NOT_SUPPORTED => ISCSI_TMF_RSP_NOT_SUPPORTED
  | TMR_FUNCTION_AUTHORIZATION_FAILED => ISCSI_TMF_RSP_AUTH_FAILED
  | TMR_FUNCTION_REJECTED => ISCSI_TMF_RSP_REJECTED

/-- The function `iscsi_send_task_mgt_rsp`, as far as the header, the command,
the connection and the session go. -/
def iscsi_send_task_mgt_rsp (U : iscsi_util) (cmd : iscsi_cmd) (conn : iscsi_conn)
    (sess : iscsi_session) : send_result iscsi_targ_task_mgt_rsp :=
  let cmd1 : iscsi_cmd := { cmd with stat_sn := conn.stat_sn }
  let inc := U.iscsi_increment_maxcmdsn cmd1 sess
  let hdr : iscsi_targ_task_mgt_rsp :=
    { opcode := ISCSI_TARG_TASK_MGMT_RSP
      response := iscsi_convert_tcm_tmr_rsp cmd.tmr_response
      init_task_tag := cmd.init_task_tag
      stat_sn := cmd1.stat_sn
      exp_cmd_sn := inc.2.exp_cmd_sn
      max_cmd_sn := inc.2.max_cmd_sn }
  { ret := 0, hdr := some hdr, cmd := inc.1
    conn := { conn with stat_sn := add32 conn.stat_sn 1 }, sess := inc.2 }

/-- The function `iscsi_send_text_rsp`, as far as the header, the command, the
connection and the session go; the text itself, its padding and the digests are
not modelled. -/
def iscsi_send_text_rsp (U : iscsi_util) (cmd : iscsi_cmd) (conn : iscsi_conn)
    (sess : iscsi_session) : send_result iscsi_targ_text_rsp :=
  let text_length := U.iscsi_build_sendtargets_response cmd
  let cmd1 : iscsi_cmd := { cmd with stat_sn := conn.stat_sn }
  let inc := U.iscsi_increment_maxcmdsn cmd1 sess
  let hdr : iscsi_targ_text_rsp :=
    { opcode := ISCSI_TARG_TEXT_RSP
      flags := F_BIT
      length := text_length
      init_task_tag := cmd.init_task_tag
      targ_xfer_tag := cmd.targ_xfer_tag
      stat_sn := cmd1.stat_sn
      exp_cmd_sn := inc.2.exp_cmd_sn
      max_cmd_sn := inc.2.max_cmd_sn }
  { ret := 0, hdr := some hdr, cmd := inc.1
    conn := { conn with stat_sn := add32 conn.stat_sn 1 }, sess := inc.2 }

/-- The function `iscsi_send_reject`, as far as the header, the command, the
connection and the session go. The function does not clear `cmd->pdu`; `pdu` is
the header as the queueing of the Reject has left it. -/
def iscsi_send_reject (pdu : iscsi_targ_rjt) (cmd : iscsi_cmd) (conn : iscsi_conn)
    (sess : iscsi_session) : send_result iscsi_targ_rjt :=
  let cmd1 : iscsi_cmd := { cmd with stat_sn := conn.stat_sn }
  let hdr : iscsi_targ_rjt :=
    { pdu with
        opcode := ISCSI_TARG_RJT
        reserved1 := pdu.reserved1 ||| F_BIT
        length := ISCSI_HDR_LEN
        reserved3 := 0xffffffff
        stat_sn := cmd1.stat_sn
        exp_cmd_sn := sess.exp_cmd_sn
        max_cmd_sn := sess.max_cmd_sn }
  { ret := 0, hdr := some hdr, cmd := cmd1
    conn := { conn with stat_sn := add32 conn.stat_sn 1 }, sess := sess }

/-- The link between the completion mark of a DataIN request and `S_BIT` that
`iscsi_send_data_in` relies on when it takes a new StatSN: if the call returns
a request, the request is marked `DATAIN_COMPLETE_NORMAL` or
`DATAIN_COMPLETE_CONNECTION_RECOVERY` exactly when the `datain` record carries
`S_BIT` and the request `dr0` is not a within-command recovery. -/
def stat_complete_ok (dr0 : iscsi_datain_req)
    (r : Option iscsi_datain_req × iscsi_cmd × iscsi_datain) : Prop :=
  ∀ dr, r.1 = some dr →
    ((dr.dr_complete = DATAIN_COMPLETE_NORMAL ∨
        dr.dr_complete = DATAIN_COMPLETE_CONNECTION_RECOVERY) ↔
      (has_bit r.2.2.flags S_BIT = true ∧ dr0.recovery ≠ DATAIN_WITHIN_COMMAND_RECOVERY))

/-- The connection of scenario S1: the next StatSN is 7. -/
def conn_s1 : iscsi_conn := { stat_sn := 7 }

/-- The session of scenario S1: `ExpCmdSN = 11`, `MaxCmdSN = 42`. -/
def sess_s1 : iscsi_session := { exp_cmd_sn := 11, max_cmd_sn := 42 }

/-- A command whose SCSI Response is to be sent for the first time. -/
def cmd_status : iscsi_cmd := { init_task_tag := 1, i_state := ISTATE_SEND_STATUS }

/-- A command whose SCSI Response, sent with StatSN 5, is sent again for a
recovery. -/
def cmd_status_recovery : iscsi_cmd :=
  { init_task_tag := 1, i_state := ISTATE_SEND_STATUS_RECOVERY, stat_sn := 5 }

/-- A Logout Request that closes the session. -/
def cmd_logout : iscsi_cmd :=
  { init_task_tag := 9, iscsi_opcode := ISCSI_INIT_LOGOUT_CMND, logout_reason := CLOSESESSION,
    i_state := ISTATE_SEND_LOGOUTRSP }

/-- A connection whose next StatSN is the last 32-bit value. -/
def conn_last : iscsi_conn := { stat_sn := 0xFFFFFFFF }

/-! ## Header checks of the PDU handlers (`iscsi_handle_scsi_cmd`, `iscsi_handle_nop_out`, `iscsi_handle_text_cmd` of `iscsi_target.c`) -/

/-- Modelled from the spec: `iscsi_protocol.h` is not among the sources; the
Immediate bit of the opcode byte of a request PDU (RFC 3720, bit 6). -/
def I_BIT : Nat := 0x40

/-- Modelled from the spec: `iscsi_protocol.h` is not among the sources; the
Read bit of the flags byte of a SCSI Command PDU (RFC 3720, bit 6). -/
def R_BIT : Nat := 0x40

/-- Modelled from the spec: `iscsi_protocol.h` is not among the sources; the
Write bit of the flags byte of a SCSI Command PDU (RFC 3720, bit 5). -/
def W_BIT : Nat := 0x20

/-- The fields of the header `struct iscsi_init_scsi_cmnd` that
`iscsi_handle_scsi_cmd` reads, after `be32_to_cpu`; `cdb` holds the bytes of the
SCSI CDB. -/
structure iscsi_init_scsi_cmnd where
  opcode : Nat := 0
  flags : Nat := 0
  length : Nat := 0
  lun : Nat := 0
  init_task_tag : Nat := 0
  exp_xfer_len : Nat := 0
  cmd_sn : Nat := 0
  exp_stat_sn : Nat := 0
  cdb : List Nat := []
  deriving DecidableEq, Repr

/-- The fields of the header `struct iscsi_init_nop_out` after `be32_to_cpu`. -/
structure iscsi_init_nop_out where
  opcode : Nat := 0
  length : Nat := 0
  lun : Nat := 0
  init_task_tag : Nat := 0
  targ_xfer_tag : Nat := 0
  cmd_sn : Nat := 0
  exp_stat_sn : Nat := 0
  deriving DecidableEq, Repr

/-- The fields of the header `struct iscsi_init_text_cmnd` after `be32_to_cpu`. -/
structure iscsi_init_text_cmnd where
  opcode : Nat := 0
  length : Nat := 0
  init_task_tag : Nat := 0
  targ_xfer_tag : Nat := 0
  cmd_sn : Nat := 0
  exp_stat_sn : Nat := 0
  deriving DecidableEq, Repr

/-- A handler's `return iscsi_add_reject(reason, 1, buf, conn)`. -/
def reject_and_fail (U : iscsi_util) (reason : reject_reason) : handler_result :=
  handler_result.returned (iscsi_add_reject U reason true).1 (iscsi_add_reject U reason true).2

/-- The function `iscsi_handle_scsi_cmd` up to the call of
`iscsi_allocate_se_cmd`: the checks of the header, in the order of the source.
The check of `InitialR2T` stands between `#if 0` and `#endif` in the source and
is not part of the function. For a RESERVE or RELEASE CDB (`0x16`, `0x17`) with
`R_BIT` or `W_BIT` and no expected data the two bits are cleared in the header
and the checks go on. The session statistics are not modelled. -/
def iscsi_handle_scsi_cmd (U : iscsi_util) (ops : iscsi_ops) (hdr : iscsi_init_scsi_cmnd) :
    handler_result :=
  if !has_bit hdr.flags W_BIT && !has_bit hdr.flags F_BIT then
    reject_and_fail U REASON_INVALID_PDU_FIELD
  else
    let no_data := (has_bit hdr.flags R_BIT || has_bit hdr.flags W_BIT) && hdr.exp_xfer_len == 0
    let reserve_release := hdr.cdb.headD 0 == 0x16 || hdr.cdb.headD 0 == 0x17
    if no_data && !reserve_release then reject_and_fail U REASON_INVALID_PDU_FIELD
    else
      let hdr : iscsi_init_scsi_cmnd :=
        if no_data then { hdr with flags := clear_bit (clear_bit hdr.flags R_BIT) W_BIT }
        else hdr
      if !has_bit hdr.flags R_BIT && !has_bit hdr.flags W_BIT && hdr.exp_xfer_len != 0 then
        reject_and_fail U REASON_INVALID_PDU_FIELD
      else if has_bit hdr.flags R_BIT && has_bit hdr.flags W_BIT then
        reject_and_fail U REASON_INVALID_PDU_FIELD
      else if has_bit hdr.opcode I_BIT then
        reject_and_fail U REASON_INVALID_PDU_FIELD
      else if hdr.length != 0 && !ops.ImmediateData then
        reject_and_fail U REASON_PROTOCOL_ERR
      else if hdr.exp_xfer_len == hdr.length && !has_bit hdr.flags F_BIT then
        reject_and_fail U REASON_PROTOCOL_ERR
      else if hdr.length > hdr.exp_xfer_len then
        reject_and_fail U REASON_PROTOCOL_ERR
      else if hdr.length > ops.MaxRecvDataSegmentLength then
        reject_and_fail U REASON_PROTOCOL_ERR
      else if hdr.length > ops.FirstBurstLength then
        reject_and_fail U REASON_INVALID_PDU_FIELD
      else if has_bit hdr.opcode I_BIT then
        reject_and_fail U REASON_INVALID_PDU_FIELD
      else handler_result.proceed

/-- What the receive path delivers to `iscsi_handle_nop_out` for the ping data:
whether `kzalloc` has given the buffer, whether `rx_data` has read all the bytes
asked for, and whether the received DataDigest equals the computed one. -/
structure ping_rx where
  alloc_ok : Bool := true
  rx_complete : Bool := true
  crc_ok : Bool := true
  deriving DecidableEq, Repr

/-- What `iscsi_handle_nop_out` leaves behind: its return value, the Reject it
has queued (if any), the command that stays with the connection (`none` when
there is none or it went back to the pool), and whether that command was put on
the response queue or on the immediate queue by the handler itself. -/
structure nop_out_result where
  ret : Int
  rej : Option iscsi_reject := none
  cmd : Option iscsi_cmd := none
  response_queue : Bool := false
  immediate_queue : Bool := false
  deriving DecidableEq, Repr

/-- The command that `iscsi_handle_nop_out` sets up for a NOP-Out whose target
transfer tag is `0xFFFFFFFF`; the command that `iscsi_allocate_cmd` returns is
taken as zeroed. -/
def nop_out_cmd (hdr : iscsi_init_nop_out) : iscsi_cmd :=
  { iscsi_opcode := ISCSI_INIT_NOP_OUT
    i_state := ISTATE_SEND_NOPIN
    immediate_cmd := has_bit hdr.opcode I_BIT
    init_task_tag := hdr.init_task_tag
    targ_xfer_tag := 0xFFFFFFFF
    cmd_sn := hdr.cmd_sn
    exp_stat_sn := hdr.exp_stat_sn
    data_direction := DMA_NONE }

/-- The function `iscsi_handle_nop_out`; `found` is the command that
`iscsi_find_cmd_from_ttt` returns, `none` for `NULL`. The NopIn timers and
`iscsi_ack_from_expstatsn` are not modelled, and of the ping data only its
length is kept (`cmd->buf_ptr_size`). -/
def iscsi_handle_nop_out (U : iscsi_util) (ops : iscsi_ops) (rx : ping_rx)
    (found : Option iscsi_cmd) (hdr : iscsi_init_nop_out) : nop_out_result :=
  if hdr.init_task_tag = 0xFFFFFFFF ∧ ¬ has_bit hdr.opcode I_BIT then
    { ret := (iscsi_add_reject U REASON_PROTOCOL_ERR true).1
      rej := (iscsi_add_reject U REASON_PROTOCOL_ERR true).2 }
  else if hdr.length > ops.MaxRecvDataSegmentLength then
    { ret := (iscsi_add_reject U REASON_PROTOCOL_ERR true).1
      rej := (iscsi_add_reject U REASON_PROTOCOL_ERR true).2 }
  else if hdr.targ_xfer_tag = 0xFFFFFFFF ∧ ¬ U.iscsi_allocate_cmd_ok then
    { ret := (iscsi_add_reject U REASON_OUT_OF_RESOURCES true).1
      rej := (iscsi_add_reject U REASON_OUT_OF_RESOURCES true).2 }
  else
    let cmd : Option iscsi_cmd :=
      if hdr.targ_xfer_tag = 0xFFFFFFFF then some (nop_out_cmd hdr) else none
    let with_data := hdr.length ≠ 0 ∧ hdr.targ_xfer_tag = 0xFFFFFFFF
    if with_data ∧ ¬ rx.alloc_ok then { ret := -1 }
    else if with_data ∧ ¬ rx.rx_complete then { ret := -1 }
    else if with_data ∧ ops.DataDigest ∧ ¬ rx.crc_ok then
      if ops.ErrorRecoveryLevel = 0 then { ret := -1 } else { ret := 0 }
    else
      let cmd : Option iscsi_cmd :=
        if with_data then cmd.map (fun c => { c with buf_ptr_size := hdr.length }) else cmd
      if hdr.init_task_tag ≠ 0xFFFFFFFF then
        match cmd with
        | none => { ret := -1 }
        | some c =>
          if has_bit hdr.opcode I_BIT then { ret := 0, cmd := some c, response_queue := true }
          else
            match U.iscsi_check_received_cmdsn c hdr.cmd_sn with
            | CMDSN_NORMAL_OPERATION => { ret := 0, cmd := some c }
            | CMDSN_HIGHER_THAN_EXP => { ret := 0, cmd := some c }
            | CMDSN_LOWER_THAN_EXP =>
              { ret := 0, cmd := some { c with i_state := ISTATE_REMOVE }
                immediate_queue := true }
            | CMDSN_ERROR_CANNOT_RECOVER =>
              { ret := (iscsi_add_reject_from_cmd U REASON_PROTOCOL_ERR true c).1
                rej := (iscsi_add_reject_from_cmd U REASON_PROTOCOL_ERR true c).2.2
                cmd := some (iscsi_add_reject_from_cmd U REASON_PROTOCOL_ERR true c).2.1 }
      else if hdr.targ_xfer_tag ≠ 0xFFFFFFFF then
        match found with
        | none => { ret := -1 }
        | some c =>
          { ret := 0, cmd := some { c with i_state := ISTATE_REMOVE }, immediate_queue := true }
      else { ret := 0 }

/-- What the receive path delivers to `iscsi_handle_text_cmd` for the text:
whether `kzalloc` has given the buffer, whether `rx_data` has read all the bytes
asked for, whether the received DataDigest equals the computed one, and the
outcomes of the three tests on the text (it starts with `SendTargets`, it has a
`=`, the value starts with `=All`). -/
structure text_rx where
  alloc_ok : Bool := true
  rx_complete : Bool := true
  crc_ok : Bool := true
  is_sendtargets : Bool := true
  has_separator : Bool := true
  is_all : Bool := true
  deriving DecidableEq, Repr

/-- The function `iscsi_handle_text_cmd` up to the allocation of the command:
the check of the length, the receipt of the text and the tests on it. -/
def iscsi_handle_text_cmd (U : iscsi_util) (ops : iscsi_ops) (rx : text_rx)
    (hdr : iscsi_init_text_cmnd) : handler_result :=
  if hdr.length > ops.MaxRecvDataSegmentLength then reject_and_fail U REASON_PROTOCOL_ERR
  else if hdr.length ≠ 0 ∧ ¬ rx.alloc_ok then handler_result.returned (-1) none
  else if hdr.length ≠ 0 ∧ ¬ rx.rx_complete then handler_result.returned (-1) none
  else if hdr.length ≠ 0 ∧ ops.DataDigest ∧ ¬ rx.crc_ok then
    if ops.ErrorRecoveryLevel = 0 then handler_result.returned (-1) none
    else handler_result.returned 0 none
  else if hdr.length ≠ 0 ∧ ¬ rx.is_sendtargets then handler_result.returned (-1) none
  else if hdr.length ≠ 0 ∧ ¬ rx.has_separator then handler_result.returned (-1) none
  else if hdr.length ≠ 0 ∧ ¬ rx.is_all then handler_result.returned (-1) none
  else if ¬ U.iscsi_allocate_cmd_ok then reject_and_fail U REASON_OUT_OF_RESOURCES
  else handler_result.proceed

/-- The connection parameters of scenario S3: digests enabled. -/
def ops_s3 : iscsi_ops := { HeaderDigest := true, DataDigest := true }

/-- The NOP-Out of scenario S3: ITT `0x0000A001`, TTT `0xFFFFFFFF`, CmdSN 5,
32 bytes of ping data. -/
def hdr_s3 : iscsi_init_nop_out :=
  { opcode := ISCSI_INIT_NOP_OUT, length := 32, init_task_tag := 0x0000A001,
    targ_xfer_tag := 0xFFFFFFFF, cmd_sn := 5, exp_stat_sn := 7 }

/-- A write command header with `length` bytes of immediate data out of
16384. -/
def hdr_write_immediate (length : Nat) : iscsi_init_scsi_cmnd :=
  { opcode := ISCSI_INIT_SCSI_CMND, flags := F_BIT ||| W_BIT, length := length,
    init_task_tag := 2, exp_xfer_len := 16384, cmd_sn := 11, exp_stat_sn := 7,
    cdb := [0x2a, 0, 0, 0, 0, 0, 0, 0, 32, 0] }

/-- A write command of 16384 bytes that waits for DataOut. -/
def cmd_write_16384 : iscsi_cmd :=
  { init_task_tag := 2, data_length := 16384, data_direction := DMA_TO_DEVICE,
    iscsi_opcode := ISCSI_INIT_SCSI_CMND }

/-- A DataOut header for the second half of that command, with `length` bytes. -/
def hdr_data_out_second (length : Nat) : iscsi_init_scsi_data_out :=
  { init_task_tag := 2, offset := 8192, length := length, flags := F_BIT }

/-! ## The SCSI Command handler after its header checks (`iscsi_handle_scsi_cmd` of `iscsi_target.c`) -/

/-- The header of a SCSI Command at the label `done` of `iscsi_handle_scsi_cmd`:
for a PDU with `R_BIT` or `W_BIT` and no expected data that has got so far (a
RESERVE or RELEASE CDB) the two bits are cleared. -/
def scsi_cmd_hdr_done (hdr : iscsi_init_scsi_cmnd) : iscsi_init_scsi_cmnd :=
  if (has_bit hdr.flags R_BIT || has_bit hdr.flags W_BIT) && hdr.exp_xfer_len == 0 then
    { hdr with flags := clear_bit (clear_bit hdr.flags R_BIT) W_BIT }
  else hdr

/-- How `iscsi_handle_scsi_cmd` stands at `iscsi_attach_cmd_to_queue`: `ret` is
`some r` when the handler has returned `r` before that point, `rej` the Reject
it has queued (if any), `cmd` the command it has allocated (`none` if it has
allocated none), `attached` says that the command has been attached to the
connection, `send_check_condition` is the local variable of that name, and
`sess` is the session. -/
structure scsi_cmd_attach where
  ret : Option Int := none
  rej : Option iscsi_reject := none
  cmd : Option iscsi_cmd := none
  attached : Bool := false
  send_check_condition : Bool := false
  sess : iscsi_session
  deriving DecidableEq, Repr

/-- The return `iscsi_add_reject_from_cmd(REASON_OUT_OF_RESOURCES, 1, 1, buf, cmd)`
of `iscsi_handle_scsi_cmd` before the command is attached. -/
def scsi_cmd_out_of_resources (U : iscsi_util) (cmd : iscsi_cmd) (sess : iscsi_session) :
    scsi_cmd_attach :=
  { ret := some (iscsi_add_reject_from_cmd U REASON_OUT_OF_RESOURCES true cmd).1
    rej := (iscsi_add_reject_from_cmd U REASON_OUT_OF_RESOURCES true cmd).2.2
    cmd := some (iscsi_add_reject_from_cmd U REASON_OUT_OF_RESOURCES true cmd).2.1
    sess := sess }

/-- The function `iscsi_handle_scsi_cmd` from its start to
`iscsi_attach_cmd_to_queue`: the header checks (`iscsi_handle_scsi_cmd` above),
the allocation of the command, the fields it receives from the header, the
target transfer tag of a read, the DataIN request of a read, the LUN, the
transport tasks and the sequence and PDU lists. The field
`SESS(conn)->init_task_tag` is not modelled. -/
def iscsi_handle_scsi_cmd_attach (U : iscsi_util) (ops : iscsi_ops) (sess : iscsi_session)
    (hdr0 : iscsi_init_scsi_cmnd) : scsi_cmd_attach :=
  match iscsi_handle_scsi_cmd U ops hdr0 with
  | handler_result.returned ret rej => { ret := some ret, rej := rej, sess := sess }
  | handler_result.dumped => { ret := some (-1), sess := sess }
  | handler_result.proceed =>
    let hdr := scsi_cmd_hdr_done hdr0
    let data_direction :=
      if has_bit hdr.flags W_BIT then DMA_TO_DEVICE
      else if has_bit hdr.flags R_BIT then DMA_FROM_DEVICE
      else DMA_NONE
    match U.iscsi_allocate_se_cmd hdr.exp_xfer_len data_direction with
    | none =>
      { ret := some (iscsi_add_reject U REASON_OUT_OF_RESOURCES true).1
        rej := (iscsi_add_reject U REASON_OUT_OF_RESOURCES true).2, sess := sess }
    | some cmd0 =>
      let unsolicited := !has_bit hdr.flags F_BIT && has_bit hdr.flags W_BIT
      let skip := sess.targ_xfer_tag = 0xFFFFFFFF
      let sess1 : iscsi_session :=
        if has_bit hdr.flags R_BIT then
          { sess with
              targ_xfer_tag :=
                if skip then add32 (add32 sess.targ_xfer_tag 1) 1
                else add32 sess.targ_xfer_tag 1 }
        else sess
      let cmd : iscsi_cmd :=
        { cmd0 with
            iscsi_opcode := ISCSI_INIT_SCSI_CMND
            i_state := ISTATE_NEW_CMD
            immediate_cmd := has_bit hdr.opcode I_BIT
            immediate_data := hdr.length != 0
            unsolicited_data := unsolicited
            icf_non_immediate_unsolicited_data :=
              cmd0.icf_non_immediate_unsolicited_data || unsolicited
            init_task_tag := hdr.init_task_tag
            targ_xfer_tag :=
              if has_bit hdr.flags R_BIT then
                if skip then add32 sess.targ_xfer_tag 1 else sess.targ_xfer_tag
              else if has_bit hdr.flags W_BIT then 0xFFFFFFFF
              else cmd0.targ_xfer_tag
            cmd_sn := hdr.cmd_sn
            exp_stat_sn := hdr.exp_stat_sn
            first_burst_len := hdr.length }
      if cmd.data_direction = DMA_FROM_DEVICE ∧ ¬ U.datain_req_alloc_ok then
        scsi_cmd_out_of_resources U cmd sess1
      else
        let cmd : iscsi_cmd :=
          if cmd.data_direction = DMA_FROM_DEVICE then iscsi_attach_datain_req cmd {} else cmd
        match U.iscsi_get_lun_for_cmd cmd with
        | GET_LUN_OUT_OF_MEMORY => scsi_cmd_out_of_resources U cmd sess1
        | GET_LUN_FAILED =>
          { cmd := some cmd, attached := true, send_check_condition := true, sess := sess1 }
        | GET_LUN_OK =>
          if U.transport_generic_allocate_tasks cmd = -1 then
            scsi_cmd_out_of_resources U cmd sess1
          else if U.transport_generic_allocate_tasks cmd = -2 then
            { cmd := some cmd, attached := true, send_check_condition := true, sess := sess1 }
          else if (U.iscsi_decide_list_to_build cmd hdr.length).1 < 0 then
            scsi_cmd_out_of_resources U cmd sess1
          else
            { cmd := some { cmd with
                seq_list := (U.iscsi_decide_list_to_build cmd hdr.length).2.1
                pdu_list := (U.iscsi_decide_list_to_build cmd hdr.length).2.2 }
              attached := true, sess := sess1 }

/-- What `iscsi_handle_scsi_cmd` leaves behind: its return value, the Reject it
has queued (if any), the command it has allocated (`none` if it has allocated
none), whether the command has been attached to the connection, whether the
command has been put on the immediate queue for removal, and the session. -/
structure scsi_cmd_result where
  ret : Int
  rej : Option iscsi_reject := none
  cmd : Option iscsi_cmd := none
  attached : Bool := false
  immediate_queue : Bool := false
  sess : iscsi_session
  deriving DecidableEq, Repr

/-- The end of `iscsi_handle_scsi_cmd` after a CmdSN check: the result for the
value that `iscsi_check_received_cmdsn` has returned. -/
def scsi_cmd_after_cmdsn (U : iscsi_util) (cmdsn_ret : cmdsn_ret) (cmd : iscsi_cmd)
    (sess : iscsi_session) : scsi_cmd_result :=
  match cmdsn_ret with
  | CMDSN_NORMAL_OPERATION => { ret := 0, cmd := some cmd, attached := true, sess := sess }
  | CMDSN_HIGHER_THAN_EXP => { ret := 0, cmd := some cmd, attached := true, sess := sess }
  | CMDSN_LOWER_THAN_EXP =>
    { ret := 0, cmd := some { cmd with i_state := ISTATE_REMOVE }, attached := true
      immediate_queue := true, sess := sess }
  | CMDSN_ERROR_CANNOT_RECOVER =>
    { ret := (iscsi_add_reject_from_cmd U REASON_PROTOCOL_ERR true cmd).1
      rej := (iscsi_add_reject_from_cmd U REASON_PROTOCOL_ERR true cmd).2.2
      cmd := some (iscsi_add_reject_from_cmd U REASON_PROTOCOL_ERR true cmd).2.1
      attached := true, sess := sess }

/-- The lines of `iscsi_handle_scsi_cmd` that prepare a command for unsolicited
DataOUT: `iscsi_set_dataout_sequence_values` and the start of the DataOUT
timer. -/
def scsi_cmd_unsolicited_start (U : iscsi_util) (ops : iscsi_ops) (cmd : iscsi_cmd) :
    iscsi_cmd :=
  if cmd.unsolicited_data then
    iscsi_start_dataout_timer (U.iscsi_set_dataout_sequence_values ops cmd)
  else cmd

/-- The whole function `iscsi_handle_scsi_cmd`: `iscsi_handle_scsi_cmd_attach`
and what follows `iscsi_attach_cmd_to_queue`, the CmdSN check and the receipt
of the immediate data. `core_alua_check_nonop_delay`, `iscsi_ack_from_expstatsn`
and the wait on `unsolicited_data_sem` are not modelled. -/
def iscsi_handle_scsi_cmd_full (U : iscsi_util) (ops : iscsi_ops) (rx : immediate_rx)
    (sess : iscsi_session) (hdr0 : iscsi_init_scsi_cmnd) : scsi_cmd_result :=
  let a := iscsi_handle_scsi_cmd_attach U ops sess hdr0
  match a.ret, a.cmd with
  | some ret, _ => { ret := ret, rej := a.rej, cmd := a.cmd, sess := a.sess }
  | none, none => { ret := -1, sess := a.sess }
  | none, some cmd =>
    let hdr := scsi_cmd_hdr_done hdr0
    if !cmd.immediate_data then
      match U.iscsi_check_received_cmdsn cmd hdr.cmd_sn with
      | CMDSN_LOWER_THAN_EXP =>
        scsi_cmd_after_cmdsn U CMDSN_LOWER_THAN_EXP cmd a.sess
      | CMDSN_ERROR_CANNOT_RECOVER =>
        scsi_cmd_after_cmdsn U CMDSN_ERROR_CANNOT_RECOVER cmd a.sess
      | _ =>
        if a.send_check_condition then
          { ret := 0, cmd := some cmd, attached := true, sess := a.sess }
        else
          { ret := 0, cmd := some (scsi_cmd_unsolicited_start U ops cmd), attached := true
            sess := a.sess }
    else
      let dump := a.send_check_condition || U.se_cmd_failed cmd
      let immed : immediate_data_ret × iscsi_cmd × Option iscsi_reject :=
        if dump then (IMMEDIDATE_DATA_NORMAL_OPERATION, cmd, none)
        else iscsi_handle_immediate_data U ops rx cmd hdr.length
      match immed.1 with
      | IMMEDIDATE_DATA_NORMAL_OPERATION =>
        let cmdsn_ret := U.iscsi_check_received_cmdsn immed.2.1 hdr.cmd_sn
        if dump ∧ U.iscsi_dump_data_payload hdr.length < 0 then
          { ret := -1, rej := immed.2.2, cmd := some immed.2.1, attached := true
            sess := a.sess }
        else
          let cmd1 : iscsi_cmd :=
            if dump then immed.2.1 else scsi_cmd_unsolicited_start U ops immed.2.1
          scsi_cmd_after_cmdsn U cmdsn_ret cmd1 a.sess
      | IMMEDIDATE_DATA_ERL1_CRC_FAILURE =>
        { ret := 0, rej := immed.2.2, cmd := some { immed.2.1 with i_state := ISTATE_REMOVE }
          attached := true, immediate_queue := true, sess := a.sess }
      | IMMEDIDATE_DATA_CANNOT_RECOVER =>
        { ret := -1, rej := immed.2.2, cmd := some immed.2.1, attached := true
          sess := a.sess }

/-- The function `iscsi_handle_data_out` up to its test of `InitialR2T` for a
command with unsolicited data: after the checks of `iscsi_handle_data_out`
above, a DataOut for such a command while `InitialR2T=Yes` is answered with
`transport_send_check_condition_and_sense` and -1. -/
def iscsi_handle_data_out_unsolicited (U : iscsi_util) (ops : iscsi_ops)
    (found : Option iscsi_cmd) (hdr : iscsi_init_scsi_data_out) : handler_result :=
  match iscsi_handle_data_out U ops found hdr, found with
  | handler_result.proceed, some cmd =>
    if cmd.unsolicited_data ∧ ops.InitialR2T then handler_result.returned (-1) none
    else handler_result.proceed
  | r, _ => r

/-- A RESERVE command whose header carries `F_BIT`, `R_BIT` and `W_BIT` with no
expected data. -/
def hdr_reserve_rw : iscsi_init_scsi_cmnd :=
  { opcode := ISCSI_INIT_SCSI_CMND, flags := F_BIT ||| R_BIT ||| W_BIT, length := 0,
    init_task_tag := 3, exp_xfer_len := 0, cmd_sn := 12, exp_stat_sn := 7,
    cdb := [0x16, 0, 0, 0, 0, 0] }

/-- A READ(10) command of 512 bytes whose header carries `F_BIT`, `R_BIT` and
`W_BIT`. -/
def hdr_read_rw : iscsi_init_scsi_cmnd :=
  { opcode := ISCSI_INIT_SCSI_CMND, flags := F_BIT ||| R_BIT ||| W_BIT, length := 0,
    init_task_tag := 3, exp_xfer_len := 512, cmd_sn := 12, exp_stat_sn := 7,
    cdb := [0x28, 0, 0, 0, 0, 0, 0, 0, 1, 0] }

/-- A WRITE(10) command of 16384 bytes without immediate data whose header
carries `W_BIT` and no `F_BIT`: unsolicited DataOut is to follow. -/
def hdr_write_unsolicited : iscsi_init_scsi_cmnd :=
  { opcode := ISCSI_INIT_SCSI_CMND, flags := W_BIT, length := 0,
    init_task_tag := 2, exp_xfer_len := 16384, cmd_sn := 11, exp_stat_sn := 7,
    cdb := [0x2a, 0, 0, 0, 0, 0, 0, 0, 32, 0] }

/-- Session parameters with `InitialR2T=Yes` and `ImmediateData=Yes`. -/
def ops_initial_r2t : iscsi_ops := { InitialR2T := true, ImmediateData := true }
/-- The command that `iscsi_handle_scsi_cmd` has attached, if it has attached
one, has `unsolicited_data = b`. -/
def attach_unsolicited_ok (b : Bool) (r : scsi_cmd_attach) : Prop :=
  ∀ c, r.cmd = some c → r.attached = true → c.unsolicited_data = b

/-- The command `iscsi_handle_scsi_cmd` attaches for `hdr_write_unsolicited` in
the session `sess_s1`. -/
def cmd_write_unsolicited : iscsi_cmd :=
  { data_length := 16384, data_direction := DMA_TO_DEVICE,
    iscsi_opcode := ISCSI_INIT_SCSI_CMND, i_state := ISTATE_NEW_CMD,
    unsolicited_data := true, icf_non_immediate_unsolicited_data := true,
    init_task_tag := 2, targ_xfer_tag := 0xFFFFFFFF,
    cmd_sn := 11, exp_stat_sn := 7 }

/-! ## The text of a Text request (`iscsi_handle_text_cmd` of `iscsi_target.c`) -/

/-- The test `strncmp(cs, ct, count) == 0` of the C library on two buffers of
bytes (`lib/string.c`, not among the sources; written after its loop: at most
`count` bytes are compared, the comparison ends at the first difference or
behind a NUL). A byte behind the end of a list reads as NUL. -/
def strncmp_eq : Nat → List Nat → List Nat → Bool
  | 0, _, _ => true
  | count + 1, cs, ct =>
    if cs.headD 0 ≠ ct.headD 0 then false
    else if cs.headD 0 = 0 then true
    else strncmp_eq count cs.tail ct.tail

/-- The function `strchr(s, c)` of the C library on a buffer of bytes
(`lib/string.c`, not among the sources): the rest of the buffer from the first
byte `c` on, `none` (`NULL`) when a NUL comes first. -/
def strchr : List Nat → Nat → Option (List Nat)
  | [], _ => none
  | x :: s, c =>
    if x = c then some (x :: s)
    else if x = 0 then none
    else strchr s c

/-- The bytes of the string literal `"SendTargets"`. -/
def text_send_targets : List Nat := [83, 101, 110, 100, 84, 97, 114, 103, 101, 116, 115]

/-- The bytes of the string literal `"=All"`. -/
def text_equals_all : List Nat := [61, 65, 108, 108]

/-- The buffer `text_in` of `iscsi_handle_text_cmd` before its tests: the
`text_length` bytes from `kzalloc` with the received bytes `text` in them and the
last byte set to NUL (`text_in[text_length - 1] = 0`). -/
def text_in_buffer (text_length : Nat) (text : List Nat) : List Nat :=
  (text.take text_length ++ List.replicate (text_length - text.length) 0).set
    (text_length - 1) 0

/-- The three tests of `iscsi_handle_text_cmd` on the received bytes `text`:
`strncmp("SendTargets", text_in, 11)`, `strchr(text_in, 61)` (the byte `=`) and
`strncmp("=All", text_ptr, 4)`; `rx` gives the outcome of the receipt. -/
def text_tests (rx : text_rx) (text_length : Nat) (text : List Nat) : text_rx :=
  { rx with
    is_sendtargets := strncmp_eq 11 text_send_targets (text_in_buffer text_length text)
    has_separator := (strchr (text_in_buffer text_length text) 61).isSome
    is_all :=
      match strchr (text_in_buffer text_length text) 61 with
      | some text_ptr => strncmp_eq 4 text_equals_all text_ptr
      | none => false }

/-- What `iscsi_handle_text_cmd` leaves behind: its return value, the Reject it
has queued (if any), the command it has allocated and attached (`none` if
none), the states with which the command has been put on the response queue, and
whether the command has been put on the immediate queue for removal. -/
structure text_cmd_result where
  ret : Int
  rej : Option iscsi_reject := none
  cmd : Option iscsi_cmd := none
  response_queue : List cmd_i_state := []
  immediate_queue : Bool := false
  deriving DecidableEq, Repr

/-- The command that `iscsi_handle_text_cmd` sets up; the command that
`iscsi_allocate_cmd` returns is taken as zeroed. -/
def text_cmd (hdr : iscsi_init_text_cmnd) : iscsi_cmd :=
  { iscsi_opcode := ISCSI_INIT_TEXT_CMND
    i_state := ISTATE_SEND_TEXTRSP
    immediate_cmd := has_bit hdr.opcode I_BIT
    init_task_tag := hdr.init_task_tag
    targ_xfer_tag := 0xFFFFFFFF
    cmd_sn := hdr.cmd_sn
    exp_stat_sn := hdr.exp_stat_sn
    data_direction := DMA_NONE }

/-- The function `iscsi_handle_text_cmd` with the received bytes `text` of the
data segment. `iscsi_ack_from_expstatsn` is not modelled. -/
def iscsi_handle_text_cmd_full (U : iscsi_util) (ops : iscsi_ops) (rx : text_rx)
    (text : List Nat) (hdr : iscsi_init_text_cmnd) : text_cmd_result :=
  match iscsi_handle_text_cmd U ops (text_tests rx hdr.length text) hdr with
  | handler_result.returned ret rej => { ret := ret, rej := rej }
  | handler_result.dumped => { ret := 0 }
  | handler_result.proceed =>
    if ¬ has_bit hdr.opcode I_BIT then
      match U.iscsi_check_received_cmdsn (text_cmd hdr) hdr.cmd_sn with
      | CMDSN_NORMAL_OPERATION => { ret := 0, cmd := some (text_cmd hdr) }
      | CMDSN_HIGHER_THAN_EXP => { ret := 0, cmd := some (text_cmd hdr) }
      | CMDSN_LOWER_THAN_EXP =>
        { ret := 0, cmd := some { text_cmd hdr with i_state := ISTATE_REMOVE }
          immediate_queue := true }
      | CMDSN_ERROR_CANNOT_RECOVER =>
        { ret := (iscsi_add_reject_from_cmd U REASON_PROTOCOL_ERR true (text_cmd hdr)).1
          rej := (iscsi_add_reject_from_cmd U REASON_PROTOCOL_ERR true (text_cmd hdr)).2.2
          cmd := some (iscsi_add_reject_from_cmd U REASON_PROTOCOL_ERR true (text_cmd hdr)).2.1 }
    else
      { ret := (iscsi_execute_cmd U ops (text_cmd hdr) false).ret
        cmd := some (iscsi_execute_cmd U ops (text_cmd hdr) false).cmd
        response_queue := (iscsi_execute_cmd U ops (text_cmd hdr) false).response_queue }

/-- A Text request with the immediate bit, ITT 5 and a data segment of `length`
bytes. -/
def hdr_text (length : Nat) : iscsi_init_text_cmnd :=
  { opcode := ISCSI_INIT_TEXT_CMND ||| I_BIT, length := length, init_task_tag := 5,
    targ_xfer_tag := 0xFFFFFFFF, cmd_sn := 11, exp_stat_sn := 7 }

/-- The 16 bytes of `SendTargets=All` with its NUL. -/
def text_send_targets_all : List Nat :=
  [83, 101, 110, 100, 84, 97, 114, 103, 101, 116, 115, 61, 65, 108, 108, 0]

/-- The 17 bytes of `SendTargetsX=All` with its NUL. -/
def text_send_targets_x_all : List Nat :=
  [83, 101, 110, 100, 84, 97, 114, 103, 101, 116, 115, 88, 61, 65, 108, 108, 0]

/-- The 17 bytes of `SendTargets=Allx` with its NUL. -/
def text_send_targets_allx : List Nat :=
  [83, 101, 110, 100, 84, 97, 114, 103, 101, 116, 115, 61, 65, 108, 108, 120, 0]

/-- The 18 bytes of `SendTargets=iqn.x` with its NUL. -/
def text_send_targets_iqn_x : List Nat :=
  [83, 101, 110, 100, 84, 97, 114, 103, 101, 116, 115, 61, 105, 113, 110, 46, 120, 0]

/-! ## Target transfer tags (`iscsi_add_nopin` and the command set-up of the handlers of `iscsi_target.c`) -/

/-- What `iscsi_add_nopin` leaves behind: its return value, the command it has
allocated and attached, the state with which it has put the command on the
immediate queue, and the session. -/
structure add_nopin_result where
  ret : Int
  cmd : Option iscsi_cmd := none
  immediate_queue : Option cmd_i_state := none
  sess : iscsi_session
  deriving DecidableEq, Repr

/-- The function `iscsi_add_nopin`; the command that `iscsi_allocate_cmd`
returns is taken as zeroed, and the NopIn response timer is not modelled. -/
def iscsi_add_nopin (U : iscsi_util) (sess : iscsi_session) (want_response : Bool) :
    add_nopin_result :=
  if ¬ U.iscsi_allocate_cmd_ok then { ret := -1, sess := sess }
  else
    let state :=
      if want_response then ISTATE_SEND_NOPIN_WANT_RESPONSE else ISTATE_SEND_NOPIN_NO_RESPONSE
    let ttt0 := if want_response then sess.targ_xfer_tag else 0xFFFFFFFF
    let sess0 : iscsi_session :=
      if want_response then { sess with targ_xfer_tag := add32 sess.targ_xfer_tag 1 } else sess
    let skip := want_response = true ∧ ttt0 = 0xFFFFFFFF
    let ttt := if skip then sess0.targ_xfer_tag else ttt0
    let sess1 : iscsi_session :=
      if skip then { sess0 with targ_xfer_tag := add32 sess0.targ_xfer_tag 1 } else sess0
    { ret := 0
      cmd := some { iscsi_opcode := ISCSI_TARG_NOP_IN, init_task_tag := 0xFFFFFFFF,
                    targ_xfer_tag := ttt }
      immediate_queue := some state
      sess := sess1 }

/-- The fields of `struct iscsi_init_logout_cmnd` that `iscsi_handle_logout_cmd`
reads, in host byte order (the structure is declared in a header that is not
among the sources). -/
structure iscsi_init_logout_cmnd where
  opcode : Nat := 0
  flags : Nat := 0
  init_task_tag : Nat := 0
  cid : Nat := 0
  cmd_sn : Nat := 0
  exp_stat_sn : Nat := 0
  deriving DecidableEq, Repr

/-- The command that `iscsi_handle_logout_cmd` sets up; the command that
`iscsi_allocate_cmd` returns is taken as zeroed. -/
def logout_cmd (hdr : iscsi_init_logout_cmnd) : iscsi_cmd :=
  { iscsi_opcode := ISCSI_INIT_LOGOUT_CMND
    i_state := ISTATE_SEND_LOGOUTRSP
    immediate_cmd := has_bit hdr.opcode I_BIT
    init_task_tag := hdr.init_task_tag
    targ_xfer_tag := 0xFFFFFFFF
    cmd_sn := hdr.cmd_sn
    exp_stat_sn := hdr.exp_stat_sn
    logout_cid := hdr.cid
    logout_reason := hdr.flags &&& 0x7f
    data_direction := DMA_NONE }

/-- The fields of `struct iscsi_init_task_mgt_cmnd` that
`iscsi_handle_task_mgt_cmd` copies to the command, in host byte order (the
structure is declared in a header that is not among the sources). -/
structure iscsi_init_task_mgt_cmnd where
  opcode : Nat := 0
  function : Nat := 0
  init_task_tag : Nat := 0
  cmd_sn : Nat := 0
  exp_stat_sn : Nat := 0
  deriving DecidableEq, Repr

/-- The command that `iscsi_handle_task_mgt_cmd` sets up from the command `cmd`
that `iscsi_allocate_se_cmd_for_tmr` has returned. -/
def task_mgt_cmd (cmd : iscsi_cmd) (hdr : iscsi_init_task_mgt_cmnd) : iscsi_cmd :=
  { cmd with
    iscsi_opcode := ISCSI_INIT_TASK_MGMT_CMND
    i_state := ISTATE_SEND_TASKMGTRSP
    immediate_cmd := has_bit hdr.opcode I_BIT
    init_task_tag := hdr.init_task_tag
    targ_xfer_tag := 0xFFFFFFFF
    cmd_sn := hdr.cmd_sn
    exp_stat_sn := hdr.exp_stat_sn }

/-- The target transfer tag of the command that `iscsi_handle_scsi_cmd` has
allocated, by the flags `flags` of the header at the label `done`: with `R_BIT`
it is not the reserved value, with `W_BIT` and no `R_BIT` it is the reserved
value. -/
def scsi_cmd_ttt_ok (flags : Nat) (r : scsi_cmd_attach) : Prop :=
  ∀ c, r.cmd = some c →
    (has_bit flags R_BIT = true → c.targ_xfer_tag ≠ 0xFFFFFFFF) ∧
    (has_bit flags R_BIT = false → has_bit flags W_BIT = true →
      c.targ_xfer_tag = 0xFFFFFFFF)

/-- A session whose counter of target transfer tags stands at the reserved
value. -/
def sess_ttt_wrap : iscsi_session := { exp_cmd_sn := 11, max_cmd_sn := 42,
                                       targ_xfer_tag := 0xFFFFFFFF }

/-- A READ(10) of 512 bytes, ITT 4, CmdSN 11. -/
def hdr_read_512 : iscsi_init_scsi_cmnd :=
  { opcode := ISCSI_INIT_SCSI_CMND, flags := F_BIT ||| R_BIT, length := 0,
    init_task_tag := 4, exp_xfer_len := 512, cmd_sn := 11, exp_stat_sn := 7,
    cdb := [0x28, 0, 0, 0, 0, 0, 0, 0, 1, 0] }

/-- A write command with one R2T on its list that has not been sent. -/
def cmd_write_r2t : iscsi_cmd :=
  { init_task_tag := 2, data_length := 16384, data_direction := DMA_TO_DEVICE,
    iscsi_opcode := ISCSI_INIT_SCSI_CMND,
    r2t_list := [{ r2t_sn := 0, offset := 0, xfer_len := 16384 }] }

/-- The NopIn that `iscsi_add_nopin` sets up with `want_response` in the session
`sess_ttt_wrap`. -/
def cmd_nopin_wrap : iscsi_cmd :=
  { iscsi_opcode := ISCSI_TARG_NOP_IN, init_task_tag := 0xFFFFFFFF, targ_xfer_tag := 0 }

/-! ## A login with a non-zero TSIH (`iscsi_login_non_zero_tsih_s2` of `iscsi_target_login.c`) -/

/-- Modelled from the spec: the status class and detail that
`iscsi_tx_login_rsp` sends (the `STAT_CLASS_*` and `STAT_DETAIL_*` pairs of
`iscsi_login_non_zero_tsih_s2`; the constants are declared in a header that is
not among the sources). -/
inductive login_status
  | STAT_DETAIL_SESSION_DOES_NOT_EXIST
  | STAT_DETAIL_OUT_OF_RESOURCE
  deriving DecidableEq, Repr

open login_status

/-- The fields of `struct iscsi_init_login_cmnd` that
`iscsi_login_non_zero_tsih_s2` reads (the structure is declared in a header that
is not among the sources). -/
structure iscsi_init_login_cmnd where
  isid : List Nat := [0, 0, 0, 0, 0, 0]
  tsih : Nat := 0
  cid : Nat := 0
  deriving DecidableEq, Repr

/-- Modelled from the spec: the function `iscsi_inc_session_usage_count` of
`iscsi_target_util.c` (not among the sources) adds one to the usage count of the
session. -/
def iscsi_inc_session_usage_count (sess : iscsi_session) : iscsi_session :=
  { sess with session_usage_count := sess.session_usage_count + 1 }

/-- The test of the loop of `iscsi_login_non_zero_tsih_s2` that skips a session:
it falls back to ERL=0, it logs out, or its Time2Retain timer has expired. -/
def login_session_skipped (sess_p : iscsi_session) : Bool :=
  sess_p.session_fall_back_to_erl0 || sess_p.session_logout ||
    has_bit sess_p.time2retain_timer_flags T2R_TF_EXPIRED

/-- The test of the loop of `iscsi_login_non_zero_tsih_s2` that selects a
session: `memcmp` finds the first 6 bytes of the two ISIDs equal and the TSIHs
are equal. -/
def login_session_matches (pdu : iscsi_init_login_cmnd) (sess_p : iscsi_session) : Bool :=
  decide (sess_p.isid.take 6 = pdu.isid.take 6) && decide (sess_p.tsih = pdu.tsih)

/-- The loop of `iscsi_login_non_zero_tsih_s2` over `tpg_sess_list`: the
session `sess` that it selects, between the sessions before it and the sessions
behind it on the list; `none` when the loop leaves `sess` at `NULL`. -/
def login_find_session (pdu : iscsi_init_login_cmnd) :
    List iscsi_session → Option (List iscsi_session × iscsi_session × List iscsi_session)
  | [] => none
  | sess_p :: rest =>
    if login_session_skipped sess_p then
      (login_find_session pdu rest).map (fun r => (sess_p :: r.1, r.2.1, r.2.2))
    else if login_session_matches pdu sess_p then
      some ([], sess_p, rest)
    else
      (login_find_session pdu rest).map (fun r => (sess_p :: r.1, r.2.1, r.2.2))

/-- What `iscsi_login_non_zero_tsih_s2` leaves behind: its return value, the
status it has sent with `iscsi_tx_login_rsp` (if any), the session it has
selected (`none` for `NULL`) and the session list of the portal group. -/
structure login_tsih_result where
  ret : Int
  status : Option login_status := none
  sess : Option iscsi_session := none
  tpg_sess_list : List iscsi_session
  deriving DecidableEq, Repr

/-- The function `iscsi_login_non_zero_tsih_s2` on the session list
`tpg_sess_list` of the portal group. The Time2Retain timer that
`iscsi_stop_time2retain_timer` stops, `iscsi_login_set_conn_values`,
`iscsi_set_keys_to_negotiate` and the parameter list are not part of the
model. -/
def iscsi_login_non_zero_tsih_s2 (U : iscsi_util) (tpg_sess_list : List iscsi_session)
    (pdu : iscsi_init_login_cmnd) : login_tsih_result :=
  match login_find_session pdu tpg_sess_list with
  | none =>
    { ret := -1, status := some STAT_DETAIL_SESSION_DOES_NOT_EXIST
      tpg_sess_list := tpg_sess_list }
  | some (before, sess_p, behind) =>
    let sess : iscsi_session := iscsi_inc_session_usage_count sess_p
    let sess : iscsi_session :=
      if sess.session_state = TARG_SESS_STATE_FAILED then
        { sess with session_continuation := true }
      else sess
    if U.iscsi_copy_param_list < 0 then
      { ret := -1, status := some STAT_DETAIL_OUT_OF_RESOURCE, sess := some sess
        tpg_sess_list := before ++ sess :: behind }
    else if U.iscsi_change_param_value < 0 then
      { ret := -1, status := some STAT_DETAIL_OUT_OF_RESOURCE, sess := some sess
        tpg_sess_list := before ++ sess :: behind }
    else
      { ret := U.iscsi_login_disable_FIM_keys, sess := some sess
        tpg_sess_list := before ++ sess :: behind }

/-- The condition of claim C25 on a session of the list, in the fields of the
session: it does not fall back to ERL=0, it does not log out, its Time2Retain
timer has not expired, and its ISID (6 bytes) and TSIH are those of the login
request. -/
def login_session_eligible (pdu : iscsi_init_login_cmnd) (sess : iscsi_session) : Prop :=
  sess.session_fall_back_to_erl0 = false ∧ sess.session_logout = false ∧
  has_bit sess.time2retain_timer_flags T2R_TF_EXPIRED = false ∧
  sess.isid.take 6 = pdu.isid.take 6 ∧ sess.tsih = pdu.tsih

instance (pdu : iscsi_init_login_cmnd) (sess : iscsi_session) :
    Decidable (login_session_eligible pdu sess) := by
  unfold login_session_eligible
  infer_instance

/-- A login request for the session with ISID `00 02 3d 00 00 01` and TSIH 7. -/
def pdu_login_tsih : iscsi_init_login_cmnd :=
  { isid := [0x00, 0x02, 0x3d, 0x00, 0x00, 0x01], tsih := 7, cid := 1 }

/-- A session list of four: a session with another TSIH, the session of
`pdu_login_tsih` logging out, the same session in the Failed state, and the same
session again. -/
def login_sess_list : List iscsi_session :=
  [{ isid := [0x00, 0x02, 0x3d, 0x00, 0x00, 0x01], tsih := 6 },
   { isid := [0x00, 0x02, 0x3d, 0x00, 0x00, 0x01], tsih := 7, session_logout := true },
   { isid := [0x00, 0x02, 0x3d, 0x00, 0x00, 0x01], tsih := 7,
     session_state := TARG_SESS_STATE_FAILED, session_usage_count := 2 },
   { isid := [0x00, 0x02, 0x3d, 0x00, 0x00, 0x01], tsih := 7 }]

/-! ## The registry of targets (`core_get_tiqn_for_login` to `core_del_tiqn` of `iscsi_target.c`) -/

/-- Modelled from the spec: the values of `tiqn_state` (declared in a header
that is not among the sources). -/
inductive tiqn_state_t
  | TIQN_STATE_ACTIVE
  | TIQN_STATE_SHUTDOWN
  deriving DecidableEq, Repr

open tiqn_state_t

/-- Modelled from the spec: the length `ISCSI_TIQN_LEN` of the name of a target
(declared in a header that is not among the sources). -/
def ISCSI_TIQN_LEN : Nat := 224

/-- The fields of `struct iscsi_tiqn` that the registry functions read or
write; `tiqn_access_count` is an `atomic_t`, a signed integer of 32 bits. -/
structure iscsi_tiqn where
  tiqn : String
  tiqn_index : Nat := 0
  tiqn_state : tiqn_state_t := TIQN_STATE_ACTIVE
  tiqn_access_count : Int := 0
  deriving DecidableEq, Repr

/-- The operation `atomic_inc` on an `atomic_t`. -/
def atomic_inc (v : Int) : Int := if v = 2147483647 then -2147483648 else v + 1

/-- The operation `atomic_dec` on an `atomic_t`. -/
def atomic_dec (v : Int) : Int := if v = -2147483648 then 2147483647 else v - 1

/-- The function `core_get_tiqn_for_login` on the list `g_tiqn_list`: the place
on the list of the target it returns (`none` for `NULL`) and the list after the
call. -/
def core_get_tiqn_for_login (buf : String) : List iscsi_tiqn → Option Nat × List iscsi_tiqn
  | [] => (none, [])
  | tiqn :: rest =>
    if tiqn.tiqn = buf ∧ tiqn.tiqn_state = TIQN_STATE_ACTIVE then
      (some 0, { tiqn with tiqn_access_count := atomic_inc tiqn.tiqn_access_count } :: rest)
    else
      ((core_get_tiqn_for_login buf rest).1.map (fun i => i + 1),
        tiqn :: (core_get_tiqn_for_login buf rest).2)

/-- The function `core_set_tiqn_shutdown` on one target: its return value and
the target. -/
def core_set_tiqn_shutdown (tiqn : iscsi_tiqn) : Int × iscsi_tiqn :=
  if tiqn.tiqn_state = TIQN_STATE_ACTIVE then
    (0, { tiqn with tiqn_state := TIQN_STATE_SHUTDOWN })
  else (-1, tiqn)

/-- The function `core_put_tiqn_for_login` on one target. -/
def core_put_tiqn_for_login (tiqn : iscsi_tiqn) : iscsi_tiqn :=
  { tiqn with tiqn_access_count := atomic_dec tiqn.tiqn_access_count }

/-- The function `core_add_tiqn` on the list `g_tiqn_list`: the value it stores
in `*ret` (0 from its caller when it does not store one) and the list after the
call. `alloc_ok` says that `kzalloc` gives the memory, `index` is what
`iscsi_get_new_index` returns. -/
def core_add_tiqn (buf : String) (alloc_ok : Bool) (index : Nat) (list : List iscsi_tiqn) :
    Int × List iscsi_tiqn :=
  if buf.utf8ByteSize > ISCSI_TIQN_LEN then (-1, list)
  else if list.any (fun tiqn => tiqn.tiqn = buf) then (-1, list)
  else if !alloc_ok then (-1, list)
  else (0, list ++ [{ tiqn := buf, tiqn_index := index, tiqn_state := TIQN_STATE_ACTIVE }])

/-- The function `__core_del_tiqn` on the list `g_tiqn_list`, for the target at
the place `i` of the list: its return value and the list after `list_del`. The
portal groups of the target are not part of the model. -/
def __core_del_tiqn (i : Nat) (list : List iscsi_tiqn) : Int × List iscsi_tiqn :=
  (0, list.eraseIdx i)

/-- How a call of `core_del_tiqn` stands: it has returned `ret` and left the
list `list`, or it sleeps in the loop of `core_wait_for_tiqn` with the list
`list`. -/
inductive core_del_result
  | returned (ret : Int) (list : List iscsi_tiqn)
  | waiting (list : List iscsi_tiqn)
  deriving DecidableEq, Repr

/-- The functions `core_wait_for_tiqn` and `__core_del_tiqn` at the end of
`core_del_tiqn`, for the target at the place `i` of the list: the loop goes on
while the access count of the target is not 0. -/
def core_wait_and_del_tiqn (i : Nat) (list : List iscsi_tiqn) : core_del_result :=
  match list.get? i with
  | none => core_del_result.returned (-1) list
  | some tiqn =>
    if tiqn.tiqn_access_count ≠ 0 then core_del_result.waiting list
    else core_del_result.returned (__core_del_tiqn i list).1 (__core_del_tiqn i list).2

/-- The function `core_del_tiqn` on the list `g_tiqn_list`, for the target at
the place `i` of the list (the pointer `tiqn`; for a place behind the end of the
list, where the pointer has no target, the model gives -1). In the model no
other thread runs during the call, so it is left sleeping in
`core_wait_for_tiqn` when the access count is not 0. -/
def core_del_tiqn (i : Nat) (list : List iscsi_tiqn) : core_del_result :=
  match list.get? i with
  | none => core_del_result.returned (-1) list
  | some tiqn =>
    if (core_set_tiqn_shutdown tiqn).1 < 0 then core_del_result.returned (-1) list
    else core_wait_and_del_tiqn i (list.set i (core_set_tiqn_shutdown tiqn).2)

/-- A registry of two targets, the first with one login under way. -/
def tiqn_list_two : List iscsi_tiqn :=
  [{ tiqn := "iqn.2003-01.org.linux-iscsi:a", tiqn_access_count := 1 },
   { tiqn := "iqn.2003-01.org.linux-iscsi:b" }]

/-- The registry `tiqn_list_two` with its first target marked for shutdown. -/
def tiqn_list_shutdown : List iscsi_tiqn :=
  [{ tiqn := "iqn.2003-01.org.linux-iscsi:a", tiqn_access_count := 1,
     tiqn_state := TIQN_STATE_SHUTDOWN },
   { tiqn := "iqn.2003-01.org.linux-iscsi:b" }]

/-! ## The DataOUT timer (`iscsi_handle_dataout_timeout` of `iscsi_target_erl1.c`) -/

/-- The field of `struct iscsi_node_attrib` that the DataOUT timer reads (the
structure is declared in a header that is not among the sources). -/
structure iscsi_node_attrib where
  dataout_timeout_retries : Nat := 5
  deriving DecidableEq, Repr

/-- The function `iscsi_set_dataout_timeout_values`: its return value and the
values it stores in `*offset` and `*length` (0, as its caller has set them, when
it stores none). Its loop leaves `r2t` at an R2T that is sent, not a recovery
R2T and not complete, or at the entry computed from the list head, never at
`NULL`. -/
def iscsi_set_dataout_timeout_values (U : iscsi_util) (ops : iscsi_ops) (cmd : iscsi_cmd) :
    Int × Nat × Nat :=
  if cmd.unsolicited_data then
    (0, 0, if ops.FirstBurstLength > cmd.data_length then cmd.data_length
           else ops.FirstBurstLength)
  else if cmd.r2t_list.isEmpty then (-1, 0, 0)
  else
    match cmd.r2t_list.find? (fun r2t => r2t.sent_r2t && !r2t.recovery_r2t && !r2t.seq_complete) with
    | some r2t => (0, r2t.offset, r2t.xfer_len)
    | none => (0, (U.r2t_list_head cmd).offset, (U.r2t_list_head cmd).xfer_len)

/-- What a run of `iscsi_handle_dataout_timeout` leaves: the command, and
whether it has gone to the label `failure`, where
`iscsi_cause_connection_reinstatement` fails the connection. -/
structure dataout_timeout_result where
  cmd : iscsi_cmd
  failure : Bool := false
  deriving DecidableEq, Repr

/-- The part of `iscsi_handle_dataout_timeout` behind its test on the count of
the command: the command is marked `ICF_WITHIN_COMMAND_RECOVERY`, the span to
ask for again is worked out, a recovery R2T is added and the timer is started
again; a failure on the way goes to the label `failure`. -/
def dataout_timeout_recover (U : iscsi_util) (ops : iscsi_ops) (cmd : iscsi_cmd) :
    dataout_timeout_result :=
  let cmd : iscsi_cmd := { cmd with icf_within_command_recovery := true }
  let values : Int × Nat × Nat :=
    if ops.DataSequenceInOrder then
      if ops.DataPDUInOrder then
        (0, cmd.write_data_done,
          if add32 cmd.write_data_done (sub32 ops.MaxBurstLength cmd.next_burst_len)
              > cmd.data_length then
            sub32 cmd.data_length cmd.write_data_done
          else sub32 ops.MaxBurstLength cmd.next_burst_len)
      else
        (0, cmd.seq_start_offset, sub32 cmd.seq_end_offset cmd.seq_start_offset)
    else iscsi_set_dataout_timeout_values U ops cmd
  if values.1 < 0 then { cmd := cmd, failure := true }
  else if (iscsi_recalculate_dataout_values U ops cmd values.2.1 values.2.2).ret < 0 then
    { cmd := (iscsi_recalculate_dataout_values U ops cmd values.2.1 values.2.2).cmd
      failure := true }
  else
    let r := iscsi_recalculate_dataout_values U ops cmd values.2.1 values.2.2
    if (iscsi_send_recovery_r2t U r.cmd r.r2t_offset r.r2t_length).1 < 0 then
      { cmd := (iscsi_send_recovery_r2t U r.cmd r.r2t_offset r.r2t_length).2
        failure := true }
    else
      { cmd := iscsi_start_dataout_timer
          (iscsi_send_recovery_r2t U r.cmd r.r2t_offset r.r2t_length).2 }

/-- The function `iscsi_handle_dataout_timeout`, run when the DataOUT timer of
the command expires; `na` holds the attributes of the initiator node. The usage
count of the connection and the locks are not part of the model. -/
def iscsi_handle_dataout_timeout (U : iscsi_util) (ops : iscsi_ops) (na : iscsi_node_attrib)
    (cmd : iscsi_cmd) : dataout_timeout_result :=
  if cmd.dataout_tf_stop then { cmd := cmd }
  else
    let cmd : iscsi_cmd := { cmd with dataout_tf_running := false }
    if ops.ErrorRecoveryLevel = 0 then { cmd := cmd, failure := true }
    else
      let cmd : iscsi_cmd :=
        { cmd with dataout_timeout_retries := add32 cmd.dataout_timeout_retries 1 }
      if cmd.dataout_timeout_retries = na.dataout_timeout_retries then
        { cmd := cmd, failure := true }
      else dataout_timeout_recover U ops cmd

/-- The expiries of the DataOUT timer of a command one after the other, `n` at
most, with nothing else done to the command in between: the results of the runs
of `iscsi_handle_dataout_timeout`, up to the first that fails the connection or
leaves the timer stopped. -/
def dataout_timeouts (U : iscsi_util) (ops : iscsi_ops) (na : iscsi_node_attrib) :
    Nat → iscsi_cmd → List dataout_timeout_result
  | 0, _ => []
  | n + 1, cmd =>
    iscsi_handle_dataout_timeout U ops na cmd ::
      (if (iscsi_handle_dataout_timeout U ops na cmd).failure ∨
          ¬ (iscsi_handle_dataout_timeout U ops na cmd).cmd.dataout_tf_running then []
       else dataout_timeouts U ops na n (iscsi_handle_dataout_timeout U ops na cmd).cmd)

/-- Session parameters with `ErrorRecoveryLevel = 1`, both orders Yes. -/
def ops_erl1 : iscsi_ops := { ErrorRecoveryLevel := 1 }

/-- A write command of 16384 bytes that waits for the DataOUT of its one
sequence, its DataOUT timer running. -/
def cmd_write_waiting : iscsi_cmd :=
  { init_task_tag := 2, data_length := 16384, data_direction := DMA_TO_DEVICE,
    iscsi_opcode := ISCSI_INIT_SCSI_CMND, seq_end_offset := 16384, r2t_sn := 1,
    outstanding_r2ts := 1, dataout_tf_running := true,
    r2t_list := [{ r2t_sn := 0, offset := 0, xfer_len := 16384, sent_r2t := true }] }

/-! ## The opcode switch of the RX thread (`iscsi_target_rx_thread` of `iscsi_target.c`) -/

/-- Modelled from the spec: `iscsi_protocol.h` is not among the sources; the
mask `ISCSI_OPCODE` of the opcode in the first byte of a PDU (RFC 3720). -/
def ISCSI_OPCODE : Nat := 0x3f

/-- Modelled from the spec: `iscsi_protocol.h` is not among the sources; the
opcode of a SCSI Data-Out PDU (RFC 3720). -/
def ISCSI_INIT_SCSI_DATA_OUT : Nat := 0x05

/-- Modelled from the spec: `iscsi_protocol.h` is not among the sources; the
opcode of a SNACK Request PDU (RFC 3720). -/
def ISCSI_INIT_SNACK : Nat := 0x10

/-- Where one pass of the loop of `iscsi_target_rx_thread` goes once a header
has been received: to the label `transport_err` (with the Reject that has been
queued before, if any), or to one of the cases of the `switch` on the opcode,
where the handler of that case is called. -/
inductive rx_dispatch
  | transport_err (rej : Option iscsi_reject)
  | to_scsi_cmd
  | to_data_out
  | to_nop_out
  | to_task_mgt_cmd
  | to_text_cmd
  | to_logout_cmd
  | to_snack
  | to_default
  deriving DecidableEq, Repr

/-- The loop body of `iscsi_target_rx_thread` from the check of the HeaderDigest
to the `switch` on the opcode. `byte0` is the first byte of the header,
`digest_ok` says that the received HeaderDigest equals the computed one,
`in_logout` that `conn->conn_state` is `TARG_CONN_STATE_IN_LOGOUT`, and
`SessionType` is the session's `SessionType` (not 0 in a Discovery session). -/
def iscsi_target_rx_thread_switch (U : iscsi_util) (ops : iscsi_ops) (SessionType : Nat)
    (in_logout digest_ok : Bool) (byte0 : Nat) : rx_dispatch :=
  let buffer0 := if ops.HeaderDigest ∧ ¬ digest_ok then 0xff else byte0
  if in_logout then rx_dispatch.transport_err none
  else
    let opcode := buffer0 &&& ISCSI_OPCODE
    if SessionType ≠ 0 ∧
        ((opcode &&& ISCSI_INIT_TEXT_CMND) = 0 ∨ (opcode &&& ISCSI_INIT_LOGOUT_CMND) = 0) then
      rx_dispatch.transport_err (iscsi_add_reject U REASON_PROTOCOL_ERR true).2
    else if opcode = ISCSI_INIT_SCSI_CMND then rx_dispatch.to_scsi_cmd
    else if opcode = ISCSI_INIT_SCSI_DATA_OUT then rx_dispatch.to_data_out
    else if opcode = ISCSI_INIT_NOP_OUT then rx_dispatch.to_nop_out
    else if opcode = ISCSI_INIT_TASK_MGMT_CMND then rx_dispatch.to_task_mgt_cmd
    else if opcode = ISCSI_INIT_TEXT_CMND then rx_dispatch.to_text_cmd
    else if opcode = ISCSI_INIT_LOGOUT_CMND then rx_dispatch.to_logout_cmd
    else if opcode = ISCSI_INIT_SNACK then rx_dispatch.to_snack
    else rx_dispatch.to_default

/-! ## The end of a DataOUT sequence with DataPDUInOrder=No (`iscsi_dataout_datapduinorder_no_fbit` of `iscsi_target_erl1.c`) -/

/-- Modelled from the spec: the return values `DATAOUT_*` of
`iscsi_dataout_datapduinorder_no_fbit` (declared in a header that is not among
the sources). -/
inductive dataout_ret
  | DATAOUT_NORMAL
  | DATAOUT_WITHIN_COMMAND_RECOVERY
  | DATAOUT_CANNOT_RECOVER
  deriving DecidableEq, Repr

open dataout_ret

/-- The first loop of `iscsi_dataout_datapduinorder_no_fbit`
(DataSequenceInOrder=Yes) over the PDUs of `cmd->pdu_list` from the index `i` on:
the index of `first_pdu` (`none` for `NULL`) and `pdu_count` when the loop
ends. The sum `xfer_len` of the loop is not read afterwards and is left out. -/
def no_fbit_first_pdu (seq_no : Nat) :
    List iscsi_pdu → Nat → Option Nat → Nat → Option Nat × Nat
  | [], _, first_pdu, pdu_count => (first_pdu, pdu_count)
  | p :: rest, i, first_pdu, pdu_count =>
    if p.seq_no = seq_no then
      no_fbit_first_pdu seq_no rest (i + 1)
        (if first_pdu.isNone then some i else first_pdu) (pdu_count + 1)
    else if pdu_count ≠ 0 then (first_pdu, pdu_count)
    else no_fbit_first_pdu seq_no rest (i + 1) first_pdu pdu_count

/-- The variables of the second loop of `iscsi_dataout_datapduinorder_no_fbit`,
with the command; `cannot_recover` says that the loop has returned
`DATAOUT_CANNOT_RECOVER`. -/
structure no_fbit_state where
  cmd : iscsi_cmd
  send_recovery_r2t : Bool := false
  recovery : Bool := false
  offset : Nat := 0
  length : Nat := 0
  cannot_recover : Bool := false
  deriving DecidableEq, Repr

/-- The second loop of `iscsi_dataout_datapduinorder_no_fbit` over the PDUs
`first_pdu[i]` not yet visited. -/
def no_fbit_loop (U : iscsi_util) : List iscsi_pdu → no_fbit_state → no_fbit_state
  | [], s => s
  | p :: rest, s =>
    if p.status = ISCSI_PDU_RECEIVED_OK then
      if !s.send_recovery_r2t then no_fbit_loop U rest s
      else if (iscsi_send_recovery_r2t U s.cmd s.offset s.length).1 < 0 then
        { s with cmd := (iscsi_send_recovery_r2t U s.cmd s.offset s.length).2
                 cannot_recover := true }
      else
        no_fbit_loop U rest
          { s with cmd := (iscsi_send_recovery_r2t U s.cmd s.offset s.length).2
                   send_recovery_r2t := false, length := 0, offset := 0 }
    else if p.status ≠ ISCSI_PDU_NOT_RECEIVED then
      no_fbit_loop U rest { s with recovery := true }
    else
      no_fbit_loop U rest
        { s with recovery := true
                 offset := if s.offset = 0 then p.offset else s.offset
                 length := add32 s.length p.length
                 send_recovery_r2t := true }

/-- The function `iscsi_dataout_datapduinorder_no_fbit`: its return value and
the command. `seq` is the sequence that `cmd->seq_ptr` points to (read with
DataSequenceInOrder=No only). The PDUs `first_pdu[0]` to
`first_pdu[pdu_count - 1]` are those of `cmd->pdu_list` from the index of
`first_pdu` on, as far as the list goes. -/
def iscsi_dataout_datapduinorder_no_fbit (U : iscsi_util) (ops : iscsi_ops) (cmd : iscsi_cmd)
    (seq : iscsi_seq) (pdu : iscsi_pdu) : dataout_ret × iscsi_cmd :=
  let first : Option Nat × Nat :=
    if ops.DataSequenceInOrder then
      no_fbit_first_pdu pdu.seq_no (cmd.pdu_list.getD []) 0 none 0
    else (some seq.pdu_start, seq.pdu_count)
  match first.1 with
  | none => (DATAOUT_CANNOT_RECOVER, cmd)
  | some first_pdu =>
    if first.2 = 0 then (DATAOUT_CANNOT_RECOVER, cmd)
    else
      let s := no_fbit_loop U (((cmd.pdu_list.getD []).drop first_pdu).take first.2)
        { cmd := cmd }
      if s.cannot_recover then (DATAOUT_CANNOT_RECOVER, s.cmd)
      else if s.send_recovery_r2t then
        if (iscsi_send_recovery_r2t U s.cmd s.offset s.length).1 < 0 then
          (DATAOUT_CANNOT_RECOVER, (iscsi_send_recovery_r2t U s.cmd s.offset s.length).2)
        else
          (if !s.recovery then DATAOUT_NORMAL else DATAOUT_WITHIN_COMMAND_RECOVERY,
            (iscsi_send_recovery_r2t U s.cmd s.offset s.length).2)
      else
        (if !s.recovery then DATAOUT_NORMAL else DATAOUT_WITHIN_COMMAND_RECOVERY, s.cmd)

/-- A write command of 1536 bytes in one sequence of three PDUs of 512 bytes, of
which only the last, at offset 1024, has been received. -/
def cmd_write_first_two_missing : iscsi_cmd :=
  { init_task_tag := 2, data_length := 1536, data_direction := DMA_TO_DEVICE,
    iscsi_opcode := ISCSI_INIT_SCSI_CMND, r2t_sn := 1,
    pdu_list := some [{ offset := 0, length := 512, status := ISCSI_PDU_NOT_RECEIVED },
                      { offset := 512, length := 512, status := ISCSI_PDU_NOT_RECEIVED },
                      { offset := 1024, length := 512, status := ISCSI_PDU_RECEIVED_OK }] }

/-- A write command of 2048 bytes in one sequence of four PDUs of 512 bytes: the
first and the last received, the two in the middle not. -/
def cmd_write_middle_missing : iscsi_cmd :=
  { init_task_tag := 2, data_length := 2048, data_direction := DMA_TO_DEVICE,
    iscsi_opcode := ISCSI_INIT_SCSI_CMND, r2t_sn := 1,
    pdu_list := some [{ offset := 0, length := 512, status := ISCSI_PDU_RECEIVED_OK },
                      { offset := 512, length := 512, status := ISCSI_PDU_NOT_RECEIVED },
                      { offset := 1024, length := 512, status := ISCSI_PDU_NOT_RECEIVED },
                      { offset := 1536, length := 512, status := ISCSI_PDU_RECEIVED_OK }] }

/-- A write command of 1536 bytes in one sequence of three PDUs of 512 bytes,
all received. -/
def cmd_write_all_received : iscsi_cmd :=
  { init_task_tag := 2, data_length := 1536, data_direction := DMA_TO_DEVICE,
    iscsi_opcode := ISCSI_INIT_SCSI_CMND, r2t_sn := 1,
    pdu_list := some [{ offset := 0, length := 512, status := ISCSI_PDU_RECEIVED_OK },
                      { offset := 512, length := 512, status := ISCSI_PDU_RECEIVED_OK },
                      { offset := 1024, length := 512, status := ISCSI_PDU_RECEIVED_OK }] }

/-- A write command of 2048 bytes in one sequence of four PDUs of 512 bytes: the
first received, the second and the fourth not received, the third with a failed
CRC. -/
def cmd_write_crc_between : iscsi_cmd :=
  { init_task_tag := 2, data_length := 2048, data_direction := DMA_TO_DEVICE,
    iscsi_opcode := ISCSI_INIT_SCSI_CMND, r2t_sn := 1,
    pdu_list := some [{ offset := 0, length := 512, status := ISCSI_PDU_RECEIVED_OK },
                      { offset := 512, length := 512, status := ISCSI_PDU_NOT_RECEIVED },
                      { offset := 1024, length := 512, status := ISCSI_PDU_CRC_FAILED },
                      { offset := 1536, length := 512, status := ISCSI_PDU_NOT_RECEIVED }] }

/-- A write command with Expected Data Transfer Length `0xFFFFFFFF` of which
`0xFFFC0000` bytes have been received and asked for: the last 262143 bytes are
left. -/
def cmd_write_edtl_max : iscsi_cmd :=
  { init_task_tag := 2, data_length := 0xFFFFFFFF, data_direction := DMA_TO_DEVICE,
    iscsi_opcode := ISCSI_INIT_SCSI_CMND, write_data_done := 0xFFFC0000,
    r2t_offset := 0xFFFC0000 }

/-! ## The DataIN requests on a command's list (`iscsi_allocate_datain_req` and its two callers) -/

/-- A DataIN request as the code creates it and keeps it on the list of a
command: `iscsi_allocate_datain_req` returns it zeroed (`DATAIN_INCOMPLETE`,
`DATAIN_NORMAL`), `iscsi_handle_recovery_datain` makes it a
`DATAIN_WITHIN_COMMAND_RECOVERY` request, and no assignment of
`DATAIN_CONNECTION_RECOVERY` is among the sources; `iscsi_send_data_in` frees a
request once it is complete. -/
def datain_req_pending (dr : iscsi_datain_req) : Prop :=
  dr.dr_complete = DATAIN_INCOMPLETE ∧ dr.recovery ≠ DATAIN_CONNECTION_RECOVERY

/-- Every request on the list of the command is as `datain_req_pending` says. -/
def datain_list_pending (cmd : iscsi_cmd) : Prop :=
  ∀ dr ∈ cmd.datain_list, datain_req_pending dr

/-- What a generator of DataIN values does to the list of requests
`dr0 :: rest` of the command: the requests behind the head stay, the head keeps
its `recovery` and `runlength`, and a request that is returned is the head. -/
def datain_head_kept (dr0 : iscsi_datain_req) (rest : List iscsi_datain_req)
    (r : Option iscsi_datain_req × iscsi_cmd × iscsi_datain) : Prop :=
  ∃ dr1, r.2.1.datain_list = dr1 :: rest ∧ dr1.recovery = dr0.recovery ∧
    dr1.runlength = dr0.runlength ∧ ∀ dr, r.1 = some dr → dr = dr1

/-- The command that `iscsi_handle_scsi_cmd` has allocated has a list of
requests as `datain_list_pending` says. -/
def attach_pending_ok (r : scsi_cmd_attach) : Prop :=
  ∀ c, r.cmd = some c → datain_list_pending c

/-- What `iscsi_send_data_in` does to the list of requests `l` that
`iscsi_get_datain_values` has left, `r1` being the request returned: every
request on the list afterwards was on `l`, and when the function returns 0 a
request has been returned and, if it is complete, has been taken off the head of
the list. -/
def send_data_in_list_ok (l : List iscsi_datain_req) (r1 : Option iscsi_datain_req)
    (res : send_data_in_result) : Prop :=
  (∀ x ∈ res.cmd.datain_list, x ∈ l) ∧
  (res.ret = 0 → ∃ dr, r1 = some dr ∧
    (dr.dr_complete ≠ DATAIN_INCOMPLETE → res.cmd.datain_list = l.tail) ∧
    (dr.dr_complete = DATAIN_INCOMPLETE → res.cmd.datain_list = l))

/-! ## Lemmas on 32-bit arithmetic -/

theorem add32_eq {a b : Nat} (h : a + b < U32_MOD) : add32 a b = a + b := by
  unfold add32
  exact Nat.mod_eq_of_lt h

theorem sub32_eq {a b : Nat} (hb : b ≤ a) (ha : a < U32_MOD) : sub32 a b = a - b := by
  unfold sub32 U32_MOD at *
  omega

theorem sub32_eq_zero_iff {a b : Nat} (hb : b ≤ a) (ha : a < U32_MOD) :
    sub32 a b = 0 ↔ a = b := by
  rw [sub32_eq hb ha]
  omega

/-! ## One call of `iscsi_set_datain_values_yes_and_yes` -/

theorem has_bit_final_flags (ops : iscsi_ops) :
    has_bit (with_a_bit ops (0 ||| (F_BIT ||| S_BIT))) S_BIT = true ∧
    has_bit (with_a_bit ops (0 ||| (F_BIT ||| S_BIT))) F_BIT = true := by
  unfold with_a_bit
  split <;> decide

theorem has_bit_burst_flags (ops : iscsi_ops) :
    has_bit (with_a_bit ops (0 ||| F_BIT)) S_BIT = false ∧
    has_bit (with_a_bit ops (0 ||| F_BIT)) F_BIT = true := by
  unfold with_a_bit
  split <;> decide

/-- The branch in closed form, for a cursor inside the command and the burst
and without 32-bit wrap. -/
theorem yes_and_yes_branch_eq (ops : iscsi_ops) (dl nbl rdd : Nat)
    (hrd : rdd < dl)
    (hnb : nbl < ops.MaxBurstLength) (hmb : ops.MaxBurstLength < U32_MOD)
    (hw : nbl + ops.MaxRecvDataSegmentLength < U32_MOD) :
    yes_and_yes_branch ops (dl - rdd) nbl {} =
      ({ flags := burst_flags ops dl nbl rdd, length := burst_length ops dl nbl rdd },
        burst_next ops dl nbl rdd) := by
  have hburst : sub32 ops.MaxBurstLength nbl = ops.MaxBurstLength - nbl :=
    sub32_eq (Nat.le_of_lt hnb) hmb
  have hsum : add32 nbl ops.MaxRecvDataSegmentLength = nbl + ops.MaxRecvDataSegmentLength :=
    add32_eq hw
  unfold yes_and_yes_branch
  rw [hburst, hsum]
  by_cases h1 : dl - rdd ≤ ops.MaxRecvDataSegmentLength ∧ dl - rdd ≤ ops.MaxBurstLength - nbl
  · have hlen : burst_length ops dl nbl rdd = dl - rdd := by
      unfold burst_length; omega
    have hfin : rdd + burst_length ops dl nbl rdd = dl := by omega
    rw [if_pos h1]
    simp only [burst_flags, burst_next, if_pos hfin]
    rw [hlen]
  · by_cases h2 : nbl + ops.MaxRecvDataSegmentLength < ops.MaxBurstLength
    · have hlen : burst_length ops dl nbl rdd = ops.MaxRecvDataSegmentLength := by
        unfold burst_length; omega
      have hfin : ¬ rdd + burst_length ops dl nbl rdd = dl := by omega
      have hfill : ¬ nbl + burst_length ops dl nbl rdd = ops.MaxBurstLength := by omega
      rw [if_neg h1, if_pos h2]
      simp only [burst_flags, burst_next, if_neg hfin, if_neg hfill]
      rw [hlen]
    · have hlen : burst_length ops dl nbl rdd = ops.MaxBurstLength - nbl := by
        unfold burst_length; omega
      have hfin : ¬ rdd + burst_length ops dl nbl rdd = dl := by omega
      have hfill : nbl + burst_length ops dl nbl rdd = ops.MaxBurstLength := by omega
      rw [if_neg h1, if_neg h2]
      simp only [burst_flags, burst_next, if_neg hfin, if_pos hfill]
      rw [hlen]

/-- A normal call on a zeroed `datain`, in closed form. -/
theorem yes_and_yes_normal (ops : iscsi_ops) (cmd : iscsi_cmd) (dr : iscsi_datain_req)
    (rest : List iscsi_datain_req)
    (hl : cmd.datain_list = dr :: rest) (hn : dr.recovery = DATAIN_NORMAL)
    (hrd : cmd.read_data_done < cmd.data_length) (hdl : cmd.data_length < U32_MOD)
    (hnb : cmd.next_burst_len < ops.MaxBurstLength) (hmb : ops.MaxBurstLength < U32_MOD)
    (hw : cmd.next_burst_len + ops.MaxRecvDataSegmentLength < U32_MOD) :
    iscsi_set_datain_values_yes_and_yes ops cmd {} =
      (some (cursor_dr ops cmd dr),
       { cmd with
           data_sn := add32 cmd.data_sn 1
           next_burst_len := cursor_next_burst_len ops cmd
           read_data_done := cmd.read_data_done + cursor_length ops cmd
           datain_list := cursor_dr ops cmd dr :: rest },
       { flags := cursor_flags ops cmd
         length := cursor_length ops cmd
         offset := cmd.read_data_done
         data_sn := cmd.data_sn }) := by
  have hleft : sub32 cmd.data_length cmd.read_data_done
      = cmd.data_length - cmd.read_data_done := sub32_eq (Nat.le_of_lt hrd) hdl
  have hgen : generate_recovery_values_yes ops cmd dr = (cmd, dr) := by
    simp [generate_recovery_values_yes, hn]
  have hbr := yes_and_yes_branch_eq ops cmd.data_length cmd.next_burst_len cmd.read_data_done
    hrd hnb hmb hw
  have hne : cmd.data_length - cmd.read_data_done ≠ 0 := by omega
  have hle : burst_length ops cmd.data_length cmd.next_burst_len cmd.read_data_done
      ≤ cmd.data_length - cmd.read_data_done := by unfold burst_length; omega
  have hadd : add32 cmd.read_data_done
      (burst_length ops cmd.data_length cmd.next_burst_len cmd.read_data_done)
      = cmd.read_data_done
        + burst_length ops cmd.data_length cmd.next_burst_len cmd.read_data_done :=
    add32_eq (by omega)
  unfold iscsi_set_datain_values_yes_and_yes
  rw [hl]
  simp only [hgen, hn, beq_self_eq_true, if_true, hleft, if_neg hne, hbr, hadd]
  by_cases hfin : cmd.read_data_done
      + burst_length ops cmd.data_length cmd.next_burst_len cmd.read_data_done = cmd.data_length
  · have hS : has_bit (burst_flags ops cmd.data_length cmd.next_burst_len cmd.read_data_done)
        S_BIT = true := by
      simp only [burst_flags, if_pos hfin]
      exact (has_bit_final_flags ops).1
    have hfin1 : cmd.read_data_done + cursor_length ops cmd = cmd.data_length := hfin
    simp only [hS, if_true, cursor_dr, if_pos hfin1, hn]
    rfl
  · have hS : has_bit (burst_flags ops cmd.data_length cmd.next_burst_len cmd.read_data_done)
        S_BIT = false := by
      simp only [burst_flags, if_neg hfin]
      split
      · exact (has_bit_burst_flags ops).1
      · decide
    have hfin1 : ¬ cmd.read_data_done + cursor_length ops cmd = cmd.data_length := hfin
    simp only [hS, Bool.false_eq_true, if_false, cursor_dr, if_neg hfin1]
    rfl

/-- With both orders negotiated as Yes the dispatch reaches
`iscsi_set_datain_values_yes_and_yes`. -/
theorem get_datain_values_yes_yes (U : iscsi_util) (ops : iscsi_ops) (cmd : iscsi_cmd)
    (datain : iscsi_datain) (hseq : ops.DataSequenceInOrder = true)
    (hpdu : ops.DataPDUInOrder = true) :
    iscsi_get_datain_values U ops cmd datain
      = iscsi_set_datain_values_yes_and_yes ops cmd datain := by
  simp [iscsi_get_datain_values, hseq, hpdu]

/-! ## C2: length, offset and cursor of a normal DataIN -/

/-- Claim C2. With DataSequenceInOrder=Yes and DataPDUInOrder=Yes, a non-recovery
call of `iscsi_get_datain_values` (on the zeroed `datain` that
`iscsi_send_data_in` passes) with `read_data_done < data_length` and
`next_burst_len < MaxBurstLength` returns a request and generates a DataIN whose
length is `min(MaxRecvDataSegmentLength, MaxBurstLength - next_burst_len,
data_length - read_data_done)`, whose offset is the `read_data_done` before the
call, and `read_data_done` grows by exactly that length. The values are 32-bit:
`data_length` and `MaxBurstLength` fit in 32 bits and the sum
`next_burst_len + MaxRecvDataSegmentLength` the code forms does not wrap. -/
theorem datain_yes_yes_length_offset (U : iscsi_util) (ops : iscsi_ops) (cmd : iscsi_cmd)
    (dr : iscsi_datain_req) (rest : List iscsi_datain_req)
    (hseq : ops.DataSequenceInOrder = true) (hpdu : ops.DataPDUInOrder = true)
    (hl : cmd.datain_list = dr :: rest) (hn : dr.recovery = DATAIN_NORMAL)
    (hrd : cmd.read_data_done < cmd.data_length) (hdl : cmd.data_length < U32_MOD)
    (hnb : cmd.next_burst_len < ops.MaxBurstLength) (hmb : ops.MaxBurstLength < U32_MOD)
    (hw : cmd.next_burst_len + ops.MaxRecvDataSegmentLength < U32_MOD) :
    (iscsi_get_datain_values U ops cmd {}).1.isSome = true ∧
    (iscsi_get_datain_values U ops cmd {}).2.2.length =
      min ops.MaxRecvDataSegmentLength
        (min (ops.MaxBurstLength - cmd.next_burst_len)
          (cmd.data_length - cmd.read_data_done)) ∧
    (iscsi_get_datain_values U ops cmd {}).2.2.offset = cmd.read_data_done ∧
    (iscsi_get_datain_values U ops cmd {}).2.1.read_data_done =
      cmd.read_data_done + (iscsi_get_datain_values U ops cmd {}).2.2.length := by
  rw [get_datain_values_yes_yes U ops cmd {} hseq hpdu,
    yes_and_yes_normal ops cmd dr rest hl hn hrd hdl hnb hmb hw]
  exact ⟨rfl, rfl, rfl, rfl⟩

/-- A use of C2: 18192 of 20000 bytes are sent and 8192 bytes of a 10000-byte
burst are used, so the next DataIN is 1808 bytes at offset 18192. -/
theorem datain_yes_yes_length_offset_witness :
    (iscsi_get_datain_values util_ok ops_mid cmd_mid {}).1.isSome = true ∧
    (iscsi_get_datain_values util_ok ops_mid cmd_mid {}).2.2.length =
      min ops_mid.MaxRecvDataSegmentLength
        (min (ops_mid.MaxBurstLength - cmd_mid.next_burst_len)
          (cmd_mid.data_length - cmd_mid.read_data_done)) ∧
    (iscsi_get_datain_values util_ok ops_mid cmd_mid {}).2.2.offset = cmd_mid.read_data_done ∧
    (iscsi_get_datain_values util_ok ops_mid cmd_mid {}).2.1.read_data_done =
      cmd_mid.read_data_done + (iscsi_get_datain_values util_ok ops_mid cmd_mid {}).2.2.length :=
  datain_yes_yes_length_offset util_ok ops_mid cmd_mid {} [] rfl rfl rfl rfl
    (by decide) (by decide) (by decide) (by decide) (by decide)

/-! ## C3: the F bit and the stored `next_burst_len` -/

/-- Claim C3, as stated, fails. In scenario S1 (512 bytes to read,
`MaxBurstLength = 262144`, `next_burst_len = 0`) the only DataIN has length 512
and does not fill the burst, yet the stored `next_burst_len` stays 0 instead of
growing by 512: the three parts of the claim cannot hold together. -/
theorem datain_yes_yes_fbit_claim_fails :
    ¬ ((has_bit (iscsi_get_datain_values util_ok ops_s1 cmd_s1 {}).2.2.flags F_BIT = true ↔
          (cmd_s1.next_burst_len + (iscsi_get_datain_values util_ok ops_s1 cmd_s1 {}).2.2.length
              = ops_s1.MaxBurstLength ∨
            cmd_s1.read_data_done + (iscsi_get_datain_values util_ok ops_s1 cmd_s1 {}).2.2.length
              = cmd_s1.data_length)) ∧
        (cmd_s1.next_burst_len + (iscsi_get_datain_values util_ok ops_s1 cmd_s1 {}).2.2.length
            = ops_s1.MaxBurstLength →
          (iscsi_get_datain_values util_ok ops_s1 cmd_s1 {}).2.1.next_burst_len = 0) ∧
        (cmd_s1.next_burst_len + (iscsi_get_datain_values util_ok ops_s1 cmd_s1 {}).2.2.length
            ≠ ops_s1.MaxBurstLength →
          (iscsi_get_datain_values util_ok ops_s1 cmd_s1 {}).2.1.next_burst_len =
            cmd_s1.next_burst_len +
              (iscsi_get_datain_values util_ok ops_s1 cmd_s1 {}).2.2.length)) := by
  decide

/-- Claim C3, amended. With DataSequenceInOrder=Yes and DataPDUInOrder=Yes, a
non-recovery DataIN generated by `iscsi_get_datain_values` carries `F_BIT` if
and only if it fills the current burst or ends the command. When it ends the
command the stored `next_burst_len` is left as it was; when it does not, the
stored `next_burst_len` is reset to 0 if the burst is filled and grows by the PDU
length otherwise. -/
theorem datain_yes_yes_fbit (U : iscsi_util) (ops : iscsi_ops) (cmd : iscsi_cmd)
    (dr : iscsi_datain_req) (rest : List iscsi_datain_req)
    (hseq : ops.DataSequenceInOrder = true) (hpdu : ops.DataPDUInOrder = true)
    (hl : cmd.datain_list = dr :: rest) (hn : dr.recovery = DATAIN_NORMAL)
    (hrd : cmd.read_data_done < cmd.data_length) (hdl : cmd.data_length < U32_MOD)
    (hnb : cmd.next_burst_len < ops.MaxBurstLength) (hmb : ops.MaxBurstLength < U32_MOD)
    (hw : cmd.next_burst_len + ops.MaxRecvDataSegmentLength < U32_MOD) :
    (has_bit (iscsi_get_datain_values U ops cmd {}).2.2.flags F_BIT = true ↔
        (cmd.next_burst_len + (iscsi_get_datain_values U ops cmd {}).2.2.length
            = ops.MaxBurstLength ∨
          cmd.read_data_done + (iscsi_get_datain_values U ops cmd {}).2.2.length
            = cmd.data_length)) ∧
    (cmd.read_data_done + (iscsi_get_datain_values U ops cmd {}).2.2.length = cmd.data_length →
      (iscsi_get_datain_values U ops cmd {}).2.1.next_burst_len = cmd.next_burst_len) ∧
    (cmd.read_data_done + (iscsi_get_datain_values U ops cmd {}).2.2.length ≠ cmd.data_length →
      cmd.next_burst_len + (iscsi_get_datain_values U ops cmd {}).2.2.length
          = ops.MaxBurstLength →
      (iscsi_get_datain_values U ops cmd {}).2.1.next_burst_len = 0) ∧
    (cmd.read_data_done + (iscsi_get_datain_values U ops cmd {}).2.2.length ≠ cmd.data_length →
      cmd.next_burst_len + (iscsi_get_datain_values U ops cmd {}).2.2.length
          ≠ ops.MaxBurstLength →
      (iscsi_get_datain_values U ops cmd {}).2.1.next_burst_len =
        cmd.next_burst_len + (iscsi_get_datain_values U ops cmd {}).2.2.length) := by
  rw [get_datain_values_yes_yes U ops cmd {} hseq hpdu,
    yes_and_yes_normal ops cmd dr rest hl hn hrd hdl hnb hmb hw]
  simp only [cursor_flags, cursor_next_burst_len]
  by_cases hfin : cmd.read_data_done + cursor_length ops cmd = cmd.data_length
  · have hF := (has_bit_final_flags ops).2
    rw [if_pos hfin, if_pos hfin]
    exact ⟨⟨fun _ => Or.inr hfin, fun _ => hF⟩, fun _ => rfl,
      fun h => absurd hfin h, fun h => absurd hfin h⟩
  · by_cases hfill : cmd.next_burst_len + cursor_length ops cmd = ops.MaxBurstLength
    · have hF := (has_bit_burst_flags ops).2
      rw [if_neg hfin, if_neg hfin, if_pos hfill, if_pos hfill]
      exact ⟨⟨fun _ => Or.inl hfill, fun _ => hF⟩,
        fun h => absurd h hfin, fun _ _ => rfl, fun _ h => absurd hfill h⟩
    · have h0 : has_bit 0 F_BIT = false := by decide
      rw [if_neg hfin, if_neg hfin, if_neg hfill, if_neg hfill]
      exact ⟨⟨fun h => absurd (h0.symm.trans h) (by decide),
          fun h => h.elim (fun h => absurd h hfill) (fun h => absurd h hfin)⟩,
        fun h => absurd h hfin, fun _ h => absurd h hfill, fun _ _ => rfl⟩

/-- A use of the amended C3: the DataIN of 1808 bytes that fills the second
burst of the 20000-byte read. -/
theorem datain_yes_yes_fbit_witness :
    (has_bit (iscsi_get_datain_values util_ok ops_mid cmd_mid {}).2.2.flags F_BIT = true ↔
        (cmd_mid.next_burst_len + (iscsi_get_datain_values util_ok ops_mid cmd_mid {}).2.2.length
            = ops_mid.MaxBurstLength ∨
          cmd_mid.read_data_done + (iscsi_get_datain_values util_ok ops_mid cmd_mid {}).2.2.length
            = cmd_mid.data_length)) ∧
    (cmd_mid.read_data_done + (iscsi_get_datain_values util_ok ops_mid cmd_mid {}).2.2.length
        = cmd_mid.data_length →
      (iscsi_get_datain_values util_ok ops_mid cmd_mid {}).2.1.next_burst_len
        = cmd_mid.next_burst_len) ∧
    (cmd_mid.read_data_done + (iscsi_get_datain_values util_ok ops_mid cmd_mid {}).2.2.length
        ≠ cmd_mid.data_length →
      cmd_mid.next_burst_len + (iscsi_get_datain_values util_ok ops_mid cmd_mid {}).2.2.length
          = ops_mid.MaxBurstLength →
      (iscsi_get_datain_values util_ok ops_mid cmd_mid {}).2.1.next_burst_len = 0) ∧
    (cmd_mid.read_data_done + (iscsi_get_datain_values util_ok ops_mid cmd_mid {}).2.2.length
        ≠ cmd_mid.data_length →
      cmd_mid.next_burst_len + (iscsi_get_datain_values util_ok ops_mid cmd_mid {}).2.2.length
          ≠ ops_mid.MaxBurstLength →
      (iscsi_get_datain_values util_ok ops_mid cmd_mid {}).2.1.next_burst_len =
        cmd_mid.next_burst_len +
          (iscsi_get_datain_values util_ok ops_mid cmd_mid {}).2.2.length) :=
  datain_yes_yes_fbit util_ok ops_mid cmd_mid {} [] rfl rfl rfl rfl
    (by decide) (by decide) (by decide) (by decide) (by decide)

/-! ## C1: the DataIN PDUs of a read command -/

theorem cursor_length_pos (ops : iscsi_ops) (cmd : iscsi_cmd)
    (hm : 0 < ops.MaxRecvDataSegmentLength) (hnb : cmd.next_burst_len < ops.MaxBurstLength)
    (hrd : cmd.read_data_done < cmd.data_length) : 0 < cursor_length ops cmd := by
  unfold cursor_length
  omega

theorem cursor_length_le (ops : iscsi_ops) (cmd : iscsi_cmd) :
    cursor_length ops cmd ≤ cmd.data_length - cmd.read_data_done ∧
    cursor_length ops cmd ≤ ops.MaxBurstLength - cmd.next_burst_len := by
  unfold cursor_length
  omega

/-- The run of a normal request from any state of the cursor. -/
theorem datain_run_shape (U : iscsi_util) (ops : iscsi_ops)
    (hseq : ops.DataSequenceInOrder = true) (hpdu : ops.DataPDUInOrder = true)
    (hm : 0 < ops.MaxRecvDataSegmentLength) (hmb : ops.MaxBurstLength < U32_MOD)
    (hw : ops.MaxBurstLength + ops.MaxRecvDataSegmentLength ≤ U32_MOD)
    (dr : iscsi_datain_req) (rest : List iscsi_datain_req)
    (hn : dr.recovery = DATAIN_NORMAL) (hc : dr.dr_complete = DATAIN_INCOMPLETE) :
    ∀ (m : Nat) (cmd : iscsi_cmd), cmd.data_length - cmd.read_data_done = m →
      cmd.datain_list = dr :: rest → cmd.read_data_done < cmd.data_length →
      cmd.data_length < U32_MOD → cmd.next_burst_len < ops.MaxBurstLength →
      cmd.data_sn ≤ cmd.read_data_done →
      ∃ n, 0 < n ∧ n ≤ m ∧ ∀ fuel, n ≤ fuel →
        (datain_run U ops fuel cmd).length = n ∧
        run_shape cmd.data_length cmd.data_sn cmd.read_data_done (datain_run U ops fuel cmd) := by
  intro m
  induction m using Nat.strong_induction_on with
  | _ m ih =>
    intro cmd hm' hl hrd hdl hnb hsn
    have hstep := yes_and_yes_normal ops cmd dr rest hl hn hrd hdl hnb hmb (by omega)
    have hpos := cursor_length_pos ops cmd hm hnb hrd
    have hle := cursor_length_le ops cmd
    by_cases hfin : cmd.read_data_done + cursor_length ops cmd = cmd.data_length
    · refine ⟨1, Nat.one_pos, by omega, ?_⟩
      intro fuel hfuel
      obtain ⟨f, rfl⟩ : ∃ f, fuel = f + 1 := ⟨fuel - 1, by omega⟩
      have hdr : (cursor_dr ops cmd dr).dr_complete = DATAIN_COMPLETE_NORMAL := by
        simp [cursor_dr, hfin]
      have hrun : datain_run U ops (f + 1) cmd =
          [({ flags := cursor_flags ops cmd, length := cursor_length ops cmd,
              offset := cmd.read_data_done, data_sn := cmd.data_sn }, cursor_dr ops cmd dr)] := by
        simp [datain_run, get_datain_values_yes_yes U ops cmd {} hseq hpdu, hstep, hdr]
      rw [hrun]
      refine ⟨rfl, rfl, rfl, hfin, ?_, ?_, hdr⟩
      · simp only [cursor_flags, if_pos hfin]
        exact (has_bit_final_flags ops).1
      · simp only [cursor_flags, if_pos hfin]
        exact (has_bit_final_flags ops).2
    · have hdr : cursor_dr ops cmd dr = dr := by simp [cursor_dr, hfin]
      have hnos : has_bit (cursor_flags ops cmd) S_BIT = false := by
        simp only [cursor_flags, if_neg hfin]
        split
        · exact (has_bit_burst_flags ops).1
        · decide
      have hnb' : cursor_next_burst_len ops cmd < ops.MaxBurstLength := by
        simp only [cursor_next_burst_len, if_neg hfin]
        split <;> omega
      obtain ⟨n, hn0, hnm, hall⟩ := ih (m - cursor_length ops cmd) (by omega)
        { cmd with
            data_sn := add32 cmd.data_sn 1
            next_burst_len := cursor_next_burst_len ops cmd
            read_data_done := cmd.read_data_done + cursor_length ops cmd
            datain_list := cursor_dr ops cmd dr :: rest }
        (by simp only; omega) (by simp only [hdr]) (by simp only; omega) hdl hnb'
        (by simp only; rw [add32_eq (by omega)]; omega)
      refine ⟨n + 1, Nat.succ_pos _, by omega, ?_⟩
      intro fuel hfuel
      obtain ⟨f, rfl⟩ : ∃ f, fuel = f + 1 := ⟨fuel - 1, by omega⟩
      obtain ⟨hlen, hshape⟩ := hall f (by omega)
      have hrun : datain_run U ops (f + 1) cmd =
          ({ flags := cursor_flags ops cmd, length := cursor_length ops cmd,
             offset := cmd.read_data_done, data_sn := cmd.data_sn }, cursor_dr ops cmd dr) ::
          datain_run U ops f
            { cmd with
                data_sn := add32 cmd.data_sn 1
                next_burst_len := cursor_next_burst_len ops cmd
                read_data_done := cmd.read_data_done + cursor_length ops cmd
                datain_list := cursor_dr ops cmd dr :: rest } := by
        simp [datain_run, get_datain_values_yes_yes U ops cmd {} hseq hpdu, hstep, hdr, hc]
      rw [hrun]
      refine ⟨by simp [hlen], ?_⟩
      match hq : datain_run U ops f
            { cmd with
                data_sn := add32 cmd.data_sn 1
                next_burst_len := cursor_next_burst_len ops cmd
                read_data_done := cmd.read_data_done + cursor_length ops cmd
                datain_list := cursor_dr ops cmd dr :: rest } with
      | [] => rw [hq] at hlen; simp at hlen; omega
      | q :: t =>
        rw [hq] at hshape
        simp only at hshape
        rw [add32_eq (by omega)] at hshape
        exact ⟨rfl, rfl, hnos, hshape⟩

theorem run_shape_index (dl : Nat) :
    ∀ (t : List (iscsi_datain × iscsi_datain_req)) (sn off : Nat), run_shape dl sn off t →
      ∀ (i : Nat) (h : i < t.length),
        (t.get ⟨i, h⟩).1.data_sn = sn + i ∧
        (t.get ⟨i, h⟩).1.offset = off + ((t.take i).map (fun p => p.1.length)).sum ∧
        (has_bit (t.get ⟨i, h⟩).1.flags S_BIT = true ↔ i + 1 = t.length) := by
  intro t
  induction t with
  | nil => intro sn off hs; exact absurd hs (by simp [run_shape])
  | cons p t ih =>
    intro sn off hs i h
    cases t with
    | nil =>
      obtain ⟨h1, h2, _, h4, _, _⟩ := hs
      have hi : i = 0 := by simp at h; omega
      subst hi
      simp [h1, h2, h4]
    | cons q t =>
      obtain ⟨h1, h2, h3, h4⟩ := hs
      cases i with
      | zero => simp [h1, h2, h3]
      | succ i =>
        have hi : i < (q :: t).length := by simp at h ⊢; omega
        obtain ⟨e1, e2, e3⟩ := ih (sn + 1) (off + p.1.length) h4 i hi
        refine ⟨?_, ?_, ?_⟩
        · simp only [List.get_cons_succ]
          rw [e1]; omega
        · simp only [List.get_cons_succ, List.take_succ_cons, List.map_cons, List.sum_cons]
          rw [e2]; omega
        · simp only [List.get_cons_succ]
          rw [e3]
          simp

theorem run_shape_total (dl : Nat) :
    ∀ (t : List (iscsi_datain × iscsi_datain_req)) (sn off : Nat), run_shape dl sn off t →
      off + (t.map (fun p => p.1.length)).sum = dl ∧
      ∃ p, t.getLast? = some p ∧ has_bit p.1.flags S_BIT = true ∧
        has_bit p.1.flags F_BIT = true ∧ p.2.dr_complete = DATAIN_COMPLETE_NORMAL := by
  intro t
  induction t with
  | nil => intro sn off hs; exact absurd hs (by simp [run_shape])
  | cons p t ih =>
    intro sn off hs
    cases t with
    | nil =>
      obtain ⟨_, _, h3, h4, h5, h6⟩ := hs
      exact ⟨by simpa using h3, p, rfl, h4, h5, h6⟩
    | cons q t =>
      obtain ⟨_, _, _, h4⟩ := hs
      obtain ⟨e1, r, e2, e3⟩ := ih (sn + 1) (off + p.1.length) h4
      refine ⟨?_, r, ?_, e3⟩
      · simp only [List.map_cons, List.sum_cons] at e1 ⊢
        omega
      · rw [List.getLast?_cons_cons]
        exact e2

/-- Claim C1. With DataSequenceInOrder=Yes and DataPDUInOrder=Yes, for a read
command with `data_length > 0`, `MaxRecvDataSegmentLength > 0` and
`MaxBurstLength > 0` that starts from `read_data_done = 0`, `next_burst_len = 0`
and `data_sn = 0` with a normal request queued, there is a number `n` of calls
(at least 1, at most `data_length`) such that repeated calls of
`iscsi_get_datain_values` stop after exactly `n` calls, however many are
allowed beyond `n`: the PDU of call `i` has DataSN `i` and an offset equal to
the sum of the lengths of the PDUs before it, exactly the last PDU carries
`S_BIT` (together with `F_BIT`) and its request is marked
`DATAIN_COMPLETE_NORMAL`, and the lengths sum to `data_length`. The parameters
are 32-bit values whose sum `MaxBurstLength + MaxRecvDataSegmentLength` does
not exceed `2^32`, so that the sum the code forms does not wrap. -/
theorem datain_yes_yes_run (U : iscsi_util) (ops : iscsi_ops) (cmd : iscsi_cmd)
    (dr : iscsi_datain_req) (rest : List iscsi_datain_req)
    (hseq : ops.DataSequenceInOrder = true) (hpdu : ops.DataPDUInOrder = true)
    (hl : cmd.datain_list = dr :: rest) (hn : dr.recovery = DATAIN_NORMAL)
    (hc : dr.dr_complete = DATAIN_INCOMPLETE)
    (hdl0 : 0 < cmd.data_length) (hdl : cmd.data_length < U32_MOD)
    (hm : 0 < ops.MaxRecvDataSegmentLength) (hb : 0 < ops.MaxBurstLength)
    (hmb : ops.MaxBurstLength < U32_MOD)
    (hw : ops.MaxBurstLength + ops.MaxRecvDataSegmentLength ≤ U32_MOD)
    (hrd : cmd.read_data_done = 0) (hnb : cmd.next_burst_len = 0) (hsn : cmd.data_sn = 0) :
    ∃ n, 0 < n ∧ n ≤ cmd.data_length ∧ ∀ fuel, n ≤ fuel →
      (datain_run U ops fuel cmd).length = n ∧
      (∀ (i : Nat) (h : i < (datain_run U ops fuel cmd).length),
        ((datain_run U ops fuel cmd).get ⟨i, h⟩).1.data_sn = i ∧
        ((datain_run U ops fuel cmd).get ⟨i, h⟩).1.offset =
          (((datain_run U ops fuel cmd).take i).map (fun p => p.1.length)).sum ∧
        (has_bit ((datain_run U ops fuel cmd).get ⟨i, h⟩).1.flags S_BIT = true ↔ i + 1 = n)) ∧
      ((datain_run U ops fuel cmd).map (fun p => p.1.length)).sum = cmd.data_length ∧
      ∃ p, (datain_run U ops fuel cmd).getLast? = some p ∧
        has_bit p.1.flags S_BIT = true ∧ has_bit p.1.flags F_BIT = true ∧
        p.2.dr_complete = DATAIN_COMPLETE_NORMAL := by
  obtain ⟨n, hn0, hnm, hall⟩ := datain_run_shape U ops hseq hpdu hm hmb hw dr rest hn hc
    (cmd.data_length - cmd.read_data_done) cmd rfl hl (by omega) hdl (by omega) (by omega)
  refine ⟨n, hn0, by omega, ?_⟩
  intro fuel hfuel
  obtain ⟨hlen, hshape⟩ := hall fuel hfuel
  have hidx := run_shape_index cmd.data_length _ _ _ hshape
  have htot := run_shape_total cmd.data_length _ _ _ hshape
  refine ⟨hlen, ?_, ?_, htot.2⟩
  · intro i h
    obtain ⟨e1, e2, e3⟩ := hidx i h
    refine ⟨by omega, by omega, ?_⟩
    rw [e3, hlen]
  · have := htot.1
    omega

/-- A use of C1 on scenario S1, `data_length = 512` and
`MaxRecvDataSegmentLength = 8192`; there the run is the single PDU with offset
0, length 512, DataSN 0 and flags `F_BIT | S_BIT`. -/
theorem datain_yes_yes_run_witness :
    (∃ n, 0 < n ∧ n ≤ cmd_s1.data_length ∧ ∀ fuel, n ≤ fuel →
      (datain_run util_ok ops_s1 fuel cmd_s1).length = n ∧
      (∀ (i : Nat) (h : i < (datain_run util_ok ops_s1 fuel cmd_s1).length),
        ((datain_run util_ok ops_s1 fuel cmd_s1).get ⟨i, h⟩).1.data_sn = i ∧
        ((datain_run util_ok ops_s1 fuel cmd_s1).get ⟨i, h⟩).1.offset =
          (((datain_run util_ok ops_s1 fuel cmd_s1).take i).map (fun p => p.1.length)).sum ∧
        (has_bit ((datain_run util_ok ops_s1 fuel cmd_s1).get ⟨i, h⟩).1.flags S_BIT = true ↔
          i + 1 = n)) ∧
      ((datain_run util_ok ops_s1 fuel cmd_s1).map (fun p => p.1.length)).sum
        = cmd_s1.data_length ∧
      ∃ p, (datain_run util_ok ops_s1 fuel cmd_s1).getLast? = some p ∧
        has_bit p.1.flags S_BIT = true ∧ has_bit p.1.flags F_BIT = true ∧
        p.2.dr_complete = DATAIN_COMPLETE_NORMAL) ∧
    datain_run util_ok ops_s1 3 cmd_s1 =
      [({ flags := F_BIT ||| S_BIT, length := 512, offset := 0, data_sn := 0 },
        { dr_complete := DATAIN_COMPLETE_NORMAL })] :=
  ⟨datain_yes_yes_run util_ok ops_s1 cmd_s1 {} [] rfl rfl rfl rfl rfl
    (by decide) (by decide) (by decide) (by decide) (by decide) (by decide) rfl rfl rfl,
   by decide⟩

/-! ## C4: the S bit of the DataIN header -/

set_option maxRecDepth 100000 in
/-- Clearing `S_BIT` for sense data and adding the residual bits leaves `F_BIT`
as it is and `S_BIT` set exactly when it was set and no sense data is there. -/
theorem data_in_hdr_flags_bits (cmd : iscsi_cmd) (sense : Bool) :
    ∀ fl, fl < 256 →
      (has_bit (data_in_hdr_flags cmd
          (if (has_bit fl S_BIT && sense) = true then clear_bit fl S_BIT else fl)) S_BIT
        = (has_bit fl S_BIT && !sense)) ∧
      (has_bit (data_in_hdr_flags cmd
          (if (has_bit fl S_BIT && sense) = true then clear_bit fl S_BIT else fl)) F_BIT
        = has_bit fl F_BIT) := by
  have key : ∀ fl, fl < 256 → ∀ s o u : Bool,
      (has_bit
          (if has_bit (if (has_bit fl S_BIT && s) = true then clear_bit fl S_BIT else fl) S_BIT
              = true then
            if o = true then
              (if (has_bit fl S_BIT && s) = true then clear_bit fl S_BIT else fl) ||| O_BIT
            else if u = true then
              (if (has_bit fl S_BIT && s) = true then clear_bit fl S_BIT else fl) ||| U_BIT
            else (if (has_bit fl S_BIT && s) = true then clear_bit fl S_BIT else fl)
          else (if (has_bit fl S_BIT && s) = true then clear_bit fl S_BIT else fl)) S_BIT
        = (has_bit fl S_BIT && !s)) ∧
      (has_bit
          (if has_bit (if (has_bit fl S_BIT && s) = true then clear_bit fl S_BIT else fl) S_BIT
              = true then
            if o = true then
              (if (has_bit fl S_BIT && s) = true then clear_bit fl S_BIT else fl) ||| O_BIT
            else if u = true then
              (if (has_bit fl S_BIT && s) = true then clear_bit fl S_BIT else fl) ||| U_BIT
            else (if (has_bit fl S_BIT && s) = true then clear_bit fl S_BIT else fl)
          else (if (has_bit fl S_BIT && s) = true then clear_bit fl S_BIT else fl)) F_BIT
        = has_bit fl F_BIT) := by
    decide
  intro fl hfl
  exact key fl hfl sense cmd.overflow_bit cmd.underflow_bit

theorem generate_recovery_values_yes_frame (ops : iscsi_ops) (cmd : iscsi_cmd)
    (dr : iscsi_datain_req) :
    (generate_recovery_values_yes ops cmd dr).1.data_length = cmd.data_length ∧
    (generate_recovery_values_yes ops cmd dr).1.transport_task_sense
      = cmd.transport_task_sense := by
  unfold generate_recovery_values_yes
    iscsi_create_recovery_datain_values_datasequenceinorder_yes
  split
  · simp only
    split <;> exact ⟨rfl, rfl⟩
  · exact ⟨rfl, rfl⟩

/-- The `datain` record of any call (normal or recovery) whose cursor lies
inside the command and the burst. -/
theorem yes_and_yes_datain (ops : iscsi_ops) (cmd : iscsi_cmd) (dr0 : iscsi_datain_req)
    (rest : List iscsi_datain_req) (hl : cmd.datain_list = dr0 :: rest)
    (hrd : (request_cursor ops cmd dr0).2 < cmd.data_length) (hdl : cmd.data_length < U32_MOD)
    (hnb : (request_cursor ops cmd dr0).1 < ops.MaxBurstLength)
    (hmb : ops.MaxBurstLength < U32_MOD)
    (hw : (request_cursor ops cmd dr0).1 + ops.MaxRecvDataSegmentLength < U32_MOD) :
    ∃ dr cmd1 sn, iscsi_set_datain_values_yes_and_yes ops cmd {} =
        (some dr, cmd1,
          { flags := burst_flags ops cmd.data_length (request_cursor ops cmd dr0).1
              (request_cursor ops cmd dr0).2
            length := burst_length ops cmd.data_length (request_cursor ops cmd dr0).1
              (request_cursor ops cmd dr0).2
            offset := (request_cursor ops cmd dr0).2
            data_sn := sn }) ∧
      cmd1.data_length = cmd.data_length ∧
      cmd1.transport_task_sense = cmd.transport_task_sense := by
  obtain ⟨hf1, hf2⟩ := generate_recovery_values_yes_frame ops cmd dr0
  unfold iscsi_set_datain_values_yes_and_yes
  rw [hl]
  simp only [hf1]
  by_cases hnorm : (generate_recovery_values_yes ops cmd dr0).2.recovery = DATAIN_NORMAL
  · have hcur : request_cursor ops cmd dr0 =
        ((generate_recovery_values_yes ops cmd dr0).1.next_burst_len,
          (generate_recovery_values_yes ops cmd dr0).1.read_data_done) := by
      simp [request_cursor, hnorm]
    rw [hcur] at hrd hnb hw ⊢
    simp only at hrd hnb hw ⊢
    have hleft := sub32_eq (Nat.le_of_lt hrd) hdl
    have hne : cmd.data_length - (generate_recovery_values_yes ops cmd dr0).1.read_data_done ≠ 0 := by
      omega
    simp only [hnorm, beq_self_eq_true, if_true, hleft, if_neg hne,
      yes_and_yes_branch_eq ops _ _ _ hrd hnb hmb hw]
    exact ⟨_, _, _, rfl, rfl, hf2⟩
  · have hcur : request_cursor ops cmd dr0 =
        ((generate_recovery_values_yes ops cmd dr0).2.next_burst_len,
          (generate_recovery_values_yes ops cmd dr0).2.read_data_done) := by
      simp [request_cursor, hnorm]
    rw [hcur] at hrd hnb hw ⊢
    simp only at hrd hnb hw ⊢
    have hleft := sub32_eq (Nat.le_of_lt hrd) hdl
    have hne : cmd.data_length - (generate_recovery_values_yes ops cmd dr0).2.read_data_done ≠ 0 := by
      omega
    have hb : ((generate_recovery_values_yes ops cmd dr0).2.recovery == DATAIN_NORMAL) = false := by
      simpa using hnorm
    simp only [hb, Bool.false_eq_true, if_false, hleft, if_neg hne,
      yes_and_yes_branch_eq ops _ _ _ hrd hnb hmb hw]
    exact ⟨_, _, _, rfl, rfl, hf2⟩

theorem burst_flags_bits (ops : iscsi_ops) (dl nbl rdd : Nat) :
    burst_flags ops dl nbl rdd < 256 ∧
    (has_bit (burst_flags ops dl nbl rdd) S_BIT = true ↔
      rdd + burst_length ops dl nbl rdd = dl) ∧
    (rdd + burst_length ops dl nbl rdd = dl →
      has_bit (burst_flags ops dl nbl rdd) F_BIT = true) := by
  unfold burst_flags
  by_cases hfin : rdd + burst_length ops dl nbl rdd = dl
  · rw [if_pos hfin]
    refine ⟨?_, ⟨fun _ => hfin, fun _ => (has_bit_final_flags ops).1⟩,
      fun _ => (has_bit_final_flags ops).2⟩
    unfold with_a_bit
    split <;> decide
  · rw [if_neg hfin]
    by_cases hfill : nbl + burst_length ops dl nbl rdd = ops.MaxBurstLength
    · rw [if_pos hfill]
      refine ⟨?_, ⟨fun h => ?_, fun h => absurd h hfin⟩, fun h => absurd h hfin⟩
      · unfold with_a_bit
        split <;> decide
      · rw [(has_bit_burst_flags ops).1] at h
        exact absurd h (by decide)
    · rw [if_neg hfill]
      exact ⟨by decide, ⟨fun h => absurd h (by decide), fun h => absurd h hfin⟩,
        fun h => absurd h hfin⟩

theorem build_data_in_hdr_bits (U : iscsi_util) (cmd : iscsi_cmd) (sess : iscsi_session)
    (d : iscsi_datain) (set_statsn sense : Bool) (hfl : d.flags < 256) :
    (build_data_in_hdr U cmd sess
        (if (has_bit d.flags S_BIT && sense) = true then
          { d with flags := clear_bit d.flags S_BIT } else d) set_statsn).offset = d.offset ∧
    (build_data_in_hdr U cmd sess
        (if (has_bit d.flags S_BIT && sense) = true then
          { d with flags := clear_bit d.flags S_BIT } else d) set_statsn).length = d.length ∧
    has_bit (build_data_in_hdr U cmd sess
        (if (has_bit d.flags S_BIT && sense) = true then
          { d with flags := clear_bit d.flags S_BIT } else d) set_statsn).flags S_BIT
      = (has_bit d.flags S_BIT && !sense) ∧
    has_bit (build_data_in_hdr U cmd sess
        (if (has_bit d.flags S_BIT && sense) = true then
          { d with flags := clear_bit d.flags S_BIT } else d) set_statsn).flags F_BIT
      = has_bit d.flags F_BIT := by
  have hb := data_in_hdr_flags_bits cmd sense d.flags hfl
  unfold build_data_in_hdr
  by_cases hs : (has_bit d.flags S_BIT && sense) = true
  · rw [if_pos hs] at hb ⊢
    exact ⟨rfl, rfl, hb.1, hb.2⟩
  · rw [if_neg hs] at hb ⊢
    exact ⟨rfl, rfl, hb.1, hb.2⟩

/-- Claim C4. With DataSequenceInOrder=Yes and DataPDUInOrder=Yes, for a request
(normal or recovery) whose cursor lies inside the command and the burst,
`iscsi_send_data_in` builds a DataIN header, and the header carries `S_BIT` if
and only if the PDU ends the command (`offset + length = data_length`) and the
command has no transport sense data (`SCF_TRANSPORT_TASK_SENSE` clear); the PDU
that ends the command carries `F_BIT`. So the DataIN that ends a command without
sense carries `F_BIT | S_BIT` and a DataIN that ends before `data_length` does
not carry `S_BIT`. The values are 32-bit and the sum
`next_burst_len + MaxRecvDataSegmentLength` the code forms does not wrap. -/
theorem data_in_hdr_sbit (U : iscsi_util) (ops : iscsi_ops) (cmd : iscsi_cmd)
    (conn : iscsi_conn) (sess : iscsi_session) (eodr : Nat)
    (dr0 : iscsi_datain_req) (rest : List iscsi_datain_req)
    (hseq : ops.DataSequenceInOrder = true) (hpdu : ops.DataPDUInOrder = true)
    (hl : cmd.datain_list = dr0 :: rest)
    (hrd : (request_cursor ops cmd dr0).2 < cmd.data_length) (hdl : cmd.data_length < U32_MOD)
    (hnb : (request_cursor ops cmd dr0).1 < ops.MaxBurstLength)
    (hmb : ops.MaxBurstLength < U32_MOD)
    (hw : (request_cursor ops cmd dr0).1 + ops.MaxRecvDataSegmentLength < U32_MOD) :
    ∃ h, (iscsi_send_data_in U ops cmd conn sess eodr).hdr = some h ∧
      (has_bit h.flags S_BIT = true ↔
        (h.offset + h.length = cmd.data_length ∧ cmd.transport_task_sense = false)) ∧
      (h.offset + h.length = cmd.data_length → has_bit h.flags F_BIT = true) ∧
      (h.offset + h.length = cmd.data_length → cmd.transport_task_sense = false →
        has_bit h.flags F_BIT = true ∧ has_bit h.flags S_BIT = true) ∧
      (h.offset + h.length < cmd.data_length → has_bit h.flags S_BIT = false) := by
  obtain ⟨dr, cmd1, sn, heq, hd1, hs1⟩ :=
    yes_and_yes_datain ops cmd dr0 rest hl hrd hdl hnb hmb hw
  obtain ⟨hfl, hS, hF⟩ := burst_flags_bits ops cmd.data_length (request_cursor ops cmd dr0).1
    (request_cursor ops cmd dr0).2
  have hle : burst_length ops cmd.data_length (request_cursor ops cmd dr0).1
      (request_cursor ops cmd dr0).2 ≤ cmd.data_length - (request_cursor ops cmd dr0).2 := by
    unfold burst_length; omega
  have hchk : ¬ add32 (request_cursor ops cmd dr0).2
      (burst_length ops cmd.data_length (request_cursor ops cmd dr0).1
        (request_cursor ops cmd dr0).2) > cmd.data_length := by
    rw [add32_eq (by omega)]; omega
  have key : ∀ (cmdx : iscsi_cmd) (sessx : iscsi_session) (set : Bool)
      (h : iscsi_targ_scsi_data_in),
      h = build_data_in_hdr U cmdx sessx
        (if (has_bit (burst_flags ops cmd.data_length (request_cursor ops cmd dr0).1
              (request_cursor ops cmd dr0).2) S_BIT && cmd.transport_task_sense) = true then
          { ({ flags := burst_flags ops cmd.data_length (request_cursor ops cmd dr0).1
                (request_cursor ops cmd dr0).2
               length := burst_length ops cmd.data_length (request_cursor ops cmd dr0).1
                (request_cursor ops cmd dr0).2
               offset := (request_cursor ops cmd dr0).2
               data_sn := sn } : iscsi_datain) with
            flags := clear_bit (burst_flags ops cmd.data_length (request_cursor ops cmd dr0).1
                (request_cursor ops cmd dr0).2) S_BIT }
         else
          { flags := burst_flags ops cmd.data_length (request_cursor ops cmd dr0).1
              (request_cursor ops cmd dr0).2
            length := burst_length ops cmd.data_length (request_cursor ops cmd dr0).1
              (request_cursor ops cmd dr0).2
            offset := (request_cursor ops cmd dr0).2
            data_sn := sn }) set →
      (has_bit h.flags S_BIT = true ↔
        (h.offset + h.length = cmd.data_length ∧ cmd.transport_task_sense = false)) ∧
      (h.offset + h.length = cmd.data_length → has_bit h.flags F_BIT = true) ∧
      (h.offset + h.length = cmd.data_length → cmd.transport_task_sense = false →
        has_bit h.flags F_BIT = true ∧ has_bit h.flags S_BIT = true) ∧
      (h.offset + h.length < cmd.data_length → has_bit h.flags S_BIT = false) := by
    intro cmdx sessx set h hh
    obtain ⟨e1, e2, e3, e4⟩ := build_data_in_hdr_bits U cmdx sessx
      { flags := burst_flags ops cmd.data_length (request_cursor ops cmd dr0).1
          (request_cursor ops cmd dr0).2
        length := burst_length ops cmd.data_length (request_cursor ops cmd dr0).1
          (request_cursor ops cmd dr0).2
        offset := (request_cursor ops cmd dr0).2
        data_sn := sn } set cmd.transport_task_sense hfl
    simp only at e1 e2 e3 e4
    rw [← hh] at e1 e2 e3 e4
    rw [e1, e2, e3, e4]
    cases hsense : cmd.transport_task_sense with
    | true =>
      refine ⟨by simp, hF, fun _ h => absurd h (by simp), fun hlt => by simp⟩
    | false =>
      refine ⟨by simpa using hS, hF, fun he _ => ⟨hF he, by simpa using hS.2 he⟩, fun hlt => ?_⟩
      have : ¬ has_bit (burst_flags ops cmd.data_length (request_cursor ops cmd dr0).1
          (request_cursor ops cmd dr0).2) S_BIT = true := fun h => by
        have := hS.1 h
        omega
      simpa using this
  unfold iscsi_send_data_in
  rw [get_datain_values_yes_yes U ops cmd {} hseq hpdu, heq]
  simp only [hd1, hs1, if_neg hchk]
  generalize hD :
    (if (has_bit (burst_flags ops cmd.data_length (request_cursor ops cmd dr0).1
          (request_cursor ops cmd dr0).2) S_BIT && cmd.transport_task_sense) = true then
      ({ flags := clear_bit (burst_flags ops cmd.data_length (request_cursor ops cmd dr0).1
            (request_cursor ops cmd dr0).2) S_BIT
         length := burst_length ops cmd.data_length (request_cursor ops cmd dr0).1
            (request_cursor ops cmd dr0).2
         offset := (request_cursor ops cmd dr0).2
         data_sn := sn } : iscsi_datain)
     else
      { flags := burst_flags ops cmd.data_length (request_cursor ops cmd dr0).1
          (request_cursor ops cmd dr0).2
        length := burst_length ops cmd.data_length (request_cursor ops cmd dr0).1
          (request_cursor ops cmd dr0).2
        offset := (request_cursor ops cmd dr0).2
        data_sn := sn }) = D
  split_ifs <;> subst hD <;> exact ⟨_, rfl, key _ _ _ _ rfl⟩

/-- A use of C4 on scenario S1: the header of the only DataIN of the 512-byte
read, sent with StatSN 7 and ExpCmdSN 11, carries `F_BIT | S_BIT`. -/
theorem data_in_hdr_sbit_witness :
    (∃ h, (iscsi_send_data_in util_ok ops_s1 cmd_s1 { stat_sn := 7 }
          { exp_cmd_sn := 11, max_cmd_sn := 42 } 0).hdr = some h ∧
      (has_bit h.flags S_BIT = true ↔
        (h.offset + h.length = cmd_s1.data_length ∧ cmd_s1.transport_task_sense = false)) ∧
      (h.offset + h.length = cmd_s1.data_length → has_bit h.flags F_BIT = true) ∧
      (h.offset + h.length = cmd_s1.data_length → cmd_s1.transport_task_sense = false →
        has_bit h.flags F_BIT = true ∧ has_bit h.flags S_BIT = true) ∧
      (h.offset + h.length < cmd_s1.data_length → has_bit h.flags S_BIT = false)) ∧
    (iscsi_send_data_in util_ok ops_s1 cmd_s1 { stat_sn := 7 }
        { exp_cmd_sn := 11, max_cmd_sn := 42 } 0).hdr =
      some { opcode := ISCSI_TARG_SCSI_DATA_IN, flags := F_BIT ||| S_BIT, length := 512,
             lun := 0xFFFFFFFFFFFFFFFF, init_task_tag := 1, targ_xfer_tag := 0xFFFFFFFF,
             stat_sn := 7, exp_cmd_sn := 11, max_cmd_sn := 43, data_sn := 0, offset := 0 } :=
  ⟨data_in_hdr_sbit util_ok ops_s1 cmd_s1 { stat_sn := 7 } { exp_cmd_sn := 11, max_cmd_sn := 42 } 0
    {} [] rfl rfl rfl (by decide) (by decide) (by decide) (by decide) (by decide),
   by decide⟩

/-! ## C5: the drain after out-of-order arrivals -/

/-- Claim C5, on the code. Scenario S4 with arrivals 22 then 21:
`iscsi_attach_ooo_cmdsn` links CmdSN 21 behind CmdSN 22, so the list is
`[22, 21]`; with `exp_cmd_sn = 21` one call of `iscsi_execute_ooo_cmdsns`
executes only CmdSN 21, returns 1, leaves CmdSN 22 on the list and leaves
`exp_cmd_sn = 22` (the claim: both executed, 2 returned, list empty,
`exp_cmd_sn = 23`). -/
theorem ooo_drain_after_22_21 :
    sess_s4_ready.map ooo_cmdsns = some [22, 21] ∧
    sess_s4_ready.map (fun sess =>
        ((iscsi_execute_ooo_cmdsns util_ok ops_s4 sess).1,
         (iscsi_execute_ooo_cmdsns util_ok ops_s4 sess).2.2.map (fun cmd => cmd.cmd_sn),
         ooo_cmdsns (iscsi_execute_ooo_cmdsns util_ok ops_s4 sess).2.1,
         (iscsi_execute_ooo_cmdsns util_ok ops_s4 sess).2.1.exp_cmd_sn))
      = some (1, [21], [22], 22) := by
  decide

/-! ## C6: insertion and the order of the list -/

/-- Claim C6, on the code. The list `[22]` is sorted and does not hold CmdSN 21;
`iscsi_handle_ooo_cmdsn` for CmdSN 21 returns `CMDSN_HIGHER_THAN_EXP` and leaves
the list `[22, 21]`, which is not sorted in ascending order (the counter has
grown from 1 to 2 and both entries are on the list). -/
theorem ooo_insert_21_after_22 :
    sess_22.map ooo_cmdsns = some [22] ∧
    sess_22.map (fun sess => sess.ooo_cmdsn_count) = some 1 ∧
    (sess_22.bind (fun sess => iscsi_handle_ooo_cmdsn util_ok 4 sess (cmd_with_cmdsn 21) 21)).map
        (fun r => (r.1, ooo_cmdsns r.2.1, r.2.1.ooo_cmdsn_count))
      = some (CMDSN_HIGHER_THAN_EXP, [22, 21], 2) ∧
    ¬ List.Sorted (fun a b => a < b) [22, 21] := by
  decide

/-! ## C7: termination of the insertion -/

/-- The waiting loop of `iscsi_attach_ooo_cmdsn` is never left when it is
entered with `ooo_tmp->cmdsn < ooo_cmdsn->cmdsn`. -/
theorem attach_wait_loop_spins (a b : Nat) (h : a < b) :
    ∀ fuel, attach_wait_loop fuel a b = none := by
  intro fuel
  induction fuel with
  | zero => rfl
  | succ n ih => simp [attach_wait_loop, h, ih]

/-- Claim C7, on the code. With `ExpCmdSN = 20` and the sorted list `[21, 23]`
(reached by receiving CmdSN 21 and then CmdSN 23), `iscsi_handle_ooo_cmdsn` for
CmdSN 22 does not return: CmdSN 22 is not above the tail, the loop over the list
starts at the head, whose CmdSN 21 is below 22, and the inner `while` loop has
the `continue` as its whole body, so no number of tests leaves it. -/
theorem ooo_insert_22_between_21_23_spins :
    sess_21_23 = some sess_21_23_value ∧
    ooo_cmdsns sess_21_23_value = [21, 23] ∧
    ∀ fuel, iscsi_handle_ooo_cmdsn util_ok fuel sess_21_23_value (cmd_with_cmdsn 22) 22 = none := by
  refine ⟨by decide, by decide, ?_⟩
  intro fuel
  have h := attach_wait_loop_spins 21 22 (by decide) fuel
  simp [iscsi_handle_ooo_cmdsn, iscsi_attach_ooo_cmdsn, sess_21_23_value, util_ok, h]

/-! ## C9: draining twice -/

/-- Claim C9, on the code. In scenario S4 with arrivals 22 then 21 the first
`iscsi_execute_ooo_cmdsns` (with `exp_cmd_sn = 21`) executes CmdSN 21 and leaves
`[22]` with `exp_cmd_sn = 22`; a second call right after it is not a no-op: it
returns 1, executes CmdSN 22, empties the list and moves `exp_cmd_sn` to 23. -/
theorem ooo_second_drain_executes :
    sess_s4_ready.map (fun sess =>
        (ooo_cmdsns (iscsi_execute_ooo_cmdsns util_ok ops_s4 sess).2.1,
         (iscsi_execute_ooo_cmdsns util_ok ops_s4 sess).2.1.exp_cmd_sn))
      = some ([22], 22) ∧
    sess_s4_ready.map (fun sess =>
        ((iscsi_execute_ooo_cmdsns util_ok ops_s4
            (iscsi_execute_ooo_cmdsns util_ok ops_s4 sess).2.1).1,
         (iscsi_execute_ooo_cmdsns util_ok ops_s4
            (iscsi_execute_ooo_cmdsns util_ok ops_s4 sess).2.1).2.2.map (fun cmd => cmd.cmd_sn),
         ooo_cmdsns
           (iscsi_execute_ooo_cmdsns util_ok ops_s4
              (iscsi_execute_ooo_cmdsns util_ok ops_s4 sess).2.1).2.1,
         (iscsi_execute_ooo_cmdsns util_ok ops_s4
            (iscsi_execute_ooo_cmdsns util_ok ops_s4 sess).2.1).2.1.exp_cmd_sn))
      = some (1, [22], [], 23) := by
  decide

/-! ## C8: the drain of a sorted list -/

/-- The loop of `iscsi_execute_ooo_cmdsns` on a list sorted by CmdSN, when no
`iscsi_execute_cmd` fails. -/
theorem execute_ooo_loop_sorted (U : iscsi_util) (ops : iscsi_ops) :
    ∀ (l : List iscsi_ooo_cmdsn) (x : Nat) (count : Int),
      List.Pairwise (fun a b : iscsi_ooo_cmdsn => a.cmdsn < b.cmdsn) l →
      (∀ e ∈ l, e.cmdsn < U32_MOD) → x < U32_MOD →
      (∀ c ∈ l.filterMap (fun e => e.cmd), ooo_execute_ok U ops c = true) →
      ∃ n, (∀ i, i < n → ∃ e ∈ l, e.cmdsn = x + i) ∧ (∀ e ∈ l, e.cmdsn ≠ x + n) ∧
        (execute_ooo_loop U ops l x count).kept = l.filter (fun e => !in_run x n e) ∧
        (execute_ooo_loop U ops l x count).exp_cmd_sn = (x + n) % U32_MOD ∧
        (execute_ooo_loop U ops l x count).executed =
          ((l.filter (in_run x n)).filterMap (fun e => e.cmd)).map (ooo_release U ops) ∧
        (execute_ooo_loop U ops l x count).ret =
          count + (((l.filter (in_run x n)).filter (fun e => e.cmd.isSome)).length : Int) := by
  intro l
  induction l with
  | nil =>
    intro x count _ _ hxl _
    refine ⟨0, fun i hi => absurd hi (Nat.not_lt_zero i), fun e he => absurd he (List.not_mem_nil e),
      rfl, ?_, rfl, ?_⟩
    · simp [execute_ooo_loop, Nat.mod_eq_of_lt hxl]
    · simp [execute_ooo_loop]
  | cons e rest ih =>
    intro x count hp hb hxl hx
    rw [List.pairwise_cons] at hp
    obtain ⟨hlt, hp'⟩ := hp
    have hb' : ∀ a ∈ rest, a.cmdsn < U32_MOD := fun a ha => hb a (List.mem_cons_of_mem _ ha)
    have hx' : ∀ c ∈ rest.filterMap (fun e => e.cmd), ooo_execute_ok U ops c = true := by
      intro c hc
      obtain ⟨a, ha, hac⟩ := List.mem_filterMap.mp hc
      exact hx c (List.mem_filterMap.mpr ⟨a, List.mem_cons_of_mem _ ha, hac⟩)
    have hok : ∀ c, e.cmd = some c →
        ¬ (iscsi_execute_cmd U ops { c with i_state := c.deferred_i_state } true).ret < 0 := by
      intro c hc
      have := hx c (List.mem_filterMap.mpr ⟨e, List.mem_cons_self _ _, hc⟩)
      simp only [ooo_execute_ok, decide_eq_true_eq] at this
      exact not_lt.mpr this
    by_cases hne : e.cmdsn ≠ x
    · -- the entry is skipped
      obtain ⟨n, h1, h2, h3, h4, h5, h6⟩ := ih x count hp' hb' hxl hx'
      have hout : in_run x n e = false := by
        cases n with
        | zero => simp [in_run]
        | succ m =>
          obtain ⟨a, ha, hax⟩ := h1 0 (Nat.succ_pos m)
          have := hlt a ha
          simp only [in_run, decide_eq_false_iff_not]
          omega
      refine ⟨n, ?_, ?_, ?_, ?_, ?_, ?_⟩
      · intro i hi
        obtain ⟨a, ha, hax⟩ := h1 i hi
        exact ⟨a, List.mem_cons_of_mem _ ha, hax⟩
      · intro a ha
        rcases List.mem_cons.mp ha with rfl | ha
        · cases n with
          | zero => simpa using hne
          | succ m =>
            obtain ⟨b, hb1, hb2⟩ := h1 m (Nat.lt_succ_self m)
            have := hlt b hb1
            omega
        · exact h2 a ha
      · simp [execute_ooo_loop, hne, h3, hout]
      · simp [execute_ooo_loop, hne, h4]
      · simp [execute_ooo_loop, hne, h5, hout]
      · simp [execute_ooo_loop, hne, h6, hout]
    · -- the entry is the expected one
      have heq : e.cmdsn = x := not_not.mp hne
      by_cases hwrap : x + 1 < U32_MOD
      · have hadd : add32 x 1 = x + 1 := add32_eq hwrap
        have hin : ∀ m, in_run x (m + 1) e = true := by
          intro m
          simp only [in_run, decide_eq_true_eq]
          omega
        have hcongr : ∀ m, ∀ a ∈ rest, in_run x (m + 1) a = in_run (x + 1) m a := by
          intro m a ha
          have := hlt a ha
          simp only [in_run, decide_eq_decide]
          omega
        have hf1 : ∀ m, rest.filter (fun a => !in_run x (m + 1) a)
            = rest.filter (fun a => !in_run (x + 1) m a) := by
          intro m
          apply List.filter_congr
          intro a ha
          rw [hcongr m a ha]
        have hf2 : ∀ m, rest.filter (in_run x (m + 1)) = rest.filter (in_run (x + 1) m) := by
          intro m
          apply List.filter_congr
          intro a ha
          rw [hcongr m a ha]
        have hmem : ∀ (n : Nat), (∀ i, i < n → ∃ a ∈ rest, a.cmdsn = x + 1 + i) →
            (∀ a ∈ rest, a.cmdsn ≠ x + 1 + n) →
            (∀ i, i < n + 1 → ∃ a ∈ e :: rest, a.cmdsn = x + i) ∧
            (∀ a ∈ e :: rest, a.cmdsn ≠ x + (n + 1)) := by
          intro n h1 h2
          constructor
          · intro i hi
            cases i with
            | zero => exact ⟨e, List.mem_cons_self _ _, heq⟩
            | succ j =>
              obtain ⟨a, ha, hax⟩ := h1 j (by omega)
              exact ⟨a, List.mem_cons_of_mem _ ha, by omega⟩
          · intro a ha
            rcases List.mem_cons.mp ha with rfl | ha
            · omega
            · have := h2 a ha
              omega
        cases hc : e.cmd with
        | none =>
          obtain ⟨n, h1, h2, h3, h4, h5, h6⟩ := ih (x + 1) count hp' hb' hwrap hx'
          refine ⟨n + 1, (hmem n h1 h2).1, (hmem n h1 h2).2, ?_, ?_, ?_, ?_⟩
          · simp [execute_ooo_loop, heq, hc, hadd, h3, hin, hf1]
          · simp [execute_ooo_loop, heq, hc, hadd, h4, Nat.add_assoc, Nat.add_comm 1 n]
          · simp [execute_ooo_loop, heq, hc, hadd, h5, hin, hf2]
          · simp [execute_ooo_loop, heq, hc, hadd, h6, hin, hf2]
        | some c =>
          obtain ⟨n, h1, h2, h3, h4, h5, h6⟩ := ih (x + 1) (count + 1) hp' hb' hwrap hx'
          have hok := hok c hc
          refine ⟨n + 1, (hmem n h1 h2).1, (hmem n h1 h2).2, ?_, ?_, ?_, ?_⟩
          · simp [execute_ooo_loop, heq, hc, hadd, h3, hin, hf1, hok, ooo_release]
          · simp [execute_ooo_loop, heq, hc, hadd, h4, hok, ooo_release, Nat.add_assoc, Nat.add_comm 1 n]
          · simp [execute_ooo_loop, heq, hc, hadd, h5, hin, hf2, hok, ooo_release]
          · simp [execute_ooo_loop, heq, hc, hadd, h6, hin, hf2, hok, ooo_release]
            omega
      · -- `exp_cmd_sn` wraps to 0: no entry can follow CmdSN 0xFFFFFFFF
        have hrest : rest = [] := by
          cases rest with
          | nil => rfl
          | cons a t =>
            have h1 := hlt a (List.mem_cons_self _ _)
            have h2 := hb' a (List.mem_cons_self _ _)
            omega
        subst hrest
        have hadd : add32 x 1 = 0 := by
          unfold add32 U32_MOD at *
          omega
        have hin : in_run x 1 e = true := by
          simp only [in_run, decide_eq_true_eq]
          omega
        have hmod : (x + 1) % U32_MOD = 0 := by
          unfold U32_MOD at *
          omega
        refine ⟨1, ?_, ?_, ?_, ?_, ?_, ?_⟩
        · intro i hi
          exact ⟨e, List.mem_cons_self _ _, by omega⟩
        · intro a ha
          rcases List.mem_cons.mp ha with rfl | ha
          · omega
          · exact absurd ha (List.not_mem_nil a)
        · cases hc : e.cmd with
          | none => simp [execute_ooo_loop, heq, hc, hin]
          | some c =>
            have hok := hok c hc
            simp [execute_ooo_loop, heq, hc, hin, hok, ooo_release]
        · cases hc : e.cmd with
          | none => simp [execute_ooo_loop, heq, hc, hadd, hmod]
          | some c =>
            have hok := hok c hc
            simp [execute_ooo_loop, heq, hc, hadd, hmod, hok, ooo_release]
        · cases hc : e.cmd with
          | none => simp [execute_ooo_loop, heq, hc, hin]
          | some c =>
            have hok := hok c hc
            simp [execute_ooo_loop, heq, hc, hin, hok, ooo_release]
        · cases hc : e.cmd with
          | none => simp [execute_ooo_loop, heq, hc, hin]
          | some c =>
            have hok := hok c hc
            simp [execute_ooo_loop, heq, hc, hin, hok, ooo_release]

/-- Claim C8. For a session whose out-of-order list is sorted in strictly
ascending CmdSN order (32-bit CmdSNs), one call of `iscsi_execute_ooo_cmdsns`
in which every `iscsi_execute_cmd` succeeds (`ooo_execute_ok`: the call does not
return a negative value for any command on the list) acts on the maximal run of
consecutive CmdSNs `exp_cmd_sn, exp_cmd_sn + 1, ..., exp_cmd_sn + n - 1` that are
on the list (`exp_cmd_sn + n` is the first that is missing): it removes exactly
the entries of the run and leaves all others in place and in order, it leaves
`exp_cmd_sn + n` (as a 32-bit value) in `exp_cmd_sn`, it executes the commands
of the removed entries that still have one, in list order, which is ascending
CmdSN order, and it returns the number of those commands; a removed entry whose
command was cleared only advances `exp_cmd_sn`. -/
theorem ooo_drain_sorted (U : iscsi_util) (ops : iscsi_ops) (sess : iscsi_session)
    (hs : List.Sorted (fun a b => a < b) (ooo_cmdsns sess))
    (hb : ∀ e ∈ sess.sess_ooo_cmdsn_list, e.cmdsn < U32_MOD)
    (he : sess.exp_cmd_sn < U32_MOD)
    (hx : ∀ c ∈ sess.sess_ooo_cmdsn_list.filterMap (fun e => e.cmd),
      ooo_execute_ok U ops c = true) :
    ∃ n, (∀ i, i < n → sess.exp_cmd_sn + i ∈ ooo_cmdsns sess) ∧
      sess.exp_cmd_sn + n ∉ ooo_cmdsns sess ∧
      (iscsi_execute_ooo_cmdsns U ops sess).2.1.sess_ooo_cmdsn_list =
        sess.sess_ooo_cmdsn_list.filter (fun e => !in_run sess.exp_cmd_sn n e) ∧
      (iscsi_execute_ooo_cmdsns U ops sess).2.1.exp_cmd_sn = (sess.exp_cmd_sn + n) % U32_MOD ∧
      (iscsi_execute_ooo_cmdsns U ops sess).2.2 =
        ((sess.sess_ooo_cmdsn_list.filter (in_run sess.exp_cmd_sn n)).filterMap
          (fun e => e.cmd)).map (ooo_release U ops) ∧
      (iscsi_execute_ooo_cmdsns U ops sess).1 =
        (((sess.sess_ooo_cmdsn_list.filter (in_run sess.exp_cmd_sn n)).filter
          (fun e => e.cmd.isSome)).length : Int) := by
  have hp : List.Pairwise (fun a b : iscsi_ooo_cmdsn => a.cmdsn < b.cmdsn)
      sess.sess_ooo_cmdsn_list := by
    have := hs
    unfold List.Sorted ooo_cmdsns at this
    exact List.pairwise_map.mp this
  obtain ⟨n, h1, h2, h3, h4, h5, h6⟩ :=
    execute_ooo_loop_sorted U ops sess.sess_ooo_cmdsn_list sess.exp_cmd_sn 0 hp hb he hx
  refine ⟨n, ?_, ?_, h3, h4, h5, ?_⟩
  · intro i hi
    obtain ⟨e, he1, he2⟩ := h1 i hi
    exact List.mem_map.mpr ⟨e, he1, he2⟩
  · intro hmem
    obtain ⟨e, he1, he2⟩ := List.mem_map.mp hmem
    exact h2 e he1 he2
  · simpa [iscsi_execute_ooo_cmdsns] using h6

/-- A use of C8: on the list `[21, 22, 24]` with `exp_cmd_sn = 21` and the
command of CmdSN 22 cleared, the call executes CmdSN 21 only, returns 1, leaves
`[24]` and `exp_cmd_sn = 23`. -/
theorem ooo_drain_sorted_witness :
    (List.Sorted (fun a b => a < b) (ooo_cmdsns sess_sorted) ∧
      (∀ e ∈ sess_sorted.sess_ooo_cmdsn_list, e.cmdsn < U32_MOD) ∧
      sess_sorted.exp_cmd_sn < U32_MOD) ∧
    (∃ n, (∀ i, i < n → sess_sorted.exp_cmd_sn + i ∈ ooo_cmdsns sess_sorted) ∧
      sess_sorted.exp_cmd_sn + n ∉ ooo_cmdsns sess_sorted ∧
      (iscsi_execute_ooo_cmdsns util_ok ops_s4 sess_sorted).2.1.sess_ooo_cmdsn_list =
        sess_sorted.sess_ooo_cmdsn_list.filter (fun e => !in_run sess_sorted.exp_cmd_sn n e) ∧
      (iscsi_execute_ooo_cmdsns util_ok ops_s4 sess_sorted).2.1.exp_cmd_sn =
        (sess_sorted.exp_cmd_sn + n) % U32_MOD ∧
      (iscsi_execute_ooo_cmdsns util_ok ops_s4 sess_sorted).2.2 =
        ((sess_sorted.sess_ooo_cmdsn_list.filter (in_run sess_sorted.exp_cmd_sn n)).filterMap
          (fun e => e.cmd)).map (ooo_release util_ok ops_s4) ∧
      (iscsi_execute_ooo_cmdsns util_ok ops_s4 sess_sorted).1 =
        (((sess_sorted.sess_ooo_cmdsn_list.filter (in_run sess_sorted.exp_cmd_sn n)).filter
          (fun e => e.cmd.isSome)).length : Int)) ∧
    ((iscsi_execute_ooo_cmdsns util_ok ops_s4 sess_sorted).1,
      (iscsi_execute_ooo_cmdsns util_ok ops_s4 sess_sorted).2.2.map (fun cmd => cmd.cmd_sn),
      ooo_cmdsns (iscsi_execute_ooo_cmdsns util_ok ops_s4 sess_sorted).2.1,
      (iscsi_execute_ooo_cmdsns util_ok ops_s4 sess_sorted).2.1.exp_cmd_sn) = (1, [21], [24], 23) :=
  ⟨⟨by decide, by decide, by decide⟩,
   ooo_drain_sorted util_ok ops_s4 sess_sorted (by decide) (by decide) (by decide) (by decide),
   by decide⟩

/-! ## C10: the R2Ts of `iscsi_build_r2ts_for_cmd` with DataSequenceInOrder=Yes -/

/-- The next R2T with DataSequenceInOrder=Yes and a call type other than 2. -/
theorem build_r2ts_next_in_order (U : iscsi_util) (ops : iscsi_ops) (type : Int)
    (first : Bool) (cmd : iscsi_cmd)
    (hseq : ops.DataSequenceInOrder = true) (ht : type ≠ 2)
    (hr : cmd.r2t_offset ≤ cmd.data_length)
    (hdl : cmd.data_length + ops.MaxBurstLength < U32_MOD) :
    ∃ c, build_r2ts_next U ops type first cmd =
        some (cmd.r2t_offset, min ops.MaxBurstLength (cmd.data_length - cmd.r2t_offset), c) ∧
      c.r2t_offset = cmd.r2t_offset
        + min ops.MaxBurstLength (cmd.data_length - cmd.r2t_offset) ∧
      c.sent_last_r2t =
        (if cmd.r2t_offset + min ops.MaxBurstLength (cmd.data_length - cmd.r2t_offset)
            = cmd.data_length then true else cmd.sent_last_r2t) ∧
      c.data_length = cmd.data_length ∧ c.r2t_list = cmd.r2t_list ∧
      c.outstanding_r2ts = cmd.outstanding_r2ts ∧ c.r2t_sn = cmd.r2t_sn := by
  have hxl : (if add32 cmd.r2t_offset ops.MaxBurstLength > cmd.data_length then
        sub32 cmd.data_length cmd.r2t_offset else ops.MaxBurstLength)
      = min ops.MaxBurstLength (cmd.data_length - cmd.r2t_offset) := by
    rw [add32_eq (by omega), sub32_eq hr (by omega)]
    split <;> omega
  have hoff : add32 cmd.r2t_offset (min ops.MaxBurstLength (cmd.data_length - cmd.r2t_offset))
      = cmd.r2t_offset + min ops.MaxBurstLength (cmd.data_length - cmd.r2t_offset) :=
    add32_eq (by omega)
  have hfirst : ¬ (first = true ∧ type = 2) := fun h => ht h.2
  unfold build_r2ts_next
  simp only [hseq, if_true, if_neg hfirst, hxl, hoff]
  by_cases hlast : cmd.r2t_offset + min ops.MaxBurstLength (cmd.data_length - cmd.r2t_offset)
      = cmd.data_length
  · rw [if_pos hlast, if_pos hlast]
    exact ⟨_, rfl, rfl, rfl, rfl, rfl, rfl, rfl⟩
  · rw [if_neg hlast, if_neg hlast]
    exact ⟨_, rfl, rfl, rfl, rfl, rfl, rfl, rfl⟩

theorem add_r2t_to_list_ok (U : iscsi_util) (cmd : iscsi_cmd) (off len : Nat)
    (h : U.r2t_alloc_ok cmd = true) :
    ∃ c, iscsi_add_r2t_to_list U cmd off len false 0 = (0, c) ∧
      c.r2t_list = cmd.r2t_list ++ [{ r2t_sn := cmd.r2t_sn, offset := off, xfer_len := len }] ∧
      c.sent_last_r2t = cmd.sent_last_r2t ∧ c.data_length = cmd.data_length ∧
      c.r2t_offset = cmd.r2t_offset ∧ c.outstanding_r2ts = cmd.outstanding_r2ts := by
  unfold iscsi_add_r2t_to_list
  simp only [h, Bool.not_true, Bool.false_eq_true, if_false, if_true]
  exact ⟨_, rfl, rfl, rfl, rfl, rfl, rfl⟩

theorem add_r2t_to_list_fail (U : iscsi_util) (cmd : iscsi_cmd) (off len : Nat)
    (h : U.r2t_alloc_ok cmd = false) :
    iscsi_add_r2t_to_list U cmd off len false 0 = (-1, cmd) := by
  unfold iscsi_add_r2t_to_list
  simp only [h, Bool.not_false, if_true]

theorem build_r2ts_loop_chain (U : iscsi_util) (ops : iscsi_ops) (type : Int)
    (hseq : ops.DataSequenceInOrder = true) (ht : type ≠ 2) :
    ∀ (fuel : Nat) (first : Bool) (cmd : iscsi_cmd),
      cmd.sent_last_r2t = false → cmd.r2t_offset ≤ cmd.data_length →
      cmd.data_length + ops.MaxBurstLength < U32_MOD →
      ∃ new : List iscsi_r2t,
        (build_r2ts_loop U ops type fuel first cmd).2.r2t_list = cmd.r2t_list ++ new ∧
        r2t_chain ops cmd.data_length cmd.r2t_offset new ∧
        (build_r2ts_loop U ops type fuel first cmd).2.data_length = cmd.data_length ∧
        (build_r2ts_loop U ops type fuel first cmd).2.r2t_offset ≤ cmd.data_length ∧
        ((build_r2ts_loop U ops type fuel first cmd).1 = 0 →
          (build_r2ts_loop U ops type fuel first cmd).2.r2t_offset
            = cmd.r2t_offset + (new.map (fun r => r.xfer_len)).sum ∧
          (new ≠ [] →
            ((build_r2ts_loop U ops type fuel first cmd).2.sent_last_r2t = true ↔
              (build_r2ts_loop U ops type fuel first cmd).2.r2t_offset = cmd.data_length)) ∧
          (new = [] → (build_r2ts_loop U ops type fuel first cmd).2.sent_last_r2t = false)) := by
  intro fuel
  induction fuel with
  | zero =>
    intro first cmd hflag hr _
    exact ⟨[], by simp [build_r2ts_loop], trivial, rfl, hr,
      fun _ => ⟨by simp [build_r2ts_loop], fun h => absurd rfl h, fun _ => hflag⟩⟩
  | succ fuel ih =>
    intro first cmd hflag hr hdl
    by_cases hout : cmd.outstanding_r2ts < ops.MaxOutstandingR2T
    · obtain ⟨c, hnext, c1, c2, c3, c4, _, c6⟩ :=
        build_r2ts_next_in_order U ops type first cmd hseq ht hr hdl
      obtain ⟨L, hL⟩ : ∃ L, L = min ops.MaxBurstLength (cmd.data_length - cmd.r2t_offset) :=
        ⟨_, rfl⟩
      rw [← hL] at hnext c1 c2
      have hLle : cmd.r2t_offset + L ≤ cmd.data_length := by omega
      rw [build_r2ts_loop, if_pos hout, hnext]
      simp only
      generalize hc1 : ({ c with outstanding_r2ts := add32 c.outstanding_r2ts 1 } : iscsi_cmd)
        = cmd1
      have f1 : cmd1.r2t_offset = cmd.r2t_offset + L := by rw [← hc1]; exact c1
      have f2 : cmd1.sent_last_r2t =
          (if cmd.r2t_offset + L = cmd.data_length then true else cmd.sent_last_r2t) := by
        rw [← hc1]; exact c2
      have f3 : cmd1.data_length = cmd.data_length := by rw [← hc1]; exact c3
      have f4 : cmd1.r2t_list = cmd.r2t_list := by rw [← hc1]; exact c4
      have f6 : cmd1.r2t_sn = cmd.r2t_sn := by rw [← hc1]; exact c6
      by_cases hall : U.r2t_alloc_ok cmd1 = true
      · obtain ⟨d, hadd, d1, d2, d3, d4, _⟩ :=
          add_r2t_to_list_ok U cmd1 cmd.r2t_offset L hall
        rw [hadd]
        simp only [Int.lt_irrefl, if_false]
        rw [f4, f6] at d1
        rw [f3] at d3
        rw [f1] at d4
        by_cases hlast : cmd.r2t_offset + L = cmd.data_length
        · rw [if_pos hlast] at f2
          rw [f2] at d2
          rw [if_pos d2]
          refine ⟨[{ r2t_sn := cmd.r2t_sn, offset := cmd.r2t_offset, xfer_len := L }],
            d1, ⟨rfl, hL, fun _ => rfl, trivial⟩, d3, by rw [d4]; omega, fun _ => ?_⟩
          refine ⟨by rw [d4]; simp, fun _ => ?_, fun h => absurd h (List.cons_ne_nil _ _)⟩
          rw [d2, d4]
          simp [hlast]
        · rw [if_neg hlast, hflag] at f2
          rw [f2] at d2
          have hd2 : ¬ d.sent_last_r2t = true := by rw [d2]; simp
          rw [if_neg hd2]
          obtain ⟨new, h1, h2, h3, h4, h5⟩ := ih false d d2 (by rw [d3, d4]; omega)
            (by rw [d3]; exact hdl)
          rw [d1] at h1
          rw [d3] at h2 h3 h4 h5
          rw [d4] at h2 h5
          refine ⟨{ r2t_sn := cmd.r2t_sn, offset := cmd.r2t_offset, xfer_len := L } :: new,
            by rw [h1]; simp, ⟨rfl, hL, fun h => absurd h hlast, h2⟩, h3, h4, ?_⟩
          intro hret
          obtain ⟨e1, e2, e3⟩ := h5 hret
          refine ⟨by simp only [List.map_cons, List.sum_cons]; omega, fun _ => ?_,
            fun h => absurd h (List.cons_ne_nil _ _)⟩
          by_cases hnew : new = []
          · subst hnew
            have hf := e3 rfl
            simp only [List.map_nil, List.sum_nil, Nat.add_zero] at e1
            rw [hf, e1]
            simp [hlast]
          · exact e2 hnew
      · have hall' : U.r2t_alloc_ok cmd1 = false := by simpa using hall
        rw [add_r2t_to_list_fail U cmd1 cmd.r2t_offset L hall']
        simp only [Int.reduceNeg, Int.reduceLT, if_true]
        refine ⟨[], by simp [f4], trivial, f3, by rw [f1]; omega, fun h => ?_⟩
        simp at h
    · exact ⟨[], by simp [build_r2ts_loop, hout], trivial, by simp [build_r2ts_loop, hout],
        by simp [build_r2ts_loop, hout, hr],
        fun _ => ⟨by simp [build_r2ts_loop, hout], fun h => absurd rfl h,
          fun _ => by simp [build_r2ts_loop, hout, hflag]⟩⟩

theorem r2t_chain_props (ops : iscsi_ops) (dl : Nat) :
    ∀ (new : List iscsi_r2t) (off : Nat), off ≤ dl → r2t_chain ops dl off new →
      (∀ r, new.head? = some r → r.offset = off) ∧
      (∀ (i : Nat) (h : i + 1 < new.length),
        (new.get ⟨i + 1, h⟩).offset =
          (new.get ⟨i, Nat.lt_of_succ_lt h⟩).offset
            + (new.get ⟨i, Nat.lt_of_succ_lt h⟩).xfer_len) ∧
      (∀ r ∈ new, r.xfer_len = min ops.MaxBurstLength (dl - r.offset) ∧ r.offset ≤ dl) ∧
      (∀ (i : Nat) (h : i < new.length),
        (new.get ⟨i, h⟩).offset + (new.get ⟨i, h⟩).xfer_len = dl → i + 1 = new.length) := by
  intro new
  induction new with
  | nil =>
    intro off _ _
    refine ⟨fun r h => by simp at h, fun i h => by simp at h, fun r h => by simp at h,
      fun i h => by simp at h⟩
  | cons r t ih =>
    intro off hoff hc
    obtain ⟨h1, h2, h3, h4⟩ := hc
    obtain ⟨i1, i2, i3, i4⟩ := ih (off + r.xfer_len) (by omega) h4
    refine ⟨?_, ?_, ?_, ?_⟩
    · intro r' hr'
      simp only [List.head?_cons, Option.some.injEq] at hr'
      rw [← hr']; exact h1
    · intro i h
      cases i with
      | zero =>
        cases t with
        | nil => simp at h
        | cons q t' =>
          simp only [List.get_cons_succ, List.get_cons_zero]
          have := i1 q rfl
          simp only [List.get_eq_getElem, List.getElem_cons_zero]
          omega
      | succ j =>
        have hj : j + 1 < t.length := by simp at h; omega
        have := i2 j hj
        simpa using this
    · intro r' hr'
      rcases List.mem_cons.mp hr' with rfl | hr'
      · rw [h1]; exact ⟨h2, hoff⟩
      · exact i3 r' hr'
    · intro i h hend
      cases i with
      | zero =>
        simp only [List.get_eq_getElem, List.getElem_cons_zero] at hend
        rw [h1] at hend
        have := h3 hend
        subst this
        rfl
      | succ j =>
        have hj : j < t.length := by simp at h; omega
        have := i4 j hj (by simpa using hend)
        simp only [List.length_cons]
        omega

/-- In the branch for DataSequenceInOrder=Yes every pass of the loop raises
`outstanding_r2ts` by one, so the loop started with
`MaxOutstandingR2T - outstanding_r2ts` passes allowed never stops for want of
passes: allowing one more changes nothing. -/
theorem build_r2ts_loop_fuel (U : iscsi_util) (ops : iscsi_ops) (type : Int)
    (hseq : ops.DataSequenceInOrder = true) (hmo : ops.MaxOutstandingR2T < U32_MOD) :
    ∀ (fuel : Nat) (first : Bool) (cmd : iscsi_cmd),
      ops.MaxOutstandingR2T - cmd.outstanding_r2ts ≤ fuel →
      build_r2ts_loop U ops type (fuel + 1) first cmd
        = build_r2ts_loop U ops type fuel first cmd := by
  intro fuel
  induction fuel with
  | zero =>
    intro first cmd h
    have hout : ¬ cmd.outstanding_r2ts < ops.MaxOutstandingR2T := by omega
    simp [build_r2ts_loop, hout]
  | succ fuel ih =>
    intro first cmd h
    by_cases hout : cmd.outstanding_r2ts < ops.MaxOutstandingR2T
    · rw [build_r2ts_loop, build_r2ts_loop, if_pos hout, if_pos hout]
      have hnext : ∃ o x c, build_r2ts_next U ops type first cmd = some (o, x, c) ∧
          c.outstanding_r2ts = cmd.outstanding_r2ts := by
        unfold build_r2ts_next
        simp only [hseq, if_true]
        refine ⟨_, _, _, rfl, ?_⟩
        simp only [apply_ite iscsi_cmd.outstanding_r2ts, ite_self]
      obtain ⟨o, x, c, hn, hc⟩ := hnext
      rw [hn]
      simp only
      have hadd : (iscsi_add_r2t_to_list U
          { c with outstanding_r2ts := add32 c.outstanding_r2ts 1 } o x false 0).2.outstanding_r2ts
          = cmd.outstanding_r2ts + 1 := by
        unfold iscsi_add_r2t_to_list
        split
        · simp only [hc]; exact add32_eq (by omega)
        · simp only [hc]; exact add32_eq (by omega)
      split
      · rfl
      · split
        · rfl
        · exact ih false _ (by rw [hadd]; omega)
    · simp [build_r2ts_loop, hout]

/-- The R2Ts of `iscsi_build_r2ts_for_cmd` where the 32-bit sum it compares does
not wrap. With DataSequenceInOrder=Yes and call type 0 or 1: a call of
`iscsi_build_r2ts_for_cmd` made with `ICF_SENT_LAST_R2T` set returns 0 and
changes nothing. Otherwise the R2Ts the call appends to the command's list are
such that the first has offset `max(r2t_offset, write_data_done)`, each
following one starts at the end of the one before, each has
`xfer_len = min(MaxBurstLength, data_length - offset)`, hence
`xfer_len <= MaxBurstLength`, `offset + xfer_len <= data_length` and
`0 < xfer_len` when `offset < data_length` (and `MaxBurstLength > 0`); only the
last appended R2T can end at `data_length`, and when the call succeeds,
`r2t_offset` is the end of the last appended R2T and `ICF_SENT_LAST_R2T` is set
exactly when `r2t_offset` has reached `data_length` with an R2T of this call.
The cursors are inside the command and `data_length + MaxBurstLength` is below
`2^32`, so that the 32-bit sum the code compares does not wrap. -/
theorem build_r2ts_in_order (U : iscsi_util) (ops : iscsi_ops) (cmd : iscsi_cmd) (type : Int)
    (hseq : ops.DataSequenceInOrder = true) (ht : type = 0 ∨ type = 1)
    (hdl : cmd.data_length + ops.MaxBurstLength < U32_MOD)
    (hw : cmd.write_data_done ≤ cmd.data_length) (hr : cmd.r2t_offset ≤ cmd.data_length) :
    (cmd.sent_last_r2t = true → iscsi_build_r2ts_for_cmd U ops cmd type = (0, cmd)) ∧
    (cmd.sent_last_r2t = false →
      ∃ new : List iscsi_r2t,
        (iscsi_build_r2ts_for_cmd U ops cmd type).2.r2t_list = cmd.r2t_list ++ new ∧
        (∀ r, new.head? = some r → r.offset = max cmd.r2t_offset cmd.write_data_done) ∧
        (∀ (i : Nat) (h : i + 1 < new.length),
          (new.get ⟨i + 1, h⟩).offset =
            (new.get ⟨i, Nat.lt_of_succ_lt h⟩).offset
              + (new.get ⟨i, Nat.lt_of_succ_lt h⟩).xfer_len) ∧
        (∀ r ∈ new,
          r.xfer_len = min ops.MaxBurstLength (cmd.data_length - r.offset) ∧
          r.xfer_len ≤ ops.MaxBurstLength ∧ r.offset + r.xfer_len ≤ cmd.data_length ∧
          (r.offset < cmd.data_length → 0 < ops.MaxBurstLength → 0 < r.xfer_len)) ∧
        (∀ (i : Nat) (h : i < new.length),
          (new.get ⟨i, h⟩).offset + (new.get ⟨i, h⟩).xfer_len = cmd.data_length →
          i + 1 = new.length) ∧
        ((iscsi_build_r2ts_for_cmd U ops cmd type).1 = 0 →
          (iscsi_build_r2ts_for_cmd U ops cmd type).2.r2t_offset =
            max cmd.r2t_offset cmd.write_data_done + (new.map (fun r => r.xfer_len)).sum ∧
          (new ≠ [] →
            ((iscsi_build_r2ts_for_cmd U ops cmd type).2.sent_last_r2t = true ↔
              (iscsi_build_r2ts_for_cmd U ops cmd type).2.r2t_offset = cmd.data_length)) ∧
          (new = [] → (iscsi_build_r2ts_for_cmd U ops cmd type).2.sent_last_r2t = false))) := by
  have ht2 : type ≠ 2 := by rcases ht with h | h <;> rw [h] <;> decide
  constructor
  · intro hflag
    simp [iscsi_build_r2ts_for_cmd, hflag]
  · intro hflag
    obtain ⟨c0, hc0, g1, g2, g3, g4⟩ : ∃ c0 : iscsi_cmd,
        iscsi_build_r2ts_for_cmd U ops cmd type =
          build_r2ts_loop U ops type (ops.MaxOutstandingR2T - c0.outstanding_r2ts) true c0 ∧
        c0.r2t_offset = max cmd.r2t_offset cmd.write_data_done ∧
        c0.data_length = cmd.data_length ∧ c0.r2t_list = cmd.r2t_list ∧
        c0.sent_last_r2t = false := by
      unfold iscsi_build_r2ts_for_cmd
      simp only [hflag, Bool.false_eq_true, if_false]
      by_cases hlt : cmd.r2t_offset < cmd.write_data_done
      · have hcond : ops.DataSequenceInOrder = true ∧ type ≠ 2
            ∧ cmd.r2t_offset < cmd.write_data_done := ⟨hseq, ht2, hlt⟩
        rw [if_pos hcond]
        exact ⟨_, rfl, by simp only; omega, rfl, rfl, rfl⟩
      · have hcond : ¬ (ops.DataSequenceInOrder = true ∧ type ≠ 2
            ∧ cmd.r2t_offset < cmd.write_data_done) := fun h => hlt h.2.2
        rw [if_neg hcond]
        exact ⟨_, rfl, by omega, rfl, rfl, hflag⟩
    obtain ⟨new, h1, h2, h3, h4, h5⟩ := build_r2ts_loop_chain U ops type hseq ht2
      (ops.MaxOutstandingR2T - c0.outstanding_r2ts) true c0 g4 (by rw [g1, g2]; omega)
      (by rw [g2]; exact hdl)
    rw [← hc0] at h1 h3 h4 h5
    rw [g3] at h1
    rw [g2] at h2 h3 h4 h5
    rw [g1] at h2 h5
    obtain ⟨p1, p2, p3, p4⟩ := r2t_chain_props ops cmd.data_length new _ (by omega) h2
    refine ⟨new, h1, p1, p2, ?_, p4, h5⟩
    intro r hr
    obtain ⟨q1, q2⟩ := p3 r hr
    refine ⟨q1, by omega, by omega, fun _ _ => by omega⟩

/-- The R2Ts of scenario S2: `data_length = 9000`, `write_data_done = 4096`,
`MaxBurstLength = 4096`, `MaxOutstandingR2T = 2`; the call appends the R2Ts
(offset 4096, xfer_len 4096, R2TSN 0) and (offset 8192, xfer_len 808, R2TSN 1)
and sets `ICF_SENT_LAST_R2T`. -/
theorem build_r2ts_in_order_witness :
    ((cmd_s2.sent_last_r2t = true → iscsi_build_r2ts_for_cmd util_ok ops_s2 cmd_s2 0 = (0, cmd_s2)) ∧
    (cmd_s2.sent_last_r2t = false →
      ∃ new : List iscsi_r2t,
        (iscsi_build_r2ts_for_cmd util_ok ops_s2 cmd_s2 0).2.r2t_list = cmd_s2.r2t_list ++ new ∧
        (∀ r, new.head? = some r → r.offset = max cmd_s2.r2t_offset cmd_s2.write_data_done) ∧
        (∀ (i : Nat) (h : i + 1 < new.length),
          (new.get ⟨i + 1, h⟩).offset =
            (new.get ⟨i, Nat.lt_of_succ_lt h⟩).offset
              + (new.get ⟨i, Nat.lt_of_succ_lt h⟩).xfer_len) ∧
        (∀ r ∈ new,
          r.xfer_len = min ops_s2.MaxBurstLength (cmd_s2.data_length - r.offset) ∧
          r.xfer_len ≤ ops_s2.MaxBurstLength ∧ r.offset + r.xfer_len ≤ cmd_s2.data_length ∧
          (r.offset < cmd_s2.data_length → 0 < ops_s2.MaxBurstLength → 0 < r.xfer_len)) ∧
        (∀ (i : Nat) (h : i < new.length),
          (new.get ⟨i, h⟩).offset + (new.get ⟨i, h⟩).xfer_len = cmd_s2.data_length →
          i + 1 = new.length) ∧
        ((iscsi_build_r2ts_for_cmd util_ok ops_s2 cmd_s2 0).1 = 0 →
          (iscsi_build_r2ts_for_cmd util_ok ops_s2 cmd_s2 0).2.r2t_offset =
            max cmd_s2.r2t_offset cmd_s2.write_data_done
              + (new.map (fun r => r.xfer_len)).sum ∧
          (new ≠ [] →
            ((iscsi_build_r2ts_for_cmd util_ok ops_s2 cmd_s2 0).2.sent_last_r2t = true ↔
              (iscsi_build_r2ts_for_cmd util_ok ops_s2 cmd_s2 0).2.r2t_offset
                = cmd_s2.data_length)) ∧
          (new = [] →
            (iscsi_build_r2ts_for_cmd util_ok ops_s2 cmd_s2 0).2.sent_last_r2t = false)))) ∧
    (iscsi_build_r2ts_for_cmd util_ok ops_s2 cmd_s2 0).1 = 0 ∧
    (iscsi_build_r2ts_for_cmd util_ok ops_s2 cmd_s2 0).2.r2t_list =
      [{ r2t_sn := 0, offset := 4096, xfer_len := 4096 },
       { r2t_sn := 1, offset := 8192, xfer_len := 808 }] ∧
    (iscsi_build_r2ts_for_cmd util_ok ops_s2 cmd_s2 0).2.sent_last_r2t = true ∧
    (iscsi_build_r2ts_for_cmd util_ok ops_s2 cmd_s2 0).2.outstanding_r2ts = 2 :=
  ⟨build_r2ts_in_order util_ok ops_s2 cmd_s2 0 rfl (Or.inl rfl) (by decide) (by decide)
    (by decide),
   by decide, by decide, by decide, by decide⟩

/-- Claim C10, on the code. With DataSequenceInOrder=Yes,
`MaxBurstLength = 262144` and call type 1, for a write command with
`data_length = 0xFFFFFFFF` and `r2t_offset = write_data_done = 0xFFFC0000`
(262143 bytes left): the sum `offset + MaxBurstLength` is `2^32`, which the code
computes as 0 in 32 bits and finds not above `data_length`; so
`iscsi_build_r2ts_for_cmd` adds an R2T with `xfer_len = 262144`, not
`min(MaxBurstLength, data_length - offset) = 262143`, its end
`offset + xfer_len` lies beyond `data_length`, `r2t_offset` wraps to 0 and
`ICF_SENT_LAST_R2T` is not set although the whole command has been asked for;
with call type 0 the same. -/
theorem build_r2ts_sum_wraps :
    ops_s1.DataSequenceInOrder = true ∧ ops_s1.MaxBurstLength = 262144 ∧
    cmd_write_edtl_max.r2t_offset < cmd_write_edtl_max.data_length ∧
    min ops_s1.MaxBurstLength (cmd_write_edtl_max.data_length - cmd_write_edtl_max.r2t_offset)
      = 262143 ∧
    iscsi_build_r2ts_for_cmd util_ok ops_s1 cmd_write_edtl_max 1
      = (0, { cmd_write_edtl_max with
                r2t_offset := 0, outstanding_r2ts := 1, r2t_sn := 1,
                r2t_list := [{ r2t_sn := 0, offset := 0xFFFC0000, xfer_len := 262144 }] }) ∧
    (iscsi_build_r2ts_for_cmd util_ok ops_s1 cmd_write_edtl_max 1).2.sent_last_r2t = false ∧
    cmd_write_edtl_max.data_length < 0xFFFC0000 + 262144 ∧
    iscsi_build_r2ts_for_cmd util_ok ops_s1 cmd_write_edtl_max 0
      = iscsi_build_r2ts_for_cmd util_ok ops_s1 cmd_write_edtl_max 1 := by
  decide

/-! ## C11: the R2Ts queued on a command and `outstanding_r2ts` -/

/-- What `iscsi_add_r2t_to_list` leaves: `outstanding_r2ts` and
`ICF_SENT_LAST_R2T` as they were, and either -1 and the command unchanged or 0
and one more R2T, unsent and not complete, at the end of the list. -/
theorem add_r2t_to_list_frame (U : iscsi_util) (cmd : iscsi_cmd) (off len : Nat)
    (recovery : Bool) (sn : Nat) :
    (iscsi_add_r2t_to_list U cmd off len recovery sn).2.outstanding_r2ts
        = cmd.outstanding_r2ts ∧
    (iscsi_add_r2t_to_list U cmd off len recovery sn).2.sent_last_r2t = cmd.sent_last_r2t ∧
    (((iscsi_add_r2t_to_list U cmd off len recovery sn).1 = -1 ∧
        (iscsi_add_r2t_to_list U cmd off len recovery sn).2.r2t_list = cmd.r2t_list) ∨
      ((iscsi_add_r2t_to_list U cmd off len recovery sn).1 = 0 ∧
        ∃ r : iscsi_r2t,
          (iscsi_add_r2t_to_list U cmd off len recovery sn).2.r2t_list = cmd.r2t_list ++ [r] ∧
          r.recovery_r2t = recovery ∧ r.sent_r2t = false ∧ r.seq_complete = false ∧
          r.offset = off ∧ r.xfer_len = len)) := by
  unfold iscsi_add_r2t_to_list
  by_cases h : U.r2t_alloc_ok cmd = true
  · rw [if_neg (by simp [h])]
    exact ⟨rfl, rfl, Or.inr ⟨rfl, _, rfl, rfl, rfl, rfl, rfl, rfl⟩⟩
  · rw [if_pos (by simpa using h)]
    exact ⟨rfl, rfl, Or.inl ⟨rfl, rfl⟩⟩

/-- The first half of the loop body of `iscsi_build_r2ts_for_cmd` leaves
`outstanding_r2ts` and the R2T list as they are, when the sequence lookup does. -/
theorem build_r2ts_next_frame (U : iscsi_util) (ops : iscsi_ops) (type : Int) (first : Bool)
    (cmd : iscsi_cmd)
    (hframe : ∀ c, (U.iscsi_get_seq_holder_for_r2t c).1.outstanding_r2ts = c.outstanding_r2ts ∧
      (U.iscsi_get_seq_holder_for_r2t c).1.r2t_list = c.r2t_list)
    (o x : Nat) (c : iscsi_cmd) (h : build_r2ts_next U ops type first cmd = some (o, x, c)) :
    c.outstanding_r2ts = cmd.outstanding_r2ts ∧ c.r2t_list = cmd.r2t_list := by
  unfold build_r2ts_next at h
  by_cases hseq : ops.DataSequenceInOrder = true
  · simp only [hseq, if_true, Option.some.injEq, Prod.mk.injEq] at h
    obtain ⟨_, _, rfl⟩ := h
    constructor
    · simp only [apply_ite iscsi_cmd.outstanding_r2ts, ite_self]
    · simp only [apply_ite iscsi_cmd.r2t_list, ite_self]
  · rw [if_neg hseq] at h
    dsimp only at h
    cases hm : (U.iscsi_get_seq_holder_for_r2t cmd).2.bind
        (fun i => (U.iscsi_get_seq_holder_for_r2t cmd).1.seq_at i) with
    | none =>
      rw [hm] at h
      exact absurd h (by simp)
    | some seq =>
      rw [hm] at h
      simp only [Option.some.injEq, Prod.mk.injEq] at h
      obtain ⟨_, _, rfl⟩ := h
      constructor
      · simp only [apply_ite iscsi_cmd.outstanding_r2ts, ite_self]
        exact (hframe cmd).1
      · simp only [apply_ite iscsi_cmd.r2t_list, ite_self]
        exact (hframe cmd).2

/-- The loop of `iscsi_build_r2ts_for_cmd` started with `outstanding_r2ts` not
above `MaxOutstandingR2T`: it appends normal, unsent R2Ts, keeps
`outstanding_r2ts` at or below `MaxOutstandingR2T`, raises it at least by the
number of R2Ts appended and, when it returns 0, by exactly that number. -/
theorem build_r2ts_loop_count (U : iscsi_util) (ops : iscsi_ops) (type : Int)
    (hmo : ops.MaxOutstandingR2T < U32_MOD)
    (hframe : ∀ c, (U.iscsi_get_seq_holder_for_r2t c).1.outstanding_r2ts = c.outstanding_r2ts ∧
      (U.iscsi_get_seq_holder_for_r2t c).1.r2t_list = c.r2t_list) :
    ∀ (fuel : Nat) (first : Bool) (cmd : iscsi_cmd),
      cmd.outstanding_r2ts ≤ ops.MaxOutstandingR2T →
      ∃ new : List iscsi_r2t,
        (build_r2ts_loop U ops type fuel first cmd).2.r2t_list = cmd.r2t_list ++ new ∧
        (∀ r ∈ new, r.recovery_r2t = false ∧ r.sent_r2t = false ∧ r.seq_complete = false) ∧
        (build_r2ts_loop U ops type fuel first cmd).2.outstanding_r2ts
          ≤ ops.MaxOutstandingR2T ∧
        cmd.outstanding_r2ts + new.length
          ≤ (build_r2ts_loop U ops type fuel first cmd).2.outstanding_r2ts ∧
        ((build_r2ts_loop U ops type fuel first cmd).1 = 0 →
          (build_r2ts_loop U ops type fuel first cmd).2.outstanding_r2ts
            = cmd.outstanding_r2ts + new.length) := by
  intro fuel
  induction fuel with
  | zero =>
    intro first cmd h
    exact ⟨[], by simp [build_r2ts_loop], by simp, by simpa [build_r2ts_loop] using h,
      by simp [build_r2ts_loop], by simp [build_r2ts_loop]⟩
  | succ fuel ih =>
    intro first cmd h
    rw [build_r2ts_loop]
    by_cases hout : cmd.outstanding_r2ts < ops.MaxOutstandingR2T
    · rw [if_pos hout]
      cases hn : build_r2ts_next U ops type first cmd with
      | none =>
        dsimp only
        refine ⟨[], by simp [(hframe cmd).2], by simp, by rw [(hframe cmd).1]; exact h,
          by simp [(hframe cmd).1], by intro h0; exact absurd h0 (by simp)⟩
      | some t =>
        obtain ⟨o, x, c⟩ := t
        obtain ⟨hc1, hc2⟩ := build_r2ts_next_frame U ops type first cmd hframe o x c hn
        dsimp only
        obtain ⟨c1, hc1def⟩ : ∃ c1 : iscsi_cmd,
            c1 = { c with outstanding_r2ts := add32 c.outstanding_r2ts 1 } := ⟨_, rfl⟩
        have hc1o : c1.outstanding_r2ts = cmd.outstanding_r2ts + 1 := by
          rw [hc1def]
          show add32 c.outstanding_r2ts 1 = cmd.outstanding_r2ts + 1
          rw [hc1]
          exact add32_eq (by omega)
        have hc1l : c1.r2t_list = cmd.r2t_list := by
          rw [hc1def]
          exact hc2
        rw [← hc1def]
        obtain ⟨hf1, _, hf3⟩ := add_r2t_to_list_frame U c1 o x false 0
        rcases hf3 with ⟨hm1, hl⟩ | ⟨h0, r, hl, hr1, hr2, hr3, _, _⟩
        · rw [if_pos (by rw [hm1]; decide)]
          refine ⟨[], by simp [hl, hc1l], by simp, by rw [hf1, hc1o]; omega,
            by rw [hf1, hc1o]; simp, by intro h0; exact absurd h0 (by simp)⟩
        · rw [if_neg (by rw [h0]; decide)]
          by_cases hlast : (iscsi_add_r2t_to_list U c1 o x false 0).2.sent_last_r2t = true
          · rw [if_pos hlast]
            refine ⟨[r], by rw [hl, hc1l], ?_, by rw [hf1, hc1o]; omega,
              by rw [hf1, hc1o]; simp, by intro _; rw [hf1, hc1o]; simp⟩
            intro r0 hr0
            rw [List.mem_singleton] at hr0
            subst hr0
            exact ⟨hr1, hr2, hr3⟩
          · rw [if_neg hlast]
            obtain ⟨new, h1, h2, h3, h4, h5⟩ :=
              ih false (iscsi_add_r2t_to_list U c1 o x false 0).2 (by rw [hf1, hc1o]; omega)
            refine ⟨r :: new, ?_, ?_, h3, ?_, ?_⟩
            · rw [h1, hl, hc1l, List.append_assoc, List.singleton_append]
            · intro r0 hr0
              rcases List.mem_cons.mp hr0 with rfl | hr0
              · exact ⟨hr1, hr2, hr3⟩
              · exact h2 r0 hr0
            · rw [hf1, hc1o] at h4
              simp only [List.length_cons]
              omega
            · intro hz
              have := h5 hz
              rw [hf1, hc1o] at this
              simp only [List.length_cons]
              omega
    · rw [if_neg hout]
      exact ⟨[], by simp, by simp, h, by simp, by simp⟩


/-- A call of `iscsi_build_r2ts_for_cmd` made with `outstanding_r2ts` not above
`MaxOutstandingR2T`. -/
theorem build_r2ts_for_cmd_count (U : iscsi_util) (ops : iscsi_ops) (type : Int)
    (hmo : ops.MaxOutstandingR2T < U32_MOD)
    (hframe : ∀ c, (U.iscsi_get_seq_holder_for_r2t c).1.outstanding_r2ts = c.outstanding_r2ts ∧
      (U.iscsi_get_seq_holder_for_r2t c).1.r2t_list = c.r2t_list)
    (cmd : iscsi_cmd) (h : cmd.outstanding_r2ts ≤ ops.MaxOutstandingR2T) :
    ∃ new : List iscsi_r2t,
      (iscsi_build_r2ts_for_cmd U ops cmd type).2.r2t_list = cmd.r2t_list ++ new ∧
      (∀ r ∈ new, r.recovery_r2t = false ∧ r.sent_r2t = false ∧ r.seq_complete = false) ∧
      (iscsi_build_r2ts_for_cmd U ops cmd type).2.outstanding_r2ts ≤ ops.MaxOutstandingR2T ∧
      cmd.outstanding_r2ts + new.length
        ≤ (iscsi_build_r2ts_for_cmd U ops cmd type).2.outstanding_r2ts ∧
      ((iscsi_build_r2ts_for_cmd U ops cmd type).1 = 0 →
        (iscsi_build_r2ts_for_cmd U ops cmd type).2.outstanding_r2ts
          = cmd.outstanding_r2ts + new.length) := by
  unfold iscsi_build_r2ts_for_cmd
  by_cases hs : cmd.sent_last_r2t = true
  · rw [if_pos hs]
    exact ⟨[], by simp, by simp, h, by simp, by simp⟩
  · rw [if_neg hs]
    dsimp only
    split_ifs with hc
    · exact build_r2ts_loop_count U ops type hmo hframe _ true
        { cmd with r2t_offset := cmd.write_data_done } h
    · exact build_r2ts_loop_count U ops type hmo hframe _ true cmd h

/-- The counts of normal and of recovery R2Ts on a list of normal R2Ts. -/
theorem r2ts_counts_of_normal (new : List iscsi_r2t)
    (h : ∀ r ∈ new, r.recovery_r2t = false) :
    r2ts_normal new = new.length ∧ r2ts_recovery new = 0 := by
  unfold r2ts_normal r2ts_recovery
  constructor
  · rw [List.filter_eq_self.mpr]
    intro r hr
    simp [h r hr]
  · rw [List.length_eq_zero, List.filter_eq_nil_iff]
    intro r hr
    simp [h r hr]

/-- One step, made with `outstanding_r2ts` not above `MaxOutstandingR2T`. -/
theorem r2t_op_apply_count (U : iscsi_util) (ops : iscsi_ops)
    (hmo : ops.MaxOutstandingR2T < U32_MOD)
    (hframe : ∀ c, (U.iscsi_get_seq_holder_for_r2t c).1.outstanding_r2ts = c.outstanding_r2ts ∧
      (U.iscsi_get_seq_holder_for_r2t c).1.r2t_list = c.r2t_list)
    (cmd : iscsi_cmd) (h : cmd.outstanding_r2ts ≤ ops.MaxOutstandingR2T) (op : r2t_op) :
    ∃ new : List iscsi_r2t,
      (r2t_op_apply U ops cmd op).2.r2t_list = cmd.r2t_list ++ new ∧
      (∀ r ∈ new, r.sent_r2t = false ∧ r.seq_complete = false) ∧
      (r2t_op_apply U ops cmd op).2.outstanding_r2ts ≤ ops.MaxOutstandingR2T ∧
      cmd.outstanding_r2ts + r2ts_normal new ≤ (r2t_op_apply U ops cmd op).2.outstanding_r2ts ∧
      r2ts_recovery new ≤ recovery_ops [op] ∧
      ((r2t_op_apply U ops cmd op).1 = 0 →
        (r2t_op_apply U ops cmd op).2.outstanding_r2ts = cmd.outstanding_r2ts + r2ts_normal new ∧
        r2ts_recovery new = recovery_ops [op]) := by
  cases op with
  | build type =>
    obtain ⟨new, h1, h2, h3, h4, h5⟩ := build_r2ts_for_cmd_count U ops type hmo hframe cmd h
    obtain ⟨hn, hr⟩ := r2ts_counts_of_normal new (fun r hr => (h2 r hr).1)
    refine ⟨new, h1, fun r hr => (h2 r hr).2, h3, by rw [hn]; exact h4, by rw [hr]; exact Nat.zero_le _,
      fun hz => ⟨by rw [hn]; exact h5 hz, by rw [hr]; rfl⟩⟩
  | recovery offset xfer_len =>
    have happ : r2t_op_apply U ops cmd (r2t_op.recovery offset xfer_len)
        = iscsi_add_r2t_to_list U cmd offset xfer_len true 0 := rfl
    rw [happ]
    obtain ⟨hf1, _, hf3⟩ := add_r2t_to_list_frame U cmd offset xfer_len true 0
    rw [hf1]
    rcases hf3 with ⟨hm1, hl⟩ | ⟨hz, r, hl, hr1, hr2, hr3, _, _⟩
    · refine ⟨[], by simpa using hl, by simp, h, by simp [r2ts_normal], by simp [r2ts_recovery], ?_⟩
      intro h0
      rw [hm1] at h0
      exact absurd h0 (by decide)
    · have hn : r2ts_normal [r] = 0 := by simp [r2ts_normal, hr1]
      have hrc : r2ts_recovery [r] = 1 := by simp [r2ts_recovery, hr1]
      have hro : recovery_ops [r2t_op.recovery offset xfer_len] = 1 := rfl
      refine ⟨[r], hl, ?_, h, by rw [hn]; exact Nat.le_refl _, by rw [hrc, hro], ?_⟩
      · intro r0 hr0
        rw [List.mem_singleton] at hr0
        subst hr0
        exact ⟨hr2, hr3⟩
      · intro _
        exact ⟨by rw [hn]; rfl, by rw [hrc, hro]⟩

/-- The counts of normal and of recovery R2Ts add up over concatenation. -/
theorem r2ts_counts_append (a b : List iscsi_r2t) :
    r2ts_normal (a ++ b) = r2ts_normal a + r2ts_normal b ∧
    r2ts_recovery (a ++ b) = r2ts_recovery a + r2ts_recovery b := by
  simp [r2ts_normal, r2ts_recovery, List.filter_append]

/-- The calls of `iscsi_send_recovery_r2t` among the steps, by the first step. -/
theorem recovery_ops_cons (op : r2t_op) (l : List r2t_op) :
    recovery_ops (op :: l) = recovery_ops [op] + recovery_ops l := by
  cases h : op.is_recovery <;> simp [recovery_ops, List.filter_cons, h, Nat.add_comm]

/-- Claim C11 refuted as stated. With `MaxOutstandingR2T = 1`, a write command
of 9000 bytes with 4096 bytes received and no R2T queued: a call of
`iscsi_build_r2ts_for_cmd` followed by a call of `iscsi_send_recovery_r2t` for
the span (4096, 4096) leaves two R2Ts on the list, both unsent and neither
complete, with `outstanding_r2ts = 1`: two is above `MaxOutstandingR2T`. -/
theorem r2t_recovery_exceeds_max_outstanding :
    ops_one_r2t.MaxOutstandingR2T = 1 ∧ cmd_s2.r2t_list = [] ∧ cmd_s2.outstanding_r2ts = 0 ∧
    (r2t_ops_run util_ok ops_one_r2t cmd_s2 [r2t_op.build 0, r2t_op.recovery 4096 4096]).1
      = [0, 0] ∧
    (r2t_ops_run util_ok ops_one_r2t cmd_s2
      [r2t_op.build 0, r2t_op.recovery 4096 4096]).2.outstanding_r2ts = 1 ∧
    r2ts_open (r2t_ops_run util_ok ops_one_r2t cmd_s2
      [r2t_op.build 0, r2t_op.recovery 4096 4096]).2.r2t_list = 2 ∧
    ¬ (r2ts_open (r2t_ops_run util_ok ops_one_r2t cmd_s2
        [r2t_op.build 0, r2t_op.recovery 4096 4096]).2.r2t_list
      ≤ ops_one_r2t.MaxOutstandingR2T) := by
  decide

/-- Claim C11, as amended. Take a command with `outstanding_r2ts` at most
`MaxOutstandingR2T` and make on it any sequence of calls of
`iscsi_build_r2ts_for_cmd` and `iscsi_send_recovery_r2t` (the sequence lookup
of `iscsi_get_seq_holder_for_r2t` leaving the counter and the list alone).
The R2Ts are appended to the list, unsent and not complete;
`outstanding_r2ts` stays at most `MaxOutstandingR2T` and grows at least by the
number of normal R2Ts appended; there are at most as many recovery R2Ts
appended as calls of `iscsi_send_recovery_r2t`; and when every call returns 0,
`outstanding_r2ts` has grown by exactly the number of normal R2Ts appended and
every call of `iscsi_send_recovery_r2t` has appended one recovery R2T, which
`outstanding_r2ts` does not count. -/
theorem r2t_ops_outstanding (U : iscsi_util) (ops : iscsi_ops)
    (hmo : ops.MaxOutstandingR2T < U32_MOD)
    (hframe : ∀ c, (U.iscsi_get_seq_holder_for_r2t c).1.outstanding_r2ts = c.outstanding_r2ts ∧
      (U.iscsi_get_seq_holder_for_r2t c).1.r2t_list = c.r2t_list)
    (l : List r2t_op) :
    ∀ cmd : iscsi_cmd, cmd.outstanding_r2ts ≤ ops.MaxOutstandingR2T →
    ∃ new : List iscsi_r2t,
      (r2t_ops_run U ops cmd l).2.r2t_list = cmd.r2t_list ++ new ∧
      (∀ r ∈ new, r.sent_r2t = false ∧ r.seq_complete = false) ∧
      (r2t_ops_run U ops cmd l).2.outstanding_r2ts ≤ ops.MaxOutstandingR2T ∧
      cmd.outstanding_r2ts + r2ts_normal new ≤ (r2t_ops_run U ops cmd l).2.outstanding_r2ts ∧
      r2ts_recovery new ≤ recovery_ops l ∧
      ((∀ x ∈ (r2t_ops_run U ops cmd l).1, x = 0) →
        (r2t_ops_run U ops cmd l).2.outstanding_r2ts = cmd.outstanding_r2ts + r2ts_normal new ∧
        r2ts_recovery new = recovery_ops l) := by
  induction l with
  | nil =>
    intro cmd h
    exact ⟨[], by simp [r2t_ops_run], by simp, by simpa [r2t_ops_run] using h,
      by simp [r2t_ops_run, r2ts_normal], by simp [r2ts_recovery], fun _ =>
        ⟨by simp [r2t_ops_run, r2ts_normal], by simp [r2ts_recovery, recovery_ops]⟩⟩
  | cons op rest ih =>
    intro cmd h
    obtain ⟨n1, a1, a2, a3, a4, a5, a6⟩ := r2t_op_apply_count U ops hmo hframe cmd h op
    obtain ⟨n2, b1, b2, b3, b4, b5, b6⟩ := ih (r2t_op_apply U ops cmd op).2 a3
    have hrun1 : (r2t_ops_run U ops cmd (op :: rest)).1
        = (r2t_op_apply U ops cmd op).1 :: (r2t_ops_run U ops (r2t_op_apply U ops cmd op).2 rest).1 :=
      rfl
    have hrun2 : (r2t_ops_run U ops cmd (op :: rest)).2
        = (r2t_ops_run U ops (r2t_op_apply U ops cmd op).2 rest).2 := rfl
    obtain ⟨hn, hr⟩ := r2ts_counts_append n1 n2
    rw [hrun1, hrun2, recovery_ops_cons]
    refine ⟨n1 ++ n2, by rw [b1, a1, List.append_assoc], ?_, b3, by omega, by omega, ?_⟩
    · intro r hr0
      rcases List.mem_append.mp hr0 with hr0 | hr0
      · exact a2 r hr0
      · exact b2 r hr0
    · intro hz
      obtain ⟨c1, c2⟩ := a6 (hz _ (List.mem_cons_self _ _))
      obtain ⟨d1, d2⟩ := b6 (fun x hx => hz x (List.mem_cons_of_mem _ hx))
      constructor <;> omega

/-- A use of C11 as amended, on the steps of the counterexample: one normal R2T
is counted, one recovery R2T is queued beside it. -/
theorem r2t_ops_outstanding_witness :
    (ops_one_r2t.MaxOutstandingR2T < U32_MOD ∧
      cmd_s2.outstanding_r2ts ≤ ops_one_r2t.MaxOutstandingR2T) ∧
    (∃ new : List iscsi_r2t,
      (r2t_ops_run util_ok ops_one_r2t cmd_s2
        [r2t_op.build 0, r2t_op.recovery 4096 4096]).2.r2t_list = cmd_s2.r2t_list ++ new ∧
      (∀ r ∈ new, r.sent_r2t = false ∧ r.seq_complete = false) ∧
      (r2t_ops_run util_ok ops_one_r2t cmd_s2
        [r2t_op.build 0, r2t_op.recovery 4096 4096]).2.outstanding_r2ts
          ≤ ops_one_r2t.MaxOutstandingR2T ∧
      cmd_s2.outstanding_r2ts + r2ts_normal new ≤ (r2t_ops_run util_ok ops_one_r2t cmd_s2
        [r2t_op.build 0, r2t_op.recovery 4096 4096]).2.outstanding_r2ts ∧
      r2ts_recovery new ≤ recovery_ops [r2t_op.build 0, r2t_op.recovery 4096 4096] ∧
      ((∀ x ∈ (r2t_ops_run util_ok ops_one_r2t cmd_s2
          [r2t_op.build 0, r2t_op.recovery 4096 4096]).1, x = 0) →
        (r2t_ops_run util_ok ops_one_r2t cmd_s2
          [r2t_op.build 0, r2t_op.recovery 4096 4096]).2.outstanding_r2ts
            = cmd_s2.outstanding_r2ts + r2ts_normal new ∧
        r2ts_recovery new = recovery_ops [r2t_op.build 0, r2t_op.recovery 4096 4096])) ∧
    (r2t_ops_run util_ok ops_one_r2t cmd_s2
      [r2t_op.build 0, r2t_op.recovery 4096 4096]).2.r2t_list
      = [{ r2t_sn := 0, offset := 4096, xfer_len := 4096 },
         { r2t_sn := 1, offset := 4096, xfer_len := 4096, recovery_r2t := true }] :=
  ⟨⟨by decide, by decide⟩,
   r2t_ops_outstanding util_ok ops_one_r2t (by decide) (fun _ => ⟨rfl, rfl⟩)
     [r2t_op.build 0, r2t_op.recovery 4096 4096] cmd_s2 (by decide),
   by decide⟩


/-! ## C12: the updates of `write_data_done` -/

/-- One pass of the loop of `iscsi_recalculate_dataout_values` takes the length
of a PDU received inside the sequence off `write_data_done`. -/
theorem recalculate_pdu_step_done (cmd : iscsi_cmd) (pdu : iscsi_pdu)
    (h : received_in_sequence cmd [pdu] ≤ cmd.write_data_done)
    (hw : cmd.write_data_done < U32_MOD) :
    (recalculate_pdu_step cmd pdu).1.write_data_done
      = cmd.write_data_done - received_in_sequence cmd [pdu] ∧
    (recalculate_pdu_step cmd pdu).1.data_length = cmd.data_length ∧
    (recalculate_pdu_step cmd pdu).1.seq_start_offset = cmd.seq_start_offset ∧
    (recalculate_pdu_step cmd pdu).1.seq_end_offset = cmd.seq_end_offset := by
  unfold recalculate_pdu_step
  simp only [received_in_sequence, Nat.add_zero] at h ⊢
  by_cases hs : pdu.status = ISCSI_PDU_RECEIVED_OK
  · by_cases hin : pdu.offset ≥ cmd.seq_start_offset ∧
        add32 pdu.offset pdu.length ≤ cmd.seq_end_offset
    · have hall : pdu.status = ISCSI_PDU_RECEIVED_OK ∧ pdu.offset ≥ cmd.seq_start_offset ∧
          add32 pdu.offset pdu.length ≤ cmd.seq_end_offset := ⟨hs, hin⟩
      rw [if_neg (not_not.mpr hs), if_pos hin]
      rw [if_pos hall] at h ⊢
      refine ⟨?_, ?_, ?_, ?_⟩
      · show sub32 _ pdu.length = _
        simp only [apply_ite iscsi_cmd.write_data_done, ite_self]
        exact sub32_eq h hw
      · show iscsi_cmd.data_length _ = _
        simp only [apply_ite iscsi_cmd.data_length, ite_self]
      · show iscsi_cmd.seq_start_offset _ = _
        simp only [apply_ite iscsi_cmd.seq_start_offset, ite_self]
      · show iscsi_cmd.seq_end_offset _ = _
        simp only [apply_ite iscsi_cmd.seq_end_offset, ite_self]
    · rw [if_neg (not_not.mpr hs), if_neg hin]
      have hall : ¬ (pdu.status = ISCSI_PDU_RECEIVED_OK ∧ pdu.offset ≥ cmd.seq_start_offset ∧
          add32 pdu.offset pdu.length ≤ cmd.seq_end_offset) := fun hc => hin hc.2
      rw [if_neg hall]
      exact ⟨rfl, rfl, rfl, rfl⟩
  · have hall : ¬ (pdu.status = ISCSI_PDU_RECEIVED_OK ∧ pdu.offset ≥ cmd.seq_start_offset ∧
        add32 pdu.offset pdu.length ≤ cmd.seq_end_offset) := fun hc => hs hc.1
    rw [if_pos hs]
    rw [if_neg hall]
    exact ⟨rfl, rfl, rfl, rfl⟩

/-- The bytes received inside the sequence depend on the command through the
bounds of the sequence only. -/
theorem received_in_sequence_congr (c1 c2 : iscsi_cmd) (l : List iscsi_pdu)
    (h1 : c1.seq_start_offset = c2.seq_start_offset)
    (h2 : c1.seq_end_offset = c2.seq_end_offset) :
    received_in_sequence c1 l = received_in_sequence c2 l := by
  induction l with
  | nil => rfl
  | cons pdu rest ih => simp only [received_in_sequence, h1, h2, ih]

/-- The loop of `iscsi_recalculate_dataout_values` takes the bytes received
inside the sequence off `write_data_done`. -/
theorem recalculate_pdu_loop_done (l : List iscsi_pdu) :
    ∀ cmd : iscsi_cmd, received_in_sequence cmd l ≤ cmd.write_data_done →
      cmd.write_data_done < U32_MOD →
      (recalculate_pdu_loop cmd l).1.write_data_done
        = cmd.write_data_done - received_in_sequence cmd l ∧
      (recalculate_pdu_loop cmd l).1.data_length = cmd.data_length := by
  induction l with
  | nil =>
    intro cmd _ _
    exact ⟨rfl, rfl⟩
  | cons pdu rest ih =>
    intro cmd h hw
    have hsplit : received_in_sequence cmd (pdu :: rest)
        = received_in_sequence cmd [pdu] + received_in_sequence cmd rest := by
      simp only [received_in_sequence, Nat.add_zero]
    rw [hsplit] at h ⊢
    obtain ⟨s1, s2, s3, s4⟩ := recalculate_pdu_step_done cmd pdu (by omega) hw
    have hc := received_in_sequence_congr (recalculate_pdu_step cmd pdu).1 cmd rest s3 s4
    obtain ⟨t1, t2⟩ := ih (recalculate_pdu_step cmd pdu).1 (by rw [hc, s1]; omega)
      (by rw [s1]; omega)
    show (recalculate_pdu_loop (recalculate_pdu_step cmd pdu).1 rest).1.write_data_done = _ ∧
      (recalculate_pdu_loop (recalculate_pdu_step cmd pdu).1 rest).1.data_length = _
    rw [t1, t2, hc, s1, s2]
    exact ⟨by omega, rfl⟩


/-- A Reject built from a command leaves its data counters alone. -/
theorem add_reject_from_cmd_frame (U : iscsi_util) (reason : reject_reason) (fail_conn : Bool)
    (cmd : iscsi_cmd) :
    (iscsi_add_reject_from_cmd U reason fail_conn cmd).2.1.write_data_done
      = cmd.write_data_done ∧
    (iscsi_add_reject_from_cmd U reason fail_conn cmd).2.1.data_length = cmd.data_length := by
  unfold iscsi_add_reject_from_cmd
  cases fail_conn <;> split_ifs <;> exact ⟨rfl, rfl⟩

/-- What `iscsi_handle_immediate_data` does to `write_data_done`: it adds the
length when the data has been received, and leaves it alone otherwise. -/
theorem immediate_data_done (U : iscsi_util) (ops : iscsi_ops) (rx : immediate_rx)
    (cmd : iscsi_cmd) (length : Nat) :
    (iscsi_handle_immediate_data U ops rx cmd length).2.1.data_length = cmd.data_length ∧
    ((iscsi_handle_immediate_data U ops rx cmd length).1 = IMMEDIDATE_DATA_NORMAL_OPERATION →
      (iscsi_handle_immediate_data U ops rx cmd length).2.1.write_data_done
        = add32 cmd.write_data_done length) ∧
    ((iscsi_handle_immediate_data U ops rx cmd length).1 ≠ IMMEDIDATE_DATA_NORMAL_OPERATION →
      (iscsi_handle_immediate_data U ops rx cmd length).2.1.write_data_done
        = cmd.write_data_done) := by
  have hf := add_reject_from_cmd_frame U REASON_DATA_DIGEST_ERR true cmd
  have hg := add_reject_from_cmd_frame U REASON_DATA_DIGEST_ERR false cmd
  unfold iscsi_handle_immediate_data
  split_ifs
  · exact ⟨rfl, fun h => absurd h (by decide), fun _ => rfl⟩
  · exact ⟨rfl, fun h => absurd h (by decide), fun _ => rfl⟩
  · exact ⟨rfl, fun h => absurd h (by decide), fun _ => rfl⟩
  · exact ⟨hf.2, fun h => absurd h (by decide), fun _ => hf.1⟩
  · exact ⟨hg.2, fun h => absurd h (by decide), fun _ => hg.1⟩
  · dsimp only
    split_ifs <;> exact ⟨rfl, fun _ => rfl, fun h => absurd rfl h⟩


/-- The loop of `iscsi_recalculate_dataout_values` leaves `data_length` alone. -/
theorem recalculate_pdu_loop_done_length (l : List iscsi_pdu) :
    ∀ cmd : iscsi_cmd, (recalculate_pdu_loop cmd l).1.data_length = cmd.data_length := by
  induction l with
  | nil =>
    intro cmd
    rfl
  | cons pdu rest ih =>
    intro cmd
    show (recalculate_pdu_loop (recalculate_pdu_step cmd pdu).1 rest).1.data_length = _
    rw [ih]
    unfold recalculate_pdu_step
    split_ifs <;> rfl


/-- What `iscsi_recalculate_dataout_values` does to `write_data_done`: it takes
`recalculate_taken` off, when that much has been counted. -/
theorem recalculate_done (U : iscsi_util) (ops : iscsi_ops) (cmd : iscsi_cmd)
    (pdu_offset pdu_length : Nat) (hw : cmd.write_data_done < U32_MOD)
    (ht : recalculate_taken U ops cmd pdu_offset pdu_length ≤ cmd.write_data_done) :
    (iscsi_recalculate_dataout_values U ops cmd pdu_offset pdu_length).cmd.write_data_done
      = cmd.write_data_done - recalculate_taken U ops cmd pdu_offset pdu_length ∧
    (iscsi_recalculate_dataout_values U ops cmd pdu_offset pdu_length).cmd.data_length
      = cmd.data_length := by
  unfold iscsi_recalculate_dataout_values
  unfold recalculate_taken at ht ⊢
  by_cases hseq : ops.DataSequenceInOrder = true
  · rw [if_pos hseq] at ht ⊢
    rw [if_pos hseq]
    by_cases hpdu : ops.DataPDUInOrder = true
    · rw [if_pos hpdu] at ht ⊢
      dsimp only
      rw [if_pos hpdu]
      exact ⟨rfl, rfl⟩
    · rw [if_neg hpdu] at ht ⊢
      dsimp only
      rw [if_neg hpdu]
      have hc := received_in_sequence_congr { cmd with data_sn := 0 } cmd
        (cmd.pdu_list.getD []) rfl rfl
      obtain ⟨t1, t2⟩ := recalculate_pdu_loop_done (cmd.pdu_list.getD [])
        { cmd with data_sn := 0 } (by rw [hc]; exact ht) hw
      rw [hc] at t1
      exact ⟨t1, t2⟩
  · rw [if_neg hseq] at ht ⊢
    rw [if_neg hseq]
    cases hm : (U.iscsi_get_seq_holder cmd pdu_offset pdu_length).bind
        (fun i => (cmd.seq_at i).map (fun seq => (i, seq))) with
    | none => exact ⟨rfl, rfl⟩
    | some t =>
      obtain ⟨i, seq⟩ := t
      rw [hm] at ht
      dsimp only at ht ⊢
      have hsub := sub32_eq ht hw
      by_cases hpdu : ops.DataPDUInOrder = true
      · rw [if_pos hpdu]
        dsimp only [iscsi_cmd.set_seq]
        constructor
        · simp only [apply_ite iscsi_cmd.write_data_done, ite_self]
          exact hsub
        · simp only [apply_ite iscsi_cmd.data_length, ite_self]
      · rw [if_neg hpdu]
        dsimp only [iscsi_cmd.set_seq]
        constructor
        · simp only [apply_ite iscsi_cmd.write_data_done, ite_self]
          exact hsub
        · simp only [apply_ite iscsi_cmd.data_length, ite_self]

/-- Two 32-bit subtractions one after the other take the sum off. -/
theorem sub32_sub32 (a b c : Nat) : sub32 (sub32 a b) c = sub32 a (b + c) := by
  unfold sub32 U32_MOD
  omega

theorem sub32_lt (a b : Nat) : sub32 a b < U32_MOD := by
  unfold sub32 U32_MOD
  omega

theorem sub32_zero {a : Nat} (ha : a < U32_MOD) : sub32 a 0 = a := by
  unfold sub32 U32_MOD at *
  omega

/-- One pass of the loop of `iscsi_recalculate_dataout_values` subtracts, in 32
bits, the length of a PDU received inside the sequence from `write_data_done`,
whatever the counter holds. -/
theorem recalculate_pdu_step_sub32 (cmd : iscsi_cmd) (pdu : iscsi_pdu)
    (hw : cmd.write_data_done < U32_MOD) :
    (recalculate_pdu_step cmd pdu).1.write_data_done
      = sub32 cmd.write_data_done (received_in_sequence cmd [pdu]) ∧
    (recalculate_pdu_step cmd pdu).1.seq_start_offset = cmd.seq_start_offset ∧
    (recalculate_pdu_step cmd pdu).1.seq_end_offset = cmd.seq_end_offset := by
  unfold recalculate_pdu_step
  simp only [received_in_sequence, Nat.add_zero]
  by_cases hs : pdu.status = ISCSI_PDU_RECEIVED_OK
  · by_cases hin : pdu.offset ≥ cmd.seq_start_offset ∧
        add32 pdu.offset pdu.length ≤ cmd.seq_end_offset
    · have hall : pdu.status = ISCSI_PDU_RECEIVED_OK ∧ pdu.offset ≥ cmd.seq_start_offset ∧
          add32 pdu.offset pdu.length ≤ cmd.seq_end_offset := ⟨hs, hin⟩
      rw [if_neg (not_not.mpr hs), if_pos hin, if_pos hall]
      refine ⟨?_, ?_, ?_⟩
      · show sub32 _ pdu.length = _
        simp only [apply_ite iscsi_cmd.write_data_done, ite_self]
      · show iscsi_cmd.seq_start_offset _ = _
        simp only [apply_ite iscsi_cmd.seq_start_offset, ite_self]
      · show iscsi_cmd.seq_end_offset _ = _
        simp only [apply_ite iscsi_cmd.seq_end_offset, ite_self]
    · rw [if_neg (not_not.mpr hs), if_neg hin]
      have hall : ¬ (pdu.status = ISCSI_PDU_RECEIVED_OK ∧ pdu.offset ≥ cmd.seq_start_offset ∧
          add32 pdu.offset pdu.length ≤ cmd.seq_end_offset) := fun hc => hin hc.2
      rw [if_neg hall]
      exact ⟨(sub32_zero hw).symm, rfl, rfl⟩
  · have hall : ¬ (pdu.status = ISCSI_PDU_RECEIVED_OK ∧ pdu.offset ≥ cmd.seq_start_offset ∧
        add32 pdu.offset pdu.length ≤ cmd.seq_end_offset) := fun hc => hs hc.1
    rw [if_pos hs, if_neg hall]
    exact ⟨(sub32_zero hw).symm, rfl, rfl⟩

/-- The loop of `iscsi_recalculate_dataout_values` subtracts, in 32 bits, the
bytes received inside the sequence from `write_data_done`, whatever the counter
holds. -/
theorem recalculate_pdu_loop_sub32 (l : List iscsi_pdu) :
    ∀ cmd : iscsi_cmd, cmd.write_data_done < U32_MOD →
      (recalculate_pdu_loop cmd l).1.write_data_done
        = sub32 cmd.write_data_done (received_in_sequence cmd l) := by
  induction l with
  | nil =>
    intro cmd hw
    exact (sub32_zero hw).symm
  | cons pdu rest ih =>
    intro cmd hw
    have hsplit : received_in_sequence cmd (pdu :: rest)
        = received_in_sequence cmd [pdu] + received_in_sequence cmd rest := by
      simp only [received_in_sequence, Nat.add_zero]
    obtain ⟨s1, s3, s4⟩ := recalculate_pdu_step_sub32 cmd pdu hw
    have hc := received_in_sequence_congr (recalculate_pdu_step cmd pdu).1 cmd rest s3 s4
    have t1 := ih (recalculate_pdu_step cmd pdu).1 (by rw [s1]; exact sub32_lt _ _)
    show (recalculate_pdu_loop (recalculate_pdu_step cmd pdu).1 rest).1.write_data_done = _
    rw [t1, hc, s1, hsplit, sub32_sub32]

/-- What `iscsi_recalculate_dataout_values` does to `write_data_done`, whatever
the counter holds: it subtracts `recalculate_taken` in 32 bits. -/
theorem recalculate_sub32 (U : iscsi_util) (ops : iscsi_ops) (cmd : iscsi_cmd)
    (pdu_offset pdu_length : Nat) (hw : cmd.write_data_done < U32_MOD) :
    (iscsi_recalculate_dataout_values U ops cmd pdu_offset pdu_length).cmd.write_data_done
      = sub32 cmd.write_data_done (recalculate_taken U ops cmd pdu_offset pdu_length) := by
  unfold iscsi_recalculate_dataout_values
  unfold recalculate_taken
  by_cases hseq : ops.DataSequenceInOrder = true
  · rw [if_pos hseq, if_pos hseq]
    by_cases hpdu : ops.DataPDUInOrder = true
    · rw [if_pos hpdu]
      dsimp only
      rw [if_pos hpdu]
      exact (sub32_zero hw).symm
    · rw [if_neg hpdu]
      dsimp only
      rw [if_neg hpdu]
      have hc := received_in_sequence_congr { cmd with data_sn := 0 } cmd
        (cmd.pdu_list.getD []) rfl rfl
      have t1 := recalculate_pdu_loop_sub32 (cmd.pdu_list.getD [])
        { cmd with data_sn := 0 } hw
      rw [hc] at t1
      exact t1
  · rw [if_neg hseq, if_neg hseq]
    cases hm : (U.iscsi_get_seq_holder cmd pdu_offset pdu_length).bind
        (fun i => (cmd.seq_at i).map (fun seq => (i, seq))) with
    | none => exact (sub32_zero hw).symm
    | some t =>
      obtain ⟨i, seq⟩ := t
      dsimp only
      by_cases hpdu : ops.DataPDUInOrder = true
      · rw [if_pos hpdu]
        dsimp only [iscsi_cmd.set_seq]
        simp only [apply_ite iscsi_cmd.write_data_done, ite_self]
      · rw [if_neg hpdu]
        dsimp only [iscsi_cmd.set_seq]
        simp only [apply_ite iscsi_cmd.write_data_done, ite_self]

/-- Claim C12 refuted as stated. With DataSequenceInOrder=Yes,
DataPDUInOrder=No and ERL=1, a write command with 512 bytes received in the
sequence `[0, 4096)`: `iscsi_recalculate_dataout_values` returns 0 and leaves
`write_data_done = 0`, below its previous value 512. -/
theorem recalculate_lowers_write_data_done :
    cmd_crc_failed.write_data_done = 512 ∧
    (iscsi_recalculate_dataout_values util_ok ops_pdu_any_order cmd_crc_failed 512 512).ret = 0 ∧
    (iscsi_recalculate_dataout_values util_ok ops_pdu_any_order
      cmd_crc_failed 512 512).cmd.write_data_done = 0 ∧
    ¬ (cmd_crc_failed.write_data_done
        ≤ (iscsi_recalculate_dataout_values util_ok ops_pdu_any_order
            cmd_crc_failed 512 512).cmd.write_data_done) := by
  decide

/-- The subtraction of `iscsi_recalculate_dataout_values` has no check: for a
command whose `write_data_done` is 0 although a PDU of 512 bytes inside the
sequence is marked received, the 32-bit subtraction leaves
`write_data_done = 2^32 - 512`, above `data_length`. -/
theorem recalculate_uncounted_wraps :
    (iscsi_recalculate_dataout_values util_ok ops_pdu_any_order
      { cmd_crc_failed with write_data_done := 0 } 512 512).cmd.write_data_done
      = 4294966784 := by
  decide

/-- Claim C12, as amended. For a command with
`write_data_done <= data_length < 2^32`: `iscsi_handle_immediate_data` adds the
length to `write_data_done` when it returns `IMMEDIDATE_DATA_NORMAL_OPERATION`
and leaves it alone otherwise, so that `write_data_done` does not decrease and
stays at most `data_length` when the data fits in the command
(`write_data_done + length <= data_length`); `iscsi_recalculate_dataout_values`
adds nothing to `write_data_done`: with both orders Yes it leaves it as it is,
otherwise it subtracts from it, in 32 bits and without a check, the bytes that
are to be received again (`recalculate_taken`: the lengths of the PDUs received
inside the current sequence, or `seq->offset - seq->orig_offset` of the sequence
found); when these bytes had been counted in `write_data_done`
(`recalculate_taken <= write_data_done`) the new value is
`write_data_done - recalculate_taken`, at most the previous value and at most
`data_length`. Neither function changes `data_length`. -/
theorem write_data_done_updates (U : iscsi_util) (ops : iscsi_ops) (rx : immediate_rx)
    (cmd : iscsi_cmd) (length pdu_offset pdu_length : Nat)
    (hw : cmd.write_data_done ≤ cmd.data_length) (hd : cmd.data_length < U32_MOD) :
    ((iscsi_handle_immediate_data U ops rx cmd length).2.1.data_length = cmd.data_length ∧
      ((iscsi_handle_immediate_data U ops rx cmd length).1 = IMMEDIDATE_DATA_NORMAL_OPERATION →
        (iscsi_handle_immediate_data U ops rx cmd length).2.1.write_data_done
          = add32 cmd.write_data_done length) ∧
      ((iscsi_handle_immediate_data U ops rx cmd length).1 ≠ IMMEDIDATE_DATA_NORMAL_OPERATION →
        (iscsi_handle_immediate_data U ops rx cmd length).2.1.write_data_done
          = cmd.write_data_done) ∧
      (cmd.write_data_done + length ≤ cmd.data_length →
        cmd.write_data_done
          ≤ (iscsi_handle_immediate_data U ops rx cmd length).2.1.write_data_done ∧
        (iscsi_handle_immediate_data U ops rx cmd length).2.1.write_data_done
          ≤ cmd.data_length)) ∧
    ((iscsi_recalculate_dataout_values U ops cmd pdu_offset pdu_length).cmd.data_length
        = cmd.data_length ∧
      (ops.DataSequenceInOrder = true → ops.DataPDUInOrder = true →
        (iscsi_recalculate_dataout_values U ops cmd pdu_offset pdu_length).cmd.write_data_done
          = cmd.write_data_done) ∧
      (iscsi_recalculate_dataout_values U ops cmd pdu_offset pdu_length).cmd.write_data_done
        = sub32 cmd.write_data_done (recalculate_taken U ops cmd pdu_offset pdu_length) ∧
      (recalculate_taken U ops cmd pdu_offset pdu_length ≤ cmd.write_data_done →
        (iscsi_recalculate_dataout_values U ops cmd pdu_offset pdu_length).cmd.write_data_done
          = cmd.write_data_done - recalculate_taken U ops cmd pdu_offset pdu_length ∧
        (iscsi_recalculate_dataout_values U ops cmd pdu_offset pdu_length).cmd.write_data_done
          ≤ cmd.write_data_done ∧
        (iscsi_recalculate_dataout_values U ops cmd pdu_offset pdu_length).cmd.write_data_done
          ≤ cmd.data_length)) := by
  obtain ⟨i1, i2, i3⟩ := immediate_data_done U ops rx cmd length
  have hwl : cmd.write_data_done < U32_MOD := by omega
  refine ⟨⟨i1, i2, i3, ?_⟩, ?_, ?_, recalculate_sub32 U ops cmd pdu_offset pdu_length hwl, ?_⟩
  · intro hfit
    by_cases hn : (iscsi_handle_immediate_data U ops rx cmd length).1
        = IMMEDIDATE_DATA_NORMAL_OPERATION
    · rw [i2 hn, add32_eq (by omega)]
      omega
    · rw [i3 hn]
      omega
  · unfold iscsi_recalculate_dataout_values
    by_cases hseq : ops.DataSequenceInOrder = true
    · rw [if_pos hseq]
      dsimp only
      by_cases hpdu : ops.DataPDUInOrder = true
      · rw [if_pos hpdu]
      · rw [if_neg hpdu]
        exact (recalculate_pdu_loop_done_length (cmd.pdu_list.getD []) { cmd with data_sn := 0 })
    · rw [if_neg hseq]
      cases hm : (U.iscsi_get_seq_holder cmd pdu_offset pdu_length).bind
          (fun i => (cmd.seq_at i).map (fun seq => (i, seq))) with
      | none => rfl
      | some t =>
        obtain ⟨i, seq⟩ := t
        dsimp only [iscsi_cmd.set_seq]
        split_ifs <;> rfl
  · intro hseq hpdu
    unfold iscsi_recalculate_dataout_values
    rw [if_pos hseq]
    dsimp only
    rw [if_pos hpdu]
  · intro ht
    obtain ⟨r1, _⟩ := recalculate_done U ops cmd pdu_offset pdu_length hwl ht
    rw [r1]
    exact ⟨rfl, by omega, by omega⟩


/-- A use of C12 as amended: the 4096 bytes of immediate data of scenario S2
move `write_data_done` from 0 to 4096; for the command of the counterexample,
whose 512 bytes received in the sequence are counted in `write_data_done = 512`,
the recalculation takes these 512 bytes off and leaves 0, at most the previous
value and at most `data_length = 8192`. -/
theorem write_data_done_updates_witness :
    (cmd_s2_start.write_data_done ≤ cmd_s2_start.data_length ∧
      cmd_s2_start.data_length < U32_MOD) ∧
    ((iscsi_handle_immediate_data util_ok ops_s2 rx_ok cmd_s2_start 4096).2.1.write_data_done
        = add32 cmd_s2_start.write_data_done 4096 ∧
      cmd_s2_start.write_data_done
        ≤ (iscsi_handle_immediate_data util_ok ops_s2 rx_ok cmd_s2_start 4096).2.1.write_data_done ∧
      (iscsi_handle_immediate_data util_ok ops_s2 rx_ok cmd_s2_start 4096).2.1.write_data_done
        ≤ cmd_s2_start.data_length) ∧
    (iscsi_handle_immediate_data util_ok ops_s2 rx_ok cmd_s2_start 4096).2.1.write_data_done
      = 4096 ∧
    (cmd_crc_failed.write_data_done ≤ cmd_crc_failed.data_length ∧
      cmd_crc_failed.data_length < U32_MOD ∧
      recalculate_taken util_ok ops_pdu_any_order cmd_crc_failed 512 512 = 512 ∧
      recalculate_taken util_ok ops_pdu_any_order cmd_crc_failed 512 512
        ≤ cmd_crc_failed.write_data_done) ∧
    ((iscsi_recalculate_dataout_values util_ok ops_pdu_any_order
        cmd_crc_failed 512 512).cmd.write_data_done
        = cmd_crc_failed.write_data_done
            - recalculate_taken util_ok ops_pdu_any_order cmd_crc_failed 512 512 ∧
      (iscsi_recalculate_dataout_values util_ok ops_pdu_any_order
        cmd_crc_failed 512 512).cmd.write_data_done ≤ cmd_crc_failed.write_data_done ∧
      (iscsi_recalculate_dataout_values util_ok ops_pdu_any_order
        cmd_crc_failed 512 512).cmd.write_data_done ≤ cmd_crc_failed.data_length) ∧
    (iscsi_recalculate_dataout_values util_ok ops_pdu_any_order
      cmd_crc_failed 512 512).cmd.write_data_done = 0 :=
  ⟨⟨by decide, by decide⟩,
   ⟨(write_data_done_updates util_ok ops_s2 rx_ok cmd_s2_start 4096 0 0 (by decide)
      (by decide)).1.2.1 (by decide),
    (write_data_done_updates util_ok ops_s2 rx_ok cmd_s2_start 4096 0 0 (by decide)
      (by decide)).1.2.2.2 (by decide)⟩,
   by decide,
   ⟨by decide, by decide, by decide, by decide⟩,
   (write_data_done_updates util_ok ops_pdu_any_order rx_ok cmd_crc_failed 0 512 512 (by decide)
      (by decide)).2.2.2.2 (by decide),
   by decide⟩


/-! ## C13: the bounds check of the DataOut handler -/

/-- Claim C13, on the code. With `MaxRecvDataSegmentLength = 8192` and a write
command of 8192 bytes, the DataOut header with offset `0xFFFFF000` and length
8192 (both 32-bit values, `0 < length <= MaxRecvDataSegmentLength`) has
`offset + length = 2^32 + 4096`, above `data_length`; the handler adds the two
in 32 bits, compares 4096 with `data_length` and lets the PDU pass its bounds
check. -/
theorem data_out_bounds_check_wraps :
    hdr_data_out_wrap.offset < U32_MOD ∧ 0 < hdr_data_out_wrap.length ∧
    hdr_data_out_wrap.length ≤ ops_s1.MaxRecvDataSegmentLength ∧
    cmd_write_8192.data_length < hdr_data_out_wrap.offset + hdr_data_out_wrap.length ∧
    add32 hdr_data_out_wrap.offset hdr_data_out_wrap.length = 4096 ∧
    iscsi_handle_data_out util_ok ops_s1 (some cmd_write_8192) hdr_data_out_wrap
      = handler_result.proceed := by
  decide

/-- The bounds check of the DataOut handler is sound for the headers whose end
`offset + length` is a 32-bit value: such a PDU that passes has
`offset + length <= data_length`. -/
theorem data_out_bounds_check_no_wrap (U : iscsi_util) (ops : iscsi_ops) (cmd : iscsi_cmd)
    (hdr : iscsi_init_scsi_data_out) (hsum : hdr.offset + hdr.length < U32_MOD)
    (hp : iscsi_handle_data_out U ops (some cmd) hdr = handler_result.proceed) :
    hdr.offset + hdr.length ≤ cmd.data_length ∧ 0 < hdr.length ∧
    hdr.length ≤ ops.MaxRecvDataSegmentLength := by
  unfold iscsi_handle_data_out at hp
  rw [add32_eq hsum] at hp
  by_cases h1 : hdr.length = 0
  · rw [if_pos h1] at hp
    exact absurd hp (by simp)
  · rw [if_neg h1] at hp
    by_cases h2 : hdr.length > ops.MaxRecvDataSegmentLength
    · rw [if_pos h2] at hp
      exact absurd hp (by simp)
    · rw [if_neg h2] at hp
      dsimp only at hp
      split_ifs at hp with h3 h4 h5
      omega


/-! ## C16: who changes `acked_data_sn` -/

/-- A Reject built from a command leaves its Data ACK state and its list of
DataIN requests alone, and returns -1 when it is to fail the connection. -/
theorem add_reject_from_cmd_snack_frame (U : iscsi_util) (reason : reject_reason)
    (cmd : iscsi_cmd) :
    (iscsi_add_reject_from_cmd U reason true cmd).1 = -1 ∧
    (iscsi_add_reject_from_cmd U reason true cmd).2.1.acked_data_sn = cmd.acked_data_sn ∧
    (iscsi_add_reject_from_cmd U reason true cmd).2.1.icf_got_datack_snack
      = cmd.icf_got_datack_snack ∧
    (iscsi_add_reject_from_cmd U reason true cmd).2.1.datain_list = cmd.datain_list ∧
    (cmd.conn_null = false → U.buf_ptr_alloc_ok = true →
      (iscsi_add_reject_from_cmd U reason true cmd).2.2
        = some { reason := reason, fail_conn := true }) := by
  unfold iscsi_add_reject_from_cmd
  split_ifs <;> simp_all

/-- Claim C16. For a command found by its TTT and a 32-bit BegRun:
`iscsi_handle_data_ack` returns 0 exactly when `BegRun > acked_data_sn` (and -1
otherwise); when it succeeds it sets `ICF_GOT_DATACK_SNACK` and
`acked_data_sn = BegRun - 1`, which is not below the old value, and changes
nothing else; when it fails the command is unchanged; and
`iscsi_handle_recovery_datain` leaves `acked_data_sn` and
`ICF_GOT_DATACK_SNACK` as they are, whatever it returns. -/
theorem acked_data_sn_changes (U : iscsi_util) (cmd : iscsi_cmd) (begrun runlength : Nat)
    (ack : Nat) (hb : ack < U32_MOD) :
    ((iscsi_handle_data_ack (some cmd) ack).1 = 0 ↔ ack > cmd.acked_data_sn) ∧
    (ack > cmd.acked_data_sn →
      iscsi_handle_data_ack (some cmd) ack
        = (0, some { cmd with icf_got_datack_snack := true, acked_data_sn := ack - 1 }) ∧
      cmd.acked_data_sn ≤ ack - 1) ∧
    (¬ ack > cmd.acked_data_sn → iscsi_handle_data_ack (some cmd) ack = (-1, some cmd)) ∧
    (iscsi_handle_recovery_datain U cmd begrun runlength).2.1.acked_data_sn
      = cmd.acked_data_sn ∧
    (iscsi_handle_recovery_datain U cmd begrun runlength).2.1.icf_got_datack_snack
      = cmd.icf_got_datack_snack := by
  have hr1 := add_reject_from_cmd_snack_frame U REASON_PROTOCOL_ERR cmd
  have hr2 := add_reject_from_cmd_snack_frame U REASON_INVALID_PDU_FIELD cmd
  have hr3 := add_reject_from_cmd_snack_frame U REASON_OUT_OF_RESOURCES cmd
  refine ⟨?_, ?_, ?_, ?_, ?_⟩
  · unfold iscsi_handle_data_ack
    by_cases h : ack ≤ cmd.acked_data_sn
    · simp [h]
    · simp [h]
      omega
  · intro h
    have hsub : sub32 ack 1 = ack - 1 := sub32_eq (by omega) hb
    unfold iscsi_handle_data_ack
    rw [hsub]
    simp only [if_neg (Nat.not_le.mpr h)]
    exact ⟨trivial, by omega⟩
  · intro h
    unfold iscsi_handle_data_ack
    simp only [if_pos (Nat.not_lt.mp h)]
  · unfold iscsi_handle_recovery_datain
    split_ifs
    · rfl
    · exact hr1.2.1
    · exact hr2.2.1
    · exact hr3.2.1
    · rfl
  · unfold iscsi_handle_recovery_datain
    split_ifs
    · rfl
    · exact hr1.2.2.1
    · exact hr2.2.2.1
    · exact hr3.2.2.1
    · rfl


/-- A use of C16: on a read command with ten DataIN PDUs sent, a Data ACK with
BegRun 6 moves `acked_data_sn` from 0 to 5, and a Data SNACK for DataSN 6 to 8
leaves it at 0. -/
theorem acked_data_sn_changes_witness :
    (6 : Nat) < U32_MOD ∧
    (((iscsi_handle_data_ack (some cmd_read_5120_sent) 6).1 = 0
        ↔ 6 > cmd_read_5120_sent.acked_data_sn) ∧
      (6 > cmd_read_5120_sent.acked_data_sn →
        iscsi_handle_data_ack (some cmd_read_5120_sent) 6
          = (0, some { cmd_read_5120_sent with
                icf_got_datack_snack := true, acked_data_sn := 6 - 1 }) ∧
        cmd_read_5120_sent.acked_data_sn ≤ 6 - 1) ∧
      (¬ 6 > cmd_read_5120_sent.acked_data_sn →
        iscsi_handle_data_ack (some cmd_read_5120_sent) 6 = (-1, some cmd_read_5120_sent)) ∧
      (iscsi_handle_recovery_datain util_ok cmd_read_5120_sent 6 3).2.1.acked_data_sn
        = cmd_read_5120_sent.acked_data_sn ∧
      (iscsi_handle_recovery_datain util_ok cmd_read_5120_sent 6 3).2.1.icf_got_datack_snack
        = cmd_read_5120_sent.icf_got_datack_snack) ∧
    (iscsi_handle_data_ack (some cmd_read_5120_sent) 6).2.map (fun c => c.acked_data_sn)
      = some 5 ∧
    (iscsi_handle_recovery_datain util_ok cmd_read_5120_sent 6 3).1 = 0 ∧
    (iscsi_handle_recovery_datain util_ok cmd_read_5120_sent 6 3).2.1.acked_data_sn = 0 :=
  ⟨by decide, acked_data_sn_changes util_ok cmd_read_5120_sent 6 3 6 (by decide),
   by decide, by decide, by decide⟩


/-- The Reject that `iscsi_add_reject_from_cmd` queues carries the reason given. -/
theorem add_reject_from_cmd_reason (U : iscsi_util) (reason : reject_reason)
    (fail_conn : Bool) (cmd : iscsi_cmd) :
    ∀ rej, (iscsi_add_reject_from_cmd U reason fail_conn cmd).2.2 = some rej →
      rej.reason = reason := by
  intro rej h
  cases hc : cmd.conn_null <;> cases fail_conn <;> cases hb : U.buf_ptr_alloc_ok <;>
    by_cases hs : U.reject_sem_ret = 0 <;>
    simp [iscsi_add_reject_from_cmd, hc, hb, hs] at h <;>
    (try (rw [← h]))


/-! ## C15: Data SNACKs for acknowledged DataSNs -/

/-- Claim C15 refuted as stated. A read command that the transport has not
completed yet: the Data ACK with BegRun 5 is accepted, and the Data SNACK with
BegRun 3 that follows is not rejected: `iscsi_handle_recovery_datain` returns 0,
queues no Reject and leaves the command as it is. -/
theorem data_snack_ignored_before_completion :
    (iscsi_handle_data_ack (some cmd_read_pending) 5).1 = 0 ∧
    (iscsi_handle_data_ack (some cmd_read_pending) 5).2.map
        (fun c => (c.icf_got_datack_snack, c.acked_data_sn)) = some (true, 4) ∧
    (iscsi_handle_data_ack (some cmd_read_pending) 5).2.map
        (fun c => decide (iscsi_handle_recovery_datain util_ok c 3 1 = (0, c, none)))
      = some true := by
  decide

/-- Claim C15, as amended. After `iscsi_handle_data_ack` has accepted a Data ACK
with the 32-bit BegRun `B` for a command, the command being `c` now: a Data
SNACK with `BegRun < B` for `c` is rejected by `iscsi_handle_recovery_datain`
when the transport has completed the command (the function returns -1 through
`iscsi_add_reject_from_cmd(REASON_PROTOCOL_ERR, 1, ...)`, which queues the
Reject when the command has a connection and the header copy can be allocated,
and no recovery request is created), and is ignored when the transport has not
completed it (0 is returned, nothing is queued or created); and a Data SNACK
with `BegRun >= B` is not answered with a protocol-error Reject. -/
theorem data_snack_after_ack (U : iscsi_util) (cmd c : iscsi_cmd) (B begrun runlength : Nat)
    (hB : B < U32_MOD) (hacc : iscsi_handle_data_ack (some cmd) B = (0, some c)) :
    (begrun < B → c.t_transport_complete = true →
      iscsi_handle_recovery_datain U c begrun runlength
        = iscsi_add_reject_from_cmd U REASON_PROTOCOL_ERR true c ∧
      (iscsi_handle_recovery_datain U c begrun runlength).1 = -1 ∧
      (iscsi_handle_recovery_datain U c begrun runlength).2.1.datain_list = c.datain_list ∧
      (c.conn_null = false → U.buf_ptr_alloc_ok = true →
        (iscsi_handle_recovery_datain U c begrun runlength).2.2
          = some { reason := REASON_PROTOCOL_ERR, fail_conn := true })) ∧
    (c.t_transport_complete = false →
      iscsi_handle_recovery_datain U c begrun runlength = (0, c, none)) ∧
    (B ≤ begrun → ∀ rej, (iscsi_handle_recovery_datain U c begrun runlength).2.2 = some rej →
      rej.reason ≠ REASON_PROTOCOL_ERR) := by
  have hc : ¬ B ≤ cmd.acked_data_sn ∧
      c = { cmd with icf_got_datack_snack := true, acked_data_sn := sub32 B 1 } := by
    unfold iscsi_handle_data_ack at hacc
    by_cases h : B ≤ cmd.acked_data_sn
    · simp only [if_pos h] at hacc
      exact absurd (congrArg Prod.fst hacc) (by simp)
    · simp only [if_neg h, Prod.mk.injEq, Option.some.injEq, true_and] at hacc
      exact ⟨h, hacc.symm⟩
  obtain ⟨hlt, hceq⟩ := hc
  have hflag : c.icf_got_datack_snack = true := by rw [hceq]
  have hack : c.acked_data_sn = B - 1 := by
    rw [hceq]
    exact sub32_eq (by omega) hB
  refine ⟨?_, ?_, ?_⟩
  · intro hb ht
    have hfr := add_reject_from_cmd_snack_frame U REASON_PROTOCOL_ERR c
    have hcond : c.icf_got_datack_snack = true ∧ begrun ≤ c.acked_data_sn :=
      ⟨hflag, by rw [hack]; omega⟩
    have heq : iscsi_handle_recovery_datain U c begrun runlength
        = iscsi_add_reject_from_cmd U REASON_PROTOCOL_ERR true c := by
      unfold iscsi_handle_recovery_datain
      rw [if_neg (by simp [ht]), if_pos hcond]
    rw [heq]
    exact ⟨rfl, hfr.1, hfr.2.2.2.1, hfr.2.2.2.2⟩
  · intro ht
    unfold iscsi_handle_recovery_datain
    rw [if_pos (by simp [ht])]
  · intro hb rej hrej
    have hcond : ¬ (c.icf_got_datack_snack = true ∧ begrun ≤ c.acked_data_sn) := by
      rw [hack]
      intro h
      omega
    unfold iscsi_handle_recovery_datain at hrej
    rw [if_neg hcond] at hrej
    by_cases h1 : (!c.t_transport_complete) = true
    · rw [if_pos h1] at hrej
      exact absurd hrej (by simp)
    · rw [if_neg h1] at hrej
      by_cases h2 : add32 begrun runlength > sub32 c.data_sn 1
      · rw [if_pos h2] at hrej
        rw [add_reject_from_cmd_reason U REASON_INVALID_PDU_FIELD true c rej hrej]
        decide
      · rw [if_neg h2] at hrej
        by_cases h3 : (!U.datain_req_alloc_ok) = true
        · rw [if_pos h3] at hrej
          rw [add_reject_from_cmd_reason U REASON_OUT_OF_RESOURCES true c rej hrej]
          decide
        · rw [if_neg h3] at hrej
          exact absurd hrej (by simp)


/-- A use of C15 as amended: ten DataIN PDUs sent, Data ACK with BegRun 6
accepted; the Data SNACK for DataSN 3 is answered with a protocol-error Reject
that fails the connection, and creates no request. -/
theorem data_snack_after_ack_witness :
    ((6 : Nat) < U32_MOD ∧
      iscsi_handle_data_ack (some cmd_read_5120_sent) 6 = (0, some cmd_read_5120_acked)) ∧
    ((3 < 6 → cmd_read_5120_acked.t_transport_complete = true →
        iscsi_handle_recovery_datain util_ok cmd_read_5120_acked 3 1
          = iscsi_add_reject_from_cmd util_ok REASON_PROTOCOL_ERR true cmd_read_5120_acked ∧
        (iscsi_handle_recovery_datain util_ok cmd_read_5120_acked 3 1).1 = -1 ∧
        (iscsi_handle_recovery_datain util_ok cmd_read_5120_acked 3 1).2.1.datain_list
          = cmd_read_5120_acked.datain_list ∧
        (cmd_read_5120_acked.conn_null = false → util_ok.buf_ptr_alloc_ok = true →
          (iscsi_handle_recovery_datain util_ok cmd_read_5120_acked 3 1).2.2
            = some { reason := REASON_PROTOCOL_ERR, fail_conn := true })) ∧
      (cmd_read_5120_acked.t_transport_complete = false →
        iscsi_handle_recovery_datain util_ok cmd_read_5120_acked 3 1
          = (0, cmd_read_5120_acked, none)) ∧
      (6 ≤ 3 → ∀ rej,
        (iscsi_handle_recovery_datain util_ok cmd_read_5120_acked 3 1).2.2 = some rej →
        rej.reason ≠ REASON_PROTOCOL_ERR)) ∧
    (iscsi_handle_recovery_datain util_ok cmd_read_5120_acked 3 1).1 = -1 ∧
    (iscsi_handle_recovery_datain util_ok cmd_read_5120_acked 3 1).2.2
      = some { reason := REASON_PROTOCOL_ERR, fail_conn := true } ∧
    (iscsi_handle_recovery_datain util_ok cmd_read_5120_acked 6 1).1 = 0 :=
  ⟨⟨by decide, by decide⟩,
   data_snack_after_ack util_ok cmd_read_5120_sent cmd_read_5120_acked 6 3 1 (by decide)
     (by decide),
   by decide, by decide, by decide⟩


/-! ## C14: the DataIN PDUs re-emitted for a Data SNACK -/

/-- A run of PDUs longer than `k` has `k` PDUs that do not end the command. -/
theorem cursor_pdus_nonfinal (ops : iscsi_ops) (dl : Nat) :
    ∀ (k fuel nbl rdd : Nat), k < (cursor_pdus ops dl fuel nbl rdd).length →
      nonfinal_run ops dl k nbl rdd := by
  intro k
  induction k with
  | zero =>
    intro fuel nbl rdd _
    trivial
  | succ k ih =>
    intro fuel nbl rdd h
    cases fuel with
    | zero => simp [cursor_pdus] at h
    | succ f =>
      rw [cursor_pdus] at h
      by_cases hfin : rdd + burst_length ops dl nbl rdd = dl
      · rw [if_pos hfin] at h
        simp at h
      · rw [if_neg hfin] at h
        simp only [List.length_cons] at h
        exact ⟨hfin, ih f _ _ (by omega)⟩

/-- The first `k` PDUs of a run whose first `k` PDUs do not end the command. -/
theorem cursor_pdus_take (ops : iscsi_ops) (dl : Nat) :
    ∀ (k fuel nbl rdd : Nat), nonfinal_run ops dl k nbl rdd → k ≤ fuel →
      (cursor_pdus ops dl fuel nbl rdd).take k = cursor_first ops dl k nbl rdd := by
  intro k
  induction k with
  | zero =>
    intro fuel nbl rdd _ _
    simp [cursor_first]
  | succ k ih =>
    intro fuel nbl rdd h hf
    obtain ⟨f, rfl⟩ : ∃ f, fuel = f + 1 := ⟨fuel - 1, by omega⟩
    obtain ⟨hfin, hrest⟩ := h
    rw [cursor_pdus, if_neg hfin, cursor_first, List.take_succ_cons, ih f _ _ hrest (by omega)]

/-- The PDUs of a run after its first `k`, none of which ends the command. -/
theorem cursor_pdus_drop (ops : iscsi_ops) (dl : Nat) :
    ∀ (k fuel nbl rdd : Nat), nonfinal_run ops dl k nbl rdd → k ≤ fuel →
      (cursor_pdus ops dl fuel nbl rdd).drop k
        = cursor_pdus ops dl (fuel - k) (cursor_after ops dl k nbl rdd).1
            (cursor_after ops dl k nbl rdd).2 := by
  intro k
  induction k with
  | zero =>
    intro fuel nbl rdd _ _
    simp [cursor_after]
  | succ k ih =>
    intro fuel nbl rdd h hf
    obtain ⟨f, rfl⟩ : ∃ f, fuel = f + 1 := ⟨fuel - 1, by omega⟩
    obtain ⟨hfin, hrest⟩ := h
    rw [cursor_pdus, if_neg hfin, List.drop_succ_cons, ih f _ _ hrest (by omega), cursor_after]
    simp

/-- A run of `a + b` PDUs that do not end the command is a run of `a` such
PDUs followed by a run of `b`. -/
theorem nonfinal_run_add (ops : iscsi_ops) (dl : Nat) :
    ∀ (a b nbl rdd : Nat), nonfinal_run ops dl (a + b) nbl rdd →
      nonfinal_run ops dl a nbl rdd ∧
      nonfinal_run ops dl b (cursor_after ops dl a nbl rdd).1
        (cursor_after ops dl a nbl rdd).2 := by
  intro a
  induction a with
  | zero =>
    intro b nbl rdd h
    exact ⟨trivial, by simpa [cursor_after] using h⟩
  | succ a ih =>
    intro b nbl rdd h
    rw [Nat.succ_add] at h
    obtain ⟨hfin, hrest⟩ := h
    obtain ⟨h1, h2⟩ := ih b _ _ hrest
    exact ⟨⟨hfin, h1⟩, h2⟩

/-- The cursor stays inside the burst and inside the command along PDUs that
do not end the command. -/
theorem cursor_after_bounds (ops : iscsi_ops) (dl : Nat) :
    ∀ (k nbl rdd : Nat), nonfinal_run ops dl k nbl rdd →
      nbl < ops.MaxBurstLength → rdd < dl →
      (cursor_after ops dl k nbl rdd).1 < ops.MaxBurstLength ∧
      (cursor_after ops dl k nbl rdd).2 < dl := by
  intro k
  induction k with
  | zero =>
    intro nbl rdd _ h1 h2
    exact ⟨h1, h2⟩
  | succ k ih =>
    intro nbl rdd h h1 h2
    obtain ⟨hfin, hrest⟩ := h
    rw [cursor_after]
    have hlen : burst_length ops dl nbl rdd ≤ dl - rdd ∧
        burst_length ops dl nbl rdd ≤ ops.MaxBurstLength - nbl := by
      unfold burst_length
      omega
    apply ih _ _ hrest
    · unfold burst_next
      rw [if_neg hfin]
      split <;> omega
    · omega


/-- The offsets and lengths of a normal run are those of the cursor formula. -/
theorem datain_run_spans (U : iscsi_util) (ops : iscsi_ops)
    (hseq : ops.DataSequenceInOrder = true) (hpdu : ops.DataPDUInOrder = true)
    (hmb : ops.MaxBurstLength < U32_MOD)
    (hw : ops.MaxBurstLength + ops.MaxRecvDataSegmentLength ≤ U32_MOD)
    (dr : iscsi_datain_req) (rest : List iscsi_datain_req)
    (hn : dr.recovery = DATAIN_NORMAL) (hc : dr.dr_complete = DATAIN_INCOMPLETE) :
    ∀ (fuel : Nat) (cmd : iscsi_cmd), cmd.datain_list = dr :: rest →
      cmd.read_data_done < cmd.data_length → cmd.data_length < U32_MOD →
      cmd.next_burst_len < ops.MaxBurstLength →
      (datain_run U ops fuel cmd).map pdu_span
        = cursor_pdus ops cmd.data_length fuel cmd.next_burst_len cmd.read_data_done := by
  intro fuel
  induction fuel with
  | zero =>
    intro cmd _ _ _ _
    rfl
  | succ f ih =>
    intro cmd hl hrd hdl hnb
    have hstep := yes_and_yes_normal ops cmd dr rest hl hn hrd hdl hnb hmb (by omega)
    have hle := cursor_length_le ops cmd
    have hlen : cursor_length ops cmd
        = burst_length ops cmd.data_length cmd.next_burst_len cmd.read_data_done := rfl
    have hnext : cursor_next_burst_len ops cmd
        = burst_next ops cmd.data_length cmd.next_burst_len cmd.read_data_done := rfl
    rw [cursor_pdus]
    by_cases hfin : cmd.read_data_done + cursor_length ops cmd = cmd.data_length
    · have hdr : (cursor_dr ops cmd dr).dr_complete = DATAIN_COMPLETE_NORMAL := by
        simp [cursor_dr, hfin]
      have hrun : datain_run U ops (f + 1) cmd =
          [({ flags := cursor_flags ops cmd, length := cursor_length ops cmd,
              offset := cmd.read_data_done, data_sn := cmd.data_sn }, cursor_dr ops cmd dr)] := by
        simp [datain_run, get_datain_values_yes_yes U ops cmd {} hseq hpdu, hstep, hdr]
      rw [hrun, ← hlen, if_pos hfin]
      rfl
    · have hdr : cursor_dr ops cmd dr = dr := by simp [cursor_dr, hfin]
      have hnb' : cursor_next_burst_len ops cmd < ops.MaxBurstLength := by
        simp only [cursor_next_burst_len, if_neg hfin]
        split <;> omega
      have hrun : datain_run U ops (f + 1) cmd =
          ({ flags := cursor_flags ops cmd, length := cursor_length ops cmd,
             offset := cmd.read_data_done, data_sn := cmd.data_sn }, cursor_dr ops cmd dr) ::
          datain_run U ops f
            { cmd with
                data_sn := add32 cmd.data_sn 1
                next_burst_len := cursor_next_burst_len ops cmd
                read_data_done := cmd.read_data_done + cursor_length ops cmd
                datain_list := cursor_dr ops cmd dr :: rest } := by
        simp [datain_run, get_datain_values_yes_yes U ops cmd {} hseq hpdu, hstep, hdr, hc]
      have hih := ih
        { cmd with
            data_sn := add32 cmd.data_sn 1
            next_burst_len := cursor_next_burst_len ops cmd
            read_data_done := cmd.read_data_done + cursor_length ops cmd
            datain_list := cursor_dr ops cmd dr :: rest }
        (by simp only [hdr]) (by simp only; omega) hdl hnb'
      rw [hrun, List.map_cons, hih, ← hlen, ← hnext, if_neg hfin]
      rfl


/-- One pass of the loop of
`iscsi_create_recovery_datain_values_datasequenceinorder_yes` moves the cursor
of the request as a DataIN that does not end the command moves the cursor of
the command. -/
theorem recovery_values_step_eq (ops : iscsi_ops) (dl : Nat) (dr : iscsi_datain_req)
    (a b c : Nat)
    (hfin : dr.read_data_done + burst_length ops dl dr.next_burst_len dr.read_data_done ≠ dl)
    (hnb : dr.next_burst_len < ops.MaxBurstLength) (hrd : dr.read_data_done < dl)
    (hdl : dl < U32_MOD) (hmb : ops.MaxBurstLength < U32_MOD)
    (hw : ops.MaxBurstLength + ops.MaxRecvDataSegmentLength ≤ U32_MOD) :
    (recovery_values_step ops (dr, a, b, c)).1 =
      { dr with
          next_burst_len := burst_next ops dl dr.next_burst_len dr.read_data_done
          read_data_done :=
            dr.read_data_done + burst_length ops dl dr.next_burst_len dr.read_data_done } := by
  have hsum : add32 dr.next_burst_len ops.MaxRecvDataSegmentLength
      = dr.next_burst_len + ops.MaxRecvDataSegmentLength := add32_eq (by omega)
  have hsub : sub32 ops.MaxBurstLength dr.next_burst_len
      = ops.MaxBurstLength - dr.next_burst_len := sub32_eq (Nat.le_of_lt hnb) hmb
  unfold recovery_values_step
  dsimp only
  rw [hsum]
  have hle : burst_length ops dl dr.next_burst_len dr.read_data_done ≤ dl - dr.read_data_done := by
    unfold burst_length
    omega
  by_cases h2 : dr.next_burst_len + ops.MaxRecvDataSegmentLength < ops.MaxBurstLength
  · have hlen : burst_length ops dl dr.next_burst_len dr.read_data_done
        = ops.MaxRecvDataSegmentLength := by
      unfold burst_length at hfin ⊢
      omega
    have hne : ¬ dr.next_burst_len + ops.MaxRecvDataSegmentLength = ops.MaxBurstLength := by
      omega
    have hnext : burst_next ops dl dr.next_burst_len dr.read_data_done
        = dr.next_burst_len + ops.MaxRecvDataSegmentLength := by
      unfold burst_next
      rw [if_neg hfin, hlen, if_neg hne]
    have hadd : add32 dr.read_data_done ops.MaxRecvDataSegmentLength
        = dr.read_data_done + ops.MaxRecvDataSegmentLength := by
      rw [hlen] at hle
      exact add32_eq (by omega)
    rw [if_pos h2, hnext, hlen, hadd]
  · have hlen : burst_length ops dl dr.next_burst_len dr.read_data_done
        = ops.MaxBurstLength - dr.next_burst_len := by
      unfold burst_length at hfin ⊢
      omega
    have heq : dr.next_burst_len + (ops.MaxBurstLength - dr.next_burst_len)
        = ops.MaxBurstLength := by
      omega
    have hnext : burst_next ops dl dr.next_burst_len dr.read_data_done = 0 := by
      unfold burst_next
      rw [if_neg hfin, hlen, if_pos heq]
    have hadd : add32 dr.read_data_done (ops.MaxBurstLength - dr.next_burst_len)
        = dr.read_data_done + (ops.MaxBurstLength - dr.next_burst_len) := by
      rw [hlen] at hle
      exact add32_eq (by omega)
    rw [if_neg h2, hnext, hlen, hsub, hadd]

/-- The loop of `iscsi_create_recovery_datain_values_datasequenceinorder_yes`
over `k` DataSNs whose PDUs do not end the command leaves in the request the
cursor that the command has after `k` DataIN PDUs. -/
theorem recovery_values_iterate (ops : iscsi_ops) (dl : Nat)
    (hdl : dl < U32_MOD) (hmb : ops.MaxBurstLength < U32_MOD)
    (hw : ops.MaxBurstLength + ops.MaxRecvDataSegmentLength ≤ U32_MOD) :
    ∀ (k : Nat) (dr : iscsi_datain_req) (a b c : Nat),
      nonfinal_run ops dl k dr.next_burst_len dr.read_data_done →
      dr.next_burst_len < ops.MaxBurstLength → dr.read_data_done < dl →
      ((recovery_values_step ops)^[k] (dr, a, b, c)).1 =
        { dr with
            next_burst_len := (cursor_after ops dl k dr.next_burst_len dr.read_data_done).1
            read_data_done := (cursor_after ops dl k dr.next_burst_len dr.read_data_done).2 } := by
  intro k
  induction k with
  | zero =>
    intro dr a b c _ _ _
    rfl
  | succ k ih =>
    intro dr a b c h hnb hrd
    obtain ⟨hfin, hrest⟩ := h
    have hstep := recovery_values_step_eq ops dl dr a b c hfin hnb hrd hdl hmb hw
    have hb := cursor_after_bounds ops dl 1 dr.next_burst_len dr.read_data_done
      ⟨hfin, trivial⟩ hnb hrd
    rw [Function.iterate_succ_apply]
    obtain ⟨dr1, a1, b1, c1, hst⟩ : ∃ dr1 a1 b1 c1,
        recovery_values_step ops (dr, a, b, c) = (dr1, a1, b1, c1) := ⟨_, _, _, _, rfl⟩
    rw [hst] at hstep ⊢
    simp only at hstep
    subst hstep
    rw [ih _ a1 b1 c1 hrest hb.1 hb.2]
    rfl


/-- One call of `iscsi_set_datain_values_yes_and_yes` for a recovery request
within the command whose cursor, after its recovery values were generated, is
inside the burst and inside the command. -/
theorem yes_and_yes_recovery (ops : iscsi_ops) (cmd : iscsi_cmd) (dr0 dr : iscsi_datain_req)
    (rest : List iscsi_datain_req)
    (hl : cmd.datain_list = dr0 :: rest)
    (hg : generate_recovery_values_yes ops cmd dr0 = (cmd, dr))
    (hr : dr.recovery = DATAIN_WITHIN_COMMAND_RECOVERY)
    (hrd : dr.read_data_done < cmd.data_length) (hdl : cmd.data_length < U32_MOD)
    (hnb : dr.next_burst_len < ops.MaxBurstLength) (hmb : ops.MaxBurstLength < U32_MOD)
    (hw : dr.next_burst_len + ops.MaxRecvDataSegmentLength < U32_MOD) :
    iscsi_set_datain_values_yes_and_yes ops cmd {} =
      (some (recovery_mark_complete
          { dr with
              data_sn := add32 dr.data_sn 1
              next_burst_len := burst_next ops cmd.data_length dr.next_burst_len dr.read_data_done
              read_data_done := dr.read_data_done
                + burst_length ops cmd.data_length dr.next_burst_len dr.read_data_done }
          (burst_flags ops cmd.data_length dr.next_burst_len dr.read_data_done)),
       { cmd with
           datain_list := recovery_mark_complete
             { dr with
                 data_sn := add32 dr.data_sn 1
                 next_burst_len :=
                   burst_next ops cmd.data_length dr.next_burst_len dr.read_data_done
                 read_data_done := dr.read_data_done
                   + burst_length ops cmd.data_length dr.next_burst_len dr.read_data_done }
             (burst_flags ops cmd.data_length dr.next_burst_len dr.read_data_done) :: rest },
       { flags := burst_flags ops cmd.data_length dr.next_burst_len dr.read_data_done
         length := burst_length ops cmd.data_length dr.next_burst_len dr.read_data_done
         offset := dr.read_data_done
         data_sn := dr.data_sn }) := by
  have hleft : sub32 cmd.data_length dr.read_data_done
      = cmd.data_length - dr.read_data_done := sub32_eq (Nat.le_of_lt hrd) hdl
  have hbr := yes_and_yes_branch_eq ops cmd.data_length dr.next_burst_len dr.read_data_done
    hrd hnb hmb hw
  have hne : cmd.data_length - dr.read_data_done ≠ 0 := by omega
  have hle : burst_length ops cmd.data_length dr.next_burst_len dr.read_data_done
      ≤ cmd.data_length - dr.read_data_done := by unfold burst_length; omega
  have hadd : add32 dr.read_data_done
      (burst_length ops cmd.data_length dr.next_burst_len dr.read_data_done)
      = dr.read_data_done
        + burst_length ops cmd.data_length dr.next_burst_len dr.read_data_done :=
    add32_eq (by omega)
  have hnn : (dr.recovery == DATAIN_NORMAL) = false := by
    rw [hr]
    decide
  unfold iscsi_set_datain_values_yes_and_yes
  rw [hl]
  simp only [hg, hnn, Bool.false_eq_true, if_false, hleft, if_neg hne, hbr, hadd]


/-- The completion mark of a recovery request with a run length. -/
theorem recovery_mark_complete_run (dr : iscsi_datain_req) (flags : Nat)
    (hrl : dr.runlength ≠ 0) :
    (add32 dr.begrun dr.runlength = dr.data_sn →
      recovery_mark_complete dr flags
        = { dr with dr_complete := recovery_complete dr.recovery }) ∧
    (add32 dr.begrun dr.runlength ≠ dr.data_sn → recovery_mark_complete dr flags = dr) := by
  unfold recovery_mark_complete
  rw [if_neg hrl]
  constructor
  · intro h
    rw [if_pos h]
  · intro h
    rw [if_neg h]

/-- The run of a recovery request within the command, from the cursor and the
DataSN of the request, over DataSNs whose PDUs do not end the command: the
PDUs are those of the cursor formula, the DataSNs count up to the end of the
run asked for, and the request is marked complete with the last of them. -/
theorem datain_run_recovery (U : iscsi_util) (ops : iscsi_ops)
    (hseq : ops.DataSequenceInOrder = true) (hpdu : ops.DataPDUInOrder = true)
    (hmb : ops.MaxBurstLength < U32_MOD)
    (hw : ops.MaxBurstLength + ops.MaxRecvDataSegmentLength ≤ U32_MOD)
    (dl : Nat) (hdl : dl < U32_MOD) (e : Nat) (he : e < U32_MOD)
    (rest : List iscsi_datain_req) :
    ∀ (k : Nat) (cmd : iscsi_cmd) (dr : iscsi_datain_req),
      cmd.data_length = dl → cmd.datain_list = dr :: rest →
      dr.recovery = DATAIN_WITHIN_COMMAND_RECOVERY → dr.generate_recovery_values = false →
      dr.dr_complete = DATAIN_INCOMPLETE → dr.runlength ≠ 0 →
      add32 dr.begrun dr.runlength = e → dr.data_sn + (k + 1) = e →
      nonfinal_run ops dl (k + 1) dr.next_burst_len dr.read_data_done →
      dr.next_burst_len < ops.MaxBurstLength → dr.read_data_done < dl →
      ∀ fuel, k + 1 ≤ fuel →
        (datain_run U ops fuel cmd).map pdu_span
          = cursor_first ops dl (k + 1) dr.next_burst_len dr.read_data_done ∧
        (datain_run U ops fuel cmd).map (fun p => p.1.data_sn)
          = List.range' dr.data_sn (k + 1) ∧
        (datain_run U ops fuel cmd).map (fun p => p.2.dr_complete)
          = List.replicate k DATAIN_INCOMPLETE ++ [DATAIN_COMPLETE_WITHIN_COMMAND_RECOVERY] := by
  intro k
  induction k with
  | zero =>
    intro cmd dr hcdl hl hr hgen hc hrl hbe hsn hnf hnb hrd fuel hfuel
    obtain ⟨f, rfl⟩ : ∃ f, fuel = f + 1 := ⟨fuel - 1, by omega⟩
    subst hcdl
    have hg : generate_recovery_values_yes ops cmd dr = (cmd, dr) := by
      simp [generate_recovery_values_yes, hgen]
    have hstep := yes_and_yes_recovery ops cmd dr dr rest hl hg hr hrd hdl hnb hmb (by omega)
    obtain ⟨D, hD⟩ : ∃ D : iscsi_datain_req, D =
        { dr with
            data_sn := add32 dr.data_sn 1
            next_burst_len := burst_next ops cmd.data_length dr.next_burst_len dr.read_data_done
            read_data_done := dr.read_data_done
              + burst_length ops cmd.data_length dr.next_burst_len dr.read_data_done } :=
      ⟨_, rfl⟩
    rw [← hD] at hstep
    have hDrl : D.runlength ≠ 0 := by rw [hD]; exact hrl
    have hDsn : add32 D.begrun D.runlength = D.data_sn := by
      rw [hD]
      show add32 dr.begrun dr.runlength = add32 dr.data_sn 1
      rw [hbe, add32_eq (by omega)]
      omega
    have hmark := (recovery_mark_complete_run D
      (burst_flags ops cmd.data_length dr.next_burst_len dr.read_data_done) hDrl).1 hDsn
    rw [hmark] at hstep
    have hDr : D.recovery = DATAIN_WITHIN_COMMAND_RECOVERY := by rw [hD]; exact hr
    have hrun : datain_run U ops (f + 1) cmd =
        [({ flags := burst_flags ops cmd.data_length dr.next_burst_len dr.read_data_done
            length := burst_length ops cmd.data_length dr.next_burst_len dr.read_data_done
            offset := dr.read_data_done
            data_sn := dr.data_sn },
          { D with dr_complete := recovery_complete D.recovery })] := by
      simp [datain_run, get_datain_values_yes_yes U ops cmd {} hseq hpdu, hstep, hDr,
        recovery_complete]
    rw [hrun]
    refine ⟨rfl, rfl, ?_⟩
    simp [hDr, recovery_complete]
  | succ k ih =>
    intro cmd dr hcdl hl hr hgen hc hrl hbe hsn hnf hnb hrd fuel hfuel
    obtain ⟨f, rfl⟩ : ∃ f, fuel = f + 1 := ⟨fuel - 1, by omega⟩
    subst hcdl
    obtain ⟨hfin, hrest⟩ := hnf
    have hb := cursor_after_bounds ops cmd.data_length 1 dr.next_burst_len dr.read_data_done
      ⟨hfin, trivial⟩ hnb hrd
    have hg : generate_recovery_values_yes ops cmd dr = (cmd, dr) := by
      simp [generate_recovery_values_yes, hgen]
    have hstep := yes_and_yes_recovery ops cmd dr dr rest hl hg hr hrd hdl hnb hmb (by omega)
    obtain ⟨D, hD⟩ : ∃ D : iscsi_datain_req, D =
        { dr with
            data_sn := add32 dr.data_sn 1
            next_burst_len := burst_next ops cmd.data_length dr.next_burst_len dr.read_data_done
            read_data_done := dr.read_data_done
              + burst_length ops cmd.data_length dr.next_burst_len dr.read_data_done } :=
      ⟨_, rfl⟩
    rw [← hD] at hstep
    have hDrl : D.runlength ≠ 0 := by rw [hD]; exact hrl
    have hDsn0 : D.data_sn = dr.data_sn + 1 := by
      rw [hD]
      exact add32_eq (by omega)
    have hDsn : add32 D.begrun D.runlength ≠ D.data_sn := by
      rw [hDsn0, hD]
      show add32 dr.begrun dr.runlength ≠ dr.data_sn + 1
      rw [hbe]
      omega
    have hmark := (recovery_mark_complete_run D
      (burst_flags ops cmd.data_length dr.next_burst_len dr.read_data_done) hDrl).2 hDsn
    rw [hmark] at hstep
    have hDc : D.dr_complete = DATAIN_INCOMPLETE := by rw [hD]; exact hc
    have hrun : datain_run U ops (f + 1) cmd =
        ({ flags := burst_flags ops cmd.data_length dr.next_burst_len dr.read_data_done
           length := burst_length ops cmd.data_length dr.next_burst_len dr.read_data_done
           offset := dr.read_data_done
           data_sn := dr.data_sn }, D) ::
        datain_run U ops f { cmd with datain_list := D :: rest } := by
      simp [datain_run, get_datain_values_yes_yes U ops cmd {} hseq hpdu, hstep, hDc]
    obtain ⟨i1, i2, i3⟩ := ih { cmd with datain_list := D :: rest } D rfl rfl
      (by rw [hD]; exact hr) (by rw [hD]; exact hgen) hDc hDrl
      (by rw [hD]; exact hbe) (by rw [hDsn0]; omega)
      (by rw [hD]; exact hrest) (by rw [hD]; exact hb.1) (by rw [hD]; exact hb.2)
      f (by omega)
    rw [hrun]
    refine ⟨?_, ?_, ?_⟩
    · rw [List.map_cons, i1, hD]
      rfl
    · rw [List.map_cons, i2, hDsn0]
      rfl
    · rw [List.map_cons, i3, hDc]
      rfl


/-- A run of the cursor formula has at most `fuel` PDUs. -/
theorem cursor_pdus_length_le (ops : iscsi_ops) (dl : Nat) :
    ∀ (fuel nbl rdd : Nat), (cursor_pdus ops dl fuel nbl rdd).length ≤ fuel := by
  intro fuel
  induction fuel with
  | zero =>
    intro nbl rdd
    simp [cursor_pdus]
  | succ f ih =>
    intro nbl rdd
    rw [cursor_pdus]
    split
    · simp
    · simp only [List.length_cons]
      have := ih (burst_next ops dl nbl rdd) (rdd + burst_length ops dl nbl rdd)
      omega

/-- The first call of `iscsi_get_datain_values` for the recovery request that
`iscsi_handle_recovery_datain` has queued generates the recovery values; from
then on the request runs as one that has its cursor already. -/
theorem datain_run_generate (U : iscsi_util) (ops : iscsi_ops)
    (hseq : ops.DataSequenceInOrder = true) (hpdu : ops.DataPDUInOrder = true)
    (hmb : ops.MaxBurstLength < U32_MOD)
    (hw : ops.MaxBurstLength + ops.MaxRecvDataSegmentLength ≤ U32_MOD)
    (cmd : iscsi_cmd) (dr dr1 : iscsi_datain_req) (rest : List iscsi_datain_req)
    (hl : cmd.datain_list = dr :: rest)
    (hg : generate_recovery_values_yes ops cmd dr = (cmd, dr1))
    (hgen : dr1.generate_recovery_values = false)
    (hr : dr1.recovery = DATAIN_WITHIN_COMMAND_RECOVERY)
    (hrd : dr1.read_data_done < cmd.data_length) (hdl : cmd.data_length < U32_MOD)
    (hnb : dr1.next_burst_len < ops.MaxBurstLength) :
    ∀ fuel, datain_run U ops fuel cmd
      = datain_run U ops fuel { cmd with datain_list := dr1 :: rest } := by
  intro fuel
  cases fuel with
  | zero => rfl
  | succ f =>
    have hg2 : generate_recovery_values_yes ops { cmd with datain_list := dr1 :: rest } dr1
        = ({ cmd with datain_list := dr1 :: rest }, dr1) := by
      simp [generate_recovery_values_yes, hgen]
    have e1 := yes_and_yes_recovery ops cmd dr dr1 rest hl hg hr hrd hdl hnb hmb (by omega)
    have e2 := yes_and_yes_recovery ops { cmd with datain_list := dr1 :: rest } dr1 dr1 rest
      rfl hg2 hr hrd hdl hnb hmb (by omega)
    have e : iscsi_set_datain_values_yes_and_yes ops cmd {}
        = iscsi_set_datain_values_yes_and_yes ops { cmd with datain_list := dr1 :: rest } {} :=
      e1.trans e2.symm
    rw [datain_run, datain_run, get_datain_values_yes_yes U ops cmd {} hseq hpdu,
      get_datain_values_yes_yes U ops { cmd with datain_list := dr1 :: rest } {} hseq hpdu, e]


/-- Claim C14. With DataSequenceInOrder=Yes and DataPDUInOrder=Yes, take a read
command as in C1 (`cmd0`, cursor at 0, a normal request queued) and its normal
run of `n` DataIN PDUs, and the command `c` when a Data SNACK arrives after the
run: same `data_length`, `data_sn = n`, the request of the run freed, the
transport complete, BegRun not acknowledged by a Data ACK. For a Data SNACK
with `RunLength >= 1` and `BegRun + RunLength <= n - 1`,
`iscsi_handle_recovery_datain` returns 0 without a Reject, and the run of the
request it queues has exactly `RunLength` PDUs: their DataSNs are `BegRun`, ...,
`BegRun + RunLength - 1`, their offsets and lengths are those of the PDUs
`BegRun`, ..., `BegRun + RunLength - 1` of the normal run (whose PDU `i` has
DataSN `i`), and the request is marked
`DATAIN_COMPLETE_WITHIN_COMMAND_RECOVERY` with the last of them and not before.
The parameters are 32-bit values with `MaxBurstLength +
MaxRecvDataSegmentLength <= 2^32`, as in C1. -/
theorem recovery_datain_replays (U : iscsi_util) (ops : iscsi_ops) (cmd0 c : iscsi_cmd)
    (dr0 : iscsi_datain_req) (rest0 : List iscsi_datain_req) (begrun runlength : Nat)
    (hseq : ops.DataSequenceInOrder = true) (hpdu : ops.DataPDUInOrder = true)
    (hl : cmd0.datain_list = dr0 :: rest0) (hn : dr0.recovery = DATAIN_NORMAL)
    (hc : dr0.dr_complete = DATAIN_INCOMPLETE)
    (hdl0 : 0 < cmd0.data_length) (hdl : cmd0.data_length < U32_MOD)
    (hm : 0 < ops.MaxRecvDataSegmentLength) (hb : 0 < ops.MaxBurstLength)
    (hmb : ops.MaxBurstLength < U32_MOD)
    (hw : ops.MaxBurstLength + ops.MaxRecvDataSegmentLength ≤ U32_MOD)
    (hrd : cmd0.read_data_done = 0) (hnb : cmd0.next_burst_len = 0) (hsn : cmd0.data_sn = 0)
    (hcdl : c.data_length = cmd0.data_length)
    (hcsn : c.data_sn = (datain_run U ops cmd0.data_length cmd0).length)
    (hclist : c.datain_list = []) (htc : c.t_transport_complete = true)
    (hack : ¬ (c.icf_got_datack_snack = true ∧ begrun ≤ c.acked_data_sn))
    (halloc : U.datain_req_alloc_ok = true)
    (hrl : 1 ≤ runlength)
    (hrun : begrun + runlength ≤ (datain_run U ops cmd0.data_length cmd0).length - 1) :
    (∀ (i : Nat) (h : i < (datain_run U ops cmd0.data_length cmd0).length),
      ((datain_run U ops cmd0.data_length cmd0).get ⟨i, h⟩).1.data_sn = i) ∧
    (iscsi_handle_recovery_datain U c begrun runlength).1 = 0 ∧
    (iscsi_handle_recovery_datain U c begrun runlength).2.2 = none ∧
    ∀ fuel, runlength ≤ fuel →
      (datain_run U ops fuel (iscsi_handle_recovery_datain U c begrun runlength).2.1).length
        = runlength ∧
      (datain_run U ops fuel (iscsi_handle_recovery_datain U c begrun runlength).2.1).map
          (fun p => p.1.data_sn) = List.range' begrun runlength ∧
      (datain_run U ops fuel (iscsi_handle_recovery_datain U c begrun runlength).2.1).map
          pdu_span
        = (((datain_run U ops cmd0.data_length cmd0).map pdu_span).drop begrun).take
            runlength ∧
      (datain_run U ops fuel (iscsi_handle_recovery_datain U c begrun runlength).2.1).map
          (fun p => p.2.dr_complete)
        = List.replicate (runlength - 1) DATAIN_INCOMPLETE
            ++ [DATAIN_COMPLETE_WITHIN_COMMAND_RECOVERY] := by
  -- the normal run, by the cursor formula
  have hQ := datain_run_spans U ops hseq hpdu hmb hw dr0 rest0 hn hc cmd0.data_length cmd0 hl
    (by omega) hdl (by omega)
  rw [hrd, hnb] at hQ
  have hlenQ : (datain_run U ops cmd0.data_length cmd0).length
      = (cursor_pdus ops cmd0.data_length cmd0.data_length 0 0).length := by
    rw [← hQ, List.length_map]
  have hle := cursor_pdus_length_le ops cmd0.data_length cmd0.data_length 0 0
  rw [hlenQ] at hrun hcsn
  have hnf := cursor_pdus_nonfinal ops cmd0.data_length (begrun + runlength)
    cmd0.data_length 0 0 (by omega)
  obtain ⟨hnf1, hnf2⟩ := nonfinal_run_add ops cmd0.data_length begrun runlength 0 0 hnf
  obtain ⟨hcb1, hcb2⟩ := cursor_after_bounds ops cmd0.data_length begrun 0 0 hnf1 hb hdl0
  -- the DataSNs of the normal run
  have hsns : ∀ (i : Nat) (h : i < (datain_run U ops cmd0.data_length cmd0).length),
      ((datain_run U ops cmd0.data_length cmd0).get ⟨i, h⟩).1.data_sn = i := by
    obtain ⟨n, _, hnm, hall⟩ := datain_run_shape U ops hseq hpdu hm hmb hw dr0 rest0 hn hc
      (cmd0.data_length - cmd0.read_data_done) cmd0 rfl hl (by omega) hdl (by omega) (by omega)
    obtain ⟨_, hshape⟩ := hall cmd0.data_length (by omega)
    intro i h
    have := (run_shape_index cmd0.data_length _ _ _ hshape i h).1
    omega
  -- the handler
  have hadd : add32 begrun runlength = begrun + runlength := add32_eq (by omega)
  have hsub : sub32 c.data_sn 1 = c.data_sn - 1 := sub32_eq (by omega) (by omega)
  have hnot : ¬ add32 begrun runlength > sub32 c.data_sn 1 := by
    rw [hadd, hsub, hcsn]
    omega
  have hres : iscsi_handle_recovery_datain U c begrun runlength =
      (0, { c with
              datain_list := [{ data_sn := begrun, begrun := begrun, runlength := runlength,
                                generate_recovery_values := true,
                                recovery := DATAIN_WITHIN_COMMAND_RECOVERY }]
              i_state := ISTATE_SEND_DATAIN }, none) := by
    unfold iscsi_handle_recovery_datain
    rw [if_neg (by simp [htc]), if_neg hack, if_neg hnot, if_neg (by simp [halloc])]
    simp [iscsi_attach_datain_req, hclist]
  rw [hres]
  refine ⟨hsns, rfl, rfl, ?_⟩
  intro fuel hfuel
  -- the request after its recovery values were generated
  have hiter := recovery_values_iterate ops cmd0.data_length hdl hmb hw begrun
    { data_sn := begrun, begrun := begrun, runlength := runlength,
      generate_recovery_values := true, recovery := DATAIN_WITHIN_COMMAND_RECOVERY } 0 0 0
    hnf1 hb hdl0
  obtain ⟨dr1, hdr1⟩ : ∃ dr1 : iscsi_datain_req, dr1 =
      { data_sn := begrun, begrun := begrun, runlength := runlength,
        generate_recovery_values := false, recovery := DATAIN_WITHIN_COMMAND_RECOVERY,
        next_burst_len := (cursor_after ops cmd0.data_length begrun 0 0).1,
        read_data_done := (cursor_after ops cmd0.data_length begrun 0 0).2 } := ⟨_, rfl⟩
  obtain ⟨c1, hc1⟩ : ∃ c1 : iscsi_cmd, c1 =
      { c with
          datain_list := [{ data_sn := begrun, begrun := begrun, runlength := runlength,
                            generate_recovery_values := true,
                            recovery := DATAIN_WITHIN_COMMAND_RECOVERY }]
          i_state := ISTATE_SEND_DATAIN } := ⟨_, rfl⟩
  rw [← hc1]
  have hc1dl : c1.data_length = cmd0.data_length := by rw [hc1]; exact hcdl
  have hg : generate_recovery_values_yes ops c1
      { data_sn := begrun, begrun := begrun, runlength := runlength,
        generate_recovery_values := true, recovery := DATAIN_WITHIN_COMMAND_RECOVERY }
      = (c1, dr1) := by
    simp only [generate_recovery_values_yes,
      iscsi_create_recovery_datain_values_datasequenceinorder_yes, hpdu]
    rw [hiter, hdr1]
    rfl
  have hswap := datain_run_generate U ops hseq hpdu hmb hw c1 _ dr1 [] (by rw [hc1]) hg
    (by rw [hdr1]) (by rw [hdr1]) (by rw [hdr1, hc1dl]; exact hcb2) (by rw [hc1dl]; exact hdl)
    (by rw [hdr1]; exact hcb1) fuel
  rw [hswap]
  obtain ⟨k, rfl⟩ : ∃ k, runlength = k + 1 := ⟨runlength - 1, by omega⟩
  obtain ⟨r1, r2, r3⟩ := datain_run_recovery U ops hseq hpdu hmb hw cmd0.data_length hdl
    (begrun + (k + 1)) (by omega) [] k { c1 with datain_list := [dr1] } dr1 hc1dl rfl
    (by rw [hdr1]) (by rw [hdr1]) (by rw [hdr1]) (by rw [hdr1]; exact Nat.succ_ne_zero k)
    (by rw [hdr1]; exact hadd) (by rw [hdr1])
    (by rw [hdr1]; exact hnf2) (by rw [hdr1]; exact hcb1) (by rw [hdr1]; exact hcb2)
    fuel hfuel
  have hlen : (datain_run U ops fuel { c1 with datain_list := [dr1] }).length = k + 1 := by
    have := congrArg List.length r2
    simpa using this
  refine ⟨hlen, ?_, ?_, ?_⟩
  · rw [r2, hdr1]
  · rw [r1, hQ, cursor_pdus_drop ops cmd0.data_length begrun cmd0.data_length 0 0 hnf1
      (by omega), cursor_pdus_take ops cmd0.data_length (k + 1) _ _ _ hnf2 (by omega), hdr1]
  · rw [r3]
    rfl


/-- A use of C14 on its witness: a read of 5120 bytes with
`MaxRecvDataSegmentLength = 512` is sent in `n = 10` PDUs; the Data SNACK with
BegRun 5 and RunLength 3 re-emits DataSN 5, 6 and 7, at the offsets 2560, 3072
and 3584 with 512 bytes each, as the normal run did. -/
theorem recovery_datain_replays_witness :
    ((datain_run util_ok ops_snack cmd_read_5120.data_length cmd_read_5120).length = 10 ∧
      cmd_read_5120_sent.data_sn = 10 ∧ 5 + 3 ≤ 10 - 1) ∧
    (∀ fuel, 3 ≤ fuel →
      (datain_run util_ok ops_snack fuel
          (iscsi_handle_recovery_datain util_ok cmd_read_5120_sent 5 3).2.1).length = 3 ∧
      (datain_run util_ok ops_snack fuel
          (iscsi_handle_recovery_datain util_ok cmd_read_5120_sent 5 3).2.1).map
          (fun p => p.1.data_sn) = List.range' 5 3 ∧
      (datain_run util_ok ops_snack fuel
          (iscsi_handle_recovery_datain util_ok cmd_read_5120_sent 5 3).2.1).map pdu_span
        = (((datain_run util_ok ops_snack cmd_read_5120.data_length cmd_read_5120).map
              pdu_span).drop 5).take 3 ∧
      (datain_run util_ok ops_snack fuel
          (iscsi_handle_recovery_datain util_ok cmd_read_5120_sent 5 3).2.1).map
          (fun p => p.2.dr_complete)
        = List.replicate (3 - 1) DATAIN_INCOMPLETE
            ++ [DATAIN_COMPLETE_WITHIN_COMMAND_RECOVERY]) ∧
    (datain_run util_ok ops_snack 3
        (iscsi_handle_recovery_datain util_ok cmd_read_5120_sent 5 3).2.1).map
        (fun p => (p.1.data_sn, p.1.offset, p.1.length))
      = [(5, 2560, 512), (6, 3072, 512), (7, 3584, 512)] ∧
    (datain_run util_ok ops_snack 10 cmd_read_5120).map
        (fun p => (p.1.data_sn, p.1.offset, p.1.length))
      = [(0, 0, 512), (1, 512, 512), (2, 1024, 512), (3, 1536, 512), (4, 2048, 512),
         (5, 2560, 512), (6, 3072, 512), (7, 3584, 512), (8, 4096, 512), (9, 4608, 512)] :=
  ⟨⟨by decide, by decide, by decide⟩,
   (recovery_datain_replays util_ok ops_snack cmd_read_5120 cmd_read_5120_sent {} [] 5 3
      rfl rfl rfl rfl rfl (by decide) (by decide) (by decide) (by decide) (by decide)
      (by decide) rfl rfl rfl rfl (by decide) rfl rfl (by decide) rfl (by decide)
      (by decide)).2.2.2,
   by decide, by decide⟩


/-! ## C17: `iscsi_get_datain_values` with nothing left to send -/

/-- Claim C17, on the code. A read command with `read_data_done = data_length`
and a normal request queued. With the orders (Yes, Yes), (No, Yes) and
(No, No) `iscsi_get_datain_values` returns `NULL` and `iscsi_send_data_in`
returns -1 without a header. With DataSequenceInOrder=Yes and
DataPDUInOrder=No `iscsi_set_datain_values_yes_and_no` returns the request
(`return dr` after "read_data_left is zero"), and `iscsi_send_data_in` goes on:
it builds the header of a DataIN with length 0, offset 0 and DataSN 0 and
returns 0. The command's `read_data_done` and `data_sn` stay as they are in all
four cases. -/
theorem datain_nothing_left_yes_no :
    cmd_read_5120_done.read_data_done = cmd_read_5120_done.data_length ∧
    ((iscsi_get_datain_values util_ok (ops_orders true true) cmd_read_5120_done {}).1 = none ∧
      (iscsi_get_datain_values util_ok (ops_orders false true) cmd_read_5120_done {}).1 = none ∧
      (iscsi_get_datain_values util_ok (ops_orders false false) cmd_read_5120_done {}).1
        = none) ∧
    ((iscsi_send_data_in util_ok (ops_orders true true) cmd_read_5120_done {} {} 0).ret = -1 ∧
      (iscsi_send_data_in util_ok (ops_orders true true) cmd_read_5120_done {} {} 0).hdr
        = none) ∧
    (iscsi_get_datain_values util_ok (ops_orders true false) cmd_read_5120_done {}).1
      = some {} ∧
    (iscsi_send_data_in util_ok (ops_orders true false) cmd_read_5120_done {} {} 0).ret = 0 ∧
    (iscsi_send_data_in util_ok (ops_orders true false) cmd_read_5120_done {} {} 0).hdr
      = some { opcode := ISCSI_TARG_SCSI_DATA_IN, flags := 0, length := 0,
               lun := 0xFFFFFFFFFFFFFFFF, init_task_tag := 5, targ_xfer_tag := 0xFFFFFFFF,
               stat_sn := 0xFFFFFFFF, data_sn := 0, offset := 0 } ∧
    (iscsi_send_data_in util_ok (ops_orders true false)
        cmd_read_5120_done {} {} 0).cmd.read_data_done = 5120 ∧
    (iscsi_send_data_in util_ok (ops_orders true false) cmd_read_5120_done {} {} 0).cmd.data_sn
      = 10 := by
  decide


/-! ## C18: StatSN is stamped, then advanced, by the builders of status-bearing PDUs -/

theorem has_bit_s_bit (f : Nat) : has_bit f S_BIT = f.testBit 0 := by
  unfold has_bit S_BIT
  rw [Nat.and_one_is_mod, Nat.testBit_zero]
  rcases Nat.mod_two_eq_zero_or_one f with h | h <;> simp [h]

theorem has_bit_or_s_bit (f b : Nat) (hb : b.testBit 0 = false) :
    has_bit (f ||| b) S_BIT = has_bit f S_BIT := by
  rw [has_bit_s_bit, has_bit_s_bit, Nat.testBit_or, hb, Bool.or_false]

theorem has_bit_clear_s_bit (f : Nat) : has_bit (clear_bit f S_BIT) S_BIT = false := by
  rw [has_bit_s_bit]
  unfold clear_bit S_BIT
  rw [Nat.testBit_and]
  have : (0xFF ^^^ 1 : Nat).testBit 0 = false := by decide
  rw [this, Bool.and_false]

theorem data_in_hdr_flags_s_bit (cmd : iscsi_cmd) (f : Nat) :
    has_bit (data_in_hdr_flags cmd f) S_BIT = has_bit f S_BIT := by
  unfold data_in_hdr_flags
  split_ifs
  · exact has_bit_or_s_bit f O_BIT (by decide)
  · exact has_bit_or_s_bit f U_BIT (by decide)
  · rfl
  · rfl

/-- A normal request is marked complete exactly at the PDU that carries
`S_BIT`. -/
theorem normal_mark_complete (dr : iscsi_datain_req) (flags : Nat)
    (hc : dr.dr_complete = DATAIN_INCOMPLETE) (hn : dr.recovery = DATAIN_NORMAL) :
    (((if has_bit flags S_BIT = true then
          { dr with dr_complete := DATAIN_COMPLETE_NORMAL } else dr).dr_complete
        = DATAIN_COMPLETE_NORMAL ∨
      (if has_bit flags S_BIT = true then
          { dr with dr_complete := DATAIN_COMPLETE_NORMAL } else dr).dr_complete
        = DATAIN_COMPLETE_CONNECTION_RECOVERY) ↔
      (has_bit flags S_BIT = true ∧ dr.recovery ≠ DATAIN_WITHIN_COMMAND_RECOVERY)) := by
  by_cases h : has_bit flags S_BIT = true
  · rw [if_pos h]; simp [h, hn]
  · rw [if_neg h]; simp [h, hc]

theorem recovery_mark_complete_stat (dr : iscsi_datain_req) (flags : Nat)
    (hc : dr.dr_complete = DATAIN_INCOMPLETE) (hn : dr.recovery ≠ DATAIN_NORMAL)
    (hr : dr.recovery = DATAIN_CONNECTION_RECOVERY → dr.runlength = 0) :
    (((recovery_mark_complete dr flags).dr_complete = DATAIN_COMPLETE_NORMAL ∨
      (recovery_mark_complete dr flags).dr_complete = DATAIN_COMPLETE_CONNECTION_RECOVERY) ↔
      (has_bit flags S_BIT = true ∧ dr.recovery ≠ DATAIN_WITHIN_COMMAND_RECOVERY)) := by
  unfold recovery_mark_complete recovery_complete
  cases hrec : dr.recovery with
  | DATAIN_NORMAL => exact absurd hrec hn
  | DATAIN_WITHIN_COMMAND_RECOVERY =>
    simp only [if_true]
    split_ifs <;> simp [hc]
  | DATAIN_CONNECTION_RECOVERY =>
    rw [if_pos (hr hrec)]
    simp only [reduceCtorEq, if_false]
    split_ifs with h <;> simp [hc, h]

theorem recovery_values_step_frame (ops : iscsi_ops)
    (st : iscsi_datain_req × Nat × Nat × Nat) :
    (recovery_values_step ops st).1.dr_complete = st.1.dr_complete ∧
    (recovery_values_step ops st).1.recovery = st.1.recovery ∧
    (recovery_values_step ops st).1.runlength = st.1.runlength := by
  unfold recovery_values_step
  dsimp only
  split_ifs <;> exact ⟨rfl, rfl, rfl⟩

theorem recovery_values_iterate_frame (ops : iscsi_ops) (n : Nat) :
    ∀ st : iscsi_datain_req × Nat × Nat × Nat,
    ((recovery_values_step ops)^[n] st).1.dr_complete = st.1.dr_complete ∧
    ((recovery_values_step ops)^[n] st).1.recovery = st.1.recovery ∧
    ((recovery_values_step ops)^[n] st).1.runlength = st.1.runlength := by
  induction n with
  | zero => intro st; exact ⟨rfl, rfl, rfl⟩
  | succ n ih =>
    intro st
    rw [Function.iterate_succ_apply]
    obtain ⟨h1, h2, h3⟩ := ih (recovery_values_step ops st)
    obtain ⟨g1, g2, g3⟩ := recovery_values_step_frame ops st
    exact ⟨h1.trans g1, h2.trans g2, h3.trans g3⟩

theorem generate_recovery_values_yes_dr_frame (ops : iscsi_ops) (cmd : iscsi_cmd)
    (dr : iscsi_datain_req) :
    (generate_recovery_values_yes ops cmd dr).2.dr_complete = dr.dr_complete ∧
    (generate_recovery_values_yes ops cmd dr).2.recovery = dr.recovery ∧
    (generate_recovery_values_yes ops cmd dr).2.runlength = dr.runlength := by
  unfold generate_recovery_values_yes
    iscsi_create_recovery_datain_values_datasequenceinorder_yes
  split
  · exact recovery_values_iterate_frame ops dr.begrun (dr, 0, 0, 0)
  · exact ⟨rfl, rfl, rfl⟩

theorem create_recovery_no_dr_frame (ops : iscsi_ops) (cmd : iscsi_cmd)
    (dr : iscsi_datain_req) :
    (iscsi_create_recovery_datain_values_datasequenceinorder_no ops cmd dr).2.2.dr_complete
      = dr.dr_complete ∧
    (iscsi_create_recovery_datain_values_datasequenceinorder_no ops cmd dr).2.2.recovery
      = dr.recovery ∧
    (iscsi_create_recovery_datain_values_datasequenceinorder_no ops cmd dr).2.2.runlength
      = dr.runlength := by
  unfold iscsi_create_recovery_datain_values_datasequenceinorder_no
  split
  · exact ⟨rfl, rfl, rfl⟩
  · dsimp only
    split_ifs
    · split <;> exact ⟨rfl, rfl, rfl⟩
    · exact ⟨rfl, rfl, rfl⟩
    · exact ⟨rfl, rfl, rfl⟩

theorem generate_recovery_values_no_dr_frame (ops : iscsi_ops) (cmd : iscsi_cmd)
    (dr : iscsi_datain_req) (gen : Bool) :
    (if gen = true then
        ({ (iscsi_create_recovery_datain_values_datasequenceinorder_no ops cmd dr).2.2 with
            generate_recovery_values := false } : iscsi_datain_req)
      else dr).dr_complete = dr.dr_complete ∧
    (if gen = true then
        ({ (iscsi_create_recovery_datain_values_datasequenceinorder_no ops cmd dr).2.2 with
            generate_recovery_values := false } : iscsi_datain_req)
      else dr).recovery = dr.recovery ∧
    (if gen = true then
        ({ (iscsi_create_recovery_datain_values_datasequenceinorder_no ops cmd dr).2.2 with
            generate_recovery_values := false } : iscsi_datain_req)
      else dr).runlength = dr.runlength := by
  obtain ⟨g1, g2, g3⟩ := create_recovery_no_dr_frame ops cmd dr
  cases gen
  · exact ⟨rfl, rfl, rfl⟩
  · exact ⟨g1, g2, g3⟩

theorem stat_complete_ok_none (dr0 : iscsi_datain_req) (c : iscsi_cmd) (d : iscsi_datain) :
    stat_complete_ok dr0 (none, c, d) :=
  fun _ h => absurd h (by simp)

theorem stat_complete_ok_ite (dr0 : iscsi_datain_req) (c : Prop) [Decidable c]
    (a b : Option iscsi_datain_req × iscsi_cmd × iscsi_datain)
    (ha : c → stat_complete_ok dr0 a) (hb : ¬ c → stat_complete_ok dr0 b) :
    stat_complete_ok dr0 (if c then a else b) := by
  split_ifs with h
  · exact ha h
  · exact hb h

theorem stat_complete_ok_same (dr0 dr1 : iscsi_datain_req) (c : iscsi_cmd) (d : iscsi_datain)
    (hc : dr1.dr_complete = DATAIN_INCOMPLETE) (hd : has_bit d.flags S_BIT = false) :
    stat_complete_ok dr0 (some dr1, c, d) := by
  intro dr h
  simp only [Option.some.injEq] at h
  subst h
  simp [hc, hd]

theorem stat_complete_ok_normal (dr0 dr1 : iscsi_datain_req) (c : iscsi_cmd) (d : iscsi_datain)
    (fl : Nat) (hfl : d.flags = fl)
    (hc : dr1.dr_complete = DATAIN_INCOMPLETE) (hrec : dr1.recovery = dr0.recovery)
    (hn : (dr1.recovery == DATAIN_NORMAL) = true) :
    stat_complete_ok dr0
      (some (if has_bit fl S_BIT = true then
          { dr1 with dr_complete := DATAIN_COMPLETE_NORMAL } else dr1), c, d) := by
  intro dr h
  simp only [Option.some.injEq] at h
  subst h
  subst hfl
  rw [← hrec]
  exact normal_mark_complete dr1 d.flags hc (by simpa using hn)

theorem stat_complete_ok_recovery (dr0 dr1 dr2 : iscsi_datain_req) (c : iscsi_cmd)
    (d : iscsi_datain) (fl : Nat) (hfl : d.flags = fl)
    (hc : dr1.dr_complete = DATAIN_INCOMPLETE) (hrec : dr1.recovery = dr0.recovery)
    (hrun : dr1.runlength = dr0.runlength)
    (hr : dr0.recovery = DATAIN_CONNECTION_RECOVERY → dr0.runlength = 0)
    (h2 : dr2.dr_complete = dr1.dr_complete ∧ dr2.recovery = dr1.recovery ∧
      dr2.runlength = dr1.runlength)
    (hn : ¬ (dr1.recovery == DATAIN_NORMAL) = true) :
    stat_complete_ok dr0 (some (recovery_mark_complete dr2 fl), c, d) := by
  intro dr h
  simp only [Option.some.injEq] at h
  subst h
  subst hfl
  obtain ⟨e1, e2, e3⟩ := h2
  have hrec2 : dr2.recovery = dr0.recovery := e2.trans hrec
  rw [← hrec2]
  refine recovery_mark_complete_stat dr2 d.flags (e1.trans hc) ?_ ?_
  · rw [e2]; simpa using hn
  · intro hcr
    rw [e3, hrun]
    exact hr (hrec2 ▸ hcr)

theorem yes_and_yes_stat_complete (ops : iscsi_ops) (cmd : iscsi_cmd) (datain : iscsi_datain)
    (dr0 : iscsi_datain_req) (rest : List iscsi_datain_req)
    (hl : cmd.datain_list = dr0 :: rest)
    (hc : dr0.dr_complete = DATAIN_INCOMPLETE)
    (hr : dr0.recovery = DATAIN_CONNECTION_RECOVERY → dr0.runlength = 0) :
    stat_complete_ok dr0 (iscsi_set_datain_values_yes_and_yes ops cmd datain) := by
  obtain ⟨g1, g2, g3⟩ := generate_recovery_values_yes_dr_frame ops cmd dr0
  unfold iscsi_set_datain_values_yes_and_yes
  rw [hl]
  refine stat_complete_ok_ite _ _ _ _ (fun _ => stat_complete_ok_none _ _ _) (fun _ => ?_)
  refine stat_complete_ok_ite _ _ _ _ (fun hn => ?_) (fun hn => ?_)
  · exact stat_complete_ok_normal dr0 _ _ _ _ rfl (g1.trans hc) g2 hn
  · exact stat_complete_ok_recovery dr0 _ _ _ _ _ rfl (g1.trans hc) g2 g3 hr ⟨rfl, rfl, rfl⟩ hn

theorem no_and_yes_stat_complete (U : iscsi_util) (ops : iscsi_ops) (cmd : iscsi_cmd)
    (datain : iscsi_datain) (dr0 : iscsi_datain_req) (rest : List iscsi_datain_req)
    (hl : cmd.datain_list = dr0 :: rest)
    (hc : dr0.dr_complete = DATAIN_INCOMPLETE)
    (hr : dr0.recovery = DATAIN_CONNECTION_RECOVERY → dr0.runlength = 0) :
    stat_complete_ok dr0 (iscsi_set_datain_values_no_and_yes U ops cmd datain) := by
  obtain ⟨g1, g2, g3⟩ := generate_recovery_values_no_dr_frame ops cmd dr0
    ((dr0.recovery != DATAIN_NORMAL) && dr0.generate_recovery_values)
  unfold iscsi_set_datain_values_no_and_yes
  rw [hl]
  refine stat_complete_ok_ite _ _ _ _ (fun _ => stat_complete_ok_none _ _ _) (fun _ => ?_)
  refine stat_complete_ok_ite _ _ _ _ (fun _ => stat_complete_ok_none _ _ _) (fun _ => ?_)
  split
  · exact stat_complete_ok_none _ _ _
  · refine stat_complete_ok_ite _ _ _ _ (fun hn => ?_) (fun hn => ?_)
    · exact stat_complete_ok_normal dr0 _ _ _ _ rfl (g1.trans hc) g2 hn
    · exact stat_complete_ok_recovery dr0 _ _ _ _ _ rfl (g1.trans hc) g2 g3 hr
        ⟨rfl, rfl, rfl⟩ hn

theorem yes_and_no_stat_complete (U : iscsi_util) (ops : iscsi_ops) (cmd : iscsi_cmd)
    (datain : iscsi_datain) (dr0 : iscsi_datain_req) (rest : List iscsi_datain_req)
    (hl : cmd.datain_list = dr0 :: rest)
    (hc : dr0.dr_complete = DATAIN_INCOMPLETE)
    (hr : dr0.recovery = DATAIN_CONNECTION_RECOVERY → dr0.runlength = 0)
    (hd : has_bit datain.flags S_BIT = false) :
    stat_complete_ok dr0 (iscsi_set_datain_values_yes_and_no U ops cmd datain) := by
  obtain ⟨g1, g2, g3⟩ := generate_recovery_values_yes_dr_frame ops cmd dr0
  unfold iscsi_set_datain_values_yes_and_no
  rw [hl]
  refine stat_complete_ok_ite _ _ _ _
    (fun _ => stat_complete_ok_same _ _ _ _ (g1.trans hc) hd) (fun _ => ?_)
  dsimp only
  split
  · exact stat_complete_ok_same _ _ _ _ (g1.trans hc) hd
  · refine stat_complete_ok_ite _ _ _ _ (fun hn => ?_) (fun hn => ?_)
    · exact stat_complete_ok_normal dr0 _ _ _ _ rfl (g1.trans hc) g2 hn
    · exact stat_complete_ok_recovery dr0 _ _ _ _ _ rfl (g1.trans hc) g2 g3 hr
        ⟨rfl, rfl, rfl⟩ hn

theorem no_and_no_stat_complete (U : iscsi_util) (ops : iscsi_ops) (cmd : iscsi_cmd)
    (datain : iscsi_datain) (dr0 : iscsi_datain_req) (rest : List iscsi_datain_req)
    (hl : cmd.datain_list = dr0 :: rest)
    (hc : dr0.dr_complete = DATAIN_INCOMPLETE)
    (hr : dr0.recovery = DATAIN_CONNECTION_RECOVERY → dr0.runlength = 0) :
    stat_complete_ok dr0 (iscsi_set_datain_values_no_and_no U ops cmd datain) := by
  obtain ⟨g1, g2, g3⟩ := generate_recovery_values_no_dr_frame ops cmd dr0
    ((dr0.recovery != DATAIN_NORMAL) && dr0.generate_recovery_values)
  unfold iscsi_set_datain_values_no_and_no
  rw [hl]
  refine stat_complete_ok_ite _ _ _ _ (fun _ => stat_complete_ok_none _ _ _) (fun _ => ?_)
  refine stat_complete_ok_ite _ _ _ _ (fun _ => stat_complete_ok_none _ _ _) (fun _ => ?_)
  split
  · exact stat_complete_ok_none _ _ _
  · dsimp only
    split
    · refine stat_complete_ok_ite _ _ _ _ (fun hn => ?_) (fun hn => ?_)
      · exact stat_complete_ok_normal dr0 _ _ _ _ rfl (g1.trans hc) g2 hn
      · exact stat_complete_ok_recovery dr0 _ _ _ _ _ rfl (g1.trans hc) g2 g3 hr
          ⟨rfl, rfl, rfl⟩ hn
    · exact stat_complete_ok_none _ _ _

/-- The four generators of DataIN values mark a request complete for a new
StatSN exactly at the PDU that carries `S_BIT`, unless the request is a
within-command recovery. -/
theorem get_datain_values_stat_complete (U : iscsi_util) (ops : iscsi_ops) (cmd : iscsi_cmd)
    (dr0 : iscsi_datain_req) (rest : List iscsi_datain_req)
    (hl : cmd.datain_list = dr0 :: rest)
    (hc : dr0.dr_complete = DATAIN_INCOMPLETE)
    (hr : dr0.recovery = DATAIN_CONNECTION_RECOVERY → dr0.runlength = 0) :
    stat_complete_ok dr0 (iscsi_get_datain_values U ops cmd {}) := by
  unfold iscsi_get_datain_values
  split_ifs
  · exact yes_and_yes_stat_complete ops cmd {} dr0 rest hl hc hr
  · exact no_and_yes_stat_complete U ops cmd {} dr0 rest hl hc hr
  · exact yes_and_no_stat_complete U ops cmd {} dr0 rest hl hc hr (by decide)
  · exact no_and_no_stat_complete U ops cmd {} dr0 rest hl hc hr
  · exact stat_complete_ok_none _ _ _

/-- What `iscsi_send_data_in` does with StatSN once `iscsi_get_datain_values` has
returned a request and the bounds check has passed: a header is built, it
carries `S_BIT` when the `datain` record does and the command has no transport
sense, and a new StatSN is taken exactly in the case `stat`. -/
theorem send_data_in_stat (U : iscsi_util) (ops : iscsi_ops) (cmd : iscsi_cmd)
    (conn : iscsi_conn) (sess : iscsi_session) (eodr : Nat) (dr : iscsi_datain_req)
    (hr1 : (iscsi_get_datain_values U ops cmd {}).1 = some dr)
    (hb : ¬ add32 (iscsi_get_datain_values U ops cmd {}).2.2.offset
        (iscsi_get_datain_values U ops cmd {}).2.2.length
      > (iscsi_get_datain_values U ops cmd {}).2.1.data_length)
    (stat : Bool)
    (hstat : stat = (!(has_bit (iscsi_get_datain_values U ops cmd {}).2.2.flags S_BIT &&
          (iscsi_get_datain_values U ops cmd {}).2.1.transport_task_sense) &&
        (dr.dr_complete == DATAIN_COMPLETE_NORMAL ||
          dr.dr_complete == DATAIN_COMPLETE_CONNECTION_RECOVERY))) :
    ∃ h, (iscsi_send_data_in U ops cmd conn sess eodr).hdr = some h ∧
      has_bit h.flags S_BIT = (has_bit (iscsi_get_datain_values U ops cmd {}).2.2.flags S_BIT &&
        !(iscsi_get_datain_values U ops cmd {}).2.1.transport_task_sense) ∧
      (stat = true → h.stat_sn = conn.stat_sn ∧
        (iscsi_send_data_in U ops cmd conn sess eodr).conn.stat_sn = add32 conn.stat_sn 1) ∧
      (stat = false → (iscsi_send_data_in U ops cmd conn sess eodr).conn = conn) := by
  unfold iscsi_send_data_in
  dsimp only
  generalize iscsi_get_datain_values U ops cmd {} = r at hr1 hb hstat
  obtain ⟨r1, c, d⟩ := r
  simp only at hr1 hb hstat
  subst hr1
  simp only [if_neg hb]
  have hS : ∀ (cx : iscsi_cmd) (sx : iscsi_session) (set : Bool) (dd : iscsi_datain),
      has_bit (build_data_in_hdr U cx sx dd set).flags S_BIT = has_bit dd.flags S_BIT := by
    intro cx sx set dd
    unfold build_data_in_hdr
    dsimp only
    rw [data_in_hdr_flags_s_bit]
  have hC := has_bit_clear_s_bit d.flags
  subst hstat
  cases h1 : has_bit d.flags S_BIT <;> cases h2 : c.transport_task_sense <;>
    cases h3 : (dr.dr_complete == DATAIN_COMPLETE_NORMAL ||
      dr.dr_complete == DATAIN_COMPLETE_CONNECTION_RECOVERY) <;>
    simp only [h1, h2, h3, Bool.and_true, Bool.and_false, Bool.not_true, Bool.not_false,
      Bool.false_eq_true, if_false, if_true, Bool.true_or, Bool.false_or, Bool.and_self,
      Bool.true_and, Bool.false_and] <;>
    split_ifs <;>
    first
    | exact ⟨_, rfl, (hS _ _ _ _).trans h1, fun _ => ⟨rfl, rfl⟩, fun h => absurd h (by simp)⟩
    | exact ⟨_, rfl, (hS _ _ _ _).trans h1, fun h => absurd h (by simp), fun _ => rfl⟩
    | exact ⟨_, rfl, (hS _ _ _ _).trans hC, fun h => absurd h (by simp), fun _ => rfl⟩

theorem send_data_in_hdr_some (U : iscsi_util) (ops : iscsi_ops) (cmd : iscsi_cmd)
    (conn : iscsi_conn) (sess : iscsi_session) (eodr : Nat) (h : iscsi_targ_scsi_data_in)
    (hh : (iscsi_send_data_in U ops cmd conn sess eodr).hdr = some h) :
    ∃ dr, (iscsi_get_datain_values U ops cmd {}).1 = some dr ∧
      ¬ add32 (iscsi_get_datain_values U ops cmd {}).2.2.offset
          (iscsi_get_datain_values U ops cmd {}).2.2.length
        > (iscsi_get_datain_values U ops cmd {}).2.1.data_length := by
  unfold iscsi_send_data_in at hh
  dsimp only at hh
  generalize iscsi_get_datain_values U ops cmd {} = r at hh
  obtain ⟨r1, c, d⟩ := r
  cases r1 with
  | none => simp at hh
  | some dr =>
    refine ⟨dr, rfl, fun hb => ?_⟩
    simp only at hb
    simp only [if_pos hb] at hh
    exact absurd hh (by simp)

/-! ### The DataIN requests that reach `iscsi_send_data_in` -/

theorem recovery_mark_complete_frame (dr : iscsi_datain_req) (flags : Nat) :
    (recovery_mark_complete dr flags).recovery = dr.recovery ∧
    (recovery_mark_complete dr flags).runlength = dr.runlength := by
  unfold recovery_mark_complete
  split_ifs <;> exact ⟨rfl, rfl⟩

theorem datain_head_kept_ite (dr0 : iscsi_datain_req) (rest : List iscsi_datain_req)
    (c : Prop) [Decidable c] (a b : Option iscsi_datain_req × iscsi_cmd × iscsi_datain)
    (ha : c → datain_head_kept dr0 rest a) (hb : ¬ c → datain_head_kept dr0 rest b) :
    datain_head_kept dr0 rest (if c then a else b) := by
  split_ifs with h
  · exact ha h
  · exact hb h

theorem datain_head_kept_none (dr0 dr1 : iscsi_datain_req) (rest : List iscsi_datain_req)
    (c : iscsi_cmd) (d : iscsi_datain) (hl : c.datain_list = dr1 :: rest)
    (hrec : dr1.recovery = dr0.recovery) (hrun : dr1.runlength = dr0.runlength) :
    datain_head_kept dr0 rest (none, c, d) :=
  ⟨dr1, hl, hrec, hrun, fun _ h => absurd h (by simp)⟩

theorem datain_head_kept_some (dr0 dr1 : iscsi_datain_req) (rest : List iscsi_datain_req)
    (c : iscsi_cmd) (d : iscsi_datain) (hl : c.datain_list = dr1 :: rest)
    (hrec : dr1.recovery = dr0.recovery) (hrun : dr1.runlength = dr0.runlength) :
    datain_head_kept dr0 rest (some dr1, c, d) :=
  ⟨dr1, hl, hrec, hrun, fun _ h => (Option.some.inj h).symm⟩

theorem datain_head_kept_normal (dr0 dr1 : iscsi_datain_req) (rest : List iscsi_datain_req)
    (c : iscsi_cmd) (d : iscsi_datain) (fl : Nat)
    (hl : c.datain_list = (if has_bit fl S_BIT = true then
        { dr1 with dr_complete := DATAIN_COMPLETE_NORMAL } else dr1) :: rest)
    (hrec : dr1.recovery = dr0.recovery) (hrun : dr1.runlength = dr0.runlength) :
    datain_head_kept dr0 rest
      (some (if has_bit fl S_BIT = true then
          { dr1 with dr_complete := DATAIN_COMPLETE_NORMAL } else dr1), c, d) := by
  refine datain_head_kept_some dr0 _ rest c d hl ?_ ?_
  · rw [← hrec]; split_ifs <;> rfl
  · rw [← hrun]; split_ifs <;> rfl

theorem datain_head_kept_recovery (dr0 dr2 : iscsi_datain_req) (rest : List iscsi_datain_req)
    (c : iscsi_cmd) (d : iscsi_datain) (fl : Nat)
    (hl : c.datain_list = recovery_mark_complete dr2 fl :: rest)
    (hrec : dr2.recovery = dr0.recovery) (hrun : dr2.runlength = dr0.runlength) :
    datain_head_kept dr0 rest (some (recovery_mark_complete dr2 fl), c, d) := by
  obtain ⟨f1, f2⟩ := recovery_mark_complete_frame dr2 fl
  exact datain_head_kept_some dr0 _ rest c d hl (f1.trans hrec) (f2.trans hrun)

theorem yes_and_yes_head_kept (ops : iscsi_ops) (cmd : iscsi_cmd) (datain : iscsi_datain)
    (dr0 : iscsi_datain_req) (rest : List iscsi_datain_req)
    (hl : cmd.datain_list = dr0 :: rest) :
    datain_head_kept dr0 rest (iscsi_set_datain_values_yes_and_yes ops cmd datain) := by
  obtain ⟨_, g2, g3⟩ := generate_recovery_values_yes_dr_frame ops cmd dr0
  unfold iscsi_set_datain_values_yes_and_yes
  rw [hl]
  refine datain_head_kept_ite _ _ _ _ _
    (fun _ => datain_head_kept_none dr0 _ rest _ _ rfl g2 g3) (fun _ => ?_)
  refine datain_head_kept_ite _ _ _ _ _ (fun _ => ?_) (fun _ => ?_)
  · exact datain_head_kept_normal dr0 _ rest _ _ _ rfl g2 g3
  · exact datain_head_kept_recovery dr0 _ rest _ _ _ rfl g2 g3

theorem no_and_yes_head_kept (U : iscsi_util) (ops : iscsi_ops) (cmd : iscsi_cmd)
    (datain : iscsi_datain) (dr0 : iscsi_datain_req) (rest : List iscsi_datain_req)
    (hl : cmd.datain_list = dr0 :: rest) :
    datain_head_kept dr0 rest (iscsi_set_datain_values_no_and_yes U ops cmd datain) := by
  obtain ⟨_, g2, g3⟩ := generate_recovery_values_no_dr_frame ops cmd dr0
    ((dr0.recovery != DATAIN_NORMAL) && dr0.generate_recovery_values)
  obtain ⟨_, c2, c3⟩ := create_recovery_no_dr_frame ops cmd dr0
  unfold iscsi_set_datain_values_no_and_yes
  rw [hl]
  refine datain_head_kept_ite _ _ _ _ _
    (fun _ => datain_head_kept_none dr0 _ rest _ _ rfl c2 c3) (fun _ => ?_)
  refine datain_head_kept_ite _ _ _ _ _
    (fun _ => datain_head_kept_none dr0 _ rest _ _ rfl g2 g3) (fun _ => ?_)
  split
  · exact datain_head_kept_none dr0 _ rest _ _ rfl g2 g3
  · refine datain_head_kept_ite _ _ _ _ _ (fun _ => ?_) (fun _ => ?_)
    · exact datain_head_kept_normal dr0 _ rest _ _ _ rfl g2 g3
    · exact datain_head_kept_recovery dr0 _ rest _ _ _ rfl g2 g3

theorem yes_and_no_head_kept (U : iscsi_util) (ops : iscsi_ops) (cmd : iscsi_cmd)
    (datain : iscsi_datain) (dr0 : iscsi_datain_req) (rest : List iscsi_datain_req)
    (hl : cmd.datain_list = dr0 :: rest) :
    datain_head_kept dr0 rest (iscsi_set_datain_values_yes_and_no U ops cmd datain) := by
  obtain ⟨_, g2, g3⟩ := generate_recovery_values_yes_dr_frame ops cmd dr0
  unfold iscsi_set_datain_values_yes_and_no
  rw [hl]
  refine datain_head_kept_ite _ _ _ _ _
    (fun _ => datain_head_kept_some dr0 _ rest _ _ rfl g2 g3) (fun _ => ?_)
  dsimp only
  split
  · exact datain_head_kept_some dr0 _ rest _ _ rfl g2 g3
  · refine datain_head_kept_ite _ _ _ _ _ (fun _ => ?_) (fun _ => ?_)
    · exact datain_head_kept_normal dr0 _ rest _ _ _ rfl g2 g3
    · exact datain_head_kept_recovery dr0 _ rest _ _ _ rfl g2 g3

theorem no_and_no_head_kept (U : iscsi_util) (ops : iscsi_ops) (cmd : iscsi_cmd)
    (datain : iscsi_datain) (dr0 : iscsi_datain_req) (rest : List iscsi_datain_req)
    (hl : cmd.datain_list = dr0 :: rest) :
    datain_head_kept dr0 rest (iscsi_set_datain_values_no_and_no U ops cmd datain) := by
  obtain ⟨_, g2, g3⟩ := generate_recovery_values_no_dr_frame ops cmd dr0
    ((dr0.recovery != DATAIN_NORMAL) && dr0.generate_recovery_values)
  obtain ⟨_, c2, c3⟩ := create_recovery_no_dr_frame ops cmd dr0
  unfold iscsi_set_datain_values_no_and_no
  rw [hl]
  refine datain_head_kept_ite _ _ _ _ _
    (fun _ => datain_head_kept_none dr0 _ rest _ _ rfl c2 c3) (fun _ => ?_)
  refine datain_head_kept_ite _ _ _ _ _
    (fun _ => datain_head_kept_none dr0 _ rest _ _ rfl g2 g3) (fun _ => ?_)
  split
  · exact datain_head_kept_none dr0 _ rest _ _ rfl g2 g3
  · dsimp only
    split
    · refine datain_head_kept_ite _ _ _ _ _ (fun _ => ?_) (fun _ => ?_)
      · exact datain_head_kept_normal dr0 _ rest _ _ _ rfl g2 g3
      · exact datain_head_kept_recovery dr0 _ rest _ _ _ rfl g2 g3
    · exact datain_head_kept_none dr0 _ rest _ _ rfl g2 g3

/-- The four generators of DataIN values keep the requests behind the head of
the command's list, and the `recovery` and `runlength` of the head. -/
theorem get_datain_values_head_kept (U : iscsi_util) (ops : iscsi_ops) (cmd : iscsi_cmd)
    (dr0 : iscsi_datain_req) (rest : List iscsi_datain_req)
    (hl : cmd.datain_list = dr0 :: rest) :
    datain_head_kept dr0 rest (iscsi_get_datain_values U ops cmd {}) := by
  unfold iscsi_get_datain_values
  split_ifs
  · exact yes_and_yes_head_kept ops cmd {} dr0 rest hl
  · exact no_and_yes_head_kept U ops cmd {} dr0 rest hl
  · exact yes_and_no_head_kept U ops cmd {} dr0 rest hl
  · exact no_and_no_head_kept U ops cmd {} dr0 rest hl
  · exact datain_head_kept_none dr0 dr0 rest _ _ hl rfl rfl

theorem send_data_in_list_ok_ite (l : List iscsi_datain_req) (r1 : Option iscsi_datain_req)
    (c : Prop) [Decidable c] (a b : send_data_in_result)
    (ha : c → send_data_in_list_ok l r1 a) (hb : ¬ c → send_data_in_list_ok l r1 b) :
    send_data_in_list_ok l r1 (if c then a else b) := by
  split_ifs with h
  · exact ha h
  · exact hb h

theorem send_data_in_list_ok_fail (l : List iscsi_datain_req) (r1 : Option iscsi_datain_req)
    (res : send_data_in_result) (hl : res.cmd.datain_list = l) (hr : res.ret = -1) :
    send_data_in_list_ok l r1 res := by
  refine ⟨fun x hx => hl ▸ hx, fun h => ?_⟩
  rw [hr] at h
  exact absurd h (by decide)

/-- The list of requests after `iscsi_send_data_in`, from the list that
`iscsi_get_datain_values` has left; `iscsi_increment_maxcmdsn` (not among the
sources) is taken to leave the list of the command alone. -/
theorem send_data_in_list (U : iscsi_util) (ops : iscsi_ops) (cmd : iscsi_cmd)
    (conn : iscsi_conn) (sess : iscsi_session) (eodr : Nat)
    (hinc : ∀ c s, (U.iscsi_increment_maxcmdsn c s).1.datain_list = c.datain_list) :
    send_data_in_list_ok (iscsi_get_datain_values U ops cmd {}).2.1.datain_list
      (iscsi_get_datain_values U ops cmd {}).1
      (iscsi_send_data_in U ops cmd conn sess eodr) := by
  unfold iscsi_send_data_in
  dsimp only
  generalize iscsi_get_datain_values U ops cmd {} = r
  obtain ⟨r1, c, d⟩ := r
  cases r1 with
  | none => exact send_data_in_list_ok_fail _ _ _ rfl rfl
  | some dr =>
    dsimp only
    have hL : ∀ stat : Bool,
        (if stat = true then
            ({ (U.iscsi_increment_maxcmdsn c sess).1 with stat_sn := conn.stat_sn } : iscsi_cmd)
          else c).datain_list = c.datain_list := by
      intro stat
      cases stat
      · rfl
      · exact hinc c sess
    refine send_data_in_list_ok_ite _ _ _ _ _
      (fun _ => send_data_in_list_ok_fail _ _ _ rfl rfl) (fun _ => ?_)
    refine send_data_in_list_ok_ite _ _ _ _ _
      (fun _ => send_data_in_list_ok_fail _ _ _ (hL _) rfl) (fun _ => ?_)
    refine send_data_in_list_ok_ite _ _ _ _ _
      (fun _ => send_data_in_list_ok_fail _ _ _ (hL _) rfl) (fun _ => ?_)
    refine send_data_in_list_ok_ite _ _ _ _ _ (fun hcomp => ?_) (fun hcomp => ?_)
    · refine ⟨fun x hx => ?_, fun _ => ⟨dr, rfl, fun _ => ?_, fun h => absurd h hcomp⟩⟩
      · have hx2 : x ∈ (c.datain_list).tail := by
          have := hL _ ▸ hx
          exact this
        exact List.mem_of_mem_tail hx2
      · show List.tail _ = _
        rw [hL]
    · refine ⟨fun x hx => hL _ ▸ hx, fun _ => ⟨dr, rfl, fun h => absurd h hcomp, fun _ => hL _⟩⟩

theorem get_datain_values_nil (U : iscsi_util) (ops : iscsi_ops) (cmd : iscsi_cmd)
    (d : iscsi_datain) (h : cmd.datain_list = []) :
    iscsi_get_datain_values U ops cmd d = (none, cmd, d) := by
  unfold iscsi_get_datain_values
  split_ifs
  · unfold iscsi_set_datain_values_yes_and_yes
    rw [h]
  · unfold iscsi_set_datain_values_no_and_yes
    rw [h]
  · unfold iscsi_set_datain_values_yes_and_no
    rw [h]
  · unfold iscsi_set_datain_values_no_and_no
    rw [h]
  · rfl

/-- The head of a list of requests as `datain_list_pending` says meets the two
conditions under which the DataIN part of C18 is stated: it is not complete, and
it is no connection-recovery request (so none with a run length). -/
theorem datain_list_pending_head (cmd : iscsi_cmd) (dr0 : iscsi_datain_req)
    (rest : List iscsi_datain_req) (hp : datain_list_pending cmd)
    (hl : cmd.datain_list = dr0 :: rest) :
    dr0.dr_complete = DATAIN_INCOMPLETE ∧
    (dr0.recovery = DATAIN_CONNECTION_RECOVERY → dr0.runlength = 0) := by
  have h := hp dr0 (by rw [hl]; simp)
  exact ⟨h.1, fun hc => absurd hc h.2⟩

/-- A command without requests has a list as `datain_list_pending` says, and so
has a command after `iscsi_attach_datain_req` has put on its list a request just
returned by `iscsi_allocate_datain_req`. -/
theorem attach_datain_req_pending (cmd : iscsi_cmd) :
    (cmd.datain_list = [] → datain_list_pending cmd) ∧
    (datain_list_pending cmd → datain_list_pending (iscsi_attach_datain_req cmd {})) := by
  constructor
  · intro h dr hdr
    rw [h] at hdr
    exact absurd hdr (by simp)
  · intro hp dr hdr
    unfold iscsi_attach_datain_req at hdr
    simp only [List.mem_append, List.mem_singleton] at hdr
    rcases hdr with h | h
    · exact hp dr h
    · rw [h]
      exact ⟨rfl, by decide⟩

/-- The function `iscsi_handle_recovery_datain` keeps the list of the command as
`datain_list_pending` says: the request it adds is a within-command recovery
request that is not complete. -/
theorem recovery_datain_keeps_pending (U : iscsi_util) (cmd : iscsi_cmd)
    (begrun runlength : Nat) (hp : datain_list_pending cmd) :
    datain_list_pending (iscsi_handle_recovery_datain U cmd begrun runlength).2.1 := by
  have hf := fun reason => (add_reject_from_cmd_snack_frame U reason cmd).2.2.2.1
  unfold iscsi_handle_recovery_datain
  split_ifs
  · exact hp
  · intro dr hdr
    rw [hf] at hdr
    exact hp dr hdr
  · intro dr hdr
    rw [hf] at hdr
    exact hp dr hdr
  · intro dr hdr
    rw [hf] at hdr
    exact hp dr hdr
  · intro dr hdr
    have hdr2 : dr ∈ cmd.datain_list ++
        [({ data_sn := begrun, begrun := begrun, runlength := runlength,
            generate_recovery_values := true,
            recovery := DATAIN_WITHIN_COMMAND_RECOVERY } : iscsi_datain_req)] := hdr
    simp only [List.mem_append, List.mem_singleton] at hdr2
    rcases hdr2 with h | h
    · exact hp dr h
    · rw [h]
      exact ⟨rfl, fun hc => absurd hc (by simp)⟩

/-- The function `iscsi_send_data_in` keeps the `recovery` and the `runlength` of
the requests on the list of the command: every request on the list afterwards
has those of a request that was on the list before. -/
theorem send_data_in_keeps_recovery (U : iscsi_util) (ops : iscsi_ops) (cmd : iscsi_cmd)
    (conn : iscsi_conn) (sess : iscsi_session) (eodr : Nat)
    (hinc : ∀ c s, (U.iscsi_increment_maxcmdsn c s).1.datain_list = c.datain_list) :
    ∀ x ∈ (iscsi_send_data_in U ops cmd conn sess eodr).cmd.datain_list,
      ∃ y ∈ cmd.datain_list, x.recovery = y.recovery ∧ x.runlength = y.runlength := by
  intro x hx
  have hs := (send_data_in_list U ops cmd conn sess eodr hinc).1 x hx
  cases hl : cmd.datain_list with
  | nil =>
    rw [get_datain_values_nil U ops cmd {} hl, hl] at hs
    exact absurd hs (by simp)
  | cons dr0 rest =>
    obtain ⟨dr1, h1, h2, h3, _⟩ := get_datain_values_head_kept U ops cmd dr0 rest hl
    rw [h1] at hs
    rcases List.mem_cons.1 hs with h | h
    · exact ⟨dr0, by simp, by rw [h, h2], by rw [h, h3]⟩
    · exact ⟨x, by simp [h], rfl, rfl⟩

/-- When `iscsi_send_data_in` returns 0 it keeps the list of the command as
`datain_list_pending` says: a request that it has completed is taken off the
list, and the others stay as they are in `dr_complete` and `recovery`. -/
theorem send_data_in_keeps_pending (U : iscsi_util) (ops : iscsi_ops) (cmd : iscsi_cmd)
    (conn : iscsi_conn) (sess : iscsi_session) (eodr : Nat)
    (hinc : ∀ c s, (U.iscsi_increment_maxcmdsn c s).1.datain_list = c.datain_list)
    (hp : datain_list_pending cmd)
    (hret : (iscsi_send_data_in U ops cmd conn sess eodr).ret = 0) :
    datain_list_pending (iscsi_send_data_in U ops cmd conn sess eodr).cmd := by
  obtain ⟨_, hs2⟩ := send_data_in_list U ops cmd conn sess eodr hinc
  obtain ⟨dr, hdr, hcomp, hinc2⟩ := hs2 hret
  cases hl : cmd.datain_list with
  | nil =>
    rw [get_datain_values_nil U ops cmd {} hl] at hdr
    exact absurd hdr (by simp)
  | cons dr0 rest =>
    obtain ⟨dr1, h1, h2, _, h4⟩ := get_datain_values_head_kept U ops cmd dr0 rest hl
    have he : dr = dr1 := h4 dr hdr
    have hrest : ∀ y ∈ rest, datain_req_pending y := fun y hy => hp y (by rw [hl]; simp [hy])
    have h0 : datain_req_pending dr0 := hp dr0 (by rw [hl]; simp)
    intro x hx
    by_cases hc : dr.dr_complete = DATAIN_INCOMPLETE
    · rw [hinc2 hc, h1] at hx
      rcases List.mem_cons.1 hx with h | h
      · rw [h, ← he]
        exact ⟨hc, by rw [he, h2]; exact h0.2⟩
      · exact hrest x h
    · rw [hcomp hc, h1] at hx
      exact hrest x hx

theorem attach_pending_ok_none (r : scsi_cmd_attach) (h : r.cmd = none) :
    attach_pending_ok r := by
  intro c hc
  rw [h] at hc
  exact absurd hc (by simp)

theorem attach_pending_ok_ite (c : Prop) [Decidable c] (x y : scsi_cmd_attach)
    (hx : c → attach_pending_ok x) (hy : ¬ c → attach_pending_ok y) :
    attach_pending_ok (if c then x else y) := by
  by_cases h : c
  · rw [if_pos h]; exact hx h
  · rw [if_neg h]; exact hy h

theorem attach_pending_ok_cmd (r : scsi_cmd_attach) (c0 : iscsi_cmd)
    (hc : r.cmd = some c0) (hp : datain_list_pending c0) : attach_pending_ok r := by
  intro c hc2
  rw [hc] at hc2
  simp only [Option.some.injEq] at hc2
  rw [← hc2]
  exact hp

theorem datain_list_pending_of_eq (c1 c2 : iscsi_cmd) (h : c1.datain_list = c2.datain_list)
    (hp : datain_list_pending c2) : datain_list_pending c1 := by
  intro dr hdr
  rw [h] at hdr
  exact hp dr hdr

theorem add_reject_from_cmd_pending (U : iscsi_util) (reason : reject_reason) (cmd : iscsi_cmd)
    (hp : datain_list_pending cmd) :
    datain_list_pending (iscsi_add_reject_from_cmd U reason true cmd).2.1 :=
  datain_list_pending_of_eq _ _ (add_reject_from_cmd_snack_frame U reason cmd).2.2.2.1 hp

theorem fresh_cmd_pending (c : iscsi_cmd) (b : Prop) [Decidable b]
    (h0 : c.datain_list = []) :
    datain_list_pending (if b then iscsi_attach_datain_req c {} else c) := by
  have hp := (attach_datain_req_pending c).1 h0
  split_ifs
  · exact (attach_datain_req_pending c).2 hp
  · exact hp

/-- The command that `iscsi_handle_scsi_cmd` allocates has a list of requests
as `datain_list_pending` says: the list is empty, or holds the one request that
`iscsi_allocate_datain_req` has just returned for a read.
`iscsi_allocate_se_cmd` (not among the sources) is taken to return a command
without requests. -/
theorem handle_scsi_cmd_attach_pending (U : iscsi_util) (ops : iscsi_ops)
    (sess : iscsi_session) (hdr : iscsi_init_scsi_cmnd)
    (hU : ∀ len dir c0, U.iscsi_allocate_se_cmd len dir = some c0 → c0.datain_list = []) :
    attach_pending_ok (iscsi_handle_scsi_cmd_attach U ops sess hdr) := by
  unfold iscsi_handle_scsi_cmd_attach
  split
  · exact attach_pending_ok_none _ rfl
  · exact attach_pending_ok_none _ rfl
  · dsimp only
    split
    · exact attach_pending_ok_none _ rfl
    · rename_i cmd0 heq
      have h0 : cmd0.datain_list = [] := hU _ _ _ heq
      refine attach_pending_ok_ite _ _ _ (fun _ => ?_) (fun _ => ?_)
      · refine attach_pending_ok_cmd _ _ rfl (add_reject_from_cmd_pending U _ _ ?_)
        exact (attach_datain_req_pending _).1 h0
      · split
        · refine attach_pending_ok_cmd _ _ rfl (add_reject_from_cmd_pending U _ _ ?_)
          exact fresh_cmd_pending _ _ h0
        · refine attach_pending_ok_cmd _ _ rfl ?_
          exact fresh_cmd_pending _ _ h0
        · refine attach_pending_ok_ite _ _ _ (fun _ => ?_) (fun _ => ?_)
          · refine attach_pending_ok_cmd _ _ rfl (add_reject_from_cmd_pending U _ _ ?_)
            exact fresh_cmd_pending _ _ h0
          · refine attach_pending_ok_ite _ _ _ (fun _ => ?_) (fun _ => ?_)
            · refine attach_pending_ok_cmd _ _ rfl ?_
              exact fresh_cmd_pending _ _ h0
            · refine attach_pending_ok_ite _ _ _ (fun _ => ?_) (fun _ => ?_)
              · refine attach_pending_ok_cmd _ _ rfl (add_reject_from_cmd_pending U _ _ ?_)
                exact fresh_cmd_pending _ _ h0
              · refine attach_pending_ok_cmd _ _ rfl ?_
                refine datain_list_pending_of_eq _ _ rfl (fresh_cmd_pending _ _ h0)

/-- Claim C19, on the code. Scenario S3 (NOP-Out with ITT `0x0000A001`, TTT
`0xFFFFFFFF`, 32 bytes of ping data, digests enabled, next StatSN 7):
`iscsi_handle_nop_out` leaves a command with these tags and the ping length,
and `iscsi_send_nopin_response` builds for it a header with StatSN 7, the same
ITT and TTT and length 32, but leaves `conn->stat_sn = 8`, not 7 (the claim:
`stat_sn` unchanged). -/
theorem nopin_response_advances_stat_sn :
    iscsi_handle_nop_out util_ok ops_s3 {} none hdr_s3 =
      { ret := 0, cmd := some { nop_out_cmd hdr_s3 with buf_ptr_size := 32 } } ∧
    (iscsi_send_nopin_response util_ok { nop_out_cmd hdr_s3 with buf_ptr_size := 32 }
        conn_s1 sess_s1).hdr =
      some { opcode := ISCSI_TARG_NOP_IN, flags := F_BIT, length := 32,
             lun := 0xFFFFFFFFFFFFFFFF, init_task_tag := 0x0000A001,
             targ_xfer_tag := 0xFFFFFFFF, stat_sn := 7, exp_cmd_sn := 11, max_cmd_sn := 43 } ∧
    conn_s1.stat_sn = 7 ∧
    (iscsi_send_nopin_response util_ok { nop_out_cmd hdr_s3 with buf_ptr_size := 32 }
        conn_s1 sess_s1).conn.stat_sn = 8 ∧
    ¬ (iscsi_send_nopin_response util_ok { nop_out_cmd hdr_s3 with buf_ptr_size := 32 }
        conn_s1 sess_s1).conn.stat_sn = conn_s1.stat_sn := by
  decide

/-- Claim C19, amended. For a NOP-Out ping (TTT `0xFFFFFFFF`, an ITT other than
`0xFFFFFFFF`, a length within `MaxRecvDataSegmentLength`) whose ping data
arrives whole and which is immediate or passes the CmdSN check,
`iscsi_handle_nop_out` returns 0 and leaves a command, and for that command
`iscsi_send_nopin_response` returns 0 with a NopIn header that carries the
connection's StatSN as it is at the call, the ITT of the NOP-Out, TTT
`0xFFFFFFFF` and the ping length; after the call `conn->stat_sn` is the old
value plus one modulo `2^32`. -/
theorem nopin_response_stat_sn (U : iscsi_util) (ops : iscsi_ops) (rx : ping_rx)
    (found : Option iscsi_cmd) (hdr : iscsi_init_nop_out) (conn : iscsi_conn)
    (sess : iscsi_session)
    (httt : hdr.targ_xfer_tag = 0xFFFFFFFF) (hitt : hdr.init_task_tag ≠ 0xFFFFFFFF)
    (hlen : hdr.length ≤ ops.MaxRecvDataSegmentLength)
    (halloc : U.iscsi_allocate_cmd_ok = true)
    (hrx : rx.alloc_ok = true ∧ rx.rx_complete = true ∧ rx.crc_ok = true)
    (hsn : has_bit hdr.opcode I_BIT = true ∨
      ∀ c, U.iscsi_check_received_cmdsn c hdr.cmd_sn = CMDSN_NORMAL_OPERATION ∨
        U.iscsi_check_received_cmdsn c hdr.cmd_sn = CMDSN_HIGHER_THAN_EXP) :
    ∃ c, (iscsi_handle_nop_out U ops rx found hdr).cmd = some c ∧
      (iscsi_handle_nop_out U ops rx found hdr).ret = 0 ∧
      (iscsi_handle_nop_out U ops rx found hdr).rej = none ∧
      c.i_state = ISTATE_SEND_NOPIN ∧
      (iscsi_send_nopin_response U c conn sess).ret = 0 ∧
      ∃ h, (iscsi_send_nopin_response U c conn sess).hdr = some h ∧
        h.opcode = ISCSI_TARG_NOP_IN ∧
        h.stat_sn = conn.stat_sn ∧
        h.init_task_tag = hdr.init_task_tag ∧
        h.targ_xfer_tag = 0xFFFFFFFF ∧
        h.length = hdr.length ∧
        (iscsi_send_nopin_response U c conn sess).conn.stat_sn = add32 conn.stat_sn 1 := by
  obtain ⟨hr1, hr2, hr3⟩ := hrx
  have key : ∀ c : iscsi_cmd, c.i_state = ISTATE_SEND_NOPIN →
      c.init_task_tag = hdr.init_task_tag → c.targ_xfer_tag = 0xFFFFFFFF →
      c.buf_ptr_size = hdr.length →
      c.i_state = ISTATE_SEND_NOPIN ∧
      (iscsi_send_nopin_response U c conn sess).ret = 0 ∧
      ∃ h, (iscsi_send_nopin_response U c conn sess).hdr = some h ∧
        h.opcode = ISCSI_TARG_NOP_IN ∧
        h.stat_sn = conn.stat_sn ∧
        h.init_task_tag = hdr.init_task_tag ∧
        h.targ_xfer_tag = 0xFFFFFFFF ∧
        h.length = hdr.length ∧
        (iscsi_send_nopin_response U c conn sess).conn.stat_sn = add32 conn.stat_sn 1 :=
    fun c h1 h2 h3 h4 => ⟨h1, rfl, _, rfl, rfl, rfl, h2, h3, h4, rfl⟩
  have hc : ∃ c : iscsi_cmd,
      (if hdr.length ≠ 0 ∧ hdr.targ_xfer_tag = 0xFFFFFFFF then
        (if hdr.targ_xfer_tag = 0xFFFFFFFF then some (nop_out_cmd hdr) else none).map
          (fun c => { c with buf_ptr_size := hdr.length })
       else if hdr.targ_xfer_tag = 0xFFFFFFFF then some (nop_out_cmd hdr) else none) = some c ∧
      c.i_state = ISTATE_SEND_NOPIN ∧ c.init_task_tag = hdr.init_task_tag ∧
      c.targ_xfer_tag = 0xFFFFFFFF ∧ c.buf_ptr_size = hdr.length := by
    by_cases h0 : hdr.length = 0
    · refine ⟨nop_out_cmd hdr, ?_, rfl, rfl, rfl, h0.symm⟩
      rw [if_neg (fun h => h.1 h0), if_pos httt]
    · refine ⟨{ nop_out_cmd hdr with buf_ptr_size := hdr.length }, ?_, rfl, rfl, rfl, rfl⟩
      rw [if_pos ⟨h0, httt⟩, if_pos httt]
      rfl
  obtain ⟨c, hceq, hci, hct, hcx, hcb⟩ := hc
  have h1 : ¬ (hdr.init_task_tag = 0xFFFFFFFF ∧ ¬ has_bit hdr.opcode I_BIT = true) :=
    fun h => hitt h.1
  have h2 : ¬ hdr.length > ops.MaxRecvDataSegmentLength := by omega
  have h3 : ¬ (hdr.targ_xfer_tag = 0xFFFFFFFF ∧ ¬ U.iscsi_allocate_cmd_ok = true) :=
    fun h => h.2 halloc
  have h4 : ¬ ((hdr.length ≠ 0 ∧ hdr.targ_xfer_tag = 0xFFFFFFFF) ∧ ¬ rx.alloc_ok = true) :=
    fun h => h.2 hr1
  have h5 : ¬ ((hdr.length ≠ 0 ∧ hdr.targ_xfer_tag = 0xFFFFFFFF) ∧ ¬ rx.rx_complete = true) :=
    fun h => h.2 hr2
  have h6 : ¬ ((hdr.length ≠ 0 ∧ hdr.targ_xfer_tag = 0xFFFFFFFF) ∧
      ops.DataDigest = true ∧ ¬ rx.crc_ok = true) := fun h => h.2.2 hr3
  unfold iscsi_handle_nop_out
  rw [if_neg h1, if_neg h2, if_neg h3]
  dsimp only
  rw [if_neg h4, if_neg h5, if_neg h6, if_pos hitt, hceq]
  dsimp only
  rcases hsn with hi | hn
  · rw [if_pos hi]
    exact ⟨c, rfl, rfl, rfl, key c hci hct hcx hcb⟩
  · by_cases hi : has_bit hdr.opcode I_BIT = true
    · rw [if_pos hi]
      exact ⟨c, rfl, rfl, rfl, key c hci hct hcx hcb⟩
    · rw [if_neg hi]
      rcases hn c with hn | hn <;> rw [hn] <;>
        exact ⟨c, rfl, rfl, rfl, key c hci hct hcx hcb⟩

/-- A use of the amended C19 on scenario S3: the NopIn response carries StatSN
7, ITT `0x0000A001`, TTT `0xFFFFFFFF` and length 32, and the connection's
`stat_sn` goes from 7 to 8. -/
theorem nopin_response_stat_sn_witness :
    (∃ c, (iscsi_handle_nop_out util_ok ops_s3 {} none hdr_s3).cmd = some c ∧
      (iscsi_handle_nop_out util_ok ops_s3 {} none hdr_s3).ret = 0 ∧
      (iscsi_handle_nop_out util_ok ops_s3 {} none hdr_s3).rej = none ∧
      c.i_state = ISTATE_SEND_NOPIN ∧
      (iscsi_send_nopin_response util_ok c conn_s1 sess_s1).ret = 0 ∧
      ∃ h, (iscsi_send_nopin_response util_ok c conn_s1 sess_s1).hdr = some h ∧
        h.opcode = ISCSI_TARG_NOP_IN ∧
        h.stat_sn = conn_s1.stat_sn ∧
        h.init_task_tag = hdr_s3.init_task_tag ∧
        h.targ_xfer_tag = 0xFFFFFFFF ∧
        h.length = hdr_s3.length ∧
        (iscsi_send_nopin_response util_ok c conn_s1 sess_s1).conn.stat_sn
          = add32 conn_s1.stat_sn 1) ∧
    hdr_s3.init_task_tag = 0x0000A001 ∧ hdr_s3.length = 32 ∧ conn_s1.stat_sn = 7 ∧
    add32 conn_s1.stat_sn 1 = 8 :=
  ⟨nopin_response_stat_sn util_ok ops_s3 {} none hdr_s3 conn_s1 sess_s1 rfl (by decide)
    (by decide) rfl ⟨rfl, rfl, rfl⟩ (Or.inr (fun _ => Or.inl rfl)),
   by decide, by decide, by decide, by decide⟩
/-! ## C20: the check of DataSegmentLength against MaxRecvDataSegmentLength -/

/-- A call `iscsi_add_reject(reason, 1, buf, conn)` returns -1; the Reject is
queued when `iscsi_allocate_cmd` and the allocation of `cmd->buf_ptr` succeed. -/
theorem add_reject_fail_conn (U : iscsi_util) (reason : reject_reason) :
    iscsi_add_reject U reason true =
      (-1, if U.iscsi_allocate_cmd_ok && U.buf_ptr_alloc_ok then
              some { reason := reason, fail_conn := true } else none) := by
  unfold iscsi_add_reject
  cases U.iscsi_allocate_cmd_ok <;> cases U.buf_ptr_alloc_ok <;>
    by_cases h : U.reject_sem_ret = 0 <;> simp [h]

theorem reject_and_fail_eq (U : iscsi_util) (reason : reject_reason) :
    reject_and_fail U reason =
      handler_result.returned (-1)
        (if U.iscsi_allocate_cmd_ok && U.buf_ptr_alloc_ok then
          some { reason := reason, fail_conn := true } else none) := by
  unfold reject_and_fail
  rw [add_reject_fail_conn]

/-- Every way out of the header checks of `iscsi_handle_scsi_cmd` other than
passing them is a Reject that fails the connection, and a PDU that passes them
has a length within `MaxRecvDataSegmentLength`. -/
theorem handle_scsi_cmd_cases (U : iscsi_util) (ops : iscsi_ops) (hdr : iscsi_init_scsi_cmnd) :
    (iscsi_handle_scsi_cmd U ops hdr = handler_result.proceed ∧
      hdr.length ≤ ops.MaxRecvDataSegmentLength) ∨
    ∃ reason, iscsi_handle_scsi_cmd U ops hdr = reject_and_fail U reason := by
  have step : ∀ (c : Prop) [Decidable c] (a b : handler_result),
      (c → ((a = handler_result.proceed ∧ hdr.length ≤ ops.MaxRecvDataSegmentLength) ∨
        ∃ reason, a = reject_and_fail U reason)) →
      (¬ c → ((b = handler_result.proceed ∧ hdr.length ≤ ops.MaxRecvDataSegmentLength) ∨
        ∃ reason, b = reject_and_fail U reason)) →
      (((if c then a else b) = handler_result.proceed ∧
          hdr.length ≤ ops.MaxRecvDataSegmentLength) ∨
        ∃ reason, (if c then a else b) = reject_and_fail U reason) := by
    intro c _ a b ha hb
    by_cases h : c
    · rw [if_pos h]; exact ha h
    · rw [if_neg h]; exact hb h
  have e : (if ((has_bit hdr.flags R_BIT || has_bit hdr.flags W_BIT) &&
        hdr.exp_xfer_len == 0) = true then
      ({ hdr with flags := clear_bit (clear_bit hdr.flags R_BIT) W_BIT } : iscsi_init_scsi_cmnd)
      else hdr).length = hdr.length := by
    split_ifs <;> rfl
  unfold iscsi_handle_scsi_cmd
  dsimp only
  generalize (if ((has_bit hdr.flags R_BIT || has_bit hdr.flags W_BIT) &&
        hdr.exp_xfer_len == 0) = true then
      ({ hdr with flags := clear_bit (clear_bit hdr.flags R_BIT) W_BIT } : iscsi_init_scsi_cmnd)
      else hdr) = H at e
  refine step _ _ _ (fun _ => Or.inr ⟨_, rfl⟩) (fun _ => ?_)
  refine step _ _ _ (fun _ => Or.inr ⟨_, rfl⟩) (fun _ => ?_)
  refine step _ _ _ (fun _ => Or.inr ⟨_, rfl⟩) (fun _ => ?_)
  refine step _ _ _ (fun _ => Or.inr ⟨_, rfl⟩) (fun _ => ?_)
  refine step _ _ _ (fun _ => Or.inr ⟨_, rfl⟩) (fun _ => ?_)
  refine step _ _ _ (fun _ => Or.inr ⟨_, rfl⟩) (fun _ => ?_)
  refine step _ _ _ (fun _ => Or.inr ⟨_, rfl⟩) (fun _ => ?_)
  refine step _ _ _ (fun _ => Or.inr ⟨_, rfl⟩) (fun _ => ?_)
  refine step _ _ _ (fun _ => Or.inr ⟨_, rfl⟩) (fun hlen => ?_)
  refine step _ _ _ (fun _ => Or.inr ⟨_, rfl⟩) (fun _ => ?_)
  refine step _ _ _ (fun _ => Or.inr ⟨_, rfl⟩) (fun _ => ?_)
  exact Or.inl ⟨rfl, by omega⟩

/-- Raising the limit `MaxRecvDataSegmentLength` does not change what the header
checks of `iscsi_handle_scsi_cmd` do with a PDU whose length is within the
limit. -/
theorem handle_scsi_cmd_limit (U : iscsi_util) (ops : iscsi_ops) (hdr : iscsi_init_scsi_cmnd)
    (M : Nat) (hM : hdr.length ≤ M) (hlen : hdr.length ≤ ops.MaxRecvDataSegmentLength) :
    iscsi_handle_scsi_cmd U { ops with MaxRecvDataSegmentLength := M } hdr
      = iscsi_handle_scsi_cmd U ops hdr := by
  unfold iscsi_handle_scsi_cmd
  dsimp only
  have e : (if ((has_bit hdr.flags R_BIT || has_bit hdr.flags W_BIT) &&
        hdr.exp_xfer_len == 0) = true then
      ({ hdr with flags := clear_bit (clear_bit hdr.flags R_BIT) W_BIT } : iscsi_init_scsi_cmnd)
      else hdr).length = hdr.length := by
    split_ifs <;> rfl
  generalize (if ((has_bit hdr.flags R_BIT || has_bit hdr.flags W_BIT) &&
        hdr.exp_xfer_len == 0) = true then
      ({ hdr with flags := clear_bit (clear_bit hdr.flags R_BIT) W_BIT } : iscsi_init_scsi_cmnd)
      else hdr) = H at e
  have h1 : ¬ H.length > M := by omega
  have h2 : ¬ H.length > ops.MaxRecvDataSegmentLength := by omega
  rw [if_neg h1, if_neg h2]

/-- The header checks of `iscsi_handle_scsi_cmd` pass a PDU with consistent
flags whose length is within `MaxRecvDataSegmentLength`, `FirstBurstLength` and
the expected transfer length, when `ImmediateData=Yes`. -/
theorem handle_scsi_cmd_proceed (U : iscsi_util) (ops : iscsi_ops) (hdr : iscsi_init_scsi_cmnd)
    (hlen : hdr.length ≤ ops.MaxRecvDataSegmentLength)
    (himm : ops.ImmediateData = true)
    (hfb : hdr.length ≤ ops.FirstBurstLength)
    (hed : hdr.length ≤ hdr.exp_xfer_len)
    (hWF : has_bit hdr.flags W_BIT = true ∨ has_bit hdr.flags F_BIT = true)
    (hRW : ¬ (has_bit hdr.flags R_BIT = true ∧ has_bit hdr.flags W_BIT = true))
    (hdir : (has_bit hdr.flags R_BIT = true ∨ has_bit hdr.flags W_BIT = true) ↔
      hdr.exp_xfer_len ≠ 0)
    (hfin : hdr.exp_xfer_len = hdr.length → has_bit hdr.flags F_BIT = true)
    (hI : has_bit hdr.opcode I_BIT = false) :
    iscsi_handle_scsi_cmd U ops hdr = handler_result.proceed := by
  have hnd : ((has_bit hdr.flags R_BIT || has_bit hdr.flags W_BIT) &&
      hdr.exp_xfer_len == 0) = false := by
    cases hrw : (has_bit hdr.flags R_BIT || has_bit hdr.flags W_BIT)
    · rfl
    · have : hdr.exp_xfer_len ≠ 0 := hdir.1 (by simpa using hrw)
      simpa using this
  have c1 : ¬ (!has_bit hdr.flags W_BIT && !has_bit hdr.flags F_BIT) = true := by
    rcases hWF with h | h <;> simp [h]
  have c2 : ¬ ((has_bit hdr.flags R_BIT || has_bit hdr.flags W_BIT) && hdr.exp_xfer_len == 0 &&
      !(hdr.cdb.headD 0 == 0x16 || hdr.cdb.headD 0 == 0x17)) = true := by
    rw [hnd]; simp
  have c3 : ¬ (!has_bit hdr.flags R_BIT && !has_bit hdr.flags W_BIT &&
      hdr.exp_xfer_len != 0) = true := by
    intro h
    simp only [Bool.and_eq_true, Bool.not_eq_true', bne_iff_ne] at h
    rcases hdir.2 h.2 with h' | h'
    · rw [h.1.1] at h'; exact absurd h' (by simp)
    · rw [h.1.2] at h'; exact absurd h' (by simp)
  have c4 : ¬ (has_bit hdr.flags R_BIT && has_bit hdr.flags W_BIT) = true := by
    intro h
    simp only [Bool.and_eq_true] at h
    exact hRW h
  have c5 : ¬ has_bit hdr.opcode I_BIT = true := by rw [hI]; simp
  have c6 : ¬ (hdr.length != 0 && !ops.ImmediateData) = true := by rw [himm]; simp
  have c7 : ¬ (hdr.exp_xfer_len == hdr.length && !has_bit hdr.flags F_BIT) = true := by
    intro h
    simp only [Bool.and_eq_true, beq_iff_eq, Bool.not_eq_true'] at h
    rw [hfin h.1] at h
    exact absurd h.2 (by simp)
  have c8 : ¬ hdr.length > hdr.exp_xfer_len := by omega
  have c9 : ¬ hdr.length > ops.MaxRecvDataSegmentLength := by omega
  have c10 : ¬ hdr.length > ops.FirstBurstLength := by omega
  unfold iscsi_handle_scsi_cmd
  dsimp only
  rw [if_neg c1, if_neg c2, hnd]
  simp only [Bool.false_eq_true, if_false]
  rw [if_neg c3, if_neg c4, if_neg c5, if_neg c6, if_neg c7, if_neg c8,
    if_neg c9, if_neg c10, if_neg c5]

theorem handle_data_out_limit (U : iscsi_util) (ops : iscsi_ops) (found : Option iscsi_cmd)
    (hdr : iscsi_init_scsi_data_out) (M : Nat) (hM : hdr.length ≤ M)
    (hlen : hdr.length ≤ ops.MaxRecvDataSegmentLength) :
    iscsi_handle_data_out U { ops with MaxRecvDataSegmentLength := M } found hdr
      = iscsi_handle_data_out U ops found hdr := by
  unfold iscsi_handle_data_out
  dsimp only
  have h1 : ¬ hdr.length > M := by omega
  have h2 : ¬ hdr.length > ops.MaxRecvDataSegmentLength := by omega
  rw [if_neg h1, if_neg h2]

theorem handle_nop_out_limit (U : iscsi_util) (ops : iscsi_ops) (rx : ping_rx)
    (found : Option iscsi_cmd) (hdr : iscsi_init_nop_out) (M : Nat) (hM : hdr.length ≤ M)
    (hlen : hdr.length ≤ ops.MaxRecvDataSegmentLength) :
    iscsi_handle_nop_out U { ops with MaxRecvDataSegmentLength := M } rx found hdr
      = iscsi_handle_nop_out U ops rx found hdr := by
  unfold iscsi_handle_nop_out
  dsimp only
  have h1 : ¬ hdr.length > M := by omega
  have h2 : ¬ hdr.length > ops.MaxRecvDataSegmentLength := by omega
  rw [if_neg h1, if_neg h2]

theorem handle_text_cmd_limit (U : iscsi_util) (ops : iscsi_ops) (rx : text_rx)
    (hdr : iscsi_init_text_cmnd) (M : Nat) (hM : hdr.length ≤ M)
    (hlen : hdr.length ≤ ops.MaxRecvDataSegmentLength) :
    iscsi_handle_text_cmd U { ops with MaxRecvDataSegmentLength := M } rx hdr
      = iscsi_handle_text_cmd U ops rx hdr := by
  unfold iscsi_handle_text_cmd
  dsimp only
  have h1 : ¬ hdr.length > M := by omega
  have h2 : ¬ hdr.length > ops.MaxRecvDataSegmentLength := by omega
  rw [if_neg h1, if_neg h2]

/-- Claim C20. In `iscsi_handle_scsi_cmd`, `iscsi_handle_data_out`,
`iscsi_handle_nop_out` and `iscsi_handle_text_cmd` a PDU whose
DataSegmentLength is `MaxRecvDataSegmentLength + 1` makes the handler return -1
through `iscsi_add_reject(..., 1, ...)`, which queues a Reject that fails the
connection whenever `iscsi_allocate_cmd` and the allocation of `cmd->buf_ptr`
succeed (reason `REASON_PROTOCOL_ERR` in the last three handlers; in the SCSI
Command handler an earlier header check may give the reason). A PDU whose
DataSegmentLength equals `MaxRecvDataSegmentLength` is not rejected by the
length check: what each handler does with it does not change when the limit is
raised, and a SCSI Command with `ImmediateData=Yes`, a length within
`FirstBurstLength` and the expected transfer length, consistent R/W/F flags and
no Immediate bit passes all the header checks. -/
theorem max_recv_length_boundary (U : iscsi_util) (ops : iscsi_ops) :
    (∀ hdr : iscsi_init_scsi_cmnd, hdr.length = ops.MaxRecvDataSegmentLength + 1 →
      ∃ reason, iscsi_handle_scsi_cmd U ops hdr =
        handler_result.returned (-1)
          (if U.iscsi_allocate_cmd_ok && U.buf_ptr_alloc_ok then
            some { reason := reason, fail_conn := true } else none)) ∧
    (∀ (found : Option iscsi_cmd) (hdr : iscsi_init_scsi_data_out),
      hdr.length = ops.MaxRecvDataSegmentLength + 1 →
      iscsi_handle_data_out U ops found hdr =
        handler_result.returned (-1)
          (if U.iscsi_allocate_cmd_ok && U.buf_ptr_alloc_ok then
            some { reason := REASON_PROTOCOL_ERR, fail_conn := true } else none)) ∧
    (∀ (rx : ping_rx) (found : Option iscsi_cmd) (hdr : iscsi_init_nop_out),
      hdr.length = ops.MaxRecvDataSegmentLength + 1 →
      iscsi_handle_nop_out U ops rx found hdr =
        { ret := -1
          rej := if U.iscsi_allocate_cmd_ok && U.buf_ptr_alloc_ok then
            some { reason := REASON_PROTOCOL_ERR, fail_conn := true } else none }) ∧
    (∀ (rx : text_rx) (hdr : iscsi_init_text_cmnd),
      hdr.length = ops.MaxRecvDataSegmentLength + 1 →
      iscsi_handle_text_cmd U ops rx hdr =
        handler_result.returned (-1)
          (if U.iscsi_allocate_cmd_ok && U.buf_ptr_alloc_ok then
            some { reason := REASON_PROTOCOL_ERR, fail_conn := true } else none)) ∧
    (∀ hdr : iscsi_init_scsi_cmnd, hdr.length = ops.MaxRecvDataSegmentLength →
      ops.ImmediateData = true → hdr.length ≤ ops.FirstBurstLength →
      hdr.length ≤ hdr.exp_xfer_len →
      (has_bit hdr.flags W_BIT = true ∨ has_bit hdr.flags F_BIT = true) →
      ¬ (has_bit hdr.flags R_BIT = true ∧ has_bit hdr.flags W_BIT = true) →
      ((has_bit hdr.flags R_BIT = true ∨ has_bit hdr.flags W_BIT = true) ↔
        hdr.exp_xfer_len ≠ 0) →
      (hdr.exp_xfer_len = hdr.length → has_bit hdr.flags F_BIT = true) →
      has_bit hdr.opcode I_BIT = false →
      iscsi_handle_scsi_cmd U ops hdr = handler_result.proceed) ∧
    (∀ M, ops.MaxRecvDataSegmentLength ≤ M →
      (∀ hdr : iscsi_init_scsi_cmnd, hdr.length = ops.MaxRecvDataSegmentLength →
        iscsi_handle_scsi_cmd U { ops with MaxRecvDataSegmentLength := M } hdr
          = iscsi_handle_scsi_cmd U ops hdr) ∧
      (∀ (found : Option iscsi_cmd) (hdr : iscsi_init_scsi_data_out),
        hdr.length = ops.MaxRecvDataSegmentLength →
        iscsi_handle_data_out U { ops with MaxRecvDataSegmentLength := M } found hdr
          = iscsi_handle_data_out U ops found hdr) ∧
      (∀ (rx : ping_rx) (found : Option iscsi_cmd) (hdr : iscsi_init_nop_out),
        hdr.length = ops.MaxRecvDataSegmentLength →
        iscsi_handle_nop_out U { ops with MaxRecvDataSegmentLength := M } rx found hdr
          = iscsi_handle_nop_out U ops rx found hdr) ∧
      (∀ (rx : text_rx) (hdr : iscsi_init_text_cmnd),
        hdr.length = ops.MaxRecvDataSegmentLength →
        iscsi_handle_text_cmd U { ops with MaxRecvDataSegmentLength := M } rx hdr
          = iscsi_handle_text_cmd U ops rx hdr)) := by
  refine ⟨fun hdr hl => ?_, fun found hdr hl => ?_, fun rx found hdr hl => ?_,
    fun rx hdr hl => ?_, fun hdr hl himm hfb hed hWF hRW hdir hfin hI => ?_, fun M hM => ?_⟩
  · rcases handle_scsi_cmd_cases U ops hdr with ⟨-, h⟩ | ⟨reason, h⟩
    · omega
    · exact ⟨reason, h.trans (reject_and_fail_eq U reason)⟩
  · unfold iscsi_handle_data_out
    have h0 : ¬ hdr.length = 0 := by omega
    have h1 : hdr.length > ops.MaxRecvDataSegmentLength := by omega
    rw [if_neg h0, if_pos h1, add_reject_fail_conn]
  · unfold iscsi_handle_nop_out
    have h1 : hdr.length > ops.MaxRecvDataSegmentLength := by omega
    rw [add_reject_fail_conn]
    by_cases h0 : hdr.init_task_tag = 0xFFFFFFFF ∧ ¬ has_bit hdr.opcode I_BIT = true
    · rw [if_pos h0]
    · rw [if_neg h0, if_pos h1]
  · unfold iscsi_handle_text_cmd
    have h1 : hdr.length > ops.MaxRecvDataSegmentLength := by omega
    rw [if_pos h1, reject_and_fail_eq]
  · exact handle_scsi_cmd_proceed U ops hdr (by omega) himm hfb hed hWF hRW hdir hfin hI
  · exact ⟨fun hdr hl => handle_scsi_cmd_limit U ops hdr M (by omega) (by omega),
      fun found hdr hl => handle_data_out_limit U ops found hdr M (by omega) (by omega),
      fun rx found hdr hl => handle_nop_out_limit U ops rx found hdr M (by omega) (by omega),
      fun rx hdr hl => handle_text_cmd_limit U ops rx hdr M (by omega) (by omega)⟩

/-- A use of C20 with `MaxRecvDataSegmentLength = 8192` (scenario S1): a write
command with 8193 bytes of immediate data and a DataOut of 8193 bytes are
rejected with -1 and a queued Reject; with 8192 bytes the command passes the
header checks, the DataOut passes its checks, and a NOP-Out ping and a Text
Request of 8192 bytes are accepted; with 8193 bytes these two are rejected. -/
theorem max_recv_length_boundary_witness :
    (∃ reason, iscsi_handle_scsi_cmd util_ok ops_s1 (hdr_write_immediate 8193) =
      handler_result.returned (-1)
        (if util_ok.iscsi_allocate_cmd_ok && util_ok.buf_ptr_alloc_ok then
          some { reason := reason, fail_conn := true } else none)) ∧
    iscsi_handle_data_out util_ok ops_s1 (some cmd_write_16384) (hdr_data_out_second 8193) =
      handler_result.returned (-1)
        (if util_ok.iscsi_allocate_cmd_ok && util_ok.buf_ptr_alloc_ok then
          some { reason := REASON_PROTOCOL_ERR, fail_conn := true } else none) ∧
    iscsi_handle_scsi_cmd util_ok ops_s1 (hdr_write_immediate 8192) = handler_result.proceed ∧
    iscsi_handle_scsi_cmd util_ok ops_s1 (hdr_write_immediate 8193) =
      handler_result.returned (-1) (some { reason := REASON_PROTOCOL_ERR, fail_conn := true }) ∧
    iscsi_handle_data_out util_ok ops_s1 (some cmd_write_16384) (hdr_data_out_second 8192) =
      handler_result.proceed ∧
    iscsi_handle_nop_out util_ok ops_s1 {} none { hdr_s3 with length := 8192 } =
      { ret := 0, cmd := some { nop_out_cmd hdr_s3 with buf_ptr_size := 8192 } } ∧
    iscsi_handle_nop_out util_ok ops_s1 {} none { hdr_s3 with length := 8193 } =
      { ret := -1, rej := some { reason := REASON_PROTOCOL_ERR, fail_conn := true } } ∧
    iscsi_handle_text_cmd util_ok ops_s1 {} { length := 8192 } = handler_result.proceed ∧
    iscsi_handle_text_cmd util_ok ops_s1 {} { length := 8193 } =
      handler_result.returned (-1) (some { reason := REASON_PROTOCOL_ERR, fail_conn := true }) ∧
    iscsi_handle_nop_out util_ok { ops_s1 with MaxRecvDataSegmentLength := 16384 } {} none
        { hdr_s3 with length := 8192 } =
      iscsi_handle_nop_out util_ok ops_s1 {} none { hdr_s3 with length := 8192 } :=
  ⟨(max_recv_length_boundary util_ok ops_s1).1 (hdr_write_immediate 8193) rfl,
   (max_recv_length_boundary util_ok ops_s1).2.1 (some cmd_write_16384)
      (hdr_data_out_second 8193) rfl,
   (max_recv_length_boundary util_ok ops_s1).2.2.2.2.1 (hdr_write_immediate 8192) rfl rfl
      (by decide) (by decide) (by decide) (by decide) (by decide) (by decide) (by decide),
   by decide, by decide, by decide, by decide, by decide, by decide,
   ((max_recv_length_boundary util_ok ops_s1).2.2.2.2.2 16384 (by decide)).2.2.1 {} none
      { hdr_s3 with length := 8192 } rfl⟩

/-! ## C21: a SCSI Command with both `R_BIT` and `W_BIT` -/

/-- The header checks of `iscsi_handle_scsi_cmd` reject with
`REASON_INVALID_PDU_FIELD` every header that has both `R_BIT` and `W_BIT`,
unless it has no expected data and a RESERVE or RELEASE CDB. -/
theorem handle_scsi_cmd_rw (U : iscsi_util) (ops : iscsi_ops) (hdr : iscsi_init_scsi_cmnd)
    (hR : has_bit hdr.flags R_BIT = true) (hW : has_bit hdr.flags W_BIT = true)
    (hx : ¬ (hdr.exp_xfer_len = 0 ∧ (hdr.cdb.headD 0 = 0x16 ∨ hdr.cdb.headD 0 = 0x17))) :
    iscsi_handle_scsi_cmd U ops hdr = reject_and_fail U REASON_INVALID_PDU_FIELD := by
  unfold iscsi_handle_scsi_cmd
  dsimp only
  rw [hR, hW]
  simp only [Bool.not_true, Bool.false_and, Bool.false_eq_true, if_false, Bool.or_true,
    Bool.true_and]
  by_cases h0 : hdr.exp_xfer_len = 0
  · have hrr : (hdr.cdb.headD 0 == 0x16 || hdr.cdb.headD 0 == 0x17) = false := by
      cases h : (hdr.cdb.headD 0 == 0x16 || hdr.cdb.headD 0 == 0x17)
      · rfl
      · exfalso
        apply hx
        refine ⟨h0, ?_⟩
        simpa using h
    have hb : (hdr.exp_xfer_len == 0) = true := by simpa using h0
    rw [hb, hrr]
    simp
  · have hb : (hdr.exp_xfer_len == 0) = false := by simpa using h0
    rw [hb]
    simp only [Bool.false_and, Bool.false_eq_true, if_false]
    rw [hR, hW]
    simp

/-- Claim C21, on the code. A RESERVE command (CDB `0x16`) whose header carries
`R_BIT` and `W_BIT` with Expected Data Transfer Length 0 is not rejected: the
handler clears the two bits, allocates a command, attaches it and returns 0
without a Reject (the claim: every header with both bits is rejected and no
command is allocated). A READ(10) header with both bits is rejected, with the
reason `REASON_INVALID_PDU_FIELD`. -/
theorem scsi_cmd_rw_reserve_accepted :
    has_bit hdr_reserve_rw.flags R_BIT = true ∧ has_bit hdr_reserve_rw.flags W_BIT = true ∧
    (iscsi_handle_scsi_cmd_full util_ok ops_s1 {} sess_s1 hdr_reserve_rw).ret = 0 ∧
    (iscsi_handle_scsi_cmd_full util_ok ops_s1 {} sess_s1 hdr_reserve_rw).rej = none ∧
    (iscsi_handle_scsi_cmd_full util_ok ops_s1 {} sess_s1 hdr_reserve_rw).attached = true ∧
    (iscsi_handle_scsi_cmd_full util_ok ops_s1 {} sess_s1 hdr_reserve_rw).cmd =
      some { init_task_tag := 3, cmd_sn := 12, exp_stat_sn := 7,
             iscsi_opcode := ISCSI_INIT_SCSI_CMND, i_state := ISTATE_NEW_CMD,
             data_direction := DMA_NONE } ∧
    iscsi_handle_scsi_cmd_full util_ok ops_s1 {} sess_s1 hdr_read_rw =
      { ret := -1, rej := some { reason := REASON_INVALID_PDU_FIELD, fail_conn := true }
        sess := sess_s1 } := by
  decide

/-- Claim C21, amended. Every SCSI Command header with both `R_BIT` and `W_BIT`
set, other than one with Expected Data Transfer Length 0 and a RESERVE or
RELEASE CDB (`0x16`, `0x17`), is rejected by `iscsi_handle_scsi_cmd`: the
handler returns -1 through `iscsi_add_reject(REASON_INVALID_PDU_FIELD, 1, ...)`,
which queues the Reject whenever `iscsi_allocate_cmd` and the allocation of
`cmd->buf_ptr` succeed, no command is allocated or attached, and the session is
left as it was. -/
theorem scsi_cmd_rw_rejected (U : iscsi_util) (ops : iscsi_ops) (rx : immediate_rx)
    (sess : iscsi_session) (hdr : iscsi_init_scsi_cmnd)
    (hR : has_bit hdr.flags R_BIT = true) (hW : has_bit hdr.flags W_BIT = true)
    (hx : ¬ (hdr.exp_xfer_len = 0 ∧ (hdr.cdb.headD 0 = 0x16 ∨ hdr.cdb.headD 0 = 0x17))) :
    iscsi_handle_scsi_cmd_full U ops rx sess hdr =
      { ret := -1
        rej := if U.iscsi_allocate_cmd_ok && U.buf_ptr_alloc_ok then
          some { reason := REASON_INVALID_PDU_FIELD, fail_conn := true } else none
        cmd := none, attached := false, sess := sess } := by
  have h := handle_scsi_cmd_rw U ops hdr hR hW hx
  rw [reject_and_fail_eq] at h
  unfold iscsi_handle_scsi_cmd_full iscsi_handle_scsi_cmd_attach
  rw [h]

/-- A use of the amended C21: the READ(10) header with `F_BIT`, `R_BIT` and
`W_BIT` and 512 bytes expected is rejected with -1 and a queued Reject. -/
theorem scsi_cmd_rw_rejected_witness :
    iscsi_handle_scsi_cmd_full util_ok ops_s1 {} sess_s1 hdr_read_rw =
      { ret := -1
        rej := if util_ok.iscsi_allocate_cmd_ok && util_ok.buf_ptr_alloc_ok then
          some { reason := REASON_INVALID_PDU_FIELD, fail_conn := true } else none
        cmd := none, attached := false, sess := sess_s1 } :=
  scsi_cmd_rw_rejected util_ok ops_s1 {} sess_s1 hdr_read_rw (by decide) (by decide) (by decide)
/-! ## C22: unsolicited data and `InitialR2T` -/

theorem has_bit_clear_w_bit (f : Nat) : has_bit (clear_bit f W_BIT) W_BIT = false := by
  unfold has_bit clear_bit
  rw [Nat.and_assoc]
  have h : (0xFF ^^^ W_BIT) &&& W_BIT = 0 := by decide
  rw [h, Nat.and_zero]
  rfl

/-- The header at the label `done` asks for unsolicited data exactly when the
received header has `W_BIT`, no `F_BIT` and a non-zero expected length. -/
theorem hdr_done_unsolicited (hdr : iscsi_init_scsi_cmnd) :
    (!has_bit (scsi_cmd_hdr_done hdr).flags F_BIT &&
        has_bit (scsi_cmd_hdr_done hdr).flags W_BIT) = true ↔
      (has_bit hdr.flags W_BIT = true ∧ has_bit hdr.flags F_BIT = false ∧
        hdr.exp_xfer_len ≠ 0) := by
  unfold scsi_cmd_hdr_done
  by_cases hnd : ((has_bit hdr.flags R_BIT || has_bit hdr.flags W_BIT) &&
      hdr.exp_xfer_len == 0) = true
  · rw [if_pos hnd]
    dsimp only
    rw [has_bit_clear_w_bit]
    simp only [Bool.and_eq_true, Bool.or_eq_true, beq_iff_eq] at hnd
    constructor
    · intro h
      simp at h
    · intro h
      exact absurd hnd.2 h.2.2
  · rw [if_neg hnd]
    simp only [Bool.and_eq_true, Bool.or_eq_true, beq_iff_eq, not_and] at hnd
    constructor
    · intro h
      simp only [Bool.and_eq_true, Bool.not_eq_true'] at h
      exact ⟨h.2, h.1, hnd (Or.inr h.2)⟩
    · intro h
      simp [h.1, h.2.1]

theorem attach_unsolicited_ok_not_attached (b : Bool) (r : scsi_cmd_attach)
    (h : r.attached = false) : attach_unsolicited_ok b r := by
  intro c _ ha
  rw [h] at ha
  exact absurd ha (by simp)

theorem attach_unsolicited_ok_ite (b : Bool) (c : Prop) [Decidable c] (x y : scsi_cmd_attach)
    (hx : c → attach_unsolicited_ok b x) (hy : ¬ c → attach_unsolicited_ok b y) :
    attach_unsolicited_ok b (if c then x else y) := by
  by_cases h : c
  · rw [if_pos h]; exact hx h
  · rw [if_neg h]; exact hy h

theorem attach_unsolicited_ok_cmd (b : Bool) (r : scsi_cmd_attach) (c0 : iscsi_cmd)
    (hc : r.cmd = some c0) (hb : c0.unsolicited_data = b) : attach_unsolicited_ok b r := by
  intro c hc2 _
  rw [hc] at hc2
  simp only [Option.some.injEq] at hc2
  rw [← hc2, hb]

/-- The command that `iscsi_handle_scsi_cmd` has attached carries in
`unsolicited_data` what the header at the label `done` asks for. -/
theorem handle_scsi_cmd_attach_unsolicited (U : iscsi_util) (ops : iscsi_ops)
    (sess : iscsi_session) (hdr : iscsi_init_scsi_cmnd) :
    attach_unsolicited_ok (!has_bit (scsi_cmd_hdr_done hdr).flags F_BIT &&
      has_bit (scsi_cmd_hdr_done hdr).flags W_BIT)
      (iscsi_handle_scsi_cmd_attach U ops sess hdr) := by
  unfold iscsi_handle_scsi_cmd_attach
  split
  · exact attach_unsolicited_ok_not_attached _ _ rfl
  · exact attach_unsolicited_ok_not_attached _ _ rfl
  · dsimp only
    split
    · exact attach_unsolicited_ok_not_attached _ _ rfl
    · refine attach_unsolicited_ok_ite _ _ _ _
        (fun _ => attach_unsolicited_ok_not_attached _ _ rfl) (fun _ => ?_)
      split
      · exact attach_unsolicited_ok_not_attached _ _ rfl
      · refine attach_unsolicited_ok_cmd _ _ _ rfl ?_
        split_ifs <;> rfl
      · refine attach_unsolicited_ok_ite _ _ _ _
          (fun _ => attach_unsolicited_ok_not_attached _ _ rfl) (fun _ => ?_)
        refine attach_unsolicited_ok_ite _ _ _ _ (fun _ => ?_) (fun _ => ?_)
        · refine attach_unsolicited_ok_cmd _ _ _ rfl ?_
          split_ifs <;> rfl
        · refine attach_unsolicited_ok_ite _ _ _ _
            (fun _ => attach_unsolicited_ok_not_attached _ _ rfl) (fun _ => ?_)
          refine attach_unsolicited_ok_cmd _ _ _ rfl ?_
          split_ifs <;> rfl

/-- The session's `InitialR2T` has no part in what `iscsi_handle_scsi_cmd` does
up to `iscsi_attach_cmd_to_queue`. -/
theorem handle_scsi_cmd_attach_initial_r2t (U : iscsi_util) (ops : iscsi_ops)
    (sess : iscsi_session) (hdr : iscsi_init_scsi_cmnd) (b : Bool) :
    iscsi_handle_scsi_cmd_attach U { ops with InitialR2T := b } sess hdr
      = iscsi_handle_scsi_cmd_attach U ops sess hdr := by
  have h : iscsi_handle_scsi_cmd U { ops with InitialR2T := b } hdr
      = iscsi_handle_scsi_cmd U ops hdr := rfl
  unfold iscsi_handle_scsi_cmd_attach
  rw [h]

/-- While `InitialR2T=Yes` no DataOut for a command with unsolicited data gets
past the test of `iscsi_handle_data_out`. -/
theorem handle_data_out_unsolicited_initial_r2t (U : iscsi_util) (ops : iscsi_ops)
    (cmd : iscsi_cmd) (hdr : iscsi_init_scsi_data_out)
    (hu : cmd.unsolicited_data = true) (hi : ops.InitialR2T = true) :
    iscsi_handle_data_out_unsolicited U ops (some cmd) hdr ≠ handler_result.proceed ∧
    (iscsi_handle_data_out U ops (some cmd) hdr = handler_result.proceed →
      iscsi_handle_data_out_unsolicited U ops (some cmd) hdr
        = handler_result.returned (-1) none) := by
  unfold iscsi_handle_data_out_unsolicited
  cases h : iscsi_handle_data_out U ops (some cmd) hdr with
  | returned ret rej => exact ⟨by simp, fun h2 => absurd h2 (by simp)⟩
  | dumped => exact ⟨by simp, fun h2 => absurd h2 (by simp)⟩
  | proceed =>
    simp [hu, hi]

/-- Claim C22, on the code. With `InitialR2T=Yes` a WRITE(10) header with
`W_BIT`, no `F_BIT` and no immediate data is accepted: the handler returns 0
without a Reject and attaches a command with `unsolicited_data = 1` (the claim:
no such command is accepted while `InitialR2T=Yes`). -/
theorem unsolicited_accepted_with_initial_r2t :
    ops_initial_r2t.InitialR2T = true ∧
    has_bit hdr_write_unsolicited.flags W_BIT = true ∧
    has_bit hdr_write_unsolicited.flags F_BIT = false ∧
    (iscsi_handle_scsi_cmd_full util_ok ops_initial_r2t {} sess_s1 hdr_write_unsolicited).ret
      = 0 ∧
    (iscsi_handle_scsi_cmd_full util_ok ops_initial_r2t {} sess_s1 hdr_write_unsolicited).rej
      = none ∧
    (iscsi_handle_scsi_cmd_full util_ok ops_initial_r2t {} sess_s1
      hdr_write_unsolicited).attached = true ∧
    (iscsi_handle_scsi_cmd_full util_ok ops_initial_r2t {} sess_s1
      hdr_write_unsolicited).cmd.map (fun c => c.unsolicited_data) = some true := by
  decide

/-- Claim C22, amended. For every command that `iscsi_handle_scsi_cmd` has
allocated and attached to the connection, `unsolicited_data = 1` exactly when
the header has `W_BIT` set, `F_BIT` clear and a non-zero Expected Data Transfer
Length; what the handler does up to the attachment is the same for
`InitialR2T=Yes` and `InitialR2T=No` (its check of `InitialR2T` stands between
`#if 0` and `#endif`). The option is enforced when DataOut arrives: while
`InitialR2T=Yes` no DataOut for a command with `unsolicited_data = 1` passes
`iscsi_handle_data_out`, and one that has passed the earlier checks is answered
with a check condition and -1. -/
theorem unsolicited_data_of_accepted (U : iscsi_util) (ops : iscsi_ops) (sess : iscsi_session)
    (hdr : iscsi_init_scsi_cmnd) (c : iscsi_cmd)
    (hc : (iscsi_handle_scsi_cmd_attach U ops sess hdr).cmd = some c)
    (ha : (iscsi_handle_scsi_cmd_attach U ops sess hdr).attached = true) :
    (c.unsolicited_data = true ↔
      (has_bit hdr.flags W_BIT = true ∧ has_bit hdr.flags F_BIT = false ∧
        hdr.exp_xfer_len ≠ 0)) ∧
    (∀ b, iscsi_handle_scsi_cmd_attach U { ops with InitialR2T := b } sess hdr
      = iscsi_handle_scsi_cmd_attach U ops sess hdr) ∧
    (c.unsolicited_data = true → ops.InitialR2T = true →
      ∀ dhdr : iscsi_init_scsi_data_out,
        iscsi_handle_data_out_unsolicited U ops (some c) dhdr ≠ handler_result.proceed ∧
        (iscsi_handle_data_out U ops (some c) dhdr = handler_result.proceed →
          iscsi_handle_data_out_unsolicited U ops (some c) dhdr
            = handler_result.returned (-1) none)) := by
  refine ⟨?_, fun b => handle_scsi_cmd_attach_initial_r2t U ops sess hdr b,
    fun hu hi dhdr => handle_data_out_unsolicited_initial_r2t U ops c dhdr hu hi⟩
  rw [handle_scsi_cmd_attach_unsolicited U ops sess hdr c hc ha]
  exact hdr_done_unsolicited hdr

/-- A use of the amended C22: the WRITE(10) header with `W_BIT` and no `F_BIT`
is attached with `unsolicited_data = 1` under `InitialR2T=Yes`, and a DataOut of
8192 bytes at offset 0 for that command is answered with -1. -/
theorem unsolicited_data_of_accepted_witness :
    ((cmd_write_unsolicited.unsolicited_data = true ↔
        (has_bit hdr_write_unsolicited.flags W_BIT = true ∧
          has_bit hdr_write_unsolicited.flags F_BIT = false ∧
          hdr_write_unsolicited.exp_xfer_len ≠ 0)) ∧
      (∀ b, iscsi_handle_scsi_cmd_attach util_ok { ops_initial_r2t with InitialR2T := b } sess_s1
          hdr_write_unsolicited
        = iscsi_handle_scsi_cmd_attach util_ok ops_initial_r2t sess_s1 hdr_write_unsolicited) ∧
      (cmd_write_unsolicited.unsolicited_data = true → ops_initial_r2t.InitialR2T = true →
        ∀ dhdr : iscsi_init_scsi_data_out,
          iscsi_handle_data_out_unsolicited util_ok ops_initial_r2t
            (some cmd_write_unsolicited) dhdr ≠ handler_result.proceed ∧
          (iscsi_handle_data_out util_ok ops_initial_r2t (some cmd_write_unsolicited) dhdr
              = handler_result.proceed →
            iscsi_handle_data_out_unsolicited util_ok ops_initial_r2t
              (some cmd_write_unsolicited) dhdr = handler_result.returned (-1) none))) ∧
    cmd_write_unsolicited.unsolicited_data = true ∧
    iscsi_handle_data_out_unsolicited util_ok ops_initial_r2t (some cmd_write_unsolicited)
      { init_task_tag := 2, offset := 0, length := 8192 } = handler_result.returned (-1) none :=
  ⟨unsolicited_data_of_accepted util_ok ops_initial_r2t sess_s1 hdr_write_unsolicited
    cmd_write_unsolicited (by decide) (by decide), by decide, by decide⟩


/-! ## C23: the text of a Text request -/

/-- The byte lists of the C23 texts are the bytes of the strings they stand
for. -/
theorem text_bytes :
    text_send_targets = "SendTargets".toList.map Char.toNat ∧
    text_equals_all = "=All".toList.map Char.toNat ∧
    text_send_targets_all = "SendTargets=All\x00".toList.map Char.toNat ∧
    text_send_targets_x_all = "SendTargetsX=All\x00".toList.map Char.toNat ∧
    text_send_targets_allx = "SendTargets=Allx\x00".toList.map Char.toNat ∧
    text_send_targets_iqn_x = "SendTargets=iqn.x\x00".toList.map Char.toNat := by
  decide

/-- Claim C23, on the code. The Text request with the 16 bytes `SendTargets=All`
is accepted (return value 0, the command put on the response queue in state
`ISTATE_SEND_TEXTRSP`) and the one with `SendTargets=iqn.x` fails with -1 and no
command, as the claim says; but the requests with the 17 bytes
`SendTargetsX=All` and `SendTargets=Allx` are accepted in the same way as
`SendTargets=All`, where the claim has the handler fail. -/
theorem text_cmd_accepts_longer_key_and_value :
    iscsi_handle_text_cmd_full util_ok ops_s1 {} text_send_targets_all (hdr_text 16)
      = { ret := 0, cmd := some (text_cmd (hdr_text 16)),
          response_queue := [ISTATE_SEND_TEXTRSP] } ∧
    iscsi_handle_text_cmd_full util_ok ops_s1 {} text_send_targets_iqn_x (hdr_text 18)
      = { ret := -1 } ∧
    iscsi_handle_text_cmd_full util_ok ops_s1 {} text_send_targets_x_all (hdr_text 17)
      = { ret := 0, cmd := some (text_cmd (hdr_text 17)),
          response_queue := [ISTATE_SEND_TEXTRSP] } ∧
    iscsi_handle_text_cmd_full util_ok ops_s1 {} text_send_targets_allx (hdr_text 17)
      = { ret := 0, cmd := some (text_cmd (hdr_text 17)),
          response_queue := [ISTATE_SEND_TEXTRSP] } := by
  decide


/-! ## C24: target transfer tags -/

/-- The tag taken from the session counter, with the reserved value skipped, is
not the reserved value, whatever the counter holds. -/
theorem ttt_skip_not_reserved (s : Nat) :
    (if s = 0xFFFFFFFF then add32 s 1 else s) ≠ 0xFFFFFFFF := by
  by_cases h : s = 0xFFFFFFFF
  · rw [if_pos h, h]; decide
  · rw [if_neg h]; exact h

/-- The function `iscsi_add_reject_from_cmd` leaves the target transfer tag of
the command alone. -/
theorem add_reject_from_cmd_ttt (U : iscsi_util) (reason : reject_reason) (fail_conn : Bool)
    (cmd : iscsi_cmd) :
    (iscsi_add_reject_from_cmd U reason fail_conn cmd).2.1.targ_xfer_tag
      = cmd.targ_xfer_tag := by
  unfold iscsi_add_reject_from_cmd
  split_ifs <;> rfl

theorem scsi_cmd_ttt_ok_none (flags : Nat) (r : scsi_cmd_attach) (h : r.cmd = none) :
    scsi_cmd_ttt_ok flags r := by
  intro c hc
  rw [h] at hc
  exact absurd hc (by simp)

theorem scsi_cmd_ttt_ok_ite (flags : Nat) (c : Prop) [Decidable c] (x y : scsi_cmd_attach)
    (hx : c → scsi_cmd_ttt_ok flags x) (hy : ¬ c → scsi_cmd_ttt_ok flags y) :
    scsi_cmd_ttt_ok flags (if c then x else y) := by
  by_cases h : c
  · rw [if_pos h]; exact hx h
  · rw [if_neg h]; exact hy h

theorem scsi_cmd_ttt_ok_cmd (flags s t : Nat) (r : scsi_cmd_attach) (c0 : iscsi_cmd)
    (hc : r.cmd = some c0)
    (ht : c0.targ_xfer_tag =
      if has_bit flags R_BIT then (if s = 0xFFFFFFFF then add32 s 1 else s)
      else if has_bit flags W_BIT then 0xFFFFFFFF
      else t) :
    scsi_cmd_ttt_ok flags r := by
  intro c hc2
  rw [hc] at hc2
  simp only [Option.some.injEq] at hc2
  rw [← hc2, ht]
  constructor
  · intro hr
    rw [if_pos hr]
    exact ttt_skip_not_reserved s
  · intro hr hw
    rw [hr, hw]
    rfl

/-- The command that `iscsi_handle_scsi_cmd` has allocated has a target transfer
tag other than the reserved value for a read and the reserved value for a
write. -/
theorem handle_scsi_cmd_attach_ttt (U : iscsi_util) (ops : iscsi_ops)
    (sess : iscsi_session) (hdr : iscsi_init_scsi_cmnd) :
    scsi_cmd_ttt_ok (scsi_cmd_hdr_done hdr).flags
      (iscsi_handle_scsi_cmd_attach U ops sess hdr) := by
  unfold iscsi_handle_scsi_cmd_attach
  split
  · exact scsi_cmd_ttt_ok_none _ _ rfl
  · exact scsi_cmd_ttt_ok_none _ _ rfl
  · dsimp only
    split
    · exact scsi_cmd_ttt_ok_none _ _ rfl
    · rename_i cmd0 _
      refine scsi_cmd_ttt_ok_ite _ _ _ _ (fun _ => ?_) (fun _ => ?_)
      · refine scsi_cmd_ttt_ok_cmd _ sess.targ_xfer_tag cmd0.targ_xfer_tag _ _ rfl ?_
        rw [add_reject_from_cmd_ttt]
      · split
        · refine scsi_cmd_ttt_ok_cmd _ sess.targ_xfer_tag cmd0.targ_xfer_tag _ _ rfl ?_
          rw [add_reject_from_cmd_ttt]
          split_ifs <;> rfl
        · refine scsi_cmd_ttt_ok_cmd _ sess.targ_xfer_tag cmd0.targ_xfer_tag _ _ rfl ?_
          split_ifs <;> rfl
        · refine scsi_cmd_ttt_ok_ite _ _ _ _ (fun _ => ?_) (fun _ => ?_)
          · refine scsi_cmd_ttt_ok_cmd _ sess.targ_xfer_tag cmd0.targ_xfer_tag _ _ rfl ?_
            rw [add_reject_from_cmd_ttt]
            split_ifs <;> rfl
          · refine scsi_cmd_ttt_ok_ite _ _ _ _ (fun _ => ?_) (fun _ => ?_)
            · refine scsi_cmd_ttt_ok_cmd _ sess.targ_xfer_tag cmd0.targ_xfer_tag _ _ rfl ?_
              split_ifs <;> rfl
            · refine scsi_cmd_ttt_ok_ite _ _ _ _ (fun _ => ?_) (fun _ => ?_)
              · refine scsi_cmd_ttt_ok_cmd _ sess.targ_xfer_tag cmd0.targ_xfer_tag _ _ rfl ?_
                rw [add_reject_from_cmd_ttt]
                split_ifs <;> rfl
              · refine scsi_cmd_ttt_ok_cmd _ sess.targ_xfer_tag cmd0.targ_xfer_tag _ _ rfl ?_
                split_ifs <;> rfl

/-- The R2T that `iscsi_send_r2t` sends carries a target transfer tag other than
the reserved value, and the same tag is stored in the R2T of the command. -/
theorem send_r2t_ttt (U : iscsi_util) (cmd : iscsi_cmd) (conn : iscsi_conn)
    (sess : iscsi_session) (h : iscsi_targ_r2t)
    (hh : (iscsi_send_r2t U cmd conn sess).hdr = some h) :
    h.targ_xfer_tag ≠ 0xFFFFFFFF ∧
    ∃ i r2t, cmd.r2t_list.get? i = some r2t ∧
      (iscsi_send_r2t U cmd conn sess).cmd.r2t_list
        = cmd.r2t_list.set i { r2t with targ_xfer_tag := h.targ_xfer_tag, sent_r2t := true } := by
  unfold iscsi_send_r2t at hh ⊢
  split at hh
  · exact absurd hh (by simp)
  · rename_i i r2t heq
    simp only [Option.some.injEq] at hh
    rw [← hh]
    refine ⟨ttt_skip_not_reserved sess.targ_xfer_tag, i, r2t, ?_, rfl⟩
    cases hg : U.iscsi_get_r2t_from_list cmd with
    | none => rw [hg] at heq; exact absurd heq (by simp)
    | some j =>
      rw [hg] at heq
      simp only [Option.some_bind] at heq
      cases hj : cmd.r2t_list.get? j with
      | none => rw [hj] at heq; exact absurd heq (by simp)
      | some r =>
        rw [hj] at heq
        simp only [Option.map_some', Option.some.injEq, Prod.mk.injEq] at heq
        rw [← heq.1, ← heq.2]
        exact hj

/-- The NopIn that `iscsi_add_nopin` sets up: the ITT is the reserved value; the
TTT is the reserved value without `want_response` and another value with it. -/
theorem add_nopin_tags (U : iscsi_util) (sess : iscsi_session) (want_response : Bool)
    (c : iscsi_cmd) (hc : (iscsi_add_nopin U sess want_response).cmd = some c) :
    c.init_task_tag = 0xFFFFFFFF ∧
    (want_response = true → c.targ_xfer_tag ≠ 0xFFFFFFFF) ∧
    (want_response = false → c.targ_xfer_tag = 0xFFFFFFFF) := by
  by_cases h1 : U.iscsi_allocate_cmd_ok = true
  swap
  · simp [iscsi_add_nopin, h1] at hc
  cases want_response
  · simp [iscsi_add_nopin, h1] at hc
    rw [← hc]
    simp
  · by_cases hs : sess.targ_xfer_tag = 0xFFFFFFFF
    · simp [iscsi_add_nopin, h1, hs] at hc
      rw [← hc]
      refine ⟨rfl, fun _ => ?_, fun h => absurd h (by simp)⟩
      decide
    · simp [iscsi_add_nopin, h1, hs] at hc
      rw [← hc]
      exact ⟨rfl, fun _ => hs, fun h => absurd h (by simp)⟩

/-- Claim C24. Whatever the session counter `sess.targ_xfer_tag` holds (the
reserved value included), the Target Transfer Tag that `iscsi_send_r2t` gives to
an R2T, the one `iscsi_handle_scsi_cmd` gives to a command whose header has
`R_BIT` at the label `done`, and the one `iscsi_add_nopin` gives to a NopIn that
wants a response are all different from `0xFFFFFFFF`. The value `0xFFFFFFFF` is
what a command with `W_BIT` and no `R_BIT`, a NopIn without response and the
commands set up for NopOut, Text, Logout and Task Management requests receive.
The command of `iscsi_add_nopin` has ITT `0xFFFFFFFF`, and so has the header
that `iscsi_send_unsolicited_nopin` builds from it. -/
theorem ttt_never_reserved (U : iscsi_util) (sess : iscsi_session) :
    (∀ cmd conn h, (iscsi_send_r2t U cmd conn sess).hdr = some h →
      h.targ_xfer_tag ≠ 0xFFFFFFFF ∧
      ∃ i r2t, cmd.r2t_list.get? i = some r2t ∧
        (iscsi_send_r2t U cmd conn sess).cmd.r2t_list
          = cmd.r2t_list.set i
              { r2t with targ_xfer_tag := h.targ_xfer_tag, sent_r2t := true }) ∧
    (∀ ops hdr c, (iscsi_handle_scsi_cmd_attach U ops sess hdr).cmd = some c →
      (has_bit (scsi_cmd_hdr_done hdr).flags R_BIT = true → c.targ_xfer_tag ≠ 0xFFFFFFFF) ∧
      (has_bit (scsi_cmd_hdr_done hdr).flags R_BIT = false →
        has_bit (scsi_cmd_hdr_done hdr).flags W_BIT = true →
        c.targ_xfer_tag = 0xFFFFFFFF)) ∧
    (∀ want_response c, (iscsi_add_nopin U sess want_response).cmd = some c →
      c.init_task_tag = 0xFFFFFFFF ∧
      (want_response = true → c.targ_xfer_tag ≠ 0xFFFFFFFF) ∧
      (want_response = false → c.targ_xfer_tag = 0xFFFFFFFF) ∧
      ∀ conn h,
        (iscsi_send_unsolicited_nopin U c conn
          (iscsi_add_nopin U sess want_response).sess).hdr = some h →
        h.init_task_tag = 0xFFFFFFFF ∧ h.targ_xfer_tag = c.targ_xfer_tag) ∧
    (∀ hdr, (nop_out_cmd hdr).targ_xfer_tag = 0xFFFFFFFF) ∧
    (∀ hdr, (text_cmd hdr).targ_xfer_tag = 0xFFFFFFFF) ∧
    (∀ hdr, (logout_cmd hdr).targ_xfer_tag = 0xFFFFFFFF) ∧
    (∀ cmd hdr, (task_mgt_cmd cmd hdr).targ_xfer_tag = 0xFFFFFFFF) := by
  refine ⟨fun cmd conn h hh => send_r2t_ttt U cmd conn sess h hh,
    fun ops hdr c hc => handle_scsi_cmd_attach_ttt U ops sess hdr c hc,
    fun w c hc => ?_, fun _ => rfl, fun _ => rfl, fun _ => rfl, fun _ _ => rfl⟩
  have ht := add_nopin_tags U sess w c hc
  refine ⟨ht.1, ht.2.1, ht.2.2, fun conn h hh => ?_⟩
  unfold iscsi_send_unsolicited_nopin at hh
  simp only [Option.some.injEq] at hh
  rw [← hh]
  exact ⟨ht.1, rfl⟩

/-- A use of C24 with the session counter at `0xFFFFFFFF`: the R2T, the READ
command and the NopIn that wants a response each receive the tag 0 and leave the
counter at 1. -/
theorem ttt_never_reserved_witness :
    (iscsi_send_r2t util_ok cmd_write_r2t conn_s1 sess_ttt_wrap).hdr.map
        (fun h => h.targ_xfer_tag) = some 0 ∧
    (iscsi_send_r2t util_ok cmd_write_r2t conn_s1 sess_ttt_wrap).sess.targ_xfer_tag = 1 ∧
    (iscsi_handle_scsi_cmd_attach util_ok ops_s1 sess_ttt_wrap hdr_read_512).cmd.map
        (fun c => c.targ_xfer_tag) = some 0 ∧
    (iscsi_handle_scsi_cmd_attach util_ok ops_s1 sess_ttt_wrap hdr_read_512).sess.targ_xfer_tag
      = 1 ∧
    (iscsi_add_nopin util_ok sess_ttt_wrap true).cmd.map (fun c => c.targ_xfer_tag) = some 0 ∧
    (iscsi_add_nopin util_ok sess_ttt_wrap true).sess.targ_xfer_tag = 1 ∧
    (iscsi_add_nopin util_ok sess_ttt_wrap false).cmd.map (fun c => c.targ_xfer_tag)
      = some 0xFFFFFFFF ∧
    (iscsi_add_nopin util_ok sess_ttt_wrap false).sess.targ_xfer_tag = 0xFFFFFFFF ∧
    (iscsi_add_nopin util_ok sess_ttt_wrap true).cmd = some cmd_nopin_wrap ∧
    (cmd_nopin_wrap.init_task_tag = 0xFFFFFFFF ∧
      (true = true → cmd_nopin_wrap.targ_xfer_tag ≠ 0xFFFFFFFF) ∧
      (true = false → cmd_nopin_wrap.targ_xfer_tag = 0xFFFFFFFF) ∧
      ∀ conn h,
        (iscsi_send_unsolicited_nopin util_ok cmd_nopin_wrap conn
          (iscsi_add_nopin util_ok sess_ttt_wrap true).sess).hdr = some h →
        h.init_task_tag = 0xFFFFFFFF ∧ h.targ_xfer_tag = cmd_nopin_wrap.targ_xfer_tag) :=
  ⟨by decide, by decide, by decide, by decide, by decide, by decide, by decide, by decide,
   by decide,
   (ttt_never_reserved util_ok sess_ttt_wrap).2.2.1 true cmd_nopin_wrap (by decide)⟩


/-! ## C25: a login with a non-zero TSIH -/

/-- The two tests of the loop of `iscsi_login_non_zero_tsih_s2`, in the fields
of the session. -/
theorem login_session_eligible_iff (pdu : iscsi_init_login_cmnd) (sess : iscsi_session) :
    login_session_eligible pdu sess ↔
      (login_session_skipped sess = false ∧ login_session_matches pdu sess = true) := by
  unfold login_session_eligible login_session_skipped login_session_matches
  simp only [Bool.or_eq_false_iff, Bool.and_eq_true, decide_eq_true_eq]
  tauto

/-- The loop of `iscsi_login_non_zero_tsih_s2` ends with `sess` at `NULL`
exactly when no session of the list passes its two tests. -/
theorem login_find_session_none (pdu : iscsi_init_login_cmnd) (l : List iscsi_session) :
    login_find_session pdu l = none ↔ ∀ s ∈ l, ¬ login_session_eligible pdu s := by
  induction l with
  | nil => simp [login_find_session]
  | cons a rest ih =>
    unfold login_find_session
    by_cases h1 : login_session_skipped a = true
    · rw [if_pos h1]
      simp only [Option.map_eq_none', ih, List.mem_cons, forall_eq_or_imp]
      constructor
      · intro h
        refine ⟨fun he => ?_, h⟩
        rw [login_session_eligible_iff] at he
        rw [he.1] at h1
        exact absurd h1 (by simp)
      · exact fun h => h.2
    · rw [if_neg h1]
      by_cases h2 : login_session_matches pdu a = true
      · rw [if_pos h2]
        simp only [List.mem_cons, forall_eq_or_imp, reduceCtorEq, false_iff, not_and]
        intro h
        exact absurd ((login_session_eligible_iff pdu a).2
          ⟨by simpa using h1, h2⟩) h
      · rw [if_neg h2]
        simp only [Option.map_eq_none', ih, List.mem_cons, forall_eq_or_imp]
        constructor
        · intro h
          refine ⟨fun he => ?_, h⟩
          rw [login_session_eligible_iff] at he
          exact h2 he.2
        · exact fun h => h.2

/-- The session that the loop of `iscsi_login_non_zero_tsih_s2` selects is the
first of the list that passes its two tests. -/
theorem login_find_session_some (pdu : iscsi_init_login_cmnd) (l : List iscsi_session)
    (before behind : List iscsi_session) (s : iscsi_session)
    (h : login_find_session pdu l = some (before, s, behind)) :
    l = before ++ s :: behind ∧ (∀ x ∈ before, ¬ login_session_eligible pdu x) ∧
      login_session_eligible pdu s := by
  induction l generalizing before with
  | nil => simp [login_find_session] at h
  | cons a rest ih =>
    unfold login_find_session at h
    have key : (login_find_session pdu rest).map (fun r => (a :: r.1, r.2.1, r.2.2))
        = some (before, s, behind) → ¬ login_session_eligible pdu a →
        a :: rest = before ++ s :: behind ∧ (∀ x ∈ before, ¬ login_session_eligible pdu x) ∧
          login_session_eligible pdu s := by
      intro hm ha
      cases hr : login_find_session pdu rest with
      | none => rw [hr] at hm; exact absurd hm (by simp)
      | some r =>
        obtain ⟨b, s2, e⟩ := r
        rw [hr] at hm
        simp only [Option.map_some', Option.some.injEq, Prod.mk.injEq] at hm
        obtain ⟨hb, hs, he⟩ := hm
        subst hb hs he
        have := ih b hr
        refine ⟨by rw [this.1]; rfl, ?_, this.2.2⟩
        intro x hx
        rcases List.mem_cons.1 hx with hx | hx
        · rw [hx]; exact ha
        · exact this.2.1 x hx
    by_cases h1 : login_session_skipped a = true
    · rw [if_pos h1] at h
      refine key h (fun he => ?_)
      rw [login_session_eligible_iff] at he
      rw [he.1] at h1
      exact absurd h1 (by simp)
    · rw [if_neg h1] at h
      by_cases h2 : login_session_matches pdu a = true
      · rw [if_pos h2] at h
        simp only [Option.some.injEq, Prod.mk.injEq] at h
        obtain ⟨hb, hs, he⟩ := h
        subst hb hs he
        exact ⟨rfl, fun x hx => absurd hx (by simp),
          (login_session_eligible_iff pdu a).2 ⟨by simpa using h1, h2⟩⟩
      · rw [if_neg h2] at h
        refine key h (fun he => ?_)
        rw [login_session_eligible_iff] at he
        exact h2 he.2

/-- The session that `iscsi_login_non_zero_tsih_s2` works on after its loop: the
usage count is one higher, and `session_continuation` is set when the session is
in the Failed state. -/
theorem login_selected_session (s : iscsi_session) :
    (if (iscsi_inc_session_usage_count s).session_state = TARG_SESS_STATE_FAILED then
        { iscsi_inc_session_usage_count s with session_continuation := true }
      else iscsi_inc_session_usage_count s)
      = { s with
          session_usage_count := s.session_usage_count + 1
          session_continuation :=
            s.session_continuation || decide (s.session_state = TARG_SESS_STATE_FAILED) } := by
  unfold iscsi_inc_session_usage_count
  by_cases h : s.session_state = TARG_SESS_STATE_FAILED
  · rw [if_pos h]
    simp [h]
  · rw [if_neg h]
    simp [h]

/-- Claim C25. The function `iscsi_login_non_zero_tsih_s2` sends the status
SessionDoesNotExist exactly when no session of the portal group's list is
eligible (not falling back to ERL=0, not logging out, Time2Retain not expired,
with the 6 bytes of the ISID and the TSIH of the login request); it then returns
-1, selects no session and leaves the list as it is. Otherwise it selects the
first eligible session in list order, adds one to its usage count, and writes 1
to `session_continuation` exactly when that session is in the Failed state (the
flag keeps its value otherwise); a later failure is reported as OutOfResource. -/
theorem login_non_zero_tsih_session (U : iscsi_util) (l : List iscsi_session)
    (pdu : iscsi_init_login_cmnd) :
    ((iscsi_login_non_zero_tsih_s2 U l pdu).status = some STAT_DETAIL_SESSION_DOES_NOT_EXIST ↔
      ∀ s ∈ l, ¬ login_session_eligible pdu s) ∧
    ((∀ s ∈ l, ¬ login_session_eligible pdu s) →
      iscsi_login_non_zero_tsih_s2 U l pdu
        = { ret := -1, status := some STAT_DETAIL_SESSION_DOES_NOT_EXIST,
            tpg_sess_list := l }) ∧
    ((∃ s ∈ l, login_session_eligible pdu s) →
      ∃ before s behind, l = before ++ s :: behind ∧
        (∀ x ∈ before, ¬ login_session_eligible pdu x) ∧ login_session_eligible pdu s ∧
        (iscsi_login_non_zero_tsih_s2 U l pdu).sess
          = some { s with
              session_usage_count := s.session_usage_count + 1
              session_continuation :=
                s.session_continuation ||
                  decide (s.session_state = TARG_SESS_STATE_FAILED) } ∧
        (iscsi_login_non_zero_tsih_s2 U l pdu).tpg_sess_list
          = before ++
              { s with
                session_usage_count := s.session_usage_count + 1
                session_continuation :=
                  s.session_continuation ||
                    decide (s.session_state = TARG_SESS_STATE_FAILED) } :: behind) := by
  cases hf : login_find_session pdu l with
  | none =>
    have hn := (login_find_session_none pdu l).1 hf
    have he : iscsi_login_non_zero_tsih_s2 U l pdu
        = { ret := -1, status := some STAT_DETAIL_SESSION_DOES_NOT_EXIST,
            tpg_sess_list := l } := by
      unfold iscsi_login_non_zero_tsih_s2
      rw [hf]
    refine ⟨?_, fun _ => he, fun ⟨s, hs, hel⟩ => absurd hel (hn s hs)⟩
    rw [he]
    exact ⟨fun _ => hn, fun _ => rfl⟩
  | some r =>
    obtain ⟨before, s, behind⟩ := r
    have hs := login_find_session_some pdu l before behind s hf
    have hmem : s ∈ l := by rw [hs.1]; simp
    have hex : ¬ ∀ x ∈ l, ¬ login_session_eligible pdu x := fun h => h s hmem hs.2.2
    have hstat : (iscsi_login_non_zero_tsih_s2 U l pdu).status
        ≠ some STAT_DETAIL_SESSION_DOES_NOT_EXIST := by
      unfold iscsi_login_non_zero_tsih_s2
      rw [hf]
      dsimp only
      split_ifs <;> simp
    refine ⟨⟨fun h => absurd h hstat, fun h => absurd h hex⟩, fun h => absurd h hex,
      fun _ => ⟨before, s, behind, hs.1, hs.2.1, hs.2.2, ?_, ?_⟩⟩
    · rw [← login_selected_session s]
      unfold iscsi_login_non_zero_tsih_s2
      rw [hf]
      dsimp only
      split_ifs <;> rfl
    · rw [← login_selected_session s]
      unfold iscsi_login_non_zero_tsih_s2
      rw [hf]
      dsimp only
      split_ifs <;> rfl

/-- A use of C25 on a list of four sessions: the first has another TSIH, the
second logs out, the third (in the Failed state, usage count 2) is selected, and
the fourth, which would pass the tests too, is left alone. -/
theorem login_non_zero_tsih_session_witness :
    (∃ s ∈ login_sess_list, login_session_eligible pdu_login_tsih s) ∧
    iscsi_login_non_zero_tsih_s2 util_ok login_sess_list pdu_login_tsih
      = { ret := 0
          sess := some { isid := [0x00, 0x02, 0x3d, 0x00, 0x00, 0x01], tsih := 7,
                         session_state := TARG_SESS_STATE_FAILED, session_usage_count := 3,
                         session_continuation := true }
          tpg_sess_list :=
            [{ isid := [0x00, 0x02, 0x3d, 0x00, 0x00, 0x01], tsih := 6 },
             { isid := [0x00, 0x02, 0x3d, 0x00, 0x00, 0x01], tsih := 7, session_logout := true },
             { isid := [0x00, 0x02, 0x3d, 0x00, 0x00, 0x01], tsih := 7,
               session_state := TARG_SESS_STATE_FAILED, session_usage_count := 3,
               session_continuation := true },
             { isid := [0x00, 0x02, 0x3d, 0x00, 0x00, 0x01], tsih := 7 }] } ∧
    (∃ before s behind, login_sess_list = before ++ s :: behind ∧
        (∀ x ∈ before, ¬ login_session_eligible pdu_login_tsih x) ∧
        login_session_eligible pdu_login_tsih s ∧
        (iscsi_login_non_zero_tsih_s2 util_ok login_sess_list pdu_login_tsih).sess
          = some { s with
              session_usage_count := s.session_usage_count + 1
              session_continuation :=
                s.session_continuation ||
                  decide (s.session_state = TARG_SESS_STATE_FAILED) } ∧
        (iscsi_login_non_zero_tsih_s2 util_ok login_sess_list pdu_login_tsih).tpg_sess_list
          = before ++
              { s with
                session_usage_count := s.session_usage_count + 1
                session_continuation :=
                  s.session_continuation ||
                    decide (s.session_state = TARG_SESS_STATE_FAILED) } :: behind) :=
  ⟨⟨{ isid := [0x00, 0x02, 0x3d, 0x00, 0x00, 0x01], tsih := 7 }, by decide, by decide⟩,
   by decide,
   (login_non_zero_tsih_session util_ok login_sess_list pdu_login_tsih).2.2
     ⟨{ isid := [0x00, 0x02, 0x3d, 0x00, 0x00, 0x01], tsih := 7 }, by decide, by decide⟩⟩


/-! ## C26: the registry of targets -/

/-- The target that `core_get_tiqn_for_login` returns is on the list with the
name asked for and in the Active state, and the call has passed its access count
through `atomic_inc`. -/
theorem core_get_tiqn_some (buf : String) (l : List iscsi_tiqn) (i : Nat)
    (h : (core_get_tiqn_for_login buf l).1 = some i) :
    ∃ t, l.get? i = some t ∧ t.tiqn = buf ∧ t.tiqn_state = TIQN_STATE_ACTIVE ∧
      (core_get_tiqn_for_login buf l).2
        = l.set i { t with tiqn_access_count := atomic_inc t.tiqn_access_count } := by
  induction l generalizing i with
  | nil => simp [core_get_tiqn_for_login] at h
  | cons a rest ih =>
    unfold core_get_tiqn_for_login at h ⊢
    by_cases hc : a.tiqn = buf ∧ a.tiqn_state = TIQN_STATE_ACTIVE
    · rw [if_pos hc] at h ⊢
      simp only [Option.some.injEq] at h
      subst h
      exact ⟨a, rfl, hc.1, hc.2, rfl⟩
    · rw [if_neg hc] at h ⊢
      cases hr : (core_get_tiqn_for_login buf rest).1 with
      | none => rw [hr] at h; exact absurd h (by simp)
      | some j =>
        rw [hr] at h
        simp only [Option.map_some', Option.some.injEq] at h
        subst h
        obtain ⟨t, h1, h2, h3, h4⟩ := ih j hr
        refine ⟨t, by simpa using h1, h2, h3, ?_⟩
        simp only [List.set_cons_succ, h4]

/-- Without a target of the name asked for in the Active state,
`core_get_tiqn_for_login` returns `NULL` and leaves the list as it is. -/
theorem core_get_tiqn_none (buf : String) (l : List iscsi_tiqn)
    (h : ∀ t ∈ l, ¬ (t.tiqn = buf ∧ t.tiqn_state = TIQN_STATE_ACTIVE)) :
    core_get_tiqn_for_login buf l = (none, l) := by
  induction l with
  | nil => rfl
  | cons a rest ih =>
    unfold core_get_tiqn_for_login
    rw [if_neg (h a (by simp)), ih (fun t ht => h t (by simp [ht]))]
    rfl

/-- With a target of the name asked for in the Active state,
`core_get_tiqn_for_login` returns a target. -/
theorem core_get_tiqn_is_some (buf : String) (l : List iscsi_tiqn) (t : iscsi_tiqn)
    (ht : t ∈ l) (hn : t.tiqn = buf) (hs : t.tiqn_state = TIQN_STATE_ACTIVE) :
    (core_get_tiqn_for_login buf l).1 ≠ none := by
  induction l with
  | nil => simp at ht
  | cons a rest ih =>
    unfold core_get_tiqn_for_login
    by_cases hc : a.tiqn = buf ∧ a.tiqn_state = TIQN_STATE_ACTIVE
    · rw [if_pos hc]; simp
    · rw [if_neg hc]
      rcases List.mem_cons.1 ht with hta | hta
      · rw [hta] at hn hs; exact absurd ⟨hn, hs⟩ hc
      · have := ih hta
        simpa using this

/-- The function `core_add_tiqn` keeps the names on the list distinct. -/
theorem core_add_tiqn_nodup (buf : String) (alloc_ok : Bool) (index : Nat)
    (l : List iscsi_tiqn) (h : (l.map (fun t => t.tiqn)).Nodup) :
    ((core_add_tiqn buf alloc_ok index l).2.map (fun t => t.tiqn)).Nodup := by
  unfold core_add_tiqn
  split_ifs with h1 h2 h3
  · exact h
  · exact h
  · exact h
  · simp only [List.map_append, List.map_cons, List.map_nil]
    rw [List.nodup_append]
    refine ⟨h, by simp, ?_⟩
    intro a ha hb
    simp only [List.mem_singleton] at hb
    subst hb
    simp only [List.mem_map] at ha
    obtain ⟨t, ht, hte⟩ := ha
    apply h2
    simp only [List.any_eq_true, decide_eq_true_eq]
    exact ⟨t, ht, hte⟩

/-- On a list of distinct names, no target that has been marked for shutdown is
returned by `core_get_tiqn_for_login`, and the list stays as it is. -/
theorem core_get_tiqn_shutdown (l : List iscsi_tiqn) (i : Nat) (t : iscsi_tiqn)
    (hnd : (l.map (fun t => t.tiqn)).Nodup) (hi : l.get? i = some t)
    (hs : t.tiqn_state = TIQN_STATE_SHUTDOWN) :
    core_get_tiqn_for_login t.tiqn l = (none, l) := by
  apply core_get_tiqn_none
  intro t2 ht2 hc
  have hmem : t ∈ l := List.get?_mem hi
  have := List.inj_on_of_nodup_map hnd ht2 hmem hc.1
  rw [this, hs] at hc
  exact absurd hc.2 (by simp)

/-- Marking a target for shutdown leaves the names on the list as they are. -/
theorem tiqn_names_set_shutdown (l : List iscsi_tiqn) (i : Nat) (t : iscsi_tiqn)
    (hi : l.get? i = some t) :
    (l.set i { t with tiqn_state := TIQN_STATE_SHUTDOWN }).map (fun t => t.tiqn)
      = l.map (fun t => t.tiqn) := by
  induction l generalizing i with
  | nil => rfl
  | cons a rest ih =>
    cases i with
    | zero =>
      simp only [List.get?_cons_zero, Option.some.injEq] at hi
      subst hi
      rfl
    | succ j =>
      simp only [List.get?_cons_succ] at hi
      simp only [List.set_cons_succ, List.map_cons, ih j hi]

/-- The list with the target at a place replaced and then unlinked is the list
with that place unlinked. -/
theorem tiqn_erase_set (l : List iscsi_tiqn) (i : Nat) (t : iscsi_tiqn) :
    (l.set i t).eraseIdx i = l.eraseIdx i := by
  induction l generalizing i with
  | nil => rfl
  | cons a rest ih =>
    cases i with
    | zero => rfl
    | succ j => simp only [List.set_cons_succ, List.eraseIdx_cons_succ, ih j]

/-- Claim C26. On a registry of distinct names (what `core_add_tiqn` keeps):
`core_get_tiqn_for_login` returns a target only if the target has exactly the
name asked for and is Active, and it has then passed the access count of that
target, and of no other, through `atomic_inc` (one more, below the largest
`int`); when it returns `NULL` the registry is unchanged;
`core_put_tiqn_for_login` takes one off the count (above the smallest `int`).
`core_del_tiqn` on an Active target marks it Shutdown and sleeps while the count
is not 0, or unlinks it and returns 0. For a target marked Shutdown,
`core_get_tiqn_for_login` for its name returns `NULL` and leaves the registry,
the access count included, unchanged, and `core_del_tiqn` returns -1 and leaves
the registry unchanged. -/
theorem tiqn_access_counting (l : List iscsi_tiqn)
    (hnd : (l.map (fun t => t.tiqn)).Nodup) :
    (∀ buf i, (core_get_tiqn_for_login buf l).1 = some i →
      ∃ t, l.get? i = some t ∧ t.tiqn = buf ∧ t.tiqn_state = TIQN_STATE_ACTIVE ∧
        (core_get_tiqn_for_login buf l).2
          = l.set i { t with tiqn_access_count := atomic_inc t.tiqn_access_count } ∧
        (t.tiqn_access_count < 2147483647 →
          atomic_inc t.tiqn_access_count = t.tiqn_access_count + 1)) ∧
    (∀ buf, (core_get_tiqn_for_login buf l).1 = none →
      (core_get_tiqn_for_login buf l).2 = l ∧
      ∀ t ∈ l, ¬ (t.tiqn = buf ∧ t.tiqn_state = TIQN_STATE_ACTIVE)) ∧
    (∀ t : iscsi_tiqn,
      core_put_tiqn_for_login t
        = { t with tiqn_access_count := atomic_dec t.tiqn_access_count } ∧
      (-2147483648 < t.tiqn_access_count →
        atomic_dec t.tiqn_access_count = t.tiqn_access_count - 1)) ∧
    (∀ i t, l.get? i = some t → t.tiqn_state = TIQN_STATE_ACTIVE →
      (t.tiqn_access_count ≠ 0 →
        core_del_tiqn i l
          = core_del_result.waiting (l.set i { t with tiqn_state := TIQN_STATE_SHUTDOWN })) ∧
      (t.tiqn_access_count = 0 →
        core_del_tiqn i l = core_del_result.returned 0 (l.eraseIdx i)) ∧
      ((l.set i { t with tiqn_state := TIQN_STATE_SHUTDOWN }).map (fun t => t.tiqn)).Nodup) ∧
    (∀ i t, l.get? i = some t → t.tiqn_state = TIQN_STATE_SHUTDOWN →
      core_get_tiqn_for_login t.tiqn l = (none, l) ∧
      core_del_tiqn i l = core_del_result.returned (-1) l) := by
  refine ⟨fun buf i h => ?_, fun buf h => ?_, fun t => ⟨rfl, fun h => ?_⟩,
    fun i t hi hs => ⟨fun hc => ?_, fun hc => ?_, ?_⟩, fun i t hi hs => ⟨?_, ?_⟩⟩
  · obtain ⟨t, h1, h2, h3, h4⟩ := core_get_tiqn_some buf l i h
    refine ⟨t, h1, h2, h3, h4, fun hlt => ?_⟩
    unfold atomic_inc
    rw [if_neg (by omega)]
  · have hall : ∀ t ∈ l, ¬ (t.tiqn = buf ∧ t.tiqn_state = TIQN_STATE_ACTIVE) :=
      fun t ht hc => core_get_tiqn_is_some buf l t ht hc.1 hc.2 h
    rw [core_get_tiqn_none buf l hall]
    exact ⟨rfl, hall⟩
  · unfold atomic_dec
    rw [if_neg (by omega)]
  · unfold core_del_tiqn
    rw [hi]
    simp only [core_set_tiqn_shutdown, hs, if_true]
    rw [if_neg (by decide)]
    unfold core_wait_and_del_tiqn
    have hlen : i < l.length := by
      rcases List.get?_eq_some.1 hi with ⟨h, _⟩
      exact h
    rw [List.get?_eq_getElem?, List.getElem?_set_eq_of_lt _ hlen]
    simp only []
    rw [if_pos hc]
  · unfold core_del_tiqn
    rw [hi]
    simp only [core_set_tiqn_shutdown, hs, if_true]
    rw [if_neg (by decide)]
    unfold core_wait_and_del_tiqn
    have hlen : i < l.length := by
      rcases List.get?_eq_some.1 hi with ⟨h, _⟩
      exact h
    rw [List.get?_eq_getElem?, List.getElem?_set_eq_of_lt _ hlen]
    simp only []
    rw [if_neg (by simpa using hc)]
    unfold __core_del_tiqn
    simp only [tiqn_erase_set]
  · rw [tiqn_names_set_shutdown l i t hi]
    exact hnd
  · exact core_get_tiqn_shutdown l i t hnd hi hs
  · unfold core_del_tiqn
    rw [hi]
    simp only [core_set_tiqn_shutdown, hs, reduceCtorEq, if_false]
    rw [if_pos (by decide)]

/-- A use of C26 on a registry of two targets: a login for the first target
raises its access count from 1 to 2; `core_del_tiqn` on the first target marks
it Shutdown and waits; afterwards a login for its name finds no target and the
registry stays as it is, and a second `core_del_tiqn` returns -1 and removes
nothing; `core_del_tiqn` on the second target, which is not in use, unlinks
it. -/
theorem tiqn_access_counting_witness :
    (tiqn_list_two.map (fun t => t.tiqn)).Nodup ∧
    core_get_tiqn_for_login "iqn.2003-01.org.linux-iscsi:a" tiqn_list_two
      = (some 0, [{ tiqn := "iqn.2003-01.org.linux-iscsi:a", tiqn_access_count := 2 },
                  { tiqn := "iqn.2003-01.org.linux-iscsi:b" }]) ∧
    core_del_tiqn 0 tiqn_list_two = core_del_result.waiting tiqn_list_shutdown ∧
    core_del_tiqn 1 tiqn_list_two
      = core_del_result.returned 0
          [{ tiqn := "iqn.2003-01.org.linux-iscsi:a", tiqn_access_count := 1 }] ∧
    (core_get_tiqn_for_login
        ({ tiqn := "iqn.2003-01.org.linux-iscsi:a", tiqn_access_count := 1,
           tiqn_state := TIQN_STATE_SHUTDOWN } : iscsi_tiqn).tiqn tiqn_list_shutdown
        = (none, tiqn_list_shutdown) ∧
      core_del_tiqn 0 tiqn_list_shutdown = core_del_result.returned (-1) tiqn_list_shutdown) :=
  ⟨by decide, by decide, by decide, by decide,
   (tiqn_access_counting tiqn_list_shutdown (by decide)).2.2.2.2 0
     { tiqn := "iqn.2003-01.org.linux-iscsi:a", tiqn_access_count := 1,
       tiqn_state := TIQN_STATE_SHUTDOWN } (by decide) (by decide)⟩


/-! ## C27: the bound on the run of a Data SNACK -/

/-- A Data SNACK whose run ends at the last DataSN sent is rejected: for a
completed command without a Data ACK that has sent the DataSNs `0` to
`data_sn - 1`, the run `begrun .. begrun + runlength - 1` with
`begrun + runlength = data_sn` does not pass the test
`(begrun + runlength) > (cmd->data_sn - 1)`. -/
theorem recovery_datain_last_data_sn (U : iscsi_util) (cmd : iscsi_cmd) (begrun runlength : Nat)
    (hc : cmd.t_transport_complete = true) (ha : cmd.icf_got_datack_snack = false)
    (hn : 0 < cmd.data_sn) (h32 : cmd.data_sn < U32_MOD)
    (hrun : begrun + runlength = cmd.data_sn) :
    iscsi_handle_recovery_datain U cmd begrun runlength
      = iscsi_add_reject_from_cmd U REASON_INVALID_PDU_FIELD true cmd := by
  unfold iscsi_handle_recovery_datain
  have h1 : add32 begrun runlength = cmd.data_sn := by
    unfold add32
    rw [hrun]
    exact Nat.mod_eq_of_lt h32
  have h2 : sub32 cmd.data_sn 1 = cmd.data_sn - 1 := sub32_eq hn h32
  rw [hc, ha, h1, h2]
  simp only [Bool.not_true, Bool.false_eq_true, if_false, false_and]
  rw [if_pos (by omega)]

/-- Claim C27, on the code. For the read command that has sent the DataSNs 0 to
9 (`data_sn = 10`, completed, no Data ACK) the Data SNACK with BegRun 7 and
RunLength 3, whose run 7..9 lies within 0..9, is not accepted:
`iscsi_handle_recovery_datain` returns -1, queues a Reject with reason Invalid
PDU Field and no recovery request; so is the Data SNACK for the last DataSN
alone (BegRun 9, RunLength 1). The run 6..8 is accepted with one recovery
request. -/
theorem recovery_datain_rejects_last_run :
    iscsi_handle_recovery_datain util_ok cmd_read_5120_sent 7 3
      = (-1, { cmd_read_5120_sent with
                iscsi_opcode := ISCSI_TARG_RJT, icf_reject_fail_conn := true,
                i_state := ISTATE_SEND_REJECT },
          some { reason := REASON_INVALID_PDU_FIELD, fail_conn := true }) ∧
    (iscsi_handle_recovery_datain util_ok cmd_read_5120_sent 7 3).2.1.datain_list = [] ∧
    (iscsi_handle_recovery_datain util_ok cmd_read_5120_sent 9 1).1 = -1 ∧
    (iscsi_handle_recovery_datain util_ok cmd_read_5120_sent 9 1).2.2
      = some { reason := REASON_INVALID_PDU_FIELD, fail_conn := true } ∧
    iscsi_handle_recovery_datain util_ok cmd_read_5120_sent 6 3
      = (0, { cmd_read_5120_sent with
                i_state := ISTATE_SEND_DATAIN,
                datain_list := [{ data_sn := 6, begrun := 6, runlength := 3,
                                  generate_recovery_values := true,
                                  recovery := DATAIN_WITHIN_COMMAND_RECOVERY }] }, none) := by
  decide


/-! ## C28: the DataOUT timer -/

/-- With `ErrorRecoveryLevel = 0` an expiry of the DataOUT timer (not stopped)
fails the connection. -/
theorem dataout_timeout_erl0 (U : iscsi_util) (ops : iscsi_ops) (na : iscsi_node_attrib)
    (cmd : iscsi_cmd) (hs : cmd.dataout_tf_stop = false) (he : ops.ErrorRecoveryLevel = 0) :
    iscsi_handle_dataout_timeout U ops na cmd
      = { cmd := { cmd with dataout_tf_running := false }, failure := true } := by
  unfold iscsi_handle_dataout_timeout
  simp only [hs, he, Bool.false_eq_true, if_false, if_true]

/-- With `ErrorRecoveryLevel` not 0, the expiry that brings the count of the
command to `dataout_timeout_retries` fails the connection. -/
theorem dataout_timeout_last_retry (U : iscsi_util) (ops : iscsi_ops) (na : iscsi_node_attrib)
    (cmd : iscsi_cmd) (hs : cmd.dataout_tf_stop = false) (he : ops.ErrorRecoveryLevel ≠ 0)
    (hr : add32 cmd.dataout_timeout_retries 1 = na.dataout_timeout_retries) :
    iscsi_handle_dataout_timeout U ops na cmd
      = { cmd := { cmd with dataout_tf_running := false,
                            dataout_timeout_retries := na.dataout_timeout_retries },
          failure := true } := by
  unfold iscsi_handle_dataout_timeout
  simp only [hs, he, hr, Bool.false_eq_true, if_false, if_true]

/-- With `dataout_timeout_retries = 0` the test on the count of the command
fails the connection on no expiry before the count wraps: while the count is
below `2^32 - 1`, a run with `ErrorRecoveryLevel` not 0 goes past the test, to
the recovery with a new R2T. -/
theorem dataout_timeout_zero_retries (U : iscsi_util) (ops : iscsi_ops) (cmd : iscsi_cmd)
    (hs : cmd.dataout_tf_stop = false) (he : ops.ErrorRecoveryLevel ≠ 0)
    (hr : cmd.dataout_timeout_retries + 1 < U32_MOD) :
    iscsi_handle_dataout_timeout U ops { dataout_timeout_retries := 0 } cmd
      = dataout_timeout_recover U ops
          { cmd with dataout_tf_running := false,
                     dataout_timeout_retries := cmd.dataout_timeout_retries + 1 } := by
  have h1 : add32 cmd.dataout_timeout_retries 1 = cmd.dataout_timeout_retries + 1 := by
    unfold add32
    exact Nat.mod_eq_of_lt hr
  unfold iscsi_handle_dataout_timeout
  simp only [hs, he, h1, Bool.false_eq_true, if_false]
  rw [if_neg (by omega)]

/-- Claim C28, on the code. With `ErrorRecoveryLevel = 1` and
`dataout_timeout_retries = 0`, the first expiry of the DataOUT timer of a write
command does not fail the connection: the count of the command goes to 1, which
is not 0, the command is marked `ICF_WITHIN_COMMAND_RECOVERY`, a recovery R2T
for the whole sequence is added and the timer is restarted; and so do the next
expiries (three shown). With `ErrorRecoveryLevel = 0` the first expiry fails
the connection, and with `dataout_timeout_retries = 2` the second one does. -/
theorem dataout_timeout_zero_retries_recovers :
    iscsi_handle_dataout_timeout util_ok ops_erl1 { dataout_timeout_retries := 0 }
        cmd_write_waiting
      = { cmd := { cmd_write_waiting with
                    dataout_timeout_retries := 1, icf_within_command_recovery := true,
                    data_sn := 0, r2t_sn := 2,
                    r2t_list := [{ r2t_sn := 0, offset := 0, xfer_len := 16384, sent_r2t := true },
                                 { r2t_sn := 1, offset := 0, xfer_len := 16384,
                                   recovery_r2t := true }] },
          failure := false } ∧
    (dataout_timeouts util_ok ops_erl1 { dataout_timeout_retries := 0 } 3
        cmd_write_waiting).map (fun r => (r.failure, r.cmd.dataout_timeout_retries,
          r.cmd.r2t_list.length))
      = [(false, 1, 2), (false, 2, 3), (false, 3, 4)] ∧
    (dataout_timeouts util_ok ops_s1 { dataout_timeout_retries := 0 } 3
        cmd_write_waiting).map (fun r => (r.failure, r.cmd.dataout_timeout_retries,
          r.cmd.r2t_list.length))
      = [(true, 0, 1)] ∧
    (dataout_timeouts util_ok ops_erl1 { dataout_timeout_retries := 2 } 3
        cmd_write_waiting).map (fun r => (r.failure, r.cmd.dataout_timeout_retries,
          r.cmd.r2t_list.length))
      = [(false, 1, 2), (true, 2, 2)] := by
  decide


/-! ## C29: opcodes in a Discovery session -/

/-- In a Discovery session the test of `iscsi_target_rx_thread` before its
`switch` lets through every opcode with the bit `0x04` set, and rejects the
others: `opcode & ISCSI_INIT_TEXT_CMND` and `opcode & ISCSI_INIT_LOGOUT_CMND`
are tests of bits, not comparisons with the two opcodes. -/
theorem rx_thread_discovery_test (U : iscsi_util) (ops : iscsi_ops) (SessionType : Nat)
    (digest_ok : Bool) (byte0 : Nat) (hd : SessionType ≠ 0)
    (hh : ops.HeaderDigest = false ∨ digest_ok = true) :
    (iscsi_target_rx_thread_switch U ops SessionType false digest_ok byte0
        = rx_dispatch.transport_err (iscsi_add_reject U REASON_PROTOCOL_ERR true).2 ↔
      (byte0 &&& ISCSI_OPCODE) &&& 0x04 = 0) := by
  have hb : (if ops.HeaderDigest = true ∧ ¬ digest_ok = true then 0xff else byte0) = byte0 := by
    rcases hh with h | h
    · rw [h]; simp
    · rw [h]; simp
  have h6 : ∀ x : Nat, x &&& 0x06 = 0 → x &&& 0x04 = 0 := by
    intro x hx
    have : x &&& 0x04 = (x &&& 0x06) &&& 0x04 := by
      rw [Nat.and_assoc]
      rfl
    rw [this, hx]
    rfl
  unfold iscsi_target_rx_thread_switch
  simp only [hb, Bool.false_eq_true, if_false, ISCSI_INIT_TEXT_CMND, ISCSI_INIT_LOGOUT_CMND]
  constructor
  · intro h
    by_contra hne
    have hc : ¬ (SessionType ≠ 0 ∧
        ((byte0 &&& ISCSI_OPCODE) &&& 0x04 = 0 ∨ (byte0 &&& ISCSI_OPCODE) &&& 0x06 = 0)) := by
      rintro ⟨_, h1 | h1⟩
      · exact hne h1
      · exact hne (h6 _ h1)
    rw [if_neg hc] at h
    split_ifs at h
  · intro h
    rw [if_pos ⟨hd, Or.inl h⟩]

/-- Claim C29, on the code. In a Discovery session (SessionType 1, no
HeaderDigest, connection not in logout) a PDU with opcode `0x05`, a SCSI
Data-Out, is not rejected by `iscsi_target_rx_thread`: it reaches the case
`ISCSI_INIT_SCSI_DATA_OUT` of the `switch`, where `iscsi_handle_data_out` is
called. Text (`0x04`) and Logout (`0x06`) requests reach their handlers, and
NOP-Out (`0x00`), SCSI Command (`0x01`), Task Management (`0x02`) and SNACK
(`0x10`) are rejected with a protocol error as the claim says. -/
theorem rx_thread_discovery_data_out :
    iscsi_target_rx_thread_switch util_ok ops_s1 1 false true 0x05 = rx_dispatch.to_data_out ∧
    iscsi_target_rx_thread_switch util_ok ops_s1 1 false true 0x04 = rx_dispatch.to_text_cmd ∧
    iscsi_target_rx_thread_switch util_ok ops_s1 1 false true 0x06
      = rx_dispatch.to_logout_cmd ∧
    (∀ byte0 ∈ [0x00, 0x01, 0x02, 0x10, 0x41],
      iscsi_target_rx_thread_switch util_ok ops_s1 1 false true byte0
        = rx_dispatch.transport_err
            (some { reason := REASON_PROTOCOL_ERR, fail_conn := true })) := by
  decide


/-! ## C30: recovery R2Ts at the end of a DataOUT sequence -/

/-- Claim C30, on the code. For a sequence of three PDUs of 512 bytes of which
the first two (offsets 0 and 512) have not been received,
`iscsi_dataout_datapduinorder_no_fbit` returns
`DATAOUT_WITHIN_COMMAND_RECOVERY` and adds one recovery R2T with offset 512 and
length 1024, where the run of not-received PDUs starts at offset 0: the test
`if (!offset)` takes the offset 0 of the first PDU for "not set" and stores the
offset of the second. For a run that starts at offset 512 the recovery R2T has
offset 512 and length 1024 as claimed, and with all PDUs received the function
returns `DATAOUT_NORMAL` and adds none. Two not-received PDUs with a CRC-failed
PDU between them (offsets 512 and 1536) are served by one recovery R2T with
offset 512 and length 1024. -/
theorem no_fbit_run_at_offset_zero :
    iscsi_dataout_datapduinorder_no_fbit util_ok ops_pdu_any_order
        cmd_write_first_two_missing {} { offset := 1024, length := 512, flags := F_BIT }
      = (DATAOUT_WITHIN_COMMAND_RECOVERY,
          { cmd_write_first_two_missing with
              r2t_sn := 2
              r2t_list := [{ r2t_sn := 1, offset := 512, xfer_len := 1024,
                             recovery_r2t := true }] }) ∧
    iscsi_dataout_datapduinorder_no_fbit util_ok ops_pdu_any_order
        cmd_write_middle_missing {} { offset := 1536, length := 512, flags := F_BIT }
      = (DATAOUT_WITHIN_COMMAND_RECOVERY,
          { cmd_write_middle_missing with
              r2t_sn := 2
              r2t_list := [{ r2t_sn := 1, offset := 512, xfer_len := 1024,
                             recovery_r2t := true }] }) ∧
    iscsi_dataout_datapduinorder_no_fbit util_ok ops_pdu_any_order
        cmd_write_all_received {} { offset := 1024, length := 512, flags := F_BIT }
      = (DATAOUT_NORMAL, cmd_write_all_received) ∧
    iscsi_dataout_datapduinorder_no_fbit util_ok ops_pdu_any_order
        cmd_write_crc_between {} { offset := 0, length := 512, flags := F_BIT }
      = (DATAOUT_WITHIN_COMMAND_RECOVERY,
          { cmd_write_crc_between with
              r2t_sn := 2
              r2t_list := [{ r2t_sn := 1, offset := 512, xfer_len := 1024,
                             recovery_r2t := true }] }) := by
  decide

end LioTarget
